import Mathlib

/-!
# Rockchip VP9 decoder backend: probability adaptation and per-frame bookkeeping

A shallow embedding of `drivers/staging/media/rkvdec/rkvdec-vp9.c`.
Machine integers are natural numbers; every C operation that can wrap is
followed by an explicit reduction modulo the width of its C type.
-/

namespace Rkvdec

/-- Reduction to an unsigned 32-bit value. -/
def u32 (x : Nat) : Nat := x % 2 ^ 32

/-- Unsigned 32-bit subtraction `a - b` with wrap-around. -/
def sub32 (a b : Nat) : Nat := (a % 2 ^ 32 + 2 ^ 32 - b % 2 ^ 32) % 2 ^ 32

/-- The kernel `clamp(val, lo, hi)`: `min(max(val, lo), hi)`. -/
def clamp (val lo hi : Nat) : Nat := min (max val lo) hi

/-- The `DIV_INV(d)` entry: `(u32)(((1ULL << 32) + ((d) - 1)) / (d))`. -/
def DIV_INV (d : Nat) : Nat := ((2 ^ 32 + (d - 1)) % 2 ^ 64 / d) % 2 ^ 32

/-- The table `inv[]` of `rkvdec_fastdiv`, entry `i` holding `DIV_INV(i + 2)`. -/
def inv : List Nat := [
  DIV_INV 2, DIV_INV 3, DIV_INV 4, DIV_INV 5, DIV_INV 6, DIV_INV 7,
  DIV_INV 8, DIV_INV 9, DIV_INV 10, DIV_INV 11, DIV_INV 12, DIV_INV 13,
  DIV_INV 14, DIV_INV 15, DIV_INV 16, DIV_INV 17, DIV_INV 18, DIV_INV 19,
  DIV_INV 20, DIV_INV 21, DIV_INV 22, DIV_INV 23, DIV_INV 24, DIV_INV 25,
  DIV_INV 26, DIV_INV 27, DIV_INV 28, DIV_INV 29, DIV_INV 30, DIV_INV 31,
  DIV_INV 32, DIV_INV 33, DIV_INV 34, DIV_INV 35, DIV_INV 36, DIV_INV 37,
  DIV_INV 38, DIV_INV 39, DIV_INV 40, DIV_INV 41, DIV_INV 42, DIV_INV 43,
  DIV_INV 44, DIV_INV 45, DIV_INV 46, DIV_INV 47, DIV_INV 48, DIV_INV 49,
  DIV_INV 50, DIV_INV 51, DIV_INV 52, DIV_INV 53, DIV_INV 54, DIV_INV 55,
  DIV_INV 56, DIV_INV 57, DIV_INV 58, DIV_INV 59, DIV_INV 60, DIV_INV 61,
  DIV_INV 62, DIV_INV 63, DIV_INV 64, DIV_INV 65, DIV_INV 66, DIV_INV 67,
  DIV_INV 68, DIV_INV 69, DIV_INV 70, DIV_INV 71, DIV_INV 72, DIV_INV 73,
  DIV_INV 74, DIV_INV 75, DIV_INV 76, DIV_INV 77, DIV_INV 78, DIV_INV 79,
  DIV_INV 80, DIV_INV 81, DIV_INV 82, DIV_INV 83, DIV_INV 84, DIV_INV 85,
  DIV_INV 86, DIV_INV 87, DIV_INV 88, DIV_INV 89, DIV_INV 90, DIV_INV 91,
  DIV_INV 92, DIV_INV 93, DIV_INV 94, DIV_INV 95, DIV_INV 96, DIV_INV 97,
  DIV_INV 98, DIV_INV 99, DIV_INV 100, DIV_INV 101, DIV_INV 102, DIV_INV 103,
  DIV_INV 104, DIV_INV 105, DIV_INV 106, DIV_INV 107, DIV_INV 108, DIV_INV 109,
  DIV_INV 110, DIV_INV 111, DIV_INV 112, DIV_INV 113, DIV_INV 114, DIV_INV 115,
  DIV_INV 116, DIV_INV 117, DIV_INV 118, DIV_INV 119, DIV_INV 120, DIV_INV 121,
  DIV_INV 122, DIV_INV 123, DIV_INV 124, DIV_INV 125, DIV_INV 126, DIV_INV 127,
  DIV_INV 128, DIV_INV 129, DIV_INV 130, DIV_INV 131, DIV_INV 132, DIV_INV 133,
  DIV_INV 134, DIV_INV 135, DIV_INV 136, DIV_INV 137, DIV_INV 138, DIV_INV 139,
  DIV_INV 140, DIV_INV 141, DIV_INV 142, DIV_INV 143, DIV_INV 144, DIV_INV 145,
  DIV_INV 146, DIV_INV 147, DIV_INV 148, DIV_INV 149, DIV_INV 150, DIV_INV 151,
  DIV_INV 152, DIV_INV 153, DIV_INV 154, DIV_INV 155, DIV_INV 156, DIV_INV 157,
  DIV_INV 158, DIV_INV 159, DIV_INV 160, DIV_INV 161, DIV_INV 162, DIV_INV 163,
  DIV_INV 164, DIV_INV 165, DIV_INV 166, DIV_INV 167, DIV_INV 168, DIV_INV 169,
  DIV_INV 170, DIV_INV 171, DIV_INV 172, DIV_INV 173, DIV_INV 174, DIV_INV 175,
  DIV_INV 176, DIV_INV 177, DIV_INV 178, DIV_INV 179, DIV_INV 180, DIV_INV 181,
  DIV_INV 182, DIV_INV 183, DIV_INV 184, DIV_INV 185, DIV_INV 186, DIV_INV 187,
  DIV_INV 188, DIV_INV 189, DIV_INV 190, DIV_INV 191, DIV_INV 192, DIV_INV 193,
  DIV_INV 194, DIV_INV 195, DIV_INV 196, DIV_INV 197, DIV_INV 198, DIV_INV 199,
  DIV_INV 200, DIV_INV 201, DIV_INV 202, DIV_INV 203, DIV_INV 204, DIV_INV 205,
  DIV_INV 206, DIV_INV 207, DIV_INV 208, DIV_INV 209, DIV_INV 210, DIV_INV 211,
  DIV_INV 212, DIV_INV 213, DIV_INV 214, DIV_INV 215, DIV_INV 216, DIV_INV 217,
  DIV_INV 218, DIV_INV 219, DIV_INV 220, DIV_INV 221, DIV_INV 222, DIV_INV 223,
  DIV_INV 224, DIV_INV 225, DIV_INV 226, DIV_INV 227, DIV_INV 228, DIV_INV 229,
  DIV_INV 230, DIV_INV 231, DIV_INV 232, DIV_INV 233, DIV_INV 234, DIV_INV 235,
  DIV_INV 236, DIV_INV 237, DIV_INV 238, DIV_INV 239, DIV_INV 240, DIV_INV 241,
  DIV_INV 242, DIV_INV 243, DIV_INV 244, DIV_INV 245, DIV_INV 246, DIV_INV 247,
  DIV_INV 248, DIV_INV 249, DIV_INV 250, DIV_INV 251, DIV_INV 252, DIV_INV 253,
  DIV_INV 254, DIV_INV 255, DIV_INV 256]

/-- The function `rkvdec_fastdiv(u32 dividend, u16 divisor)`. -/
def rkvdec_fastdiv (dividend divisor : Nat) : Nat :=
  if divisor = 0 then 0
  else if divisor = 1 then dividend
  else if divisor - 2 ≥ inv.length then dividend
  else u32 ((dividend * inv.getD (divisor - 2) 0) % 2 ^ 64 / 2 ^ 32)

/-- The function `adapt_prob(u8 p1, u32 ct0, u32 ct1, u16 max_count, u32 update_factor)`. -/
def adapt_prob (p1 ct0 ct1 max_count update_factor : Nat) : Nat :=
  let ct := u32 (ct0 + ct1)
  if ct = 0 then p1
  else
    let p2 := u32 (u32 (ct0 * 2 ^ 8) + ct / 2) / ct
    let p2 := clamp p2 1 255
    let ct := min ct max_count
    if max_count ≥ 257 then p1
    else
      let update_factor := rkvdec_fastdiv (u32 (update_factor * ct)) max_count
      u32 (p1 + u32 (u32 (sub32 p2 p1 * update_factor) + 128) / 2 ^ 8) % 2 ^ 8

/-- The merge rule of VP9 backward adaptation as the specification words it,
computed over the integers with no wrap-around: the observed probability `p2`
is `count_true * 256 / total` rounded to nearest and clamped to `[1, 255]`, the
factor `f` is `update_factor * min(total, max_count) / max_count`, and the
result is `p + floor(((p2 - p) * f + 128) / 256)`. -/
def merge_rule (p ct0 ct1 max_count update_factor : Nat) : Int :=
  let p2 : Nat := clamp ((256 * ct0 + (ct0 + ct1) / 2) / (ct0 + ct1)) 1 255
  let f : Nat := update_factor * min (ct0 + ct1) max_count / max_count
  (p : Int) + Int.fdiv (((p2 : Int) - (p : Int)) * (f : Int) + 128) 256

/-- Unsigned 32-bit addition `a + b` with wrap-around. -/
def add32 (a b : Nat) : Nat := (a + b) % 2 ^ 32

/-- A counted loop `for (i = 0; i < n; i++) body`, threading the state the
body updates: iteration `0` runs first. -/
def forLoop {σ : Type} (n : Nat) (body : Nat → σ → σ) (s : σ) : σ :=
  match n with
  | 0 => s
  | k + 1 => body k (forLoop k body s)

/-- The constants of the V4L2 VP9 stateless interface that the driver tests
and that are declared in headers outside this source file: frame flags,
segmentation flags and features, mode enumerators, the intra prediction mode
numbering, the number of reference slots and the error numbers.  They are a
parameter of the model. -/
structure Uapi where
  FRAME_FLAG_KEY_FRAME : Nat
  FRAME_FLAG_SHOW_FRAME : Nat
  FRAME_FLAG_ERROR_RESILIENT : Nat
  FRAME_FLAG_INTRA_ONLY : Nat
  FRAME_FLAG_ALLOW_HIGH_PREC_MV : Nat
  FRAME_FLAG_REFRESH_FRAME_CTX : Nat
  FRAME_FLAG_PARALLEL_DEC_MODE : Nat
  SEGMENTATION_FLAG_ENABLED : Nat
  SEGMENTATION_FLAG_UPDATE_MAP : Nat
  SEGMENTATION_FLAG_ABS_OR_DELTA_UPDATE : Nat
  SEGMENT_FEATURE_QP_DELTA : Nat
  SEGMENT_FEATURE_LF : Nat
  SEGMENT_FEATURE_REF_FRAME : Nat
  SEGMENT_FEATURE_SKIP : Nat
  SEGMENT_FEATURE_ENABLED : Nat → Nat
  REF_MODE_COMPOUND : Nat
  TX_MODE_SELECT : Nat
  INTERP_FILTER_SWITCHABLE : Nat
  INTRA_PRED_MODE_DC : Nat
  INTRA_PRED_MODE_V : Nat
  INTRA_PRED_MODE_H : Nat
  INTRA_PRED_MODE_D45 : Nat
  INTRA_PRED_MODE_D135 : Nat
  INTRA_PRED_MODE_D117 : Nat
  INTRA_PRED_MODE_D153 : Nat
  INTRA_PRED_MODE_D207 : Nat
  INTRA_PRED_MODE_D63 : Nat
  INTRA_PRED_MODE_TM : Nat
  REF_ID_CNT : Nat
  EINVAL : Int
  ENOMEM : Int

/-- One assignment of the constants, used for concrete evaluation: distinct
single-bit flag masks, feature numbers 0 to 3 with `1 << feature` as the
enabled mask, the VP9 numbering of the intra prediction modes, three reference
slots, `EINVAL = 22` and `ENOMEM = 12`. -/
def uapi : Uapi where
  FRAME_FLAG_KEY_FRAME := 0x001
  FRAME_FLAG_SHOW_FRAME := 0x002
  FRAME_FLAG_ERROR_RESILIENT := 0x004
  FRAME_FLAG_INTRA_ONLY := 0x008
  FRAME_FLAG_ALLOW_HIGH_PREC_MV := 0x010
  FRAME_FLAG_REFRESH_FRAME_CTX := 0x020
  FRAME_FLAG_PARALLEL_DEC_MODE := 0x040
  SEGMENTATION_FLAG_ENABLED := 0x01
  SEGMENTATION_FLAG_UPDATE_MAP := 0x02
  SEGMENTATION_FLAG_ABS_OR_DELTA_UPDATE := 0x10
  SEGMENT_FEATURE_QP_DELTA := 0
  SEGMENT_FEATURE_LF := 1
  SEGMENT_FEATURE_REF_FRAME := 2
  SEGMENT_FEATURE_SKIP := 3
  SEGMENT_FEATURE_ENABLED := fun id => 2 ^ (id % 32)
  REF_MODE_COMPOUND := 1
  TX_MODE_SELECT := 4
  INTERP_FILTER_SWITCHABLE := 4
  INTRA_PRED_MODE_DC := 0
  INTRA_PRED_MODE_V := 1
  INTRA_PRED_MODE_H := 2
  INTRA_PRED_MODE_D45 := 3
  INTRA_PRED_MODE_D135 := 4
  INTRA_PRED_MODE_D117 := 5
  INTRA_PRED_MODE_D153 := 6
  INTRA_PRED_MODE_D207 := 7
  INTRA_PRED_MODE_D63 := 8
  INTRA_PRED_MODE_TM := 9
  REF_ID_CNT := 3
  EINVAL := 22
  ENOMEM := 12

/-- An element of `struct v4l2_vp9_probabilities`, named by its field and its
array indices.  The structure is declared in a header outside this source
file; the fields are those the driver reads and writes, and the dimensions
are those of the driver's own arrays they are copied to and adapted from. -/
inductive PIdx where
  | tx8 (i j : Nat)
  | tx16 (i j : Nat)
  | tx32 (i j : Nat)
  | coef (i j k l m n : Nat)
  | skip (i : Nat)
  | inter_mode (i j : Nat)
  | interp_filter (i j : Nat)
  | is_inter (i : Nat)
  | comp_mode (i : Nat)
  | single_ref (i j : Nat)
  | comp_ref (i : Nat)
  | y_mode (i j : Nat)
  | uv_mode (i j : Nat)
  | partition (i j : Nat)
  | mv_joint (i : Nat)
  | mv_sign (i : Nat)
  | mv_class (i j : Nat)
  | mv_class0_bit (i : Nat)
  | mv_bits (i j : Nat)
  | mv_class0_fr (i j k : Nat)
  | mv_fr (i j : Nat)
  | mv_class0_hp (i : Nat)
  | mv_hp (i : Nat)
  deriving DecidableEq

/-- The indices of an element are inside the bounds of its array. -/
def PIdx.inBounds : PIdx → Prop
  | .tx8 i j => i < 2 ∧ j < 1
  | .tx16 i j => i < 2 ∧ j < 2
  | .tx32 i j => i < 2 ∧ j < 3
  | .coef i j k l m n => i < 4 ∧ j < 2 ∧ k < 2 ∧ l < 6 ∧ m < 6 ∧ n < 3
  | .skip i => i < 3
  | .inter_mode i j => i < 7 ∧ j < 3
  | .interp_filter i j => i < 4 ∧ j < 2
  | .is_inter i => i < 4
  | .comp_mode i => i < 5
  | .single_ref i j => i < 5 ∧ j < 2
  | .comp_ref i => i < 5
  | .y_mode i j => i < 4 ∧ j < 9
  | .uv_mode i j => i < 10 ∧ j < 9
  | .partition i j => i < 16 ∧ j < 3
  | .mv_joint i => i < 3
  | .mv_sign i => i < 2
  | .mv_class i j => i < 2 ∧ j < 10
  | .mv_class0_bit i => i < 2
  | .mv_bits i j => i < 2 ∧ j < 10
  | .mv_class0_fr i j k => i < 2 ∧ j < 2 ∧ k < 3
  | .mv_fr i j => i < 2 ∧ j < 3
  | .mv_class0_hp i => i < 2
  | .mv_hp i => i < 2

/-- The element is a coefficient probability. -/
def PIdx.isCoef : PIdx → Bool
  | .coef _ _ _ _ _ _ => true
  | _ => false

/-- The content of a `struct v4l2_vp9_probabilities`: the byte stored in every
element. -/
structure v4l2_vp9_probabilities where
  get : PIdx → Nat

/-- A probability model is read by applying it to the element wanted. -/
instance : CoeFun v4l2_vp9_probabilities (fun _ => PIdx → Nat) :=
  ⟨v4l2_vp9_probabilities.get⟩

/-- The assignment `probs->x = v` to one element. -/
def v4l2_vp9_probabilities.set (probs : v4l2_vp9_probabilities) (x : PIdx) (v : Nat) :
    v4l2_vp9_probabilities :=
  ⟨fun y => if y = x then v else probs y⟩

/-- The `struct v4l2_ctrl_vp9_frame_ctx`, whose only member is the
probability model. -/
structure v4l2_ctrl_vp9_frame_ctx where
  probs : v4l2_vp9_probabilities

/-- The members of `struct v4l2_vp9_segmentation` the driver uses. -/
structure v4l2_vp9_segmentation where
  flags : Nat
  tree_probs : Nat → Nat
  pred_probs : Nat → Nat
  feature_enabled : Nat → Nat
  feature_data : Nat → Nat → Int

/-- The members of `struct v4l2_vp9_loop_filter` the driver uses. -/
structure v4l2_vp9_loop_filter where
  ref_deltas : Nat → Int
  mode_deltas : Nat → Int

/-- The members of `struct v4l2_ctrl_vp9_frame_decode_params` the driver uses. -/
structure v4l2_ctrl_vp9_frame_decode_params where
  flags : Nat
  compressed_header_size : Nat
  uncompressed_header_size : Nat
  profile : Nat
  frame_context_idx : Nat
  bit_depth : Nat
  interpolation_filter : Nat
  tx_mode : Nat
  reference_mode : Nat
  frame_width_minus_1 : Nat
  frame_height_minus_1 : Nat
  refs : Nat → Nat
  lf : v4l2_vp9_loop_filter
  seg : v4l2_vp9_segmentation
  probs : v4l2_vp9_probabilities

/-- The `struct rkvdec_vp9_refs_counts`: `u32 eob[2]` and `u32 coeff[3]`. -/
structure rkvdec_vp9_refs_counts where
  eob : Nat → Nat
  coeff : Nat → Nat

/-- The `struct rkvdec_vp9_inter_frame_symbol_counts`. -/
structure rkvdec_vp9_inter_frame_symbol_counts where
  partition : Nat → Nat → Nat
  skip : Nat → Nat → Nat
  inter : Nat → Nat → Nat
  tx32p : Nat → Nat → Nat
  tx16p : Nat → Nat → Nat
  tx8p : Nat → Nat → Nat
  y_mode : Nat → Nat → Nat
  uv_mode : Nat → Nat → Nat
  comp : Nat → Nat → Nat
  comp_ref : Nat → Nat → Nat
  single_ref : Nat → Nat → Nat → Nat
  mv_mode : Nat → Nat → Nat
  filter : Nat → Nat → Nat
  mv_joint : Nat → Nat
  sign : Nat → Nat → Nat
  classes : Nat → Nat → Nat
  class0 : Nat → Nat → Nat
  bits : Nat → Nat → Nat → Nat
  class0_fp : Nat → Nat → Nat → Nat
  fp : Nat → Nat → Nat
  class0_hp : Nat → Nat → Nat
  hp : Nat → Nat → Nat
  ref_cnt : Nat → Nat → Nat → Nat → Nat → rkvdec_vp9_refs_counts

/-- The `struct rkvdec_vp9_intra_frame_symbol_counts`. -/
structure rkvdec_vp9_intra_frame_symbol_counts where
  partition : Nat → Nat → Nat → Nat
  skip : Nat → Nat → Nat
  intra : Nat → Nat → Nat
  tx32p : Nat → Nat → Nat
  tx16p : Nat → Nat → Nat
  tx8p : Nat → Nat → Nat
  ref_cnt : Nat → Nat → Nat → Nat → Nat → rkvdec_vp9_refs_counts

/-- The `u32` stored in word `w` of a byte buffer (the CPU is little-endian). -/
def rd32 (cpu : Nat → Nat) (w : Nat) : Nat :=
  cpu (4 * w) % 2 ^ 8 + 2 ^ 8 * (cpu (4 * w + 1) % 2 ^ 8) + 2 ^ 16 * (cpu (4 * w + 2) % 2 ^ 8) +
    2 ^ 24 * (cpu (4 * w + 3) % 2 ^ 8)

/-- The record `ref_cnt[k][i][j][l][m]` of an array
`struct rkvdec_vp9_refs_counts ref_cnt[2][4][2][6][6]` that starts at word
`base` of the buffer. -/
def ref_cnt_at (cpu : Nat → Nat) (base k i j l m : Nat) : rkvdec_vp9_refs_counts :=
  let w := base + 5 * ((((k * 4 + i) * 2 + j) * 6 + l) * 6 + m)
  { eob := fun n => rd32 cpu (w + n), coeff := fun n => rd32 cpu (w + 2 + n) }

/-- The count buffer read through a
`const struct rkvdec_vp9_inter_frame_symbol_counts *`: every member at the
word offset the structure layout gives it. -/
def inter_frame_symbol_counts (cpu : Nat → Nat) : rkvdec_vp9_inter_frame_symbol_counts where
  partition := fun i j => rd32 cpu (0 + 4 * i + j)
  skip := fun i j => rd32 cpu (64 + 2 * i + j)
  inter := fun i j => rd32 cpu (70 + 2 * i + j)
  tx32p := fun i j => rd32 cpu (78 + 4 * i + j)
  tx16p := fun i j => rd32 cpu (86 + 4 * i + j)
  tx8p := fun i j => rd32 cpu (94 + 2 * i + j)
  y_mode := fun i j => rd32 cpu (98 + 10 * i + j)
  uv_mode := fun i j => rd32 cpu (138 + 10 * i + j)
  comp := fun i j => rd32 cpu (238 + 2 * i + j)
  comp_ref := fun i j => rd32 cpu (248 + 2 * i + j)
  single_ref := fun i j k => rd32 cpu (258 + 4 * i + 2 * j + k)
  mv_mode := fun i j => rd32 cpu (278 + 4 * i + j)
  filter := fun i j => rd32 cpu (306 + 3 * i + j)
  mv_joint := fun i => rd32 cpu (318 + i)
  sign := fun i j => rd32 cpu (322 + 2 * i + j)
  classes := fun i j => rd32 cpu (326 + 12 * i + j)
  class0 := fun i j => rd32 cpu (350 + 2 * i + j)
  bits := fun i j k => rd32 cpu (354 + 20 * i + 2 * j + k)
  class0_fp := fun i j k => rd32 cpu (394 + 8 * i + 4 * j + k)
  fp := fun i j => rd32 cpu (410 + 4 * i + j)
  class0_hp := fun i j => rd32 cpu (418 + 2 * i + j)
  hp := fun i j => rd32 cpu (422 + 2 * i + j)
  ref_cnt := fun k i j l m => ref_cnt_at cpu 426 k i j l m

/-- The count buffer read through a
`const struct rkvdec_vp9_intra_frame_symbol_counts *`. -/
def intra_frame_symbol_counts (cpu : Nat → Nat) : rkvdec_vp9_intra_frame_symbol_counts where
  partition := fun i j k => rd32 cpu (0 + 16 * i + 4 * j + k)
  skip := fun i j => rd32 cpu (64 + 2 * i + j)
  intra := fun i j => rd32 cpu (70 + 2 * i + j)
  tx32p := fun i j => rd32 cpu (78 + 4 * i + j)
  tx16p := fun i j => rd32 cpu (86 + 4 * i + j)
  tx8p := fun i j => rd32 cpu (94 + 2 * i + j)
  ref_cnt := fun k i j l m => ref_cnt_at cpu 98 k i j l m

/-- The `struct rkvdec_vp9_frame_info`; the bit-field members hold values below
`2 ^ width`. -/
structure rkvdec_vp9_frame_info where
  valid : Nat
  segmapid : Nat
  frame_context_idx : Nat
  reference_mode : Nat
  tx_mode : Nat
  interpolation_filter : Nat
  flags : Nat
  timestamp : Nat
  seg : v4l2_vp9_segmentation
  lf : v4l2_vp9_loop_filter

/-- The `struct rkvdec_aux_buf`: the CPU view of the buffer (its bytes), its
bus address and its size in bytes. -/
structure rkvdec_aux_buf where
  cpu : Nat → Nat
  dma : Nat
  size : Nat

/-- The `struct rkvdec_vp9_ctx`. -/
structure rkvdec_vp9_ctx where
  priv_tbl : rkvdec_aux_buf
  count_tbl : rkvdec_aux_buf
  frame_context : v4l2_ctrl_vp9_frame_ctx
  cur : rkvdec_vp9_frame_info
  last : rkvdec_vp9_frame_info

/-- The statement `*x = adapt_prob(*x, ct0, ct1, max_count, update_factor)` on
one element `x` of the probability model. -/
def v4l2_vp9_probabilities.adapt (probs : v4l2_vp9_probabilities) (x : PIdx)
    (ct0 ct1 max_count update_factor : Nat) : v4l2_vp9_probabilities :=
  probs.set x (adapt_prob (probs x) ct0 ct1 max_count update_factor)

/-- The macro `BAND_6(band)`: `((band) == 0 ? 3 : 6)`. -/
def BAND_6 (band : Nat) : Nat := if band = 0 then 3 else 6

/-- The function `adapt_coeff(coef, ref_cnt, uf)`, where `coef` points to
`probs->coef[i][j][k]`. -/
def adapt_coeff (probs : v4l2_vp9_probabilities) (i j k : Nat)
    (ref_cnt : Nat → Nat → rkvdec_vp9_refs_counts) (uf : Nat) : v4l2_vp9_probabilities :=
  forLoop 6 (fun l probs =>
    forLoop (BAND_6 l) (fun m probs =>
      let n0 := (ref_cnt l m).coeff 0
      let n1 := (ref_cnt l m).coeff 1
      let n2 := (ref_cnt l m).coeff 2
      let neob := (ref_cnt l m).eob 1
      let eob_count := (ref_cnt l m).eob 0
      let branch_ct : Nat → Nat → Nat := fun n b =>
        match n, b with
        | 0, 0 => neob
        | 0, _ => sub32 eob_count neob
        | 1, 0 => n0
        | 1, _ => add32 n1 n2
        | _, 0 => n1
        | _, _ => n2
      forLoop 3 (fun n probs =>
        probs.adapt (.coef i j k l m n) (branch_ct n 0) (branch_ct n 1) 24 uf) probs)
      probs) probs

/-- The function `adapt_coef_probs(probs, ref_cnt, uf)`. -/
def adapt_coef_probs (probs : v4l2_vp9_probabilities)
    (ref_cnt : Nat → Nat → Nat → Nat → Nat → rkvdec_vp9_refs_counts) (uf : Nat) :
    v4l2_vp9_probabilities :=
  forLoop 4 (fun i probs =>
    forLoop 2 (fun j probs =>
      forLoop 2 (fun k probs =>
        adapt_coeff probs i j k (ref_cnt k i j) uf) probs) probs) probs

/-- The function `adapt_skip_probs`. -/
def adapt_skip_probs (probs : v4l2_vp9_probabilities)
    (sym_cnts : rkvdec_vp9_inter_frame_symbol_counts) : v4l2_vp9_probabilities :=
  forLoop 3 (fun i probs =>
    probs.adapt (.skip i) (sym_cnts.skip i 0) (sym_cnts.skip i 1) 20 128) probs

/-- The function `adapt_is_inter_probs`. -/
def adapt_is_inter_probs (probs : v4l2_vp9_probabilities)
    (sym_cnts : rkvdec_vp9_inter_frame_symbol_counts) : v4l2_vp9_probabilities :=
  forLoop 4 (fun i probs =>
    probs.adapt (.is_inter i) (sym_cnts.inter i 0) (sym_cnts.inter i 1) 20 128) probs

/-- The function `adapt_comp_mode_probs`. -/
def adapt_comp_mode_probs (probs : v4l2_vp9_probabilities)
    (sym_cnts : rkvdec_vp9_inter_frame_symbol_counts) : v4l2_vp9_probabilities :=
  forLoop 5 (fun i probs =>
    probs.adapt (.comp_mode i) (sym_cnts.comp i 0) (sym_cnts.comp i 1) 20 128) probs

/-- The function `adapt_comp_ref_probs`. -/
def adapt_comp_ref_probs (probs : v4l2_vp9_probabilities)
    (sym_cnts : rkvdec_vp9_inter_frame_symbol_counts) : v4l2_vp9_probabilities :=
  forLoop 5 (fun i probs =>
    probs.adapt (.comp_ref i) (sym_cnts.comp_ref i 0) (sym_cnts.comp_ref i 1) 20 128) probs

/-- The function `adapt_single_ref_probs`. -/
def adapt_single_ref_probs (probs : v4l2_vp9_probabilities)
    (sym_cnts : rkvdec_vp9_inter_frame_symbol_counts) : v4l2_vp9_probabilities :=
  forLoop 5 (fun i probs =>
    let probs := probs.adapt (.single_ref i 0) (sym_cnts.single_ref i 0 0)
      (sym_cnts.single_ref i 0 1) 20 128
    probs.adapt (.single_ref i 1) (sym_cnts.single_ref i 1 0) (sym_cnts.single_ref i 1 1) 20
      128) probs

/-- The function `adapt_partition_probs`. -/
def adapt_partition_probs (probs : v4l2_vp9_probabilities)
    (sym_cnts : rkvdec_vp9_inter_frame_symbol_counts) : v4l2_vp9_probabilities :=
  forLoop 16 (fun i probs =>
    let c := sym_cnts.partition i
    let probs := probs.adapt (.partition i 0) (c 0) (add32 (add32 (c 1) (c 2)) (c 3)) 20 128
    let probs := probs.adapt (.partition i 1) (c 1) (add32 (c 2) (c 3)) 20 128
    probs.adapt (.partition i 2) (c 2) (c 3) 20 128) probs

/-- The function `adapt_tx_probs`. -/
def adapt_tx_probs (probs : v4l2_vp9_probabilities)
    (sym_cnts : rkvdec_vp9_inter_frame_symbol_counts) : v4l2_vp9_probabilities :=
  forLoop 2 (fun i probs =>
    let c16 := sym_cnts.tx16p i
    let c32 := sym_cnts.tx32p i
    let c8 := sym_cnts.tx8p i
    let probs := probs.adapt (.tx8 i 0) (c8 0) (c8 1) 20 128
    let probs := probs.adapt (.tx16 i 0) (c16 0) (add32 (c16 1) (c16 2)) 20 128
    let probs := probs.adapt (.tx16 i 1) (c16 1) (c16 2) 20 128
    let probs := probs.adapt (.tx32 i 0) (c32 0) (add32 (add32 (c32 1) (c32 2)) (c32 3)) 20 128
    let probs := probs.adapt (.tx32 i 1) (c32 1) (add32 (c32 2) (c32 3)) 20 128
    probs.adapt (.tx32 i 2) (c32 2) (c32 3) 20 128) probs

/-- The function `adapt_interp_filter_probs`. -/
def adapt_interp_filter_probs (probs : v4l2_vp9_probabilities)
    (sym_cnts : rkvdec_vp9_inter_frame_symbol_counts) : v4l2_vp9_probabilities :=
  forLoop 4 (fun i probs =>
    let c := sym_cnts.filter i
    let probs := probs.adapt (.interp_filter i 0) (c 0) (add32 (c 1) (c 2)) 20 128
    probs.adapt (.interp_filter i 1) (c 1) (c 2) 20 128) probs

/-- The function `adapt_inter_mode_probs`. -/
def adapt_inter_mode_probs (probs : v4l2_vp9_probabilities)
    (sym_cnts : rkvdec_vp9_inter_frame_symbol_counts) : v4l2_vp9_probabilities :=
  forLoop 7 (fun i probs =>
    let c := sym_cnts.mv_mode i
    let probs := probs.adapt (.inter_mode i 0) (c 2) (add32 (add32 (c 1) (c 0)) (c 3)) 20 128
    let probs := probs.adapt (.inter_mode i 1) (c 0) (add32 (c 1) (c 3)) 20 128
    probs.adapt (.inter_mode i 2) (c 1) (c 3) 20 128) probs

/-- The function `adapt_mv_probs`. -/
def adapt_mv_probs (probs : v4l2_vp9_probabilities)
    (sym_cnts : rkvdec_vp9_inter_frame_symbol_counts) (high_prec_mv : Bool) :
    v4l2_vp9_probabilities :=
  let c := sym_cnts.mv_joint
  let probs := probs.adapt (.mv_joint 0) (c 0) (add32 (add32 (c 1) (c 2)) (c 3)) 20 128
  let probs := probs.adapt (.mv_joint 1) (c 1) (add32 (c 2) (c 3)) 20 128
  let probs := probs.adapt (.mv_joint 2) (c 2) (c 3) 20 128
  forLoop 2 (fun i probs =>
    let probs := probs.adapt (.mv_sign i) (sym_cnts.sign i 0) (sym_cnts.sign i 1) 20 128
    let c := sym_cnts.classes i
    let sum := add32 (add32 (add32 (add32 (add32 (add32 (add32 (add32 (add32 (c 1) (c 2)) (c 3))
      (c 4)) (c 5)) (c 6)) (c 7)) (c 8)) (c 9)) (c 10)
    let probs := probs.adapt (.mv_class i 0) (c 0) sum 20 128
    let sum := sub32 sum (c 1)
    let probs := probs.adapt (.mv_class i 1) (c 1) sum 20 128
    let sum := sub32 sum (add32 (c 2) (c 3))
    let probs := probs.adapt (.mv_class i 2) (add32 (c 2) (c 3)) sum 20 128
    let probs := probs.adapt (.mv_class i 3) (c 2) (c 3) 20 128
    let sum := sub32 sum (add32 (c 4) (c 5))
    let probs := probs.adapt (.mv_class i 4) (add32 (c 4) (c 5)) sum 20 128
    let probs := probs.adapt (.mv_class i 5) (c 4) (c 5) 20 128
    let sum := sub32 sum (c 6)
    let probs := probs.adapt (.mv_class i 6) (c 6) sum 20 128
    let probs := probs.adapt (.mv_class i 7) (add32 (c 7) (c 8)) (add32 (c 9) (c 10)) 20 128
    let probs := probs.adapt (.mv_class i 8) (c 7) (c 8) 20 128
    let probs := probs.adapt (.mv_class i 9) (c 9) (c 10) 20 128
    let probs := probs.adapt (.mv_class0_bit i) (sym_cnts.class0 i 0) (sym_cnts.class0 i 1) 20 128
    let probs := forLoop 10 (fun j probs =>
      probs.adapt (.mv_bits i j) (sym_cnts.bits i j 0) (sym_cnts.bits i j 1) 20 128)
      probs
    let probs := forLoop 2 (fun j probs =>
      let c := sym_cnts.class0_fp i j
      let probs := probs.adapt (.mv_class0_fr i j 0) (c 0) (add32 (add32 (c 1) (c 2)) (c 3)) 20 128
      let probs := probs.adapt (.mv_class0_fr i j 1) (c 1) (add32 (c 2) (c 3)) 20 128
      probs.adapt (.mv_class0_fr i j 2) (c 2) (c 3) 20 128) probs
    let c := sym_cnts.fp i
    let probs := probs.adapt (.mv_fr i 0) (c 0) (add32 (add32 (c 1) (c 2)) (c 3)) 20 128
    let probs := probs.adapt (.mv_fr i 1) (c 1) (add32 (c 2) (c 3)) 20 128
    let probs := probs.adapt (.mv_fr i 2) (c 2) (c 3) 20 128
    if high_prec_mv = false then probs
    else
      let probs := probs.adapt (.mv_class0_hp i) (sym_cnts.class0_hp i 0)
        (sym_cnts.class0_hp i 1) 20 128
      probs.adapt (.mv_hp i) (sym_cnts.hp i 0) (sym_cnts.hp i 1) 20 128) probs

/-- The function `adapt_intra_mode_probs(u8 *p, const u32 *c)`; `p` maps an
index to the element of the probability model that `p[index]` designates. -/
def adapt_intra_mode_probs (K : Uapi) (probs : v4l2_vp9_probabilities) (p : Nat → PIdx)
    (c : Nat → Nat) : v4l2_vp9_probabilities :=
  let sum := 0
  let sum := forLoop (K.INTRA_PRED_MODE_TM + 1 - K.INTRA_PRED_MODE_V)
    (fun t sum => add32 sum (c (K.INTRA_PRED_MODE_V + t))) sum
  let probs := probs.adapt (p 0) (c K.INTRA_PRED_MODE_DC) sum 20 128
  let sum := sub32 sum (c K.INTRA_PRED_MODE_TM)
  let probs := probs.adapt (p 1) (c K.INTRA_PRED_MODE_TM) sum 20 128
  let sum := sub32 sum (c K.INTRA_PRED_MODE_V)
  let probs := probs.adapt (p 2) (c K.INTRA_PRED_MODE_V) sum 20 128
  let s2 := add32 (add32 (c K.INTRA_PRED_MODE_H) (c K.INTRA_PRED_MODE_D135))
    (c K.INTRA_PRED_MODE_D117)
  let sum := sub32 sum s2
  let probs := probs.adapt (p 3) s2 sum 20 128
  let s2 := sub32 s2 (c K.INTRA_PRED_MODE_H)
  let probs := probs.adapt (p 4) (c K.INTRA_PRED_MODE_H) s2 20 128
  let probs := probs.adapt (p 5) (c K.INTRA_PRED_MODE_D135) (c K.INTRA_PRED_MODE_D117) 20 128
  let sum := sub32 sum (c K.INTRA_PRED_MODE_D45)
  let probs := probs.adapt (p 6) (c K.INTRA_PRED_MODE_D45) sum 20 128
  let sum := sub32 sum (c K.INTRA_PRED_MODE_D63)
  let probs := probs.adapt (p 7) (c K.INTRA_PRED_MODE_D63) sum 20 128
  probs.adapt (p 8) (c K.INTRA_PRED_MODE_D153) (c K.INTRA_PRED_MODE_D207) 20 128

/-- The function `adapt_y_intra_mode_probs`. -/
def adapt_y_intra_mode_probs (K : Uapi) (probs : v4l2_vp9_probabilities)
    (sym_cnts : rkvdec_vp9_inter_frame_symbol_counts) : v4l2_vp9_probabilities :=
  forLoop 4 (fun i probs =>
    adapt_intra_mode_probs K probs (fun n => .y_mode i n) (sym_cnts.y_mode i)) probs

/-- The function `adapt_uv_intra_mode_probs`. -/
def adapt_uv_intra_mode_probs (K : Uapi) (probs : v4l2_vp9_probabilities)
    (sym_cnts : rkvdec_vp9_inter_frame_symbol_counts) : v4l2_vp9_probabilities :=
  forLoop 10 (fun i probs =>
    adapt_intra_mode_probs K probs (fun n => .uv_mode i n) (sym_cnts.uv_mode i)) probs

/-- The function `adapt_intra_frame_probs`: the count buffer is read as a
`struct rkvdec_vp9_intra_frame_symbol_counts`. -/
def adapt_intra_frame_probs (vp9_ctx : rkvdec_vp9_ctx) : rkvdec_vp9_ctx :=
  let probs := vp9_ctx.frame_context.probs
  let sym_cnts := intra_frame_symbol_counts vp9_ctx.count_tbl.cpu
  { vp9_ctx with frame_context := { probs := adapt_coef_probs probs sym_cnts.ref_cnt 112 } }

/-- The function `adapt_inter_frame_probs`: the count buffer is read as a
`struct rkvdec_vp9_inter_frame_symbol_counts`. -/
def adapt_inter_frame_probs (K : Uapi) (vp9_ctx : rkvdec_vp9_ctx) : rkvdec_vp9_ctx :=
  let probs := vp9_ctx.frame_context.probs
  let sym_cnts := inter_frame_symbol_counts vp9_ctx.count_tbl.cpu
  let probs :=
    if vp9_ctx.last.valid ≠ 0 ∧ ¬ (vp9_ctx.last.flags &&& K.FRAME_FLAG_KEY_FRAME ≠ 0) then
      adapt_coef_probs probs sym_cnts.ref_cnt 112
    else
      adapt_coef_probs probs sym_cnts.ref_cnt 128
  let probs := adapt_skip_probs probs sym_cnts
  let probs := adapt_is_inter_probs probs sym_cnts
  let probs := adapt_comp_mode_probs probs sym_cnts
  let probs := adapt_comp_ref_probs probs sym_cnts
  let probs :=
    if vp9_ctx.cur.reference_mode ≠ K.REF_MODE_COMPOUND then adapt_single_ref_probs probs sym_cnts
    else probs
  let probs := adapt_partition_probs probs sym_cnts
  let probs :=
    if vp9_ctx.cur.tx_mode = K.TX_MODE_SELECT then adapt_tx_probs probs sym_cnts else probs
  let probs :=
    if vp9_ctx.cur.interpolation_filter = K.INTERP_FILTER_SWITCHABLE then
      adapt_interp_filter_probs probs sym_cnts
    else probs
  let probs := adapt_inter_mode_probs probs sym_cnts
  let probs := adapt_mv_probs probs sym_cnts
    (decide (vp9_ctx.cur.flags &&& K.FRAME_FLAG_ALLOW_HIGH_PREC_MV ≠ 0))
  let probs := adapt_y_intra_mode_probs K probs sym_cnts
  let probs := adapt_uv_intra_mode_probs K probs sym_cnts
  { vp9_ctx with frame_context := { probs := probs } }

/-- The function `adapt_probs`. -/
def adapt_probs (K : Uapi) (vp9_ctx : rkvdec_vp9_ctx) : rkvdec_vp9_ctx :=
  let intra_only : Bool :=
    decide (vp9_ctx.cur.flags &&& (K.FRAME_FLAG_KEY_FRAME ||| K.FRAME_FLAG_INTRA_ONLY) ≠ 0)
  if intra_only then adapt_intra_frame_probs vp9_ctx
  else adapt_inter_frame_probs K vp9_ctx

/-- Every element of the probability model is in `[1, 255]`. -/
def ProbsInRange (probs : v4l2_vp9_probabilities) : Prop :=
  ∀ x : PIdx, x.inBounds → 1 ≤ probs x ∧ probs x ≤ 255

/-- The table `vp9_kf_y_mode_prob[10][10][9]`. -/
def vp9_kf_y_mode_prob : List (List (List Nat)) := [
  [
    [137, 30, 42, 148, 151, 207, 70, 52, 91],
    [92, 45, 102, 136, 116, 180, 74, 90, 100],
    [73, 32, 19, 187, 222, 215, 46, 34, 100],
    [91, 30, 32, 116, 121, 186, 93, 86, 94],
    [72, 35, 36, 149, 68, 206, 68, 63, 105],
    [73, 31, 28, 138, 57, 124, 55, 122, 151],
    [67, 23, 21, 140, 126, 197, 40, 37, 171],
    [86, 27, 28, 128, 154, 212, 45, 43, 53],
    [74, 32, 27, 107, 86, 160, 63, 134, 102],
    [59, 67, 44, 140, 161, 202, 78, 67, 119]
  ],
  [
    [63, 36, 126, 146, 123, 158, 60, 90, 96],
    [43, 46, 168, 134, 107, 128, 69, 142, 92],
    [44, 29, 68, 159, 201, 177, 50, 57, 77],
    [58, 38, 76, 114, 97, 172, 78, 133, 92],
    [46, 41, 76, 140, 63, 184, 69, 112, 57],
    [38, 32, 85, 140, 46, 112, 54, 151, 133],
    [39, 27, 61, 131, 110, 175, 44, 75, 136],
    [52, 30, 74, 113, 130, 175, 51, 64, 58],
    [47, 35, 80, 100, 74, 143, 64, 163, 74],
    [36, 61, 116, 114, 128, 162, 80, 125, 82]
  ],
  [
    [82, 26, 26, 171, 208, 204, 44, 32, 105],
    [55, 44, 68, 166, 179, 192, 57, 57, 108],
    [42, 26, 11, 199, 241, 228, 23, 15, 85],
    [68, 42, 19, 131, 160, 199, 55, 52, 83],
    [58, 50, 25, 139, 115, 232, 39, 52, 118],
    [50, 35, 33, 153, 104, 162, 64, 59, 131],
    [44, 24, 16, 150, 177, 202, 33, 19, 156],
    [55, 27, 12, 153, 203, 218, 26, 27, 49],
    [53, 49, 21, 110, 116, 168, 59, 80, 76],
    [38, 72, 19, 168, 203, 212, 50, 50, 107]
  ],
  [
    [103, 26, 36, 129, 132, 201, 83, 80, 93],
    [59, 38, 83, 112, 103, 162, 98, 136, 90],
    [62, 30, 23, 158, 200, 207, 59, 57, 50],
    [67, 30, 29, 84, 86, 191, 102, 91, 59],
    [60, 32, 33, 112, 71, 220, 64, 89, 104],
    [53, 26, 34, 130, 56, 149, 84, 120, 103],
    [53, 21, 23, 133, 109, 210, 56, 77, 172],
    [77, 19, 29, 112, 142, 228, 55, 66, 36],
    [61, 29, 29, 93, 97, 165, 83, 175, 162],
    [47, 47, 43, 114, 137, 181, 100, 99, 95]
  ],
  [
    [69, 23, 29, 128, 83, 199, 46, 44, 101],
    [53, 40, 55, 139, 69, 183, 61, 80, 110],
    [40, 29, 19, 161, 180, 207, 43, 24, 91],
    [60, 34, 19, 105, 61, 198, 53, 64, 89],
    [52, 31, 22, 158, 40, 209, 58, 62, 89],
    [44, 31, 29, 147, 46, 158, 56, 102, 198],
    [35, 19, 12, 135, 87, 209, 41, 45, 167],
    [55, 25, 21, 118, 95, 215, 38, 39, 66],
    [51, 38, 25, 113, 58, 164, 70, 93, 97],
    [47, 54, 34, 146, 108, 203, 72, 103, 151]
  ],
  [
    [64, 19, 37, 156, 66, 138, 49, 95, 133],
    [46, 27, 80, 150, 55, 124, 55, 121, 135],
    [36, 23, 27, 165, 149, 166, 54, 64, 118],
    [53, 21, 36, 131, 63, 163, 60, 109, 81],
    [40, 26, 35, 154, 40, 185, 51, 97, 123],
    [35, 19, 34, 179, 19, 97, 48, 129, 124],
    [36, 20, 26, 136, 62, 164, 33, 77, 154],
    [45, 18, 32, 130, 90, 157, 40, 79, 91],
    [45, 26, 28, 129, 45, 129, 49, 147, 123],
    [38, 44, 51, 136, 74, 162, 57, 97, 121]
  ],
  [
    [75, 17, 22, 136, 138, 185, 32, 34, 166],
    [56, 39, 58, 133, 117, 173, 48, 53, 187],
    [35, 21, 12, 161, 212, 207, 20, 23, 145],
    [56, 29, 19, 117, 109, 181, 55, 68, 112],
    [47, 29, 17, 153, 64, 220, 59, 51, 114],
    [46, 16, 24, 136, 76, 147, 41, 64, 172],
    [34, 17, 11, 108, 152, 187, 13, 15, 209],
    [51, 24, 14, 115, 133, 209, 32, 26, 104],
    [55, 30, 18, 122, 79, 179, 44, 88, 116],
    [37, 49, 25, 129, 168, 164, 41, 54, 148]
  ],
  [
    [82, 22, 32, 127, 143, 213, 39, 41, 70],
    [62, 44, 61, 123, 105, 189, 48, 57, 64],
    [47, 25, 17, 175, 222, 220, 24, 30, 86],
    [68, 36, 17, 106, 102, 206, 59, 74, 74],
    [57, 39, 23, 151, 68, 216, 55, 63, 58],
    [49, 30, 35, 141, 70, 168, 82, 40, 115],
    [51, 25, 15, 136, 129, 202, 38, 35, 139],
    [68, 26, 16, 111, 141, 215, 29, 28, 28],
    [59, 39, 19, 114, 75, 180, 77, 104, 42],
    [40, 61, 26, 126, 152, 206, 61, 59, 93]
  ],
  [
    [78, 23, 39, 111, 117, 170, 74, 124, 94],
    [48, 34, 86, 101, 92, 146, 78, 179, 134],
    [47, 22, 24, 138, 187, 178, 68, 69, 59],
    [56, 25, 33, 105, 112, 187, 95, 177, 129],
    [48, 31, 27, 114, 63, 183, 82, 116, 56],
    [43, 28, 37, 121, 63, 123, 61, 192, 169],
    [42, 17, 24, 109, 97, 177, 56, 76, 122],
    [58, 18, 28, 105, 139, 182, 70, 92, 63],
    [46, 23, 32, 74, 86, 150, 67, 183, 88],
    [36, 38, 48, 92, 122, 165, 88, 137, 91]
  ],
  [
    [65, 70, 60, 155, 159, 199, 61, 60, 81],
    [44, 78, 115, 132, 119, 173, 71, 112, 93],
    [39, 38, 21, 184, 227, 206, 42, 32, 64],
    [58, 47, 36, 124, 137, 193, 80, 82, 78],
    [49, 50, 35, 144, 95, 205, 63, 78, 59],
    [41, 53, 52, 148, 71, 142, 65, 128, 51],
    [40, 36, 28, 143, 143, 202, 40, 55, 137],
    [52, 34, 29, 129, 183, 227, 42, 35, 43],
    [42, 44, 44, 104, 105, 164, 64, 130, 80],
    [43, 81, 53, 140, 169, 204, 68, 84, 72]
  ]
]

/-- The table `kf_partition_probs[16][3]`. -/
def kf_partition_probs : List (List Nat) := [
  [158, 97, 94],
  [93, 24, 99],
  [85, 119, 44],
  [62, 59, 67],
  [149, 53, 53],
  [94, 20, 48],
  [83, 53, 24],
  [52, 18, 18],
  [150, 40, 39],
  [78, 12, 26],
  [67, 33, 11],
  [24, 7, 5],
  [174, 35, 49],
  [68, 11, 27],
  [57, 15, 9],
  [12, 3, 3]
]

/-- The table `kf_uv_mode_prob[10][9]`. -/
def kf_uv_mode_prob : List (List Nat) := [
  [144, 11, 54, 157, 195, 130, 46, 58, 108],
  [118, 15, 123, 148, 131, 101, 44, 93, 131],
  [113, 12, 23, 188, 226, 142, 26, 32, 125],
  [120, 11, 50, 123, 163, 135, 64, 77, 103],
  [113, 9, 36, 155, 111, 157, 32, 44, 161],
  [116, 9, 55, 176, 76, 96, 37, 61, 149],
  [115, 9, 28, 141, 161, 167, 21, 25, 193],
  [120, 12, 32, 145, 195, 142, 32, 38, 86],
  [116, 12, 64, 120, 140, 125, 49, 115, 121],
  [102, 19, 66, 162, 182, 122, 35, 59, 128]
]

/-- Element `[i][j]` of a two-dimensional table, `0` outside it. -/
def tbl2 (t : List (List Nat)) (i j : Nat) : Nat := (t.getD i []).getD j 0

/-- Element `[i][j][k]` of a three-dimensional table, `0` outside it. -/
def tbl3 (t : List (List (List Nat))) (i j k : Nat) : Nat :=
  ((t.getD i []).getD j []).getD k 0

/-- The store `buf[a] = v` to one byte of a buffer. -/
def poke (buf : Nat → Nat) (a v : Nat) : Nat → Nat :=
  fun b => if b = a then v else buf b

/-- The call `memset(buf + off, val, n)`. -/
def memset (buf : Nat → Nat) (off val n : Nat) : Nat → Nat :=
  fun b => if off ≤ b ∧ b < off + n then val else buf b

/-- The call `memcpy(buf + off, src, n)`, `src` giving the source bytes in
memory order. -/
def memcpy (buf : Nat → Nat) (off : Nat) (src : Nat → Nat) (n : Nat) : Nat → Nat :=
  fun b => if off ≤ b ∧ b < off + n then src (b - off) else buf b

/-- The size of `RKVDEC_VP9_COUNT_SIZE`. -/
def RKVDEC_VP9_COUNT_SIZE : Nat := 13232

/-- The size of `RKVDEC_VP9_MAX_SEGMAP_SIZE`. -/
def RKVDEC_VP9_MAX_SEGMAP_SIZE : Nat := 73728

/-! Byte offsets of the members of `struct rkvdec_vp9_probs`; every member is
an array of `u8`, so the members follow each other without padding other than
the declared padding members. -/

/-- Offset of `partition[16][3]`. -/
def off_partition : Nat := 0
/-- Offset of `pred[3]`. -/
def off_pred : Nat := 48
/-- Offset of `tree[7]`. -/
def off_tree : Nat := 51
/-- Offset of `skip[3]`. -/
def off_skip : Nat := 58
/-- Offset of `tx32[2][3]`. -/
def off_tx32 : Nat := 61
/-- Offset of `tx16[2][2]`. -/
def off_tx16 : Nat := 67
/-- Offset of `tx8[2][1]`. -/
def off_tx8 : Nat := 71
/-- Offset of `is_inter[4]`. -/
def off_is_inter : Nat := 73
/-- Offset of the union of the inter and the intra-only layout (after
`padding0[3]`). -/
def off_union : Nat := 80

/-- Offset of `inter.y_mode[4][9]`. -/
def off_inter_y_mode : Nat := off_union + 0
/-- Offset of `inter.comp_mode[5]`. -/
def off_inter_comp_mode : Nat := off_union + 36
/-- Offset of `inter.comp_ref[5]`. -/
def off_inter_comp_ref : Nat := off_union + 41
/-- Offset of `inter.single_ref[5][2]`. -/
def off_inter_single_ref : Nat := off_union + 46
/-- Offset of `inter.inter_mode[7][3]`. -/
def off_inter_inter_mode : Nat := off_union + 56
/-- Offset of `inter.interp_filter[4][2]`. -/
def off_inter_interp_filter : Nat := off_union + 77
/-- Offset of `inter.coef[2][4][2][128]` (after `padding0[11]`). -/
def off_inter_coef : Nat := off_union + 96
/-- Offset of `inter.uv_mode_0_2[3][9]`. -/
def off_inter_uv_mode_0_2 : Nat := off_union + 2144
/-- Offset of `inter.uv_mode_3_5[3][9]` (after `padding1[5]`). -/
def off_inter_uv_mode_3_5 : Nat := off_union + 2176
/-- Offset of `inter.uv_mode_6_8[3][9]` (after `padding2[5]`). -/
def off_inter_uv_mode_6_8 : Nat := off_union + 2208
/-- Offset of `inter.uv_mode_9[9]` (after `padding3[5]`). -/
def off_inter_uv_mode_9 : Nat := off_union + 2240
/-- Offset of `inter.mv` (after `padding4[7]` and `padding5[16]`). -/
def off_inter_mv : Nat := off_union + 2272
/-- Offset of `inter.mv.joint[3]`. -/
def off_mv_joint : Nat := off_inter_mv + 0
/-- Offset of `inter.mv.sign[2]`. -/
def off_mv_sign : Nat := off_inter_mv + 3
/-- Offset of `inter.mv.class[2][10]`. -/
def off_mv_class : Nat := off_inter_mv + 5
/-- Offset of `inter.mv.class0_bit[2]`. -/
def off_mv_class0_bit : Nat := off_inter_mv + 25
/-- Offset of `inter.mv.bits[2][10]`. -/
def off_mv_bits : Nat := off_inter_mv + 27
/-- Offset of `inter.mv.class0_fr[2][2][3]`. -/
def off_mv_class0_fr : Nat := off_inter_mv + 47
/-- Offset of `inter.mv.fr[2][3]`. -/
def off_mv_fr : Nat := off_inter_mv + 59
/-- Offset of `inter.mv.class0_hp[2]`. -/
def off_mv_class0_hp : Nat := off_inter_mv + 65
/-- Offset of `inter.mv.hp[2]`. -/
def off_mv_hp : Nat := off_inter_mv + 67
/-- The size of `struct rkvdec_vp9_inter_frame_probs`. -/
def sizeof_inter_frame_probs : Nat := 2341

/-- Offset of `intra_only.coef_intra[4][2][128]`. -/
def off_intra_coef_intra : Nat := off_union + 0
/-- Offset of `intra_only.intra_mode[10]`, 128 bytes each: `y_mode[105]` then
`uv_mode[23]`. -/
def off_intra_intra_mode : Nat := off_union + 1024
/-- The size of `struct rkvdec_vp9_intra_only_frame_probs`. -/
def sizeof_intra_only_frame_probs : Nat := 2304

/-- The size of `struct rkvdec_vp9_probs`: the members before the union and
the larger of the two layouts. -/
def sizeof_rkvdec_vp9_probs : Nat :=
  off_union + max sizeof_inter_frame_probs sizeof_intra_only_frame_probs

/-- The offset of `segmap` in `struct rkvdec_vp9_priv_tbl`, which follows
`probs`. -/
def offsetof_segmap : Nat := sizeof_rkvdec_vp9_probs

/-- The local state of the packing loops: the buffer written, `idx` and
`byte_count`. -/
structure PackState where
  buf : Nat → Nat
  idx : Nat
  byte_count : Nat

/-- The function `write_coeff_plane(coef, coeff_plane)`, where `coef` points to
`probs->coef[i][j][r]` and `coeff_plane` is the byte at offset `plane` of the
buffer. -/
def write_coeff_plane (probs : v4l2_vp9_probabilities) (i j r : Nat) (buf : Nat → Nat)
    (plane : Nat) : Nat → Nat :=
  let st : PackState := { buf := buf, idx := 0, byte_count := 0 }
  let st := forLoop 6 (fun k st =>
    forLoop 6 (fun m st =>
      forLoop 3 (fun n st =>
        let p := probs (.coef i j r k m n)
        let st : PackState :=
          { buf := poke st.buf (plane + st.idx) p, idx := u32 (st.idx + 1),
            byte_count := (st.byte_count + 1) % 2 ^ 8 }
        if st.byte_count = 27 then { st with idx := u32 (st.idx + 5), byte_count := 0 }
        else st) st) st) st
  st.buf

/-- The function `init_intra_only_probs`, on the bytes of the probability
structure. -/
def init_intra_only_probs (buf : Nat → Nat) (dec_params : v4l2_ctrl_vp9_frame_decode_params) :
    Nat → Nat :=
  let probs := dec_params.probs
  let buf := forLoop 4 (fun i buf =>
    forLoop 2 (fun j buf =>
      write_coeff_plane probs i j 0 buf (off_intra_coef_intra + (i * 2 + j) * 128)) buf) buf
  forLoop 10 (fun i buf =>
    let y_mode := off_intra_intra_mode + i * 128
    let uv_mode := off_intra_intra_mode + i * 128 + 105
    let st : PackState := { buf := buf, idx := 0, byte_count := 0 }
    let st := forLoop 10 (fun j st =>
      forLoop 9 (fun k st =>
        let val := tbl3 vp9_kf_y_mode_prob i j k
        let st : PackState :=
          { buf := poke st.buf (y_mode + st.idx) val, idx := st.idx + 1,
            byte_count := u32 (st.byte_count + 1) }
        if st.byte_count = 27 then { st with byte_count := 0, idx := st.idx + 5 }
        else st) st) st
    let st : PackState := { st with idx := 0 }
    if i < 4 then
      (forLoop (if i < 3 then 23 else 21) (fun m st =>
        let ptr : Nat → Nat := fun t => tbl2 kf_uv_mode_prob (t / 9) (t % 9)
        { st with buf := poke st.buf (uv_mode + st.idx) (ptr (i * 23 + m)),
                  idx := st.idx + 1 }) st).buf
    else st.buf) buf

/-- The function `init_inter_probs`, on the bytes of the probability
structure. -/
def init_inter_probs (buf : Nat → Nat) (dec_params : v4l2_ctrl_vp9_frame_decode_params) :
    Nat → Nat :=
  let probs := dec_params.probs
  let buf := memcpy buf off_inter_y_mode (fun t => probs (.y_mode (t / 9) (t % 9))) 36
  let buf := memcpy buf off_inter_comp_mode (fun t => probs (.comp_mode t)) 5
  let buf := memcpy buf off_inter_comp_ref (fun t => probs (.comp_ref t)) 5
  let buf := memcpy buf off_inter_single_ref (fun t => probs (.single_ref (t / 2) (t % 2))) 10
  let buf := memcpy buf off_inter_inter_mode (fun t => probs (.inter_mode (t / 3) (t % 3))) 21
  let buf := memcpy buf off_inter_interp_filter
    (fun t => probs (.interp_filter (t / 2) (t % 2))) 8
  let buf := forLoop 4 (fun i buf =>
    forLoop 2 (fun j buf =>
      forLoop 2 (fun k buf =>
        write_coeff_plane probs i j k buf (off_inter_coef + ((k * 4 + i) * 2 + j) * 128))
        buf) buf) buf
  let buf := memcpy buf off_inter_uv_mode_0_2 (fun t => probs (.uv_mode (0 + t / 9) (t % 9))) 27
  let buf := memcpy buf off_inter_uv_mode_3_5 (fun t => probs (.uv_mode (3 + t / 9) (t % 9))) 27
  let buf := memcpy buf off_inter_uv_mode_6_8 (fun t => probs (.uv_mode (6 + t / 9) (t % 9))) 27
  let buf := memcpy buf off_inter_uv_mode_9 (fun t => probs (.uv_mode (9 + t / 9) (t % 9))) 9
  let buf := memcpy buf off_mv_joint (fun t => probs (.mv_joint t)) 3
  let buf := memcpy buf off_mv_sign (fun t => probs (.mv_sign t)) 2
  let buf := memcpy buf off_mv_class (fun t => probs (.mv_class (t / 10) (t % 10))) 20
  let buf := memcpy buf off_mv_class0_bit (fun t => probs (.mv_class0_bit t)) 2
  let buf := memcpy buf off_mv_bits (fun t => probs (.mv_bits (t / 10) (t % 10))) 20
  let buf := memcpy buf off_mv_class0_fr
    (fun t => probs (.mv_class0_fr (t / 6) (t / 3 % 2) (t % 3))) 12
  let buf := memcpy buf off_mv_fr (fun t => probs (.mv_fr (t / 3) (t % 3))) 6
  let buf := memcpy buf off_mv_class0_hp (fun t => probs (.mv_class0_hp t)) 2
  memcpy buf off_mv_hp (fun t => probs (.mv_hp t)) 2

/-- The function `init_probs`, on the bytes of the private table, whose first
member is the probability structure. -/
def init_probs (K : Uapi) (buf : Nat → Nat) (dec_params : v4l2_ctrl_vp9_frame_decode_params) :
    Nat → Nat :=
  let probs := dec_params.probs
  let seg := dec_params.seg
  let buf := memset buf 0 0 sizeof_rkvdec_vp9_probs
  let intra_only : Bool :=
    decide (dec_params.flags &&& (K.FRAME_FLAG_KEY_FRAME ||| K.FRAME_FLAG_INTRA_ONLY) ≠ 0)
  let buf := memcpy buf off_partition
    (if intra_only then fun t => tbl2 kf_partition_probs (t / 3) (t % 3)
     else fun t => probs (.partition (t / 3) (t % 3))) 48
  let buf := memcpy buf off_pred seg.pred_probs 3
  let buf := memcpy buf off_tree seg.tree_probs 7
  let buf := memcpy buf off_skip (fun t => probs (.skip t)) 3
  let buf := memcpy buf off_tx32 (fun t => probs (.tx32 (t / 3) (t % 3))) 6
  let buf := memcpy buf off_tx16 (fun t => probs (.tx16 (t / 2) (t % 2))) 4
  let buf := memcpy buf off_tx8 (fun t => probs (.tx8 t 0)) 2
  let buf := memcpy buf off_is_inter (fun t => probs (.is_inter t)) 4
  if intra_only then init_intra_only_probs buf dec_params
  else init_inter_probs buf dec_params

/-- The loops over `j` and `k` in iteration `i` of the second loop of
`init_intra_only_probs`, which pack `vp9_kf_y_mode_prob[i]` into
`intra_mode[i].y_mode`, from `idx = 0` and `byte_count = 0`. -/
def init_intra_y_mode (i : Nat) (buf : Nat → Nat) : PackState :=
  let y_mode := off_intra_intra_mode + i * 128
  let st : PackState := { buf := buf, idx := 0, byte_count := 0 }
  forLoop 10 (fun j st =>
    forLoop 9 (fun k st =>
      let val := tbl3 vp9_kf_y_mode_prob i j k
      let st : PackState :=
        { buf := poke st.buf (y_mode + st.idx) val, idx := st.idx + 1,
          byte_count := u32 (st.byte_count + 1) }
      if st.byte_count = 27 then { st with byte_count := 0, idx := st.idx + 5 }
      else st) st) st

/-- The loop over `m` in iteration `i < 4` of the second loop of
`init_intra_only_probs`, which copies a chunk of the flattened
`kf_uv_mode_prob` to `intra_mode[i].uv_mode`. -/
def init_intra_uv_mode (i : Nat) (st : PackState) : PackState :=
  let uv_mode := off_intra_intra_mode + i * 128 + 105
  forLoop (if i < 3 then 23 else 21) (fun m st =>
    let ptr : Nat → Nat := fun t => tbl2 kf_uv_mode_prob (t / 9) (t % 9)
    { st with buf := poke st.buf (uv_mode + st.idx) (ptr (i * 23 + m)),
              idx := st.idx + 1 }) st

/-- Iteration `i` of the second loop of `init_intra_only_probs`. -/
def init_intra_mode (i : Nat) (buf : Nat → Nat) : Nat → Nat :=
  let st := init_intra_y_mode i buf
  let st : PackState := { st with idx := 0 }
  if i < 4 then (init_intra_uv_mode i st).buf else st.buf

/-- The first loop of `init_intra_only_probs`, which packs the coefficient
probabilities of reference context 0. -/
def init_intra_coef (probs : v4l2_vp9_probabilities) (buf : Nat → Nat) : Nat → Nat :=
  forLoop 4 (fun i buf =>
    forLoop 2 (fun j buf =>
      write_coeff_plane probs i j 0 buf (off_intra_coef_intra + (i * 2 + j) * 128)) buf) buf

/-- The loop of `init_inter_probs` that packs the coefficient probabilities. -/
def init_inter_coef (probs : v4l2_vp9_probabilities) (buf : Nat → Nat) : Nat → Nat :=
  forLoop 4 (fun i buf =>
    forLoop 2 (fun j buf =>
      forLoop 2 (fun k buf =>
        write_coeff_plane probs i j k buf (off_inter_coef + ((k * 4 + i) * 2 + j) * 128))
        buf) buf) buf

/-- The state a buffer is returned in (`enum vb2_buffer_state`); the driver
only tells `VB2_BUF_STATE_ERROR` from the rest. -/
inductive vb2_buffer_state where
  | VB2_BUF_STATE_DEQUEUED
  | VB2_BUF_STATE_IN_REQUEST
  | VB2_BUF_STATE_PREPARING
  | VB2_BUF_STATE_QUEUED
  | VB2_BUF_STATE_ACTIVE
  | VB2_BUF_STATE_DONE
  | VB2_BUF_STATE_ERROR
  deriving DecidableEq

/-- A capture buffer as the driver sees it (`struct rkvdec_decoded_buffer`):
its timestamp, the bus address of its plane 0 and the `vp9` information
recorded when it was decoded.  The member types are declared outside this
source file; the model keeps their mathematical values. -/
structure rkvdec_decoded_buffer where
  timestamp : Nat
  dma : Nat
  vp9_width : Nat
  vp9_height : Nat
  vp9_bit_depth : Nat
  deriving DecidableEq

/-- The registers the backend writes, by the name of their address macro. -/
inductive Reg where
  | RKVDEC_REG_SYSCTRL
  | RKVDEC_REG_PICPAR
  | RKVDEC_REG_Y_VIRSTRIDE
  | RKVDEC_REG_YUV_VIRSTRIDE
  | RKVDEC_REG_STRM_LEN
  | RKVDEC_REG_VP9_FRAME_SIZE (i : Nat)
  | RKVDEC_VP9_HOR_VIRSTRIDE (i : Nat)
  | RKVDEC_VP9_LAST_FRAME_YSTRIDE
  | RKVDEC_VP9_GOLDEN_FRAME_YSTRIDE
  | RKVDEC_VP9_ALTREF_FRAME_YSTRIDE
  | RKVDEC_VP9_LAST_FRAME_YUVSTRIDE
  | RKVDEC_REG_VP9_LAST_FRAME_BASE
  | RKVDEC_REG_VP9_GOLDEN_FRAME_BASE
  | RKVDEC_REG_VP9_ALTREF_FRAME_BASE
  | RKVDEC_VP9_SEGID_GRP (i : Nat)
  | RKVDEC_VP9_CPRHEADER_CONFIG
  | RKVDEC_VP9_REF_DELTAS_LASTFRAME
  | RKVDEC_VP9_INFO_LASTFRAME
  | RKVDEC_VP9_LASTTILE_SIZE
  | RKVDEC_VP9_REF_SCALE (i : Nat)
  | RKVDEC_REG_DECOUT_BASE
  | RKVDEC_REG_STRM_RLC_BASE
  | RKVDEC_REG_CABACTBL_PROB_BASE
  | RKVDEC_REG_VP9COUNT_BASE
  | RKVDEC_REG_VP9_SEGIDCUR_BASE
  | RKVDEC_REG_VP9_SEGIDLAST_BASE
  | RKVDEC_VP9_REF_COLMV_BASE
  | RKVDEC_REG_PERFORMANCE_CYCLE
  | RKVDEC_REG_PREF_LUMA_CACHE_COMMAND
  | RKVDEC_REG_PREF_CHR_CACHE_COMMAND
  | RKVDEC_REG_STRMD_ERR_EN
  | RKVDEC_REG_INTERRUPT
  deriving DecidableEq

/-- One operand of the bitwise OR that forms a register value: a field macro
of `rkvdec-regs.h` applied to its arguments, a flag constant, or a plain
32-bit number.  The macros are declared outside this source file, so a value is
kept as the list of its operands. -/
inductive RegField where
  | RKVDEC_MODE_VP9
  | RKVDEC_Y_HOR_VIRSTRIDE (v : Nat)
  | RKVDEC_UV_HOR_VIRSTRIDE (v : Nat)
  | RKVDEC_Y_VIRSTRIDE (v : Nat)
  | RKVDEC_YUV_VIRSTRIDE (v : Nat)
  | RKVDEC_STRM_LEN (v : Nat)
  | RKVDEC_VP9_FRAMEWIDTH (v : Nat)
  | RKVDEC_VP9_FRAMEHEIGHT (v : Nat)
  | RKVDEC_HOR_Y_VIRSTRIDE (v : Nat)
  | RKVDEC_HOR_UV_VIRSTRIDE (v : Nat)
  | RKVDEC_VP9_REF_YSTRIDE (v : Nat)
  | RKVDEC_VP9_REF_YUVSTRIDE (v : Nat)
  | RKVDEC_SEGID_FRAME_QP_DELTA_EN (v : Nat)
  | RKVDEC_SEGID_FRAME_QP_DELTA (v : Int)
  | RKVDEC_SEGID_FRAME_LOOPFILTER_VALUE_EN (v : Nat)
  | RKVDEC_SEGID_FRAME_LOOPFILTER_VALUE (v : Int)
  | RKVDEC_SEGID_REFERINFO_EN (v : Nat)
  | RKVDEC_SEGID_REFERINFO (v : Int)
  | RKVDEC_SEGID_FRAME_SKIP_EN (v : Nat)
  | RKVDEC_SEGID_ABS_DELTA (v : Nat)
  | RKVDEC_VP9_TX_MODE (v : Nat)
  | RKVDEC_VP9_FRAME_REF_MODE (v : Nat)
  | RKVDEC_REF_DELTAS_LASTFRAME (pos : Nat) (val : Int)
  | RKVDEC_MODE_DELTAS_LASTFRAME (pos : Nat) (val : Int)
  | RKVDEC_SEG_EN_LASTFRAME
  | RKVDEC_LAST_SHOW_FRAME
  | RKVDEC_LAST_INTRA_ONLY
  | RKVDEC_LAST_WIDHHEIGHT_EQCUR
  | RKVDEC_VP9_REF_HOR_SCALE (v : Nat)
  | RKVDEC_VP9_REF_VER_SCALE (v : Nat)
  | RKVDEC_INTERRUPT_DEC_E
  | RKVDEC_CONFIG_DEC_CLK_GATE_E
  | RKVDEC_TIMEOUT_E
  | RKVDEC_BUF_EMPTY_E
  | value (v : Nat)
  deriving DecidableEq

/-- The source and destination buffers of one decode job (`struct rkvdec_run`
with the `decode_params` of `struct rkvdec_vp9_run`): the payload size and bus
address of the bitstream buffer, the destination buffer as its index in the
capture queue, and the decode parameters. -/
structure struct_rkvdec_vp9_run where
  src_payload : Nat
  src_dma : Nat
  dst : Nat
  decode_params : Option v4l2_ctrl_vp9_frame_decode_params

/-- The part of `struct rkvdec_ctx` the VP9 backend uses: the negotiated
capture format, the capture queue, the source and destination buffers of the
next job, the control values (decode parameters and the persisted frame
contexts; `none` when the control does not exist), the private VP9 context and
the register writes issued so far, oldest first. -/
structure rkvdec_ctx where
  decoded_fmt_width : Nat
  decoded_fmt_height : Nat
  cap_q : List rkvdec_decoded_buffer
  next_src_payload : Nat
  next_src_dma : Nat
  next_dst : Nat
  ctrl_decode_params : Option v4l2_ctrl_vp9_frame_decode_params
  ctrl_frame_context : Nat → Option v4l2_ctrl_vp9_frame_ctx
  priv : rkvdec_vp9_ctx
  regs : List (Reg × List RegField)

/-- The calls `writel_relaxed(val, rkvdec->regs + reg)` and
`writel(val, rkvdec->regs + reg)`: the write is appended to the trace. -/
def writel (val : List RegField) (reg : Reg) (ctx : rkvdec_ctx) : rkvdec_ctx :=
  { ctx with regs := ctx.regs ++ [(reg, val)] }

/-- The capture buffer a buffer pointer designates. -/
def buf_at (ctx : rkvdec_ctx) (idx : Nat) : rkvdec_decoded_buffer :=
  ctx.cap_q.getD idx { timestamp := 0, dma := 0, vp9_width := 0, vp9_height := 0,
                       vp9_bit_depth := 0 }

/-- Modelled from the spec: the kernel macro `round_up(x, y)` for a power of
two `y`, which is missing from the source set ("rounded to ... granularity",
"aligned to 512 bits", "aligned to 64 pixels"); the macro computes
`(((x) - 1) | ((y) - 1)) + 1` in the type of `x`, here `u32`: the least
multiple of `y` that is at least `x`, modulo `2^32`. -/
def round_up (x y : Nat) : Nat := u32 ((x + (y - 1)) / y * y)

/-- Modelled from the spec: the buffer-pool lookup `vb2_find_timestamp`, which
is missing from the source set ("resolve a reference slot to a
previously-decoded buffer by timestamp, or not found"): the index of the first
buffer of the capture queue with the timestamp asked for. -/
def vb2_find_timestamp (cap_q : List rkvdec_decoded_buffer) (timestamp : Nat) : Option Nat :=
  cap_q.findIdx? (fun b => b.timestamp = timestamp)

/-- Modelled from the spec: the lookup `v4l2_ctrl_find` of the control
`V4L2_CID_MPEG_VIDEO_VP9_FRAME_CONTEXT(idx)` followed by the read of its
current value, missing from the source set ("a persisted-context store keyed by
small integer index (get/set full probability-model snapshot)"). -/
def frame_context_get (ctx : rkvdec_ctx) (idx : Nat) : Option v4l2_ctrl_vp9_frame_ctx :=
  ctx.ctrl_frame_context idx

/-- Modelled from the spec: the call `v4l2_ctrl_s_ctrl_compound` on the control
`V4L2_CID_MPEG_VIDEO_VP9_FRAME_CONTEXT(idx)`, missing from the source set ("a
persisted-context store keyed by small integer index (get/set full
probability-model snapshot)"): the slot takes the value passed. -/
def frame_context_set (ctx : rkvdec_ctx) (idx : Nat) (fctx : v4l2_ctrl_vp9_frame_ctx) :
    rkvdec_ctx :=
  { ctx with ctrl_frame_context := fun i => if i = idx then some fctx
                                            else ctx.ctrl_frame_context i }

/-- An entry of `ref_config[]` (`struct vp9d_ref_config`); a `reg_yuv_stride`
of `0` is `none`. -/
structure vp9d_ref_config where
  reg_frm_size : Reg
  reg_hor_stride : Reg
  reg_y_stride : Reg
  reg_yuv_stride : Option Reg
  reg_ref_base : Reg

/-- The table `ref_config[3]`. -/
def ref_config : List vp9d_ref_config := [
  { reg_frm_size := .RKVDEC_REG_VP9_FRAME_SIZE 0,
    reg_hor_stride := .RKVDEC_VP9_HOR_VIRSTRIDE 0,
    reg_y_stride := .RKVDEC_VP9_LAST_FRAME_YSTRIDE,
    reg_yuv_stride := some .RKVDEC_VP9_LAST_FRAME_YUVSTRIDE,
    reg_ref_base := .RKVDEC_REG_VP9_LAST_FRAME_BASE },
  { reg_frm_size := .RKVDEC_REG_VP9_FRAME_SIZE 1,
    reg_hor_stride := .RKVDEC_VP9_HOR_VIRSTRIDE 1,
    reg_y_stride := .RKVDEC_VP9_GOLDEN_FRAME_YSTRIDE,
    reg_yuv_stride := none,
    reg_ref_base := .RKVDEC_REG_VP9_GOLDEN_FRAME_BASE },
  { reg_frm_size := .RKVDEC_REG_VP9_FRAME_SIZE 2,
    reg_hor_stride := .RKVDEC_VP9_HOR_VIRSTRIDE 2,
    reg_y_stride := .RKVDEC_VP9_ALTREF_FRAME_YSTRIDE,
    reg_yuv_stride := none,
    reg_ref_base := .RKVDEC_REG_VP9_ALTREF_FRAME_BASE }]

/-- The function `get_ref_buf(ctx, dst, timestamp)`; buffers are designated by
their index in the capture queue. -/
def get_ref_buf (ctx : rkvdec_ctx) (dst : Nat) (timestamp : Nat) : Nat :=
  match vb2_find_timestamp ctx.cap_q timestamp with
  | none => dst
  | some buf_idx => buf_idx

/-- The function `get_mv_base_addr(buf)`. -/
def get_mv_base_addr (buf : rkvdec_decoded_buffer) : Nat :=
  let aligned_height := round_up buf.vp9_height 64
  let aligned_pitch := round_up (u32 (buf.vp9_width * buf.vp9_bit_depth)) 512 / 8
  let yuv_len := u32 (u32 (aligned_height * aligned_pitch) * 3) / 2
  buf.dma + yuv_len

/-- The function `config_ref_registers(ctx, run, ref_bufs, id)`. -/
def config_ref_registers (ctx : rkvdec_ctx) (run : struct_rkvdec_vp9_run) (ref_bufs : Nat → Nat)
    (id : Nat) : rkvdec_ctx :=
  let buf := buf_at ctx (ref_bufs id)
  let cfg := ref_config.getD id
    { reg_frm_size := .RKVDEC_REG_VP9_FRAME_SIZE id,
      reg_hor_stride := .RKVDEC_VP9_HOR_VIRSTRIDE id,
      reg_y_stride := .RKVDEC_VP9_LAST_FRAME_YSTRIDE,
      reg_yuv_stride := none,
      reg_ref_base := .RKVDEC_REG_VP9_LAST_FRAME_BASE }
  let aligned_height := round_up buf.vp9_height 64
  let ctx := writel [.RKVDEC_VP9_FRAMEWIDTH buf.vp9_width,
    .RKVDEC_VP9_FRAMEHEIGHT buf.vp9_height] cfg.reg_frm_size ctx
  let ctx := writel [.value (u32 buf.dma)] cfg.reg_ref_base ctx
  if ref_bufs id = run.dst then ctx
  else
    let aligned_pitch := round_up (u32 (buf.vp9_width * buf.vp9_bit_depth)) 512 / 8
    let y_len := u32 (aligned_height * aligned_pitch)
    let yuv_len := u32 (y_len * 3) / 2
    let ctx := writel [.RKVDEC_HOR_Y_VIRSTRIDE (aligned_pitch / 16),
      .RKVDEC_HOR_UV_VIRSTRIDE (aligned_pitch / 16)] cfg.reg_hor_stride ctx
    let ctx := writel [.RKVDEC_VP9_REF_YSTRIDE (y_len / 16)] cfg.reg_y_stride ctx
    match cfg.reg_yuv_stride with
    | none => ctx
    | some reg => writel [.RKVDEC_VP9_REF_YUVSTRIDE (yuv_len / 16)] reg ctx

/-- The function `seg_featured_enabled(seg, feature, segid)`. -/
def seg_featured_enabled (K : Uapi) (seg : v4l2_vp9_segmentation) (feature segid : Nat) : Bool :=
  let mask := K.SEGMENT_FEATURE_ENABLED feature % 2 ^ 8
  decide (seg.feature_enabled segid &&& mask ≠ 0)

/-- The function `config_seg_registers(ctx, segid)`. -/
def config_seg_registers (K : Uapi) (ctx : rkvdec_ctx) (segid : Nat) : rkvdec_ctx :=
  let vp9_ctx := ctx.priv
  let val : List RegField := []
  let seg := if vp9_ctx.last.valid ≠ 0 then vp9_ctx.last.seg else vp9_ctx.cur.seg
  let feature_id := K.SEGMENT_FEATURE_QP_DELTA
  let val :=
    if seg_featured_enabled K seg feature_id segid then
      let feature_val := seg.feature_data segid feature_id
      val ++ [.RKVDEC_SEGID_FRAME_QP_DELTA_EN 1, .RKVDEC_SEGID_FRAME_QP_DELTA feature_val]
    else val
  let feature_id := K.SEGMENT_FEATURE_LF
  let val :=
    if seg_featured_enabled K seg feature_id segid then
      let feature_val := seg.feature_data segid feature_id
      val ++ [.RKVDEC_SEGID_FRAME_LOOPFILTER_VALUE_EN 1,
        .RKVDEC_SEGID_FRAME_LOOPFILTER_VALUE feature_val]
    else val
  let feature_id := K.SEGMENT_FEATURE_REF_FRAME
  let val :=
    if seg_featured_enabled K seg feature_id segid then
      let feature_val := seg.feature_data segid feature_id
      val ++ [.RKVDEC_SEGID_REFERINFO_EN 1, .RKVDEC_SEGID_REFERINFO feature_val]
    else val
  let feature_id := K.SEGMENT_FEATURE_SKIP
  let val :=
    if seg_featured_enabled K seg feature_id segid then
      val ++ [.RKVDEC_SEGID_FRAME_SKIP_EN 1]
    else val
  let val :=
    if segid = 0 ∧ seg.flags &&& K.SEGMENTATION_FLAG_ABS_OR_DELTA_UPDATE ≠ 0 then
      val ++ [.RKVDEC_SEGID_ABS_DELTA 1]
    else val
  writel val (.RKVDEC_VP9_SEGID_GRP segid) ctx

/-- The function `update_dec_buf_info(buf, dec_params)`, `buf` being the
capture buffer with index `buf`. -/
def update_dec_buf_info (ctx : rkvdec_ctx) (buf : Nat)
    (dec_params : v4l2_ctrl_vp9_frame_decode_params) : rkvdec_ctx :=
  let info : rkvdec_decoded_buffer :=
    { buf_at ctx buf with vp9_width := dec_params.frame_width_minus_1 + 1,
                          vp9_height := dec_params.frame_height_minus_1 + 1,
                          vp9_bit_depth := dec_params.bit_depth }
  { ctx with cap_q := ctx.cap_q.set buf info }

/-- The function `update_ctx_cur_info(vp9_ctx, buf, dec_params)`; the bit-field
members keep the low bits of the value assigned. -/
def update_ctx_cur_info (vp9_ctx : rkvdec_vp9_ctx) (buf : rkvdec_decoded_buffer)
    (dec_params : v4l2_ctrl_vp9_frame_decode_params) : rkvdec_vp9_ctx :=
  { vp9_ctx with cur :=
      { vp9_ctx.cur with
          valid := 1,
          frame_context_idx := dec_params.frame_context_idx % 2 ^ 2,
          reference_mode := dec_params.reference_mode % 2 ^ 2,
          tx_mode := dec_params.tx_mode % 2 ^ 3,
          interpolation_filter := dec_params.interpolation_filter % 2 ^ 3,
          flags := dec_params.flags,
          timestamp := buf.timestamp,
          seg := dec_params.seg,
          lf := dec_params.lf } }

/-- The function `update_ctx_last_info(vp9_ctx)`. -/
def update_ctx_last_info (vp9_ctx : rkvdec_vp9_ctx) : rkvdec_vp9_ctx :=
  { vp9_ctx with last := vp9_ctx.cur }

/-- The function `config_registers(ctx, run)` for the decode parameters
`dec_params` that `run->decode_params` points to.  The arrays
`lf->ref_deltas` and `lf->mode_deltas` of the interface have 4 and 2
entries. -/
def config_registers (K : Uapi) (ctx : rkvdec_ctx) (run : struct_rkvdec_vp9_run)
    (dec_params : v4l2_ctrl_vp9_frame_decode_params) : rkvdec_ctx :=
  let dst := run.dst
  let ref_bufs : Nat → Nat := fun i => get_ref_buf ctx dst (dec_params.refs i)
  let last := if ctx.priv.last.valid ≠ 0 then get_ref_buf ctx dst ctx.priv.last.timestamp else dst
  let ctx := update_dec_buf_info ctx dst dec_params
  let ctx := { ctx with priv := update_ctx_cur_info ctx.priv (buf_at ctx dst) dec_params }
  let seg := dec_params.seg
  let intra_only : Bool :=
    decide (dec_params.flags &&& (K.FRAME_FLAG_KEY_FRAME ||| K.FRAME_FLAG_INTRA_ONLY) ≠ 0)
  let ctx := writel [.RKVDEC_MODE_VP9] .RKVDEC_REG_SYSCTRL ctx
  let bit_depth := dec_params.bit_depth
  let aligned_height := round_up ctx.decoded_fmt_height 64
  let aligned_pitch := round_up (u32 (ctx.decoded_fmt_width * bit_depth)) 512 / 8
  let y_len := u32 (aligned_height * aligned_pitch)
  let uv_len := y_len / 2
  let yuv_len := u32 (y_len + uv_len)
  let ctx := writel [.RKVDEC_Y_HOR_VIRSTRIDE (aligned_pitch / 16),
    .RKVDEC_UV_HOR_VIRSTRIDE (aligned_pitch / 16)] .RKVDEC_REG_PICPAR ctx
  let ctx := writel [.RKVDEC_Y_VIRSTRIDE (y_len / 16)] .RKVDEC_REG_Y_VIRSTRIDE ctx
  let ctx := writel [.RKVDEC_YUV_VIRSTRIDE (yuv_len / 16)] .RKVDEC_REG_YUV_VIRSTRIDE ctx
  let stream_len := u32 run.src_payload
  let ctx := writel [.RKVDEC_STRM_LEN stream_len] .RKVDEC_REG_STRM_LEN ctx
  let ctx :=
    if intra_only then
      { ctx with priv := { ctx.priv with count_tbl :=
          { ctx.priv.count_tbl with
              cpu := memset ctx.priv.count_tbl.cpu 0 0 ctx.priv.count_tbl.size } } }
    else ctx
  let ctx := { ctx with priv := { ctx.priv with cur :=
    { ctx.priv.cur with segmapid := ctx.priv.last.segmapid } } }
  let ctx :=
    if intra_only = false ∧ ¬ (dec_params.flags &&& K.FRAME_FLAG_ERROR_RESILIENT ≠ 0) ∧
        (¬ (seg.flags &&& K.SEGMENTATION_FLAG_ENABLED ≠ 0) ∨
          seg.flags &&& K.SEGMENTATION_FLAG_UPDATE_MAP ≠ 0) then
      { ctx with priv := { ctx.priv with cur :=
        { ctx.priv.cur with segmapid := (ctx.priv.cur.segmapid + 1) % 2 } } }
    else ctx
  let ctx := forLoop K.REF_ID_CNT (fun i ctx => config_ref_registers ctx run ref_bufs i) ctx
  let ctx := forLoop 8 (fun i ctx => config_seg_registers K ctx i) ctx
  let ctx := writel [.RKVDEC_VP9_TX_MODE dec_params.tx_mode,
    .RKVDEC_VP9_FRAME_REF_MODE dec_params.reference_mode] .RKVDEC_VP9_CPRHEADER_CONFIG ctx
  let last_frame_info : List RegField := []
  let (ctx, last_frame_info) :=
    if intra_only = false then
      let lf := if ctx.priv.last.valid ≠ 0 then ctx.priv.last.lf else ctx.priv.cur.lf
      let val : List RegField := []
      let val := forLoop 4 (fun i val =>
        let delta := lf.ref_deltas i
        val ++ [.RKVDEC_REF_DELTAS_LASTFRAME i delta]) val
      let ctx := writel val .RKVDEC_VP9_REF_DELTAS_LASTFRAME ctx
      let last_frame_info := forLoop 2 (fun i last_frame_info =>
        let delta := lf.mode_deltas i
        last_frame_info ++ [.RKVDEC_MODE_DELTAS_LASTFRAME i delta]) last_frame_info
      (ctx, last_frame_info)
    else (ctx, last_frame_info)
  let last_frame_info :=
    if ctx.priv.last.valid ≠ 0 ∧ intra_only = false ∧
        ctx.priv.last.seg.flags &&& K.SEGMENTATION_FLAG_ENABLED ≠ 0 then
      last_frame_info ++ [.RKVDEC_SEG_EN_LASTFRAME]
    else last_frame_info
  let last_frame_info :=
    if ctx.priv.last.valid ≠ 0 ∧ ctx.priv.last.flags &&& K.FRAME_FLAG_SHOW_FRAME ≠ 0 then
      last_frame_info ++ [.RKVDEC_LAST_SHOW_FRAME]
    else last_frame_info
  let last_frame_info :=
    if ctx.priv.last.valid ≠ 0 ∧
        ctx.priv.last.flags &&& (K.FRAME_FLAG_KEY_FRAME ||| K.FRAME_FLAG_INTRA_ONLY) ≠ 0 then
      last_frame_info ++ [.RKVDEC_LAST_INTRA_ONLY]
    else last_frame_info
  let last_frame_info :=
    if ctx.priv.last.valid ≠ 0 ∧ (buf_at ctx last).vp9_width = (buf_at ctx dst).vp9_width ∧
        (buf_at ctx last).vp9_height = (buf_at ctx dst).vp9_height then
      last_frame_info ++ [.RKVDEC_LAST_WIDHHEIGHT_EQCUR]
    else last_frame_info
  let ctx := writel last_frame_info .RKVDEC_VP9_INFO_LASTFRAME ctx
  let ctx := writel
    [.value (sub32 (sub32 stream_len dec_params.compressed_header_size)
      dec_params.uncompressed_header_size)] .RKVDEC_VP9_LASTTILE_SIZE ctx
  let ctx := forLoop (if intra_only = false then K.REF_ID_CNT else 0) (fun i ctx =>
    let refw := (buf_at ctx (ref_bufs i)).vp9_width
    let refh := (buf_at ctx (ref_bufs i)).vp9_height
    let hscale := u32 (refw * 2 ^ 14) / (buf_at ctx dst).vp9_width
    let vscale := u32 (refh * 2 ^ 14) / (buf_at ctx dst).vp9_height
    writel [.RKVDEC_VP9_REF_HOR_SCALE hscale, .RKVDEC_VP9_REF_VER_SCALE vscale]
      (.RKVDEC_VP9_REF_SCALE i) ctx) ctx
  let addr := (buf_at ctx dst).dma
  let ctx := writel [.value (u32 addr)] .RKVDEC_REG_DECOUT_BASE ctx
  let addr := run.src_dma
  let ctx := writel [.value (u32 addr)] .RKVDEC_REG_STRM_RLC_BASE ctx
  let ctx := writel [.value (u32 (ctx.priv.priv_tbl.dma + 0))] .RKVDEC_REG_CABACTBL_PROB_BASE ctx
  let ctx := writel [.value (u32 ctx.priv.count_tbl.dma)] .RKVDEC_REG_VP9COUNT_BASE ctx
  let ctx := writel
    [.value (u32 (ctx.priv.priv_tbl.dma + offsetof_segmap +
      RKVDEC_VP9_MAX_SEGMAP_SIZE * ctx.priv.cur.segmapid))] .RKVDEC_REG_VP9_SEGIDCUR_BASE ctx
  let ctx := writel
    [.value (u32 (ctx.priv.priv_tbl.dma + offsetof_segmap +
      RKVDEC_VP9_MAX_SEGMAP_SIZE * (if ctx.priv.cur.segmapid = 0 then 1 else 0)))]
    .RKVDEC_REG_VP9_SEGIDLAST_BASE ctx
  let mv_ref :=
    if intra_only = false ∧ ¬ (dec_params.flags &&& K.FRAME_FLAG_ERROR_RESILIENT ≠ 0) ∧
        ctx.priv.last.valid ≠ 0 then last
    else dst
  let ctx := writel [.value (u32 (get_mv_base_addr (buf_at ctx mv_ref)))]
    .RKVDEC_VP9_REF_COLMV_BASE ctx
  writel [.value (u32 (ctx.decoded_fmt_width ||| u32 (ctx.decoded_fmt_height * 2 ^ 16)))]
    .RKVDEC_REG_PERFORMANCE_CYCLE ctx

/-- The function `validate_dec_params(ctx, dec_params)`. -/
def validate_dec_params (K : Uapi) (ctx : rkvdec_ctx)
    (dec_params : v4l2_ctrl_vp9_frame_decode_params) : Int :=
  if dec_params.profile ≠ 0 then -K.EINVAL
  else
    let width := u32 (dec_params.frame_width_minus_1 + 1)
    let height := u32 (dec_params.frame_height_minus_1 + 1)
    if width ≠ ctx.decoded_fmt_width ∨ height ≠ ctx.decoded_fmt_height then -K.EINVAL
    else 0

/-- The function `rkvdec_vp9_run_preamble(ctx, run)`: the return value, the
context and the job description it leaves.  The framework call
`rkvdec_run_preamble` hands over the next source and destination buffers.  The
value of `validate_dec_params` is stored in the local `ret`, which is not read
afterwards. -/
def rkvdec_vp9_run_preamble (K : Uapi) (ctx : rkvdec_ctx) : Int × rkvdec_ctx × struct_rkvdec_vp9_run :=
  let run : struct_rkvdec_vp9_run :=
    { src_payload := ctx.next_src_payload, src_dma := ctx.next_src_dma, dst := ctx.next_dst,
      decode_params := none }
  match ctx.ctrl_decode_params with
  | none => (-K.EINVAL, ctx, run)
  | some dec_params =>
    let _ret := validate_dec_params K ctx dec_params
    let run := { run with decode_params := some dec_params }
    if ¬ (dec_params.flags &&& K.FRAME_FLAG_REFRESH_FRAME_CTX ≠ 0) then (0, ctx, run)
    else if dec_params.flags &&& K.FRAME_FLAG_PARALLEL_DEC_MODE ≠ 0 then
      (0, { ctx with priv := { ctx.priv with frame_context :=
              { ctx.priv.frame_context with probs := dec_params.probs } } }, run)
    else
      let frm_ctx := dec_params.frame_context_idx % 2 ^ 8
      match frame_context_get ctx frm_ctx with
      | none => (0, ctx, run)
      | some fctx =>
        let ctx := { ctx with priv := { ctx.priv with frame_context := fctx } }
        if dec_params.flags &&& (K.FRAME_FLAG_KEY_FRAME ||| K.FRAME_FLAG_INTRA_ONLY) ≠ 0 then
          let probs := ctx.priv.frame_context.probs
          let probs : v4l2_vp9_probabilities := ⟨fun x =>
            match x with
            | .skip _ => dec_params.probs x
            | _ => probs x⟩
          let probs : v4l2_vp9_probabilities := ⟨fun x =>
            match x with
            | .tx8 _ _ => dec_params.probs x
            | _ => probs x⟩
          let probs : v4l2_vp9_probabilities := ⟨fun x =>
            match x with
            | .tx16 _ _ => dec_params.probs x
            | _ => probs x⟩
          let probs : v4l2_vp9_probabilities := ⟨fun x =>
            match x with
            | .tx32 _ _ => dec_params.probs x
            | _ => probs x⟩
          (0, { ctx with priv := { ctx.priv with frame_context := { probs := probs } } }, run)
        else (0, ctx, run)

/-- The function `rkvdec_vp9_run(ctx)`: the return value and the context it
leaves.  Arming the watchdog is outside the model. -/
def rkvdec_vp9_run (K : Uapi) (ctx : rkvdec_ctx) : Int × rkvdec_ctx :=
  let (ret, ctx, run) := rkvdec_vp9_run_preamble K ctx
  if ret ≠ 0 then (ret, ctx)
  else
    match run.decode_params with
    | none => (ret, ctx)
    | some dec_params =>
      let ctx := { ctx with priv := { ctx.priv with priv_tbl :=
        { ctx.priv.priv_tbl with cpu := init_probs K ctx.priv.priv_tbl.cpu dec_params } } }
      let ctx := config_registers K ctx run dec_params
      let ctx := writel [.value 1] .RKVDEC_REG_PREF_LUMA_CACHE_COMMAND ctx
      let ctx := writel [.value 1] .RKVDEC_REG_PREF_CHR_CACHE_COMMAND ctx
      let ctx := writel [.value 0xe] .RKVDEC_REG_STRMD_ERR_EN ctx
      let ctx := writel [.RKVDEC_INTERRUPT_DEC_E, .RKVDEC_CONFIG_DEC_CLK_GATE_E,
        .RKVDEC_TIMEOUT_E, .RKVDEC_BUF_EMPTY_E] .RKVDEC_REG_INTERRUPT ctx
      (0, ctx)

/-- The function `rkvdec_vp9_done(ctx, src_buf, dst_buf, result)`.  The
statement `fctx = ctrl->p_cur.p` reads through the not yet assigned `ctrl` into
a local that is never used; it has no counterpart in the model. -/
def rkvdec_vp9_done (K : Uapi) (ctx : rkvdec_ctx) (result : vb2_buffer_state) : rkvdec_ctx :=
  if result = .VB2_BUF_STATE_ERROR then
    { ctx with priv := update_ctx_last_info ctx.priv }
  else if ¬ (ctx.priv.cur.flags &&& K.FRAME_FLAG_REFRESH_FRAME_CTX ≠ 0) then
    { ctx with priv := update_ctx_last_info ctx.priv }
  else
    let fctx_idx := ctx.priv.cur.frame_context_idx
    let ctx :=
      if ¬ (ctx.priv.cur.flags &&&
          (K.FRAME_FLAG_ERROR_RESILIENT ||| K.FRAME_FLAG_PARALLEL_DEC_MODE) ≠ 0) then
        { ctx with priv := adapt_probs K ctx.priv }
      else ctx
    match frame_context_get ctx fctx_idx with
    | none => { ctx with priv := update_ctx_last_info ctx.priv }
    | some _ =>
      let ctx := frame_context_set ctx fctx_idx ctx.priv.frame_context
      { ctx with priv := update_ctx_last_info ctx.priv }

/-- Modelled from the spec: the hardware run between `run` and `done`, which is
outside the source set ("[hardware runs, opaque] → symbol counts (from
hardware, read back into memory)"): the engine leaves the bytes `counts` in the
count buffer. -/
def hw_decode (ctx : rkvdec_ctx) (counts : Nat → Nat) : rkvdec_ctx :=
  { ctx with priv := { ctx.priv with count_tbl := { ctx.priv.count_tbl with cpu := counts } } }

/-- The size of `struct rkvdec_vp9_priv_tbl`: the probability structure and the
two segmentation maps. -/
def sizeof_rkvdec_vp9_priv_tbl : Nat := sizeof_rkvdec_vp9_probs + 2 * RKVDEC_VP9_MAX_SEGMAP_SIZE

/-- A `struct rkvdec_vp9_ctx` with every byte zero, as `kzalloc` returns it. -/
def zeroed_vp9_ctx : rkvdec_vp9_ctx :=
  let seg : v4l2_vp9_segmentation :=
    { flags := 0, tree_probs := fun _ => 0, pred_probs := fun _ => 0,
      feature_enabled := fun _ => 0, feature_data := fun _ _ => 0 }
  let lf : v4l2_vp9_loop_filter := { ref_deltas := fun _ => 0, mode_deltas := fun _ => 0 }
  let info : rkvdec_vp9_frame_info :=
    { valid := 0, segmapid := 0, frame_context_idx := 0, reference_mode := 0, tx_mode := 0,
      interpolation_filter := 0, flags := 0, timestamp := 0, seg := seg, lf := lf }
  { priv_tbl := { cpu := fun _ => 0, dma := 0, size := 0 },
    count_tbl := { cpu := fun _ => 0, dma := 0, size := 0 },
    frame_context := { probs := ⟨fun _ => 0⟩ },
    cur := info,
    last := info }

/-- The function `rkvdec_vp9_start(ctx)`: the return value and the session it
leaves.  The allocators are outside the source set: `kzalloc_ok` tells whether
`kzalloc` succeeds, and `priv_alloc` and `count_alloc` are what the two calls of
`dma_alloc_coherent` return, `none` for a failure and otherwise the bytes the
fresh buffer holds and its bus address.  On a failure the private context is
freed; the model leaves it as it was at that point. -/
def rkvdec_vp9_start (K : Uapi) (ctx : rkvdec_ctx) (kzalloc_ok : Bool)
    (priv_alloc count_alloc : Option ((Nat → Nat) × Nat)) : Int × rkvdec_ctx :=
  if kzalloc_ok = false then (-K.ENOMEM, ctx)
  else
    let vp9_ctx := zeroed_vp9_ctx
    let ctx := { ctx with priv := vp9_ctx }
    match priv_alloc with
    | none => (-K.ENOMEM, ctx)
    | some (priv_tbl, priv_dma) =>
      let ctx := { ctx with priv := { ctx.priv with priv_tbl :=
        { cpu := memset priv_tbl 0 0 sizeof_rkvdec_vp9_priv_tbl, dma := priv_dma,
          size := sizeof_rkvdec_vp9_priv_tbl } } }
      match count_alloc with
      | none => (-K.ENOMEM, ctx)
      | some (count_tbl, count_dma) =>
        let ctx := { ctx with priv := { ctx.priv with count_tbl :=
          { cpu := memset count_tbl 0 0 1, dma := count_dma,
            size := RKVDEC_VP9_COUNT_SIZE } } }
        (0, ctx)

/-- The value last written to the register `reg` in a trace of register writes:
the register image the engine sees. -/
def reg_image (regs : List (Reg × List RegField)) (reg : Reg) : Option (List RegField) :=
  regs.foldl (fun acc w => if w.1 = reg then some w.2 else acc) none

/-- The sessions a decode session can be in: the one `rkvdec_vp9_start` leaves
when its three allocations succeed, and those reached from it by `rkvdec_vp9_run`, by
the hardware run, by `rkvdec_vp9_done`, and by the collaborators, which change
anything but the private VP9 context (controls, buffers, negotiated format). -/
inductive Reachable (K : Uapi) : rkvdec_ctx → Prop where
  | start (ctx : rkvdec_ctx) (priv_alloc count_alloc : (Nat → Nat) × Nat) :
      Reachable K (rkvdec_vp9_start K ctx true (some priv_alloc) (some count_alloc)).2
  | run (ctx : rkvdec_ctx) (h : Reachable K ctx) : Reachable K (rkvdec_vp9_run K ctx).2
  | hw (ctx : rkvdec_ctx) (counts : Nat → Nat) (h : Reachable K ctx) :
      Reachable K (hw_decode ctx counts)
  | done (ctx : rkvdec_ctx) (result : vb2_buffer_state) (h : Reachable K ctx) :
      Reachable K (rkvdec_vp9_done K ctx result)
  | env (ctx ctx' : rkvdec_ctx) (h : Reachable K ctx) (hp : ctx'.priv = ctx.priv) :
      Reachable K ctx'

/-- The statements of `config_registers` up to the update of `cur.segmapid`:
the destination buffer and the current frame info are filled from the decode
parameters, the mode, stride and stream-length registers are written, the count
buffer is reset for an intra-only frame and the segmentation map slot is
chosen. -/
def config_registers_begin (K : Uapi) (ctx : rkvdec_ctx) (run : struct_rkvdec_vp9_run)
    (dec_params : v4l2_ctrl_vp9_frame_decode_params) : rkvdec_ctx :=
  let dst := run.dst
  let ctx := update_dec_buf_info ctx dst dec_params
  let ctx := { ctx with priv := update_ctx_cur_info ctx.priv (buf_at ctx dst) dec_params }
  let seg := dec_params.seg
  let intra_only : Bool :=
    decide (dec_params.flags &&& (K.FRAME_FLAG_KEY_FRAME ||| K.FRAME_FLAG_INTRA_ONLY) ≠ 0)
  let ctx := writel [.RKVDEC_MODE_VP9] .RKVDEC_REG_SYSCTRL ctx
  let bit_depth := dec_params.bit_depth
  let aligned_height := round_up ctx.decoded_fmt_height 64
  let aligned_pitch := round_up (u32 (ctx.decoded_fmt_width * bit_depth)) 512 / 8
  let y_len := u32 (aligned_height * aligned_pitch)
  let uv_len := y_len / 2
  let yuv_len := u32 (y_len + uv_len)
  let ctx := writel [.RKVDEC_Y_HOR_VIRSTRIDE (aligned_pitch / 16),
    .RKVDEC_UV_HOR_VIRSTRIDE (aligned_pitch / 16)] .RKVDEC_REG_PICPAR ctx
  let ctx := writel [.RKVDEC_Y_VIRSTRIDE (y_len / 16)] .RKVDEC_REG_Y_VIRSTRIDE ctx
  let ctx := writel [.RKVDEC_YUV_VIRSTRIDE (yuv_len / 16)] .RKVDEC_REG_YUV_VIRSTRIDE ctx
  let stream_len := u32 run.src_payload
  let ctx := writel [.RKVDEC_STRM_LEN stream_len] .RKVDEC_REG_STRM_LEN ctx
  let ctx :=
    if intra_only then
      { ctx with priv := { ctx.priv with count_tbl :=
          { ctx.priv.count_tbl with
              cpu := memset ctx.priv.count_tbl.cpu 0 0 ctx.priv.count_tbl.size } } }
    else ctx
  let ctx := { ctx with priv := { ctx.priv with cur :=
    { ctx.priv.cur with segmapid := ctx.priv.last.segmapid } } }
  if intra_only = false ∧ ¬ (dec_params.flags &&& K.FRAME_FLAG_ERROR_RESILIENT ≠ 0) ∧
      (¬ (seg.flags &&& K.SEGMENTATION_FLAG_ENABLED ≠ 0) ∨
        seg.flags &&& K.SEGMENTATION_FLAG_UPDATE_MAP ≠ 0) then
    { ctx with priv := { ctx.priv with cur :=
      { ctx.priv.cur with segmapid := (ctx.priv.cur.segmapid + 1) % 2 } } }
  else ctx

/-- The statements of `config_registers` that follow, up to the write of the
compressed-header configuration: the registers of the reference slots and of
the 8 segments. -/
def config_registers_refs (K : Uapi) (ctx : rkvdec_ctx) (run : struct_rkvdec_vp9_run)
    (dec_params : v4l2_ctrl_vp9_frame_decode_params) (ref_bufs : Nat → Nat) : rkvdec_ctx :=
  let ctx := forLoop K.REF_ID_CNT (fun i ctx => config_ref_registers ctx run ref_bufs i) ctx
  let ctx := forLoop 8 (fun i ctx => config_seg_registers K ctx i) ctx
  writel [.RKVDEC_VP9_TX_MODE dec_params.tx_mode,
    .RKVDEC_VP9_FRAME_REF_MODE dec_params.reference_mode] .RKVDEC_VP9_CPRHEADER_CONFIG ctx

/-- The block `if (!intra_only) { ... }` of `config_registers`: the reference
deltas are written and the mode deltas start the last-frame-info word, both
taken from the last frame info when it is valid and from the current one
otherwise. -/
def config_registers_lf (K : Uapi) (ctx : rkvdec_ctx)
    (dec_params : v4l2_ctrl_vp9_frame_decode_params) : rkvdec_ctx × List RegField :=
  let intra_only : Bool :=
    decide (dec_params.flags &&& (K.FRAME_FLAG_KEY_FRAME ||| K.FRAME_FLAG_INTRA_ONLY) ≠ 0)
  let last_frame_info : List RegField := []
  if intra_only = false then
    let lf := if ctx.priv.last.valid ≠ 0 then ctx.priv.last.lf else ctx.priv.cur.lf
    let val : List RegField := []
    let val := forLoop 4 (fun i val =>
      let delta := lf.ref_deltas i
      val ++ [.RKVDEC_REF_DELTAS_LASTFRAME i delta]) val
    let ctx := writel val .RKVDEC_VP9_REF_DELTAS_LASTFRAME ctx
    let last_frame_info := forLoop 2 (fun i last_frame_info =>
      let delta := lf.mode_deltas i
      last_frame_info ++ [.RKVDEC_MODE_DELTAS_LASTFRAME i delta]) last_frame_info
    (ctx, last_frame_info)
  else (ctx, last_frame_info)

/-- The statements of `config_registers` that complete the last-frame-info
word, started as `last_frame_info`, with the four flags of the last frame and
write it; `last` and `dst` designate the buffer of the last frame and the
destination buffer. -/
def config_registers_last_info (K : Uapi) (ctx : rkvdec_ctx)
    (dec_params : v4l2_ctrl_vp9_frame_decode_params) (last dst : Nat)
    (last_frame_info : List RegField) : rkvdec_ctx :=
  let intra_only : Bool :=
    decide (dec_params.flags &&& (K.FRAME_FLAG_KEY_FRAME ||| K.FRAME_FLAG_INTRA_ONLY) ≠ 0)
  let last_frame_info :=
    if ctx.priv.last.valid ≠ 0 ∧ intra_only = false ∧
        ctx.priv.last.seg.flags &&& K.SEGMENTATION_FLAG_ENABLED ≠ 0 then
      last_frame_info ++ [.RKVDEC_SEG_EN_LASTFRAME]
    else last_frame_info
  let last_frame_info :=
    if ctx.priv.last.valid ≠ 0 ∧ ctx.priv.last.flags &&& K.FRAME_FLAG_SHOW_FRAME ≠ 0 then
      last_frame_info ++ [.RKVDEC_LAST_SHOW_FRAME]
    else last_frame_info
  let last_frame_info :=
    if ctx.priv.last.valid ≠ 0 ∧
        ctx.priv.last.flags &&& (K.FRAME_FLAG_KEY_FRAME ||| K.FRAME_FLAG_INTRA_ONLY) ≠ 0 then
      last_frame_info ++ [.RKVDEC_LAST_INTRA_ONLY]
    else last_frame_info
  let last_frame_info :=
    if ctx.priv.last.valid ≠ 0 ∧ (buf_at ctx last).vp9_width = (buf_at ctx dst).vp9_width ∧
        (buf_at ctx last).vp9_height = (buf_at ctx dst).vp9_height then
      last_frame_info ++ [.RKVDEC_LAST_WIDHHEIGHT_EQCUR]
    else last_frame_info
  writel last_frame_info .RKVDEC_VP9_INFO_LASTFRAME ctx

/-- The statements of `config_registers` that write the size of the last tile
and, for a frame that is not intra-only, the scale factors of the reference
slots. -/
def config_registers_scale (K : Uapi) (ctx : rkvdec_ctx) (run : struct_rkvdec_vp9_run)
    (dec_params : v4l2_ctrl_vp9_frame_decode_params) (ref_bufs : Nat → Nat) : rkvdec_ctx :=
  let dst := run.dst
  let intra_only : Bool :=
    decide (dec_params.flags &&& (K.FRAME_FLAG_KEY_FRAME ||| K.FRAME_FLAG_INTRA_ONLY) ≠ 0)
  let stream_len := u32 run.src_payload
  let ctx := writel
    [.value (sub32 (sub32 stream_len dec_params.compressed_header_size)
      dec_params.uncompressed_header_size)] .RKVDEC_VP9_LASTTILE_SIZE ctx
  forLoop (if intra_only = false then K.REF_ID_CNT else 0) (fun i ctx =>
    let refw := (buf_at ctx (ref_bufs i)).vp9_width
    let refh := (buf_at ctx (ref_bufs i)).vp9_height
    let hscale := u32 (refw * 2 ^ 14) / (buf_at ctx dst).vp9_width
    let vscale := u32 (refh * 2 ^ 14) / (buf_at ctx dst).vp9_height
    writel [.RKVDEC_VP9_REF_HOR_SCALE hscale, .RKVDEC_VP9_REF_VER_SCALE vscale]
      (.RKVDEC_VP9_REF_SCALE i) ctx) ctx

/-- The last statements of `config_registers`: the base addresses, the
motion-vector reference and the performance-cycle register. -/
def config_registers_end (K : Uapi) (ctx : rkvdec_ctx) (run : struct_rkvdec_vp9_run)
    (dec_params : v4l2_ctrl_vp9_frame_decode_params) (last : Nat) : rkvdec_ctx :=
  let dst := run.dst
  let intra_only : Bool :=
    decide (dec_params.flags &&& (K.FRAME_FLAG_KEY_FRAME ||| K.FRAME_FLAG_INTRA_ONLY) ≠ 0)
  let addr := (buf_at ctx dst).dma
  let ctx := writel [.value (u32 addr)] .RKVDEC_REG_DECOUT_BASE ctx
  let addr := run.src_dma
  let ctx := writel [.value (u32 addr)] .RKVDEC_REG_STRM_RLC_BASE ctx
  let ctx := writel [.value (u32 (ctx.priv.priv_tbl.dma + 0))] .RKVDEC_REG_CABACTBL_PROB_BASE ctx
  let ctx := writel [.value (u32 ctx.priv.count_tbl.dma)] .RKVDEC_REG_VP9COUNT_BASE ctx
  let ctx := writel
    [.value (u32 (ctx.priv.priv_tbl.dma + offsetof_segmap +
      RKVDEC_VP9_MAX_SEGMAP_SIZE * ctx.priv.cur.segmapid))] .RKVDEC_REG_VP9_SEGIDCUR_BASE ctx
  let ctx := writel
    [.value (u32 (ctx.priv.priv_tbl.dma + offsetof_segmap +
      RKVDEC_VP9_MAX_SEGMAP_SIZE * (if ctx.priv.cur.segmapid = 0 then 1 else 0)))]
    .RKVDEC_REG_VP9_SEGIDLAST_BASE ctx
  let mv_ref :=
    if intra_only = false ∧ ¬ (dec_params.flags &&& K.FRAME_FLAG_ERROR_RESILIENT ≠ 0) ∧
        ctx.priv.last.valid ≠ 0 then last
    else dst
  let ctx := writel [.value (u32 (get_mv_base_addr (buf_at ctx mv_ref)))]
    .RKVDEC_VP9_REF_COLMV_BASE ctx
  writel [.value (u32 (ctx.decoded_fmt_width ||| u32 (ctx.decoded_fmt_height * 2 ^ 16)))]
    .RKVDEC_REG_PERFORMANCE_CYCLE ctx

/-- The register is one of those `ref_config[]` names: a frame-size, stride or
base register of a reference slot. -/
def Reg.isRefReg : Reg → Bool
  | .RKVDEC_REG_VP9_FRAME_SIZE _ => true
  | .RKVDEC_VP9_HOR_VIRSTRIDE _ => true
  | .RKVDEC_VP9_LAST_FRAME_YSTRIDE => true
  | .RKVDEC_VP9_GOLDEN_FRAME_YSTRIDE => true
  | .RKVDEC_VP9_ALTREF_FRAME_YSTRIDE => true
  | .RKVDEC_VP9_LAST_FRAME_YUVSTRIDE => true
  | .RKVDEC_REG_VP9_LAST_FRAME_BASE => true
  | .RKVDEC_REG_VP9_GOLDEN_FRAME_BASE => true
  | .RKVDEC_REG_VP9_ALTREF_FRAME_BASE => true
  | _ => false

/-- The buffer of the last frame as `config_registers` resolves it on entry:
the buffer with the timestamp of the last frame info when that is valid, else
the destination buffer. -/
def config_registers_last (ctx : rkvdec_ctx) (run : struct_rkvdec_vp9_run) : Nat :=
  if ctx.priv.last.valid ≠ 0 then get_ref_buf ctx run.dst ctx.priv.last.timestamp else run.dst

/-- The session and the start of the last-frame-info word when
`config_registers` has run up to the end of its block `if (!intra_only)`. -/
def config_registers_upto_lf (K : Uapi) (ctx : rkvdec_ctx) (run : struct_rkvdec_vp9_run)
    (dec_params : v4l2_ctrl_vp9_frame_decode_params) : rkvdec_ctx × List RegField :=
  config_registers_lf K
    (config_registers_refs K (config_registers_begin K ctx run dec_params) run dec_params
      (fun i => get_ref_buf ctx run.dst (dec_params.refs i)))
    dec_params

/-- The session when `config_registers` has written the last-frame-info
word. -/
def config_registers_upto_info (K : Uapi) (ctx : rkvdec_ctx) (run : struct_rkvdec_vp9_run)
    (dec_params : v4l2_ctrl_vp9_frame_decode_params) : rkvdec_ctx :=
  config_registers_last_info K (config_registers_upto_lf K ctx run dec_params).1 dec_params
    (config_registers_last ctx run) run.dst (config_registers_upto_lf K ctx run dec_params).2

/-- The session when `config_registers` has written the scale factors. -/
def config_registers_upto_scale (K : Uapi) (ctx : rkvdec_ctx) (run : struct_rkvdec_vp9_run)
    (dec_params : v4l2_ctrl_vp9_frame_decode_params) : rkvdec_ctx :=
  config_registers_scale K (config_registers_upto_info K ctx run dec_params) run dec_params
    (fun i => get_ref_buf ctx run.dst (dec_params.refs i))

/-- The part of `rkvdec_vp9_run` that writes a register: 0 for the mode,
stride and stream-length registers at the head of `config_registers`, 1 for
the registers of the reference slots and of the segments and the
compressed-header configuration, 2 for the reference deltas, 3 for the
last-frame-info word, 4 for the size of the last tile and the scale factors, 5
for the base addresses and the performance-cycle register at its end, and 6 for
the registers `rkvdec_vp9_run` writes itself. -/
def Reg.stage : Reg → Nat
  | .RKVDEC_REG_SYSCTRL => 0
  | .RKVDEC_REG_PICPAR => 0
  | .RKVDEC_REG_Y_VIRSTRIDE => 0
  | .RKVDEC_REG_YUV_VIRSTRIDE => 0
  | .RKVDEC_REG_STRM_LEN => 0
  | .RKVDEC_REG_VP9_FRAME_SIZE _ => 1
  | .RKVDEC_VP9_HOR_VIRSTRIDE _ => 1
  | .RKVDEC_VP9_LAST_FRAME_YSTRIDE => 1
  | .RKVDEC_VP9_GOLDEN_FRAME_YSTRIDE => 1
  | .RKVDEC_VP9_ALTREF_FRAME_YSTRIDE => 1
  | .RKVDEC_VP9_LAST_FRAME_YUVSTRIDE => 1
  | .RKVDEC_REG_VP9_LAST_FRAME_BASE => 1
  | .RKVDEC_REG_VP9_GOLDEN_FRAME_BASE => 1
  | .RKVDEC_REG_VP9_ALTREF_FRAME_BASE => 1
  | .RKVDEC_VP9_SEGID_GRP _ => 1
  | .RKVDEC_VP9_CPRHEADER_CONFIG => 1
  | .RKVDEC_VP9_REF_DELTAS_LASTFRAME => 2
  | .RKVDEC_VP9_INFO_LASTFRAME => 3
  | .RKVDEC_VP9_LASTTILE_SIZE => 4
  | .RKVDEC_VP9_REF_SCALE _ => 4
  | .RKVDEC_REG_DECOUT_BASE => 5
  | .RKVDEC_REG_STRM_RLC_BASE => 5
  | .RKVDEC_REG_CABACTBL_PROB_BASE => 5
  | .RKVDEC_REG_VP9COUNT_BASE => 5
  | .RKVDEC_REG_VP9_SEGIDCUR_BASE => 5
  | .RKVDEC_REG_VP9_SEGIDLAST_BASE => 5
  | .RKVDEC_VP9_REF_COLMV_BASE => 5
  | .RKVDEC_REG_PERFORMANCE_CYCLE => 5
  | .RKVDEC_REG_PREF_LUMA_CACHE_COMMAND => 6
  | .RKVDEC_REG_PREF_CHR_CACHE_COMMAND => 6
  | .RKVDEC_REG_STRMD_ERR_EN => 6
  | .RKVDEC_REG_INTERRUPT => 6

/-- The local `aligned_pitch` of `config_registers`, `config_ref_registers` and
`get_mv_base_addr`: the bytes of a line of `width` samples of `bit_depth` bits,
the line being rounded up to 512 bits. -/
def aligned_pitch (width bit_depth : Nat) : Nat := round_up (u32 (width * bit_depth)) 512 / 8

/-- The local `aligned_height` of the same three functions. -/
def aligned_height (height : Nat) : Nat := round_up height 64

/-- The local `y_len` of `config_registers` and `config_ref_registers`, the
product `aligned_height * aligned_pitch` of `get_mv_base_addr`. -/
def y_len (width height bit_depth : Nat) : Nat :=
  u32 (aligned_height height * aligned_pitch width bit_depth)

/-- The local `yuv_len` of `config_registers`: `y_len + uv_len` with
`uv_len = y_len / 2`. -/
def yuv_len (width height bit_depth : Nat) : Nat :=
  u32 (y_len width height bit_depth + y_len width height bit_depth / 2)

/-- The local `yuv_len` of `config_ref_registers` and `get_mv_base_addr`:
`(y_len * 3) / 2`. -/
def ref_yuv_len (width height bit_depth : Nat) : Nat :=
  u32 (y_len width height bit_depth * 3) / 2

/-- The members of `struct v4l2_pix_format_mplane` that
`rkvdec_vp9_adjust_fmt` reads and writes.  The structure is declared in a
header outside this source file, where `width`, `height` and the `sizeimage`
of a plane are unsigned 32-bit members; `plane_fmt_sizeimage p` is
`plane_fmt[p].sizeimage`. -/
structure v4l2_pix_format_mplane where
  width : Nat
  height : Nat
  num_planes : Nat
  plane_fmt_sizeimage : Nat → Nat

/-- The function `rkvdec_vp9_adjust_fmt(ctx, f)`: the return value and the
format `f->fmt.pix_mp` it leaves. -/
def rkvdec_vp9_adjust_fmt (_ctx : rkvdec_ctx) (fmt : v4l2_pix_format_mplane) :
    Int × v4l2_pix_format_mplane :=
  let fmt : v4l2_pix_format_mplane := { fmt with num_planes := 1 }
  let sizeimage : Nat := u32 (u32 (fmt.width * fmt.height) * 2)
  let fmt : v4l2_pix_format_mplane :=
    { fmt with plane_fmt_sizeimage := poke fmt.plane_fmt_sizeimage 0 sizeimage }
  (0, fmt)

/-- A probability model with every element equal to `v`. -/
def sample_probs (v : Nat) : v4l2_vp9_probabilities := ⟨fun _ => v⟩

/-- Segmentation parameters with segmentation disabled. -/
def sample_seg : v4l2_vp9_segmentation where
  flags := 0
  tree_probs := fun _ => 255
  pred_probs := fun _ => 255
  feature_enabled := fun _ => 0
  feature_data := fun _ _ => 0

/-- Loop-filter parameters with all deltas zero. -/
def sample_lf : v4l2_vp9_loop_filter where
  ref_deltas := fun _ => 0
  mode_deltas := fun _ => 0

/-- Decode parameters of a 64x64, 8-bit frame that uses frame context 1, with
the given flags and profile. -/
def sample_dec_params (flags profile : Nat) : v4l2_ctrl_vp9_frame_decode_params where
  flags := flags
  compressed_header_size := 10
  uncompressed_header_size := 20
  profile := profile
  frame_context_idx := 1
  bit_depth := 8
  interpolation_filter := 0
  tx_mode := 4
  reference_mode := 0
  frame_width_minus_1 := 63
  frame_height_minus_1 := 63
  refs := fun _ => 7
  lf := sample_lf
  seg := sample_seg
  probs := sample_probs 200

/-- A frame info with every member zero, as after `kzalloc`. -/
def sample_frame_info : rkvdec_vp9_frame_info where
  valid := 0
  segmapid := 0
  frame_context_idx := 0
  reference_mode := 0
  tx_mode := 0
  interpolation_filter := 0
  flags := 0
  timestamp := 0
  seg := sample_seg
  lf := sample_lf

/-- A VP9 context whose current frame has the given flags and uses frame
context 1, with a loaded frame context of all 128 and a count buffer whose
bytes are all `cnt`. -/
def sample_vp9_ctx (flags cnt : Nat) : rkvdec_vp9_ctx where
  priv_tbl := { cpu := fun _ => 0, dma := 0x10000, size := 149877 }
  count_tbl := { cpu := fun _ => cnt, dma := 0x80000, size := RKVDEC_VP9_COUNT_SIZE }
  frame_context := { probs := sample_probs 128 }
  cur := { sample_frame_info with valid := 1, flags := flags, frame_context_idx := 1 }
  last := sample_frame_info

/-- A session with a negotiated 64x64 format, two capture buffers, four frame
context slots holding all 100, and decode parameters with the given flags and
profile. -/
def sample_ctx (flags profile cnt : Nat) : rkvdec_ctx where
  decoded_fmt_width := 64
  decoded_fmt_height := 64
  cap_q := [
    { timestamp := 5, dma := 0x100000, vp9_width := 0, vp9_height := 0, vp9_bit_depth := 0 },
    { timestamp := 6, dma := 0x200000, vp9_width := 0, vp9_height := 0, vp9_bit_depth := 0 }]
  next_src_payload := 1000
  next_src_dma := 0x300000
  next_dst := 0
  ctrl_decode_params := some (sample_dec_params flags profile)
  ctrl_frame_context := fun i => if i < 4 then some { probs := sample_probs 100 } else none
  priv := sample_vp9_ctx flags cnt
  regs := []

/-- The session `c` has the persisted context slots `slots`, the loaded frame
context `fctx`, and a current frame info with the flags `flags` and the context
index `idx`. -/
def HoldsContexts (slots : Nat → Option v4l2_ctrl_vp9_frame_ctx)
    (fctx : v4l2_ctrl_vp9_frame_ctx) (flags idx : Nat) (c : rkvdec_ctx) : Prop :=
  c.ctrl_frame_context = slots ∧ c.priv.frame_context = fctx ∧ c.priv.cur.flags = flags ∧
    c.priv.cur.frame_context_idx = idx

/-- The VP9 context `sample_vp9_ctx flags cnt` after a valid last frame with the
flags `last_flags`. -/
def sample_vp9_ctx_after (flags cnt last_flags : Nat) : rkvdec_vp9_ctx :=
  { sample_vp9_ctx flags cnt with
    last := { sample_frame_info with valid := 1, flags := last_flags } }

/-- Decode parameters with the given flags whose loop-filter mode deltas are
both 3. -/
def sample_dec_params_lf (flags : Nat) : v4l2_ctrl_vp9_frame_decode_params :=
  { sample_dec_params flags 0 with
    lf := { ref_deltas := fun _ => 0, mode_deltas := fun _ => 3 } }

/-- The private VP9 context of the session `c` is `p`. -/
def PrivIs (p : rkvdec_vp9_ctx) (c : rkvdec_ctx) : Prop := c.priv = p

/-- The members of `struct v4l2_vp9_probabilities`. -/
inductive PField where
  | tx8 | tx16 | tx32 | coef | skip | inter_mode | interp_filter | is_inter | comp_mode
  | single_ref | comp_ref | y_mode | uv_mode | partition | mv_joint | mv_sign | mv_class
  | mv_class0_bit | mv_bits | mv_class0_fr | mv_fr | mv_class0_hp | mv_hp
  deriving DecidableEq

/-- The member an element belongs to. -/
def PIdx.field : PIdx → PField
  | .tx8 _ _ => .tx8
  | .tx16 _ _ => .tx16
  | .tx32 _ _ => .tx32
  | .coef _ _ _ _ _ _ => .coef
  | .skip _ => .skip
  | .inter_mode _ _ => .inter_mode
  | .interp_filter _ _ => .interp_filter
  | .is_inter _ => .is_inter
  | .comp_mode _ => .comp_mode
  | .single_ref _ _ => .single_ref
  | .comp_ref _ => .comp_ref
  | .y_mode _ _ => .y_mode
  | .uv_mode _ _ => .uv_mode
  | .partition _ _ => .partition
  | .mv_joint _ => .mv_joint
  | .mv_sign _ => .mv_sign
  | .mv_class _ _ => .mv_class
  | .mv_class0_bit _ => .mv_class0_bit
  | .mv_bits _ _ => .mv_bits
  | .mv_class0_fr _ _ _ => .mv_class0_fr
  | .mv_fr _ _ => .mv_fr
  | .mv_class0_hp _ => .mv_class0_hp
  | .mv_hp _ => .mv_hp

/-- The element `y` of the model `t` holds the value `v`. -/
def ValAt (y : PIdx) (v : Nat) (t : v4l2_vp9_probabilities) : Prop := t y = v

/-- The transformer `F` of the probability model changes element `y` only by
merging counts into it with `adapt_prob` under the pair
`(max_count, update_factor)`: there is a list of branch-count pairs, the same
for every model, such that the new value of `y` is its old value merged with
each pair in turn. -/
def AdaptsWith (max_count update_factor : Nat) (y : PIdx)
    (F : v4l2_vp9_probabilities → v4l2_vp9_probabilities) : Prop :=
  ∃ l : List (Nat × Nat), ∀ t : v4l2_vp9_probabilities,
    F t y = l.foldl (fun p c => adapt_prob p c.1 c.2 max_count update_factor) (t y)

/-- The state of a packing loop after `t` payload bytes, the bytes `val 0`,
..., `val (t - 1)`, were stored from offset `plane` of a buffer that was `buf`
before: payload byte `u` sits at offset `u + 5 * (u / 27)`, every other byte is
as before, and the loop variables are `idx = t + 5 * (t / 27)` and
`byte_count = t % 27`. -/
def PackInv (val : Nat → Nat) (buf : Nat → Nat) (plane t : Nat) (st : PackState) : Prop :=
  st.idx = t + 5 * (t / 27) ∧ st.byte_count = t % 27 ∧
    (∀ u, u < t → st.buf (plane + (u + 5 * (u / 27))) = val u) ∧
    (∀ a, (∀ u, u < t → a ≠ plane + (u + 5 * (u / 27))) → st.buf a = buf a)

/-- Two buffers hold the same bytes at every offset below `n`. -/
def AgreeBelow (n : Nat) (b b' : Nat → Nat) : Prop := ∀ a, a < n → b a = b' a

/-- Two states of a packing loop have the same loop variables and buffers that
agree below `n`. -/
def PackAgree (n : Nat) (st st' : PackState) : Prop :=
  st.idx = st'.idx ∧ st.byte_count = st'.byte_count ∧ AgreeBelow n st.buf st'.buf

/-- Spec-side: the bytes of `struct rkvdec_vp9_probs` that the inter layout
does not write: the padding members (`padding0[3]` before the union, then
`padding0[11]`, `padding1[5]`, `padding2[5]`, `padding3[5]`, `padding4[7]` and
`padding5[16]` of the inter layout) and the 5 pad bytes after each 27 payload
bytes of the 16 coefficient planes. -/
def spec_unwritten_inter (a : Nat) : Prop :=
  (off_is_inter + 4 ≤ a ∧ a < off_union) ∨
  (off_inter_interp_filter + 8 ≤ a ∧ a < off_inter_coef) ∨
  (off_inter_coef ≤ a ∧ a < off_inter_uv_mode_0_2 ∧ 27 ≤ (a - off_inter_coef) % 32) ∨
  (off_inter_uv_mode_0_2 + 27 ≤ a ∧ a < off_inter_uv_mode_3_5) ∨
  (off_inter_uv_mode_3_5 + 27 ≤ a ∧ a < off_inter_uv_mode_6_8) ∨
  (off_inter_uv_mode_6_8 + 27 ≤ a ∧ a < off_inter_uv_mode_9) ∨
  (off_inter_uv_mode_9 + 9 ≤ a ∧ a < off_inter_mv)

/-- Spec-side: the bytes of `struct rkvdec_vp9_probs` that the intra-only
layout does not write: `padding0[3]` before the union, the 5 pad bytes after
each 27 payload bytes of the 8 coefficient planes and of the first 96 bytes of
each `y_mode`, the last 2 bytes of `intra_mode[3].uv_mode`, the whole
`uv_mode` of `intra_mode[4..9]`, and the tail of the union after the intra-only
layout. -/
def spec_unwritten_intra (a : Nat) : Prop :=
  (off_is_inter + 4 ≤ a ∧ a < off_union) ∨
  (off_intra_coef_intra ≤ a ∧ a < off_intra_intra_mode ∧
    27 ≤ (a - off_intra_coef_intra) % 32) ∨
  (off_intra_intra_mode ≤ a ∧ a < off_intra_intra_mode + 10 * 128 ∧
    (a - off_intra_intra_mode) % 128 < 96 ∧ 27 ≤ (a - off_intra_intra_mode) % 128 % 32) ∨
  (off_intra_intra_mode ≤ a ∧ a < off_intra_intra_mode + 10 * 128 ∧
    105 ≤ (a - off_intra_intra_mode) % 128 ∧
    (4 ≤ (a - off_intra_intra_mode) / 128 ∨
      (3 = (a - off_intra_intra_mode) / 128 ∧ 126 ≤ (a - off_intra_intra_mode) % 128))) ∨
  (off_union + sizeof_intra_only_frame_probs ≤ a ∧ a < sizeof_rkvdec_vp9_probs)

/-- Whether a byte is one the inter layout does not write can be computed. -/
instance (a : Nat) : Decidable (spec_unwritten_inter a) := by
  unfold spec_unwritten_inter
  infer_instance

/-- Whether a byte is one the intra-only layout does not write can be
computed. -/
instance (a : Nat) : Decidable (spec_unwritten_intra a) := by
  unfold spec_unwritten_intra
  infer_instance

/-- The session `c` is the session `b` after more register writes, none of
them to a register in `S`; nothing but the trace of register writes differs. -/
def Ext (S : Reg → Prop) (b c : rkvdec_ctx) : Prop :=
  ∃ W : List (Reg × List RegField), c = { b with regs := b.regs ++ W } ∧ ∀ w ∈ W, ¬ S w.1

/-- Every counter of the count buffer is 0: each of the 32-bit words of its
`RKVDEC_VP9_COUNT_SIZE` bytes. -/
def ZeroCounts (cpu : Nat → Nat) : Prop :=
  ∀ w, w < RKVDEC_VP9_COUNT_SIZE / 4 → rd32 cpu w = 0

/-- Spec-side: the branch pairs of the VP9 motion-vector class tree, from the
11 class counts `c[0..10]`, for the ten class probabilities `p[0..9]`; every
sum is taken modulo `2^32`. -/
def spec_mv_class_branch (c : Nat → Nat) : Nat → Nat × Nat
  | 0 => (c 0, u32 (c 1 + c 2 + c 3 + c 4 + c 5 + c 6 + c 7 + c 8 + c 9 + c 10))
  | 1 => (c 1, u32 (c 2 + c 3 + c 4 + c 5 + c 6 + c 7 + c 8 + c 9 + c 10))
  | 2 => (u32 (c 2 + c 3), u32 (c 4 + c 5 + c 6 + c 7 + c 8 + c 9 + c 10))
  | 3 => (c 2, c 3)
  | 4 => (u32 (c 4 + c 5), u32 (c 6 + c 7 + c 8 + c 9 + c 10))
  | 5 => (c 4, c 5)
  | 6 => (c 6, u32 (c 7 + c 8 + c 9 + c 10))
  | 7 => (u32 (c 7 + c 8), u32 (c 9 + c 10))
  | 8 => (c 7, c 8)
  | _ => (c 9, c 10)

/-- Spec-side: the branch pairs of the VP9 intra-mode tree, from the 10 counts
indexed by prediction mode (DC = 0, V = 1, H = 2, D45 = 3, D135 = 4, D117 = 5,
D153 = 6, D207 = 7, D63 = 8, TM = 9), for the nine probabilities `p[0..8]`;
every sum is taken modulo `2^32`. -/
def spec_intra_mode_branch (c : Nat → Nat) : Nat → Nat × Nat
  | 0 => (c 0, u32 (c 1 + c 2 + c 3 + c 4 + c 5 + c 6 + c 7 + c 8 + c 9))
  | 1 => (c 9, u32 (c 1 + c 2 + c 3 + c 4 + c 5 + c 6 + c 7 + c 8))
  | 2 => (c 1, u32 (c 2 + c 3 + c 4 + c 5 + c 6 + c 7 + c 8))
  | 3 => (u32 (c 2 + c 4 + c 5), u32 (c 3 + c 6 + c 7 + c 8))
  | 4 => (c 2, u32 (c 4 + c 5))
  | 5 => (c 4, c 5)
  | 6 => (c 3, u32 (c 6 + c 7 + c 8))
  | 7 => (c 8, u32 (c 6 + c 7))
  | _ => (c 6, c 7)

/-- The numbering of the intra prediction modes in the V4L2 VP9 interface:
DC = 0, V = 1, H = 2, D45 = 3, D135 = 4, D117 = 5, D153 = 6, D207 = 7,
D63 = 8, TM = 9. -/
def IntraModeNumbering (K : Uapi) : Prop :=
  K.INTRA_PRED_MODE_DC = 0 ∧ K.INTRA_PRED_MODE_V = 1 ∧ K.INTRA_PRED_MODE_H = 2 ∧
    K.INTRA_PRED_MODE_D45 = 3 ∧ K.INTRA_PRED_MODE_D135 = 4 ∧ K.INTRA_PRED_MODE_D117 = 5 ∧
    K.INTRA_PRED_MODE_D153 = 6 ∧ K.INTRA_PRED_MODE_D207 = 7 ∧ K.INTRA_PRED_MODE_D63 = 8 ∧
    K.INTRA_PRED_MODE_TM = 9

set_option linter.unusedTactic false
set_option linter.unreachableTactic false

set_option maxRecDepth 100000 in
theorem inv_length : inv.length = 255 := by
  decide

set_option maxRecDepth 100000 in
theorem inv_getD_all : ∀ i : Fin 255, inv.getD i.val 0 = DIV_INV (i.val + 2) := by
  decide

theorem inv_getD (d : Nat) (h2 : 2 ≤ d) (h : d ≤ 256) :
    inv.getD (d - 2) 0 = DIV_INV d := by
  have := inv_getD_all ⟨d - 2, by omega⟩
  simpa [show d - 2 + 2 = d by omega] using this

/-- The reciprocal multiplication is exact: for a divisor in `2..256` and a
dividend below `2^24`, multiplying by `ceil(2^32 / d)` and dropping 32 bits is
integer division. -/
theorem recip_exact (x d : Nat) (h2 : 2 ≤ d) (h : d ≤ 256) (hx : x < 2 ^ 24) :
    x * ((2 ^ 32 + (d - 1)) / d) / 2 ^ 32 = x / d := by
  have hd : 0 < d := by omega
  have e1 := Nat.div_add_mod (2 ^ 32 + (d - 1)) d
  have e2 := Nat.mod_lt (2 ^ 32 + (d - 1)) hd
  have hq := Nat.div_add_mod x d
  have hr := Nat.mod_lt x hd
  generalize (2 ^ 32 + (d - 1)) / d = c at *
  generalize (2 ^ 32 + (d - 1)) % d = t at *
  generalize x / d = q at *
  generalize x % d = r at *
  have h1 : 2 ^ 32 ≤ d * c := by omega
  have h3 : d * c ≤ 2 ^ 32 + (d - 1) := by omega
  apply Nat.div_eq_of_lt_le
  · -- q * 2^32 ≤ x * c
    calc q * 2 ^ 32 ≤ q * (d * c) := Nat.mul_le_mul_left _ h1
      _ = (d * q) * c := by ring
      _ ≤ x * c := Nat.mul_le_mul_right _ (by omega)
  · -- x * c < (q+1) * 2^32
    have hxd : x * (d - 1) < 2 ^ 32 := by
      calc x * (d - 1) ≤ x * 255 := Nat.mul_le_mul_left _ (by omega)
        _ < 2 ^ 32 := by omega
    have h5 : d * (x * c) < d * ((q + 1) * 2 ^ 32) := by
      calc d * (x * c) = x * (d * c) := by ring
        _ ≤ x * (2 ^ 32 + (d - 1)) := Nat.mul_le_mul_left _ h3
        _ = x * 2 ^ 32 + x * (d - 1) := by ring
        _ < x * 2 ^ 32 + 2 ^ 32 := by omega
        _ = (x + 1) * 2 ^ 32 := by ring
        _ ≤ (d * (q + 1)) * 2 ^ 32 := Nat.mul_le_mul_right _ (by nlinarith)
        _ = d * ((q + 1) * 2 ^ 32) := by ring
    exact Nat.lt_of_mul_lt_mul_left h5

theorem fastdiv_exact (x d : Nat) (h1 : 1 ≤ d) (h : d ≤ 256) (hx : x < 2 ^ 24) :
    rkvdec_fastdiv x d = x / d := by
  unfold rkvdec_fastdiv
  rcases Nat.eq_or_lt_of_le h1 with h1 | h2
  · subst h1; simp
  · have hne0 : d ≠ 0 := by omega
    have hne1 : d ≠ 1 := by omega
    have hlen : ¬ (d - 2 ≥ inv.length) := by rw [inv_length]; omega
    rw [if_neg hne0, if_neg hne1, if_neg hlen, inv_getD d h2 h]
    have hdi : DIV_INV d = (2 ^ 32 + (d - 1)) / d := by
      unfold DIV_INV
      have : (2 ^ 32 + (d - 1)) / d ≤ 2 ^ 31 + 128 := by
        apply Nat.div_le_of_le_mul
        omega
      rw [Nat.mod_eq_of_lt (by omega : 2 ^ 32 + (d - 1) < 2 ^ 64), Nat.mod_eq_of_lt (by omega)]
    rw [hdi]
    have hq : x / d ≤ x := Nat.div_le_self _ _
    have key := recip_exact x d h2 h hx
    have hlt : x * ((2 ^ 32 + (d - 1)) / d) < 2 ^ 64 := by
      have : (2 ^ 32 + (d - 1)) / d ≤ 2 ^ 32 := by
        apply Nat.div_le_of_le_mul
        omega
      calc x * ((2 ^ 32 + (d - 1)) / d) ≤ x * 2 ^ 32 := Nat.mul_le_mul_left _ this
        _ < 2 ^ 24 * 2 ^ 32 := by omega
        _ < 2 ^ 64 := by norm_num
    unfold u32
    rw [Nat.mod_eq_of_lt hlt, key, Nat.mod_eq_of_lt (by omega)]


/-- The blend of `adapt_prob` (its last line) when the observed probability
is below the current one, `p = p2 + d`. -/
theorem blend_down (p2 d f : Nat) (hp : p2 + d ≤ 255) (hf : f ≤ 256) :
    u32 (p2 + d + u32 (u32 (sub32 p2 (p2 + d) * f) + 128) / 2 ^ 8) % 2 ^ 8
      = p2 + d - (d * f + 127) / 256 := by
  rcases Nat.eq_zero_or_pos d with h0 | hd
  · subst h0
    have hs : sub32 p2 (p2 + 0) = 0 := by unfold sub32; omega
    rw [hs]
    unfold u32
    norm_num
    omega
  · have hs : sub32 p2 (p2 + d) = 2 ^ 32 - d := by unfold sub32; omega
    have hg : d * f ≤ 256 * d := by nlinarith
    have hg2 : d * f ≤ 255 * f := Nat.mul_le_mul_right _ (by omega)
    have hm : (2 ^ 32 - d) * f = 2 ^ 32 * f - d * f := by rw [Nat.sub_mul]
    rw [hs, hm]
    generalize d * f = g at *
    unfold u32
    norm_num
    omega

/-- The blend of `adapt_prob` when the observed probability is at least the
current one, `p2 = p + d`. -/
theorem blend_up (p d f : Nat) (hp : p + d ≤ 255) (hf : f ≤ 256) :
    u32 (p + u32 (u32 (sub32 (p + d) p * f) + 128) / 2 ^ 8) % 2 ^ 8
      = p + (d * f + 128) / 256 := by
  have hs : sub32 (p + d) p = d := by unfold sub32; omega
  have hg : d * f ≤ 256 * d := by nlinarith
  rw [hs]
  generalize d * f = g at *
  unfold u32
  norm_num
  omega

/-- The blend of `adapt_prob` (its last line), for in-range operands: the
32-bit wrap-around, the logical shift and the truncation to 8 bits compute the
integer `p + floor(((p2 - p) * f + 128) / 256)`. -/
theorem blend_int (p p2 f : Nat) (hp : p ≤ 255) (hp2 : p2 ≤ 255) (hf : f ≤ 256) :
    ((u32 (p + u32 (u32 (sub32 p2 p * f) + 128) / 2 ^ 8) % 2 ^ 8 : Nat) : Int)
      = (p : Int) + Int.fdiv (((p2 : Int) - p) * f + 128) 256 := by
  rw [Int.fdiv_eq_ediv _ (by norm_num)]
  rcases Nat.lt_or_ge p2 p with hlt | hge
  · obtain ⟨d, rfl⟩ : ∃ d, p = p2 + d := ⟨p - p2, by omega⟩
    rw [blend_down p2 d f hp hf]
    have hg : d * f ≤ 256 * d := by nlinarith
    have hi : ((p2 : Int) - ((p2 + d : Nat) : Int)) * (f : Int) = - ((d * f : Nat) : Int) := by
      push_cast; ring
    rw [hi]
    generalize d * f = g at *
    omega
  · obtain ⟨d, rfl⟩ : ∃ d, p2 = p + d := ⟨p2 - p, by omega⟩
    rw [blend_up p d f hp2 hf]
    have hi : (((p + d : Nat) : Int) - (p : Int)) * (f : Int) = ((d * f : Nat) : Int) := by
      push_cast; ring
    rw [hi]
    generalize d * f = g at *
    omega

/-- The blend never leaves the interval spanned by `p` and `p2`. -/
theorem blend_between (p p2 f : Nat) (hp : p ≤ 255) (hp2 : p2 ≤ 255) (hf : f ≤ 256) :
    min p p2 ≤ u32 (p + u32 (u32 (sub32 p2 p * f) + 128) / 2 ^ 8) % 2 ^ 8 ∧
    u32 (p + u32 (u32 (sub32 p2 p * f) + 128) / 2 ^ 8) % 2 ^ 8 ≤ max p p2 := by
  rcases Nat.lt_or_ge p2 p with hlt | hge
  · obtain ⟨d, rfl⟩ : ∃ d, p = p2 + d := ⟨p - p2, by omega⟩
    rw [blend_down p2 d f hp hf]
    have hg : d * f ≤ 256 * d := by nlinarith
    generalize d * f = g at *
    omega
  · obtain ⟨d, rfl⟩ : ∃ d, p2 = p + d := ⟨p2 - p, by omega⟩
    rw [blend_up p d f hp2 hf]
    have hg : d * f ≤ 256 * d := by nlinarith
    generalize d * f = g at *
    omega


/-- The clamped observed probability lies in `[1, 255]`. -/
theorem clamp_range (v : Nat) : 1 ≤ clamp v 1 255 ∧ clamp v 1 255 ≤ 255 := by
  unfold clamp
  omega

/-- The scaled update factor of `adapt_prob` is the exact quotient
`update_factor * ct / max_count` when `max_count` is in `1..256`. -/
theorem scaled_factor_eq (uf ct mc : Nat) (h1 : 1 ≤ mc) (h : mc ≤ 256) (huf : uf ≤ 256) :
    rkvdec_fastdiv (u32 (uf * min ct mc)) mc = uf * min ct mc / mc := by
  have hle : uf * min ct mc ≤ 256 * 256 :=
    Nat.mul_le_mul huf (le_trans (Nat.min_le_right _ _) h)
  have hu : u32 (uf * min ct mc) = uf * min ct mc := by
    unfold u32
    exact Nat.mod_eq_of_lt (by omega)
  rw [hu]
  exact fastdiv_exact _ _ h1 h (by omega)

/-- The scaled update factor never exceeds `update_factor`. -/
theorem scaled_factor_le (uf ct mc : Nat) (h : mc ≤ 256) (huf : uf ≤ 256) :
    rkvdec_fastdiv (u32 (uf * min ct mc)) mc ≤ 256 := by
  rcases Nat.eq_zero_or_pos mc with h0 | hpos
  · subst h0
    simp [rkvdec_fastdiv]
  · rw [scaled_factor_eq uf ct mc hpos h huf]
    have : uf * min ct mc / mc ≤ uf := by
      apply Nat.div_le_of_le_mul
      rw [Nat.mul_comm mc uf]
      exact Nat.mul_le_mul_left _ (Nat.min_le_right _ _)
    omega

/-- The value `adapt_prob` returns when at least one observation was counted
and `max_count` is below 257. -/
theorem adapt_prob_unfold (p ct0 ct1 mc uf : Nat) (hct : u32 (ct0 + ct1) ≠ 0) (hm : mc ≤ 256) :
    adapt_prob p ct0 ct1 mc uf =
      u32 (p + u32 (u32 (sub32
        (clamp (u32 (u32 (ct0 * 2 ^ 8) + u32 (ct0 + ct1) / 2) / u32 (ct0 + ct1)) 1 255) p *
        rkvdec_fastdiv (u32 (uf * min (u32 (ct0 + ct1)) mc)) mc) + 128) / 2 ^ 8) % 2 ^ 8 := by
  unfold adapt_prob
  simp only [if_neg hct, if_neg (show ¬ mc ≥ 257 by omega)]

/-- With an in-range starting probability and an update factor of at most 256,
`adapt_prob` returns a value in `[1, 255]`, for all counts and every
`max_count`. -/
theorem adapt_prob_range (p ct0 ct1 mc uf : Nat) (hp1 : 1 ≤ p) (hp : p ≤ 255) (huf : uf ≤ 256) :
    1 ≤ adapt_prob p ct0 ct1 mc uf ∧ adapt_prob p ct0 ct1 mc uf ≤ 255 := by
  by_cases hct : u32 (ct0 + ct1) = 0
  · unfold adapt_prob
    simp only [if_pos hct]
    exact ⟨hp1, hp⟩
  · by_cases hm : mc ≥ 257
    · unfold adapt_prob
      simp only [if_neg hct, if_pos hm]
      exact ⟨hp1, hp⟩
    · have hm2 : mc ≤ 256 := by omega
      rw [adapt_prob_unfold p ct0 ct1 mc uf hct hm2]
      have hc := clamp_range (u32 (u32 (ct0 * 2 ^ 8) + u32 (ct0 + ct1) / 2) / u32 (ct0 + ct1))
      have hf := scaled_factor_le uf (u32 (ct0 + ct1)) mc hm2 huf
      have hb := blend_between p _ _ hp hc.2 hf
      generalize clamp (u32 (u32 (ct0 * 2 ^ 8) + u32 (ct0 + ct1) / 2) / u32 (ct0 + ct1)) 1 255 = p2 at *
      omega

/-- Claim C1: for `p` in `0..255`, `max_count` in `1..256`, `update_factor` at most
256 and counts with `0 < ct0 + ct1 < 2^23`, `adapt_prob` equals the reference
merge rule computed over the integers: the 32-bit wrap-around, the logical
shift and the truncation to 8 bits never change the mathematical result. -/
theorem adapt_prob_eq_merge_rule (p ct0 ct1 max_count update_factor : Nat)
    (hp : p ≤ 255) (hm1 : 1 ≤ max_count) (hm : max_count ≤ 256)
    (huf : update_factor ≤ 256) (hpos : 0 < ct0 + ct1) (hlt : ct0 + ct1 < 2 ^ 23) :
    (adapt_prob p ct0 ct1 max_count update_factor : Int)
      = merge_rule p ct0 ct1 max_count update_factor := by
  have hu : u32 (ct0 + ct1) = ct0 + ct1 := by
    unfold u32
    exact Nat.mod_eq_of_lt (by omega)
  have hct : u32 (ct0 + ct1) ≠ 0 := by omega
  rw [adapt_prob_unfold p ct0 ct1 max_count update_factor hct hm, hu]
  have h8 : u32 (u32 (ct0 * 2 ^ 8) + (ct0 + ct1) / 2) = 256 * ct0 + (ct0 + ct1) / 2 := by
    unfold u32
    omega
  rw [h8, scaled_factor_eq update_factor (ct0 + ct1) max_count hm1 hm huf]
  have hc := clamp_range ((256 * ct0 + (ct0 + ct1) / 2) / (ct0 + ct1))
  have hf : update_factor * min (ct0 + ct1) max_count / max_count ≤ 256 := by
    have := scaled_factor_le update_factor (ct0 + ct1) max_count hm huf
    rwa [scaled_factor_eq update_factor (ct0 + ct1) max_count hm1 hm huf] at this
  unfold merge_rule
  exact blend_int p _ _ hp hc.2 hf

/-- Witness for C1 at `p = 128`, counts `(10, 0)`, `max_count = 20`, factor 128. -/
theorem adapt_prob_eq_merge_rule_witness :
    (adapt_prob 128 10 0 20 128 : Int) = merge_rule 128 10 0 20 128 :=
  adapt_prob_eq_merge_rule 128 10 0 20 128 (by decide) (by decide) (by decide) (by decide)
    (by decide) (by decide)

/-- Claim C2: for every `p` in `[1, 255]`, every pair of counts (also those
whose sum or shift wraps around 32 bits) and every `(max_count, update_factor)`
pair used by the adapter, `(20, 128)`, `(24, 112)` and `(24, 128)`, the value
of `adapt_prob` lies in `[1, 255]`. -/
theorem adapt_prob_in_range (p ct0 ct1 max_count update_factor : Nat)
    (hp1 : 1 ≤ p) (hp : p ≤ 255)
    (hpair : (max_count = 20 ∧ update_factor = 128) ∨ (max_count = 24 ∧ update_factor = 112) ∨
      (max_count = 24 ∧ update_factor = 128)) :
    1 ≤ adapt_prob p ct0 ct1 max_count update_factor ∧
      adapt_prob p ct0 ct1 max_count update_factor ≤ 255 := by
  apply adapt_prob_range p ct0 ct1 max_count update_factor hp1 hp
  omega

/-- Witness for C2 with counts whose shift and sum overflow 32 bits. -/
theorem adapt_prob_in_range_witness :
    1 ≤ adapt_prob 255 4000000000 500000000 24 112 ∧
      adapt_prob 255 4000000000 500000000 24 112 ≤ 255 :=
  adapt_prob_in_range 255 4000000000 500000000 24 112 (by decide) (by decide)
    (Or.inr (Or.inl ⟨rfl, rfl⟩))

/-- Claim C3: with no observations, `adapt_prob(p, 0, 0, max_count, update_factor)`
is `p`, for every `p`, `max_count` and `update_factor`. -/
theorem adapt_prob_zero_counts (p max_count update_factor : Nat) :
    adapt_prob p 0 0 max_count update_factor = p := by
  simp [adapt_prob, u32]

/-- A property that holds before a counted loop and that every iteration
preserves holds after the loop. -/
theorem forLoop_inv {σ : Type} (Inv : σ → Prop) (n : Nat) (body : Nat → σ → σ) (s : σ)
    (h0 : Inv s) (hstep : ∀ i t, i < n → Inv t → Inv (body i t)) : Inv (forLoop n body s) := by
  induction n with
  | zero => exact h0
  | succ k ih =>
    unfold forLoop
    exact hstep k _ (Nat.lt_succ_self k)
      (ih (fun i t hi ht => hstep i t (Nat.lt_succ_of_lt hi) ht))

/-- A flag test against the union of two masks succeeds exactly when one of
the two masks matches. -/
theorem land_lor_ne_zero (x a b : Nat) : x &&& (a ||| b) ≠ 0 ↔ x &&& a ≠ 0 ∨ x &&& b ≠ 0 := by
  rw [Nat.and_or_distrib_left]
  constructor
  · intro h
    by_contra hc
    push_neg at hc
    rw [hc.1, hc.2] at h
    exact h rfl
  · intro h hz
    have h1 : ∀ i, (x &&& a ||| x &&& b).testBit i = false := by
      intro i
      rw [hz]
      simp
    rcases h with h | h
    · obtain ⟨i, hi⟩ := Nat.ne_zero_implies_bit_true h
      have := h1 i
      rw [Nat.testBit_or, hi] at this
      simp at this
    · obtain ⟨i, hi⟩ := Nat.ne_zero_implies_bit_true h
      have := h1 i
      rw [Nat.testBit_or, hi] at this
      simp at this

/-- Writing the adapted value of an element back to it keeps the model in
range, for every update factor of at most 256. -/
theorem set_adapt_in_range (probs : v4l2_vp9_probabilities) (x : PIdx) (c0 c1 mc uf : Nat)
    (huf : uf ≤ 256) (h : ProbsInRange probs) :
    ProbsInRange (probs.adapt x c0 c1 mc uf) := by
  intro y hy
  unfold v4l2_vp9_probabilities.adapt v4l2_vp9_probabilities.set
  show 1 ≤ (if y = x then _ else _) ∧ (if y = x then _ else _) ≤ 255
  by_cases hyx : y = x
  · subst hyx
    rw [if_pos rfl]
    exact adapt_prob_range _ _ _ _ _ (h y hy).1 (h y hy).2 huf
  · rw [if_neg hyx]
    exact h y hy

/-- The function `adapt_coeff` keeps the probability model in `[1, 255]`. -/
theorem adapt_coeff_in_range (probs : v4l2_vp9_probabilities) (i j k : Nat)
    (ref_cnt : Nat → Nat → rkvdec_vp9_refs_counts) (uf : Nat) (huf : uf ≤ 256)
    (h : ProbsInRange probs) : ProbsInRange (adapt_coeff probs i j k ref_cnt uf) := by
  unfold adapt_coeff
  repeat' first
    | assumption
    | with_reducible refine forLoop_inv ProbsInRange _ _ _ ?_ (fun _ _ _ _ => ?_)
    | with_reducible refine set_adapt_in_range _ _ _ _ _ _ ?_ ?_
    | (show _ ≤ 256; norm_num)
    | split

/-- The function `adapt_coef_probs` keeps the probability model in `[1, 255]`. -/
theorem adapt_coef_probs_in_range (probs : v4l2_vp9_probabilities)
    (ref_cnt : Nat → Nat → Nat → Nat → Nat → rkvdec_vp9_refs_counts) (uf : Nat)
    (huf : uf ≤ 256) (h : ProbsInRange probs) :
    ProbsInRange (adapt_coef_probs probs ref_cnt uf) := by
  unfold adapt_coef_probs
  refine forLoop_inv ProbsInRange _ _ _ h (fun i t _ ht => ?_)
  refine forLoop_inv ProbsInRange _ _ _ ht (fun j t _ ht => ?_)
  refine forLoop_inv ProbsInRange _ _ _ ht (fun k t _ ht => ?_)
  exact adapt_coeff_in_range _ _ _ _ _ _ huf ht

/-- The function `adapt_skip_probs` keeps the probability model in `[1, 255]`. -/
theorem adapt_skip_probs_in_range (probs : v4l2_vp9_probabilities)
    (c : rkvdec_vp9_inter_frame_symbol_counts) (h : ProbsInRange probs) :
    ProbsInRange (adapt_skip_probs probs c) := by
  unfold adapt_skip_probs
  repeat' first
    | assumption
    | with_reducible refine forLoop_inv ProbsInRange _ _ _ ?_ (fun _ _ _ _ => ?_)
    | with_reducible refine set_adapt_in_range _ _ _ _ _ _ ?_ ?_
    | (show _ ≤ 256; norm_num)
    | split

/-- The function `adapt_is_inter_probs` keeps the probability model in `[1, 255]`. -/
theorem adapt_is_inter_probs_in_range (probs : v4l2_vp9_probabilities)
    (c : rkvdec_vp9_inter_frame_symbol_counts) (h : ProbsInRange probs) :
    ProbsInRange (adapt_is_inter_probs probs c) := by
  unfold adapt_is_inter_probs
  repeat' first
    | assumption
    | with_reducible refine forLoop_inv ProbsInRange _ _ _ ?_ (fun _ _ _ _ => ?_)
    | with_reducible refine set_adapt_in_range _ _ _ _ _ _ ?_ ?_
    | (show _ ≤ 256; norm_num)
    | split

/-- The function `adapt_comp_mode_probs` keeps the probability model in `[1, 255]`. -/
theorem adapt_comp_mode_probs_in_range (probs : v4l2_vp9_probabilities)
    (c : rkvdec_vp9_inter_frame_symbol_counts) (h : ProbsInRange probs) :
    ProbsInRange (adapt_comp_mode_probs probs c) := by
  unfold adapt_comp_mode_probs
  repeat' first
    | assumption
    | with_reducible refine forLoop_inv ProbsInRange _ _ _ ?_ (fun _ _ _ _ => ?_)
    | with_reducible refine set_adapt_in_range _ _ _ _ _ _ ?_ ?_
    | (show _ ≤ 256; norm_num)
    | split

/-- The function `adapt_comp_ref_probs` keeps the probability model in `[1, 255]`. -/
theorem adapt_comp_ref_probs_in_range (probs : v4l2_vp9_probabilities)
    (c : rkvdec_vp9_inter_frame_symbol_counts) (h : ProbsInRange probs) :
    ProbsInRange (adapt_comp_ref_probs probs c) := by
  unfold adapt_comp_ref_probs
  repeat' first
    | assumption
    | with_reducible refine forLoop_inv ProbsInRange _ _ _ ?_ (fun _ _ _ _ => ?_)
    | with_reducible refine set_adapt_in_range _ _ _ _ _ _ ?_ ?_
    | (show _ ≤ 256; norm_num)
    | split

/-- The function `adapt_single_ref_probs` keeps the probability model in `[1, 255]`. -/
theorem adapt_single_ref_probs_in_range (probs : v4l2_vp9_probabilities)
    (c : rkvdec_vp9_inter_frame_symbol_counts) (h : ProbsInRange probs) :
    ProbsInRange (adapt_single_ref_probs probs c) := by
  unfold adapt_single_ref_probs
  repeat' first
    | assumption
    | with_reducible refine forLoop_inv ProbsInRange _ _ _ ?_ (fun _ _ _ _ => ?_)
    | with_reducible refine set_adapt_in_range _ _ _ _ _ _ ?_ ?_
    | (show _ ≤ 256; norm_num)
    | split

/-- The function `adapt_partition_probs` keeps the probability model in `[1, 255]`. -/
theorem adapt_partition_probs_in_range (probs : v4l2_vp9_probabilities)
    (c : rkvdec_vp9_inter_frame_symbol_counts) (h : ProbsInRange probs) :
    ProbsInRange (adapt_partition_probs probs c) := by
  unfold adapt_partition_probs
  repeat' first
    | assumption
    | with_reducible refine forLoop_inv ProbsInRange _ _ _ ?_ (fun _ _ _ _ => ?_)
    | with_reducible refine set_adapt_in_range _ _ _ _ _ _ ?_ ?_
    | (show _ ≤ 256; norm_num)
    | split

/-- The function `adapt_tx_probs` keeps the probability model in `[1, 255]`. -/
theorem adapt_tx_probs_in_range (probs : v4l2_vp9_probabilities)
    (c : rkvdec_vp9_inter_frame_symbol_counts) (h : ProbsInRange probs) :
    ProbsInRange (adapt_tx_probs probs c) := by
  unfold adapt_tx_probs
  repeat' first
    | assumption
    | with_reducible refine forLoop_inv ProbsInRange _ _ _ ?_ (fun _ _ _ _ => ?_)
    | with_reducible refine set_adapt_in_range _ _ _ _ _ _ ?_ ?_
    | (show _ ≤ 256; norm_num)
    | split

/-- The function `adapt_interp_filter_probs` keeps the probability model in `[1, 255]`. -/
theorem adapt_interp_filter_probs_in_range (probs : v4l2_vp9_probabilities)
    (c : rkvdec_vp9_inter_frame_symbol_counts) (h : ProbsInRange probs) :
    ProbsInRange (adapt_interp_filter_probs probs c) := by
  unfold adapt_interp_filter_probs
  repeat' first
    | assumption
    | with_reducible refine forLoop_inv ProbsInRange _ _ _ ?_ (fun _ _ _ _ => ?_)
    | with_reducible refine set_adapt_in_range _ _ _ _ _ _ ?_ ?_
    | (show _ ≤ 256; norm_num)
    | split

/-- The function `adapt_inter_mode_probs` keeps the probability model in `[1, 255]`. -/
theorem adapt_inter_mode_probs_in_range (probs : v4l2_vp9_probabilities)
    (c : rkvdec_vp9_inter_frame_symbol_counts) (h : ProbsInRange probs) :
    ProbsInRange (adapt_inter_mode_probs probs c) := by
  unfold adapt_inter_mode_probs
  repeat' first
    | assumption
    | with_reducible refine forLoop_inv ProbsInRange _ _ _ ?_ (fun _ _ _ _ => ?_)
    | with_reducible refine set_adapt_in_range _ _ _ _ _ _ ?_ ?_
    | (show _ ≤ 256; norm_num)
    | split

/-- The function `adapt_mv_probs` keeps the probability model in `[1, 255]`. -/
theorem adapt_mv_probs_in_range (probs : v4l2_vp9_probabilities)
    (c : rkvdec_vp9_inter_frame_symbol_counts) (hp : Bool) (h : ProbsInRange probs) :
    ProbsInRange (adapt_mv_probs probs c hp) := by
  unfold adapt_mv_probs
  repeat' first
    | assumption
    | with_reducible refine forLoop_inv ProbsInRange _ _ _ ?_ (fun _ _ _ _ => ?_)
    | with_reducible refine set_adapt_in_range _ _ _ _ _ _ ?_ ?_
    | (show _ ≤ 256; norm_num)
    | split

/-- The function `adapt_intra_mode_probs` keeps the probability model in `[1, 255]`. -/
theorem adapt_intra_mode_probs_in_range (K : Uapi) (probs : v4l2_vp9_probabilities)
    (p : Nat → PIdx) (c : Nat → Nat) (h : ProbsInRange probs) :
    ProbsInRange (adapt_intra_mode_probs K probs p c) := by
  unfold adapt_intra_mode_probs
  repeat' first
    | assumption
    | with_reducible refine forLoop_inv ProbsInRange _ _ _ ?_ (fun _ _ _ _ => ?_)
    | with_reducible refine set_adapt_in_range _ _ _ _ _ _ ?_ ?_
    | (show _ ≤ 256; norm_num)
    | split

/-- The function `adapt_y_intra_mode_probs` keeps the probability model in `[1, 255]`. -/
theorem adapt_y_intra_mode_probs_in_range (K : Uapi) (probs : v4l2_vp9_probabilities)
    (c : rkvdec_vp9_inter_frame_symbol_counts) (h : ProbsInRange probs) :
    ProbsInRange (adapt_y_intra_mode_probs K probs c) := by
  unfold adapt_y_intra_mode_probs
  refine forLoop_inv ProbsInRange _ _ _ h (fun i t _ ht => ?_)
  exact adapt_intra_mode_probs_in_range K _ _ _ ht

/-- The function `adapt_uv_intra_mode_probs` keeps the probability model in `[1, 255]`. -/
theorem adapt_uv_intra_mode_probs_in_range (K : Uapi) (probs : v4l2_vp9_probabilities)
    (c : rkvdec_vp9_inter_frame_symbol_counts) (h : ProbsInRange probs) :
    ProbsInRange (adapt_uv_intra_mode_probs K probs c) := by
  unfold adapt_uv_intra_mode_probs
  refine forLoop_inv ProbsInRange _ _ _ h (fun i t _ ht => ?_)
  exact adapt_intra_mode_probs_in_range K _ _ _ ht

/-- The function `adapt_inter_frame_probs` keeps the probability model in `[1, 255]`. -/
theorem adapt_inter_frame_probs_in_range (K : Uapi) (vp9_ctx : rkvdec_vp9_ctx)
    (h : ProbsInRange vp9_ctx.frame_context.probs) :
    ProbsInRange (adapt_inter_frame_probs K vp9_ctx).frame_context.probs := by
  unfold adapt_inter_frame_probs
  dsimp only
  apply adapt_uv_intra_mode_probs_in_range
  apply adapt_y_intra_mode_probs_in_range
  apply adapt_mv_probs_in_range
  apply adapt_inter_mode_probs_in_range
  have h1 : ProbsInRange
      (if vp9_ctx.last.valid ≠ 0 ∧ ¬ (vp9_ctx.last.flags &&& K.FRAME_FLAG_KEY_FRAME ≠ 0) then
        adapt_coef_probs vp9_ctx.frame_context.probs
          (inter_frame_symbol_counts vp9_ctx.count_tbl.cpu).ref_cnt 112
      else
        adapt_coef_probs vp9_ctx.frame_context.probs
          (inter_frame_symbol_counts vp9_ctx.count_tbl.cpu).ref_cnt 128) := by
    split
    · exact adapt_coef_probs_in_range _ _ _ (by norm_num) h
    · exact adapt_coef_probs_in_range _ _ _ (by norm_num) h
  have h2 := adapt_comp_ref_probs_in_range _ (inter_frame_symbol_counts vp9_ctx.count_tbl.cpu)
    (adapt_comp_mode_probs_in_range _ (inter_frame_symbol_counts vp9_ctx.count_tbl.cpu)
      (adapt_is_inter_probs_in_range _ (inter_frame_symbol_counts vp9_ctx.count_tbl.cpu)
        (adapt_skip_probs_in_range _ (inter_frame_symbol_counts vp9_ctx.count_tbl.cpu) h1)))
  split
  · apply adapt_interp_filter_probs_in_range
    split
    · apply adapt_tx_probs_in_range
      apply adapt_partition_probs_in_range
      split
      · exact adapt_single_ref_probs_in_range _ _ h2
      · exact h2
    · apply adapt_partition_probs_in_range
      split
      · exact adapt_single_ref_probs_in_range _ _ h2
      · exact h2
  · split
    · apply adapt_tx_probs_in_range
      apply adapt_partition_probs_in_range
      split
      · exact adapt_single_ref_probs_in_range _ _ h2
      · exact h2
    · apply adapt_partition_probs_in_range
      split
      · exact adapt_single_ref_probs_in_range _ _ h2
      · exact h2

/-- The function `adapt_intra_frame_probs` keeps the probability model in `[1, 255]`. -/
theorem adapt_intra_frame_probs_in_range (vp9_ctx : rkvdec_vp9_ctx)
    (h : ProbsInRange vp9_ctx.frame_context.probs) :
    ProbsInRange (adapt_intra_frame_probs vp9_ctx).frame_context.probs := by
  unfold adapt_intra_frame_probs
  exact adapt_coef_probs_in_range _ _ _ (by norm_num) h

/-- Claim C4: if every probability of the session's frame context is in
`[1, 255]` before `adapt_probs`, then every probability of the frame context is
in `[1, 255]` after it, for every count buffer and every current and last frame
info; adaptation never produces 0. -/
theorem adapt_probs_in_range (K : Uapi) (vp9_ctx : rkvdec_vp9_ctx)
    (h : ProbsInRange vp9_ctx.frame_context.probs) :
    ProbsInRange (adapt_probs K vp9_ctx).frame_context.probs := by
  unfold adapt_probs
  dsimp only
  split
  · exact adapt_intra_frame_probs_in_range vp9_ctx h
  · exact adapt_inter_frame_probs_in_range K vp9_ctx h

/-- The statement `*x = adapt_prob(*x, ...)` leaves every other element alone. -/
theorem adapt_other (probs : v4l2_vp9_probabilities) (x y : PIdx) (c0 c1 mc uf : Nat)
    (h : y ≠ x) : (probs.adapt x c0 c1 mc uf) y = probs y := by
  unfold v4l2_vp9_probabilities.adapt v4l2_vp9_probabilities.set
  show (if y = x then _ else _) = _
  rw [if_neg h]

/-- The function `adapt_coeff` changes coefficient probabilities only. -/
theorem adapt_coeff_non_coef (probs : v4l2_vp9_probabilities) (i j k : Nat)
    (ref_cnt : Nat → Nat → rkvdec_vp9_refs_counts) (uf : Nat) (y : PIdx)
    (hy : y.isCoef = false) : adapt_coeff probs i j k ref_cnt uf y = probs y := by
  unfold adapt_coeff
  refine forLoop_inv (fun t : v4l2_vp9_probabilities => t y = probs y) _ _ _ rfl (fun l t _ ht => ?_)
  refine forLoop_inv (fun t : v4l2_vp9_probabilities => t y = probs y) _ _ _ ht (fun m t _ ht => ?_)
  refine forLoop_inv (fun t : v4l2_vp9_probabilities => t y = probs y) _ _ _ ht (fun n t _ ht => ?_)
  show (t.adapt _ _ _ _ _) y = probs y
  rw [adapt_other _ _ _ _ _ _ _ (by intro h; rw [h] at hy; simp [PIdx.isCoef] at hy)]
  exact ht

/-- The function `adapt_coef_probs` changes coefficient probabilities only. -/
theorem adapt_coef_probs_non_coef (probs : v4l2_vp9_probabilities)
    (ref_cnt : Nat → Nat → Nat → Nat → Nat → rkvdec_vp9_refs_counts) (uf : Nat) (y : PIdx)
    (hy : y.isCoef = false) : adapt_coef_probs probs ref_cnt uf y = probs y := by
  unfold adapt_coef_probs
  refine forLoop_inv (fun t : v4l2_vp9_probabilities => t y = probs y) _ _ _ rfl (fun i t _ ht => ?_)
  refine forLoop_inv (fun t : v4l2_vp9_probabilities => t y = probs y) _ _ _ ht (fun j t _ ht => ?_)
  refine forLoop_inv (fun t : v4l2_vp9_probabilities => t y = probs y) _ _ _ ht (fun k t _ ht => ?_)
  show adapt_coeff t _ _ _ _ _ y = probs y
  rw [adapt_coeff_non_coef _ _ _ _ _ _ _ hy]
  exact ht

/-- The sample model with every element `v` in `[1, 255]` is in range. -/
theorem sample_probs_in_range (v : Nat) (h1 : 1 ≤ v) (h : v ≤ 255) :
    ProbsInRange (sample_probs v) :=
  fun _ _ => ⟨h1, h⟩

/-- Witness for C4: an inter frame over a count buffer whose bytes are all 1. -/
theorem adapt_probs_in_range_witness :
    ProbsInRange (sample_vp9_ctx 0 1).frame_context.probs ∧
      ProbsInRange (adapt_probs uapi (sample_vp9_ctx 0 1)).frame_context.probs :=
  ⟨sample_probs_in_range 128 (by decide) (by decide),
    adapt_probs_in_range uapi (sample_vp9_ctx 0 1)
      (sample_probs_in_range 128 (by decide) (by decide))⟩

/-- Claim C10: when the current frame is a key frame or intra-only,
`adapt_probs` changes only the coefficient probabilities of the frame context:
for every count buffer, every element of every other member (partition, skip,
tx8, tx16, tx32, is_inter, comp_mode, comp_ref, single_ref, inter_mode,
interp_filter, y_mode, uv_mode and all mv members) is the same before and
after. -/
theorem adapt_probs_intra_only_non_coef (K : Uapi) (vp9_ctx : rkvdec_vp9_ctx)
    (h : vp9_ctx.cur.flags &&& K.FRAME_FLAG_KEY_FRAME ≠ 0 ∨
      vp9_ctx.cur.flags &&& K.FRAME_FLAG_INTRA_ONLY ≠ 0)
    (x : PIdx) (hx : x.isCoef = false) :
    (adapt_probs K vp9_ctx).frame_context.probs x = vp9_ctx.frame_context.probs x := by
  have h' := (land_lor_ne_zero _ _ _).mpr h
  unfold adapt_probs
  dsimp only
  rw [if_pos (decide_eq_true h')]
  unfold adapt_intra_frame_probs
  exact adapt_coef_probs_non_coef _ _ _ _ hx

/-- Witness for C10: a key frame, at the element `skip[0]`. -/
theorem adapt_probs_intra_only_non_coef_witness :
    (adapt_probs uapi (sample_vp9_ctx 1 1)).frame_context.probs (.skip 0) =
      (sample_vp9_ctx 1 1).frame_context.probs (.skip 0) :=
  adapt_probs_intra_only_non_coef uapi (sample_vp9_ctx 1 1) (Or.inl (by decide)) (.skip 0) rfl

/-- The function `adapt_probs` leaves the current frame info alone. -/
theorem adapt_probs_cur (K : Uapi) (vp9_ctx : rkvdec_vp9_ctx) :
    (adapt_probs K vp9_ctx).cur = vp9_ctx.cur := by
  unfold adapt_probs
  dsimp only
  split
  · rfl
  · rfl

/-- The return value of `rkvdec_vp9_run_preamble` is 0 whenever the decode
parameters control has a value, whatever `validate_dec_params` returns. -/
theorem run_preamble_ret (K : Uapi) (ctx : rkvdec_ctx)
    (dec_params : v4l2_ctrl_vp9_frame_decode_params)
    (h : ctx.ctrl_decode_params = some dec_params) :
    (rkvdec_vp9_run_preamble K ctx).1 = 0 ∧
      (rkvdec_vp9_run_preamble K ctx).2.2.decode_params = some dec_params ∧
      (rkvdec_vp9_run_preamble K ctx).2.2.dst = ctx.next_dst := by
  unfold rkvdec_vp9_run_preamble
  simp only [h]
  split
  · exact ⟨rfl, rfl, rfl⟩
  · split
    · exact ⟨rfl, rfl, rfl⟩
    · split
      · exact ⟨rfl, rfl, rfl⟩
      · split
        · exact ⟨rfl, rfl, rfl⟩
        · exact ⟨rfl, rfl, rfl⟩

/-- The function `rkvdec_vp9_run` returns 0 whenever the decode parameters
control has a value: the result of `validate_dec_params` is never acted on. -/
theorem rkvdec_vp9_run_ret (K : Uapi) (ctx : rkvdec_ctx)
    (dec_params : v4l2_ctrl_vp9_frame_decode_params)
    (h : ctx.ctrl_decode_params = some dec_params) :
    (rkvdec_vp9_run K ctx).1 = 0 := by
  have hp := run_preamble_ret K ctx dec_params h
  unfold rkvdec_vp9_run
  generalize rkvdec_vp9_run_preamble K ctx = r at hp
  obtain ⟨ret, c, run⟩ := r
  simp only at hp
  obtain ⟨h1, h2, _⟩ := hp
  subst h1
  simp only [h2, ne_eq, not_true_eq_false, if_false]

set_option maxRecDepth 100000 in
/-- Claim C5, the code at a failing input: the decode parameters have profile 1
against a negotiated 64x64 format, so `validate_dec_params` returns `-EINVAL`,
yet `rkvdec_vp9_run` returns 0, issues register writes, rewrites the
probability buffer and marks the current frame info valid. -/
theorem rkvdec_vp9_run_invalid_profile :
    validate_dec_params uapi (sample_ctx 0 1 0) (sample_dec_params 0 1) = -22 ∧
      (rkvdec_vp9_run uapi (sample_ctx 0 1 0)).1 = 0 ∧
      (sample_ctx 0 1 0).regs.length = 0 ∧
      (rkvdec_vp9_run uapi (sample_ctx 0 1 0)).2.regs.length = 38 ∧
      (sample_ctx 0 1 0).priv.priv_tbl.cpu 0 = 0 ∧
      (rkvdec_vp9_run uapi (sample_ctx 0 1 0)).2.priv.priv_tbl.cpu 0 = 200 ∧
      (sample_ctx 0 1 0).priv.cur.flags = 0 ∧
      (sample_ctx 0 1 0).priv.cur.tx_mode = 0 ∧
      (rkvdec_vp9_run uapi (sample_ctx 0 1 0)).2.priv.cur.tx_mode = 4 := by
  refine ⟨by decide, by decide, by decide, by decide, by decide, by decide, by decide,
    by decide, by decide⟩

/-- The function `rkvdec_vp9_done` copies the current frame info to the last
frame info and keeps the current one. -/
theorem rkvdec_vp9_done_last_cur (K : Uapi) (ctx : rkvdec_ctx) (result : vb2_buffer_state) :
    (rkvdec_vp9_done K ctx result).priv.last = ctx.priv.cur ∧
      (rkvdec_vp9_done K ctx result).priv.cur = ctx.priv.cur := by
  unfold rkvdec_vp9_done
  by_cases h1 : result = .VB2_BUF_STATE_ERROR
  · rw [if_pos h1]
    exact ⟨rfl, rfl⟩
  · rw [if_neg h1]
    by_cases h2 : ¬ (ctx.priv.cur.flags &&& K.FRAME_FLAG_REFRESH_FRAME_CTX ≠ 0)
    · rw [if_pos h2]
      exact ⟨rfl, rfl⟩
    · rw [if_neg h2]
      dsimp only
      by_cases h3 : ¬ (ctx.priv.cur.flags &&&
          (K.FRAME_FLAG_ERROR_RESILIENT ||| K.FRAME_FLAG_PARALLEL_DEC_MODE) ≠ 0)
      · rw [if_pos h3]
        unfold frame_context_get frame_context_set update_ctx_last_info
        dsimp only
        cases ctx.ctrl_frame_context ctx.priv.cur.frame_context_idx with
        | none => exact ⟨adapt_probs_cur K ctx.priv, adapt_probs_cur K ctx.priv⟩
        | some v => exact ⟨adapt_probs_cur K ctx.priv, adapt_probs_cur K ctx.priv⟩
      · rw [if_neg h3]
        unfold frame_context_get frame_context_set update_ctx_last_info
        cases ctx.ctrl_frame_context ctx.priv.cur.frame_context_idx with
        | none => exact ⟨rfl, rfl⟩
        | some v => exact ⟨rfl, rfl⟩

/-- Claim C6: for every session state and every completion result, after
`rkvdec_vp9_done` the last frame info equals the current frame info as it was
before the call, in all its members, and the current frame info itself is
unchanged. -/
theorem rkvdec_vp9_done_promotes (K : Uapi) (ctx : rkvdec_ctx) (result : vb2_buffer_state) :
    (rkvdec_vp9_done K ctx result).priv.last = ctx.priv.cur ∧
      (rkvdec_vp9_done K ctx result).priv.cur = ctx.priv.cur :=
  rkvdec_vp9_done_last_cur K ctx result

/-- Claim C7: when `rkvdec_vp9_done` is called with the error result, or when
the flags of the current frame do not request a context refresh, nothing is
adapted and nothing is persisted: the session is what it was before the call,
loaded frame context and persisted context slots included, but for the last
frame info, which becomes the current one. -/
theorem rkvdec_vp9_done_no_refresh (K : Uapi) (ctx : rkvdec_ctx) (result : vb2_buffer_state)
    (h : result = .VB2_BUF_STATE_ERROR ∨
      ¬ (ctx.priv.cur.flags &&& K.FRAME_FLAG_REFRESH_FRAME_CTX ≠ 0)) :
    rkvdec_vp9_done K ctx result =
      { ctx with priv := { ctx.priv with last := ctx.priv.cur } } := by
  unfold rkvdec_vp9_done
  by_cases h1 : result = .VB2_BUF_STATE_ERROR
  · rw [if_pos h1]
    rfl
  · rw [if_neg h1]
    rcases h with h | h
    · exact absurd h h1
    · rw [if_pos h]
      rfl

/-- Witness for C7: the error result on a frame that requested a refresh. -/
theorem rkvdec_vp9_done_no_refresh_witness :
    rkvdec_vp9_done uapi (sample_ctx 0x20 0 1) .VB2_BUF_STATE_ERROR =
      { sample_ctx 0x20 0 1 with
        priv := { (sample_ctx 0x20 0 1).priv with last := (sample_ctx 0x20 0 1).priv.cur } } :=
  rkvdec_vp9_done_no_refresh uapi (sample_ctx 0x20 0 1) .VB2_BUF_STATE_ERROR (Or.inl rfl)

/-- The persisted context slots after a `rkvdec_vp9_done` that reaches the
persist step. -/
theorem rkvdec_vp9_done_slots (K : Uapi) (ctx : rkvdec_ctx) (result : vb2_buffer_state)
    (hres : result ≠ .VB2_BUF_STATE_ERROR)
    (hrefresh : ctx.priv.cur.flags &&& K.FRAME_FLAG_REFRESH_FRAME_CTX ≠ 0) (i : Nat) :
    (rkvdec_vp9_done K ctx result).ctrl_frame_context i =
      if i = ctx.priv.cur.frame_context_idx then
        (ctx.ctrl_frame_context i).map (fun _ =>
          if ctx.priv.cur.flags &&& K.FRAME_FLAG_ERROR_RESILIENT ≠ 0 ∨
              ctx.priv.cur.flags &&& K.FRAME_FLAG_PARALLEL_DEC_MODE ≠ 0 then
            ctx.priv.frame_context
          else (adapt_probs K ctx.priv).frame_context)
      else ctx.ctrl_frame_context i := by
  unfold rkvdec_vp9_done
  rw [if_neg hres, if_neg (not_not.mpr hrefresh)]
  dsimp only
  by_cases hmode : ctx.priv.cur.flags &&&
      (K.FRAME_FLAG_ERROR_RESILIENT ||| K.FRAME_FLAG_PARALLEL_DEC_MODE) ≠ 0
  · rw [if_neg (not_not.mpr hmode), if_pos ((land_lor_ne_zero _ _ _).mp hmode)]
    unfold frame_context_get frame_context_set update_ctx_last_info
    by_cases hi : i = ctx.priv.cur.frame_context_idx
    · subst hi
      rw [if_pos rfl]
      cases hslot : ctx.ctrl_frame_context ctx.priv.cur.frame_context_idx with
      | none => simp only [hslot, Option.map_none']
      | some v => simp only [hslot, Option.map_some', if_true]
    · rw [if_neg hi]
      cases hslot : ctx.ctrl_frame_context ctx.priv.cur.frame_context_idx with
      | none => rfl
      | some v => simp only [if_neg hi]
  · rw [if_pos hmode, if_neg (fun hc => hmode ((land_lor_ne_zero _ _ _).mpr hc))]
    unfold frame_context_get frame_context_set update_ctx_last_info
    dsimp only
    by_cases hi : i = ctx.priv.cur.frame_context_idx
    · subst hi
      rw [if_pos rfl]
      cases hslot : ctx.ctrl_frame_context ctx.priv.cur.frame_context_idx with
      | none => simp only [hslot, Option.map_none']
      | some v => simp only [hslot, Option.map_some', if_true]
    · rw [if_neg hi]
      cases hslot : ctx.ctrl_frame_context ctx.priv.cur.frame_context_idx with
      | none => rfl
      | some v => simp only [if_neg hi]

/-- Claim C8: when `rkvdec_vp9_done` is called with a result other than error
and the current frame requested a context refresh, the context slot numbered
`cur.frame_context_idx` is set to the session's loaded frame context, which has
first been run through `adapt_probs` if and only if the frame is neither
error-resilient nor in parallel decode mode; every other context slot is
unchanged.  A slot is the value of a control: a slot whose control does not
exist stays absent. -/
theorem rkvdec_vp9_done_persists (K : Uapi) (ctx : rkvdec_ctx) (result : vb2_buffer_state)
    (hres : result ≠ .VB2_BUF_STATE_ERROR)
    (hrefresh : ctx.priv.cur.flags &&& K.FRAME_FLAG_REFRESH_FRAME_CTX ≠ 0) (i : Nat) :
    (rkvdec_vp9_done K ctx result).ctrl_frame_context i =
      if i = ctx.priv.cur.frame_context_idx then
        (ctx.ctrl_frame_context i).map (fun _ =>
          if ctx.priv.cur.flags &&& K.FRAME_FLAG_ERROR_RESILIENT ≠ 0 ∨
              ctx.priv.cur.flags &&& K.FRAME_FLAG_PARALLEL_DEC_MODE ≠ 0 then
            ctx.priv.frame_context
          else (adapt_probs K ctx.priv).frame_context)
      else ctx.ctrl_frame_context i :=
  rkvdec_vp9_done_slots K ctx result hres hrefresh i

/-- Witness for C8: a successful inter frame that requested a refresh of
context slot 1, at slot 1. -/
theorem rkvdec_vp9_done_persists_witness :
    (rkvdec_vp9_done uapi (sample_ctx 0x20 0 1) .VB2_BUF_STATE_DONE).ctrl_frame_context 1 =
      if 1 = (sample_ctx 0x20 0 1).priv.cur.frame_context_idx then
        ((sample_ctx 0x20 0 1).ctrl_frame_context 1).map (fun _ =>
          if (sample_ctx 0x20 0 1).priv.cur.flags &&& uapi.FRAME_FLAG_ERROR_RESILIENT ≠ 0 ∨
              (sample_ctx 0x20 0 1).priv.cur.flags &&& uapi.FRAME_FLAG_PARALLEL_DEC_MODE ≠ 0 then
            (sample_ctx 0x20 0 1).priv.frame_context
          else (adapt_probs uapi (sample_ctx 0x20 0 1).priv).frame_context)
      else (sample_ctx 0x20 0 1).ctrl_frame_context 1 :=
  rkvdec_vp9_done_persists uapi (sample_ctx 0x20 0 1) .VB2_BUF_STATE_DONE (by decide)
    (by decide) 1

/-- A register write changes neither the frame contexts nor the current frame info. -/
theorem writel_holds (slots : Nat → Option v4l2_ctrl_vp9_frame_ctx)
    (fctx : v4l2_ctrl_vp9_frame_ctx) (flags idx : Nat) (val : List RegField) (reg : Reg)
    (c : rkvdec_ctx) (h : HoldsContexts slots fctx flags idx c) :
    HoldsContexts slots fctx flags idx (writel val reg c) := h

/-- The function `config_ref_registers` only writes registers. -/
theorem config_ref_registers_holds (slots : Nat → Option v4l2_ctrl_vp9_frame_ctx)
    (fctx : v4l2_ctrl_vp9_frame_ctx) (flags idx : Nat) (run : struct_rkvdec_vp9_run)
    (ref_bufs : Nat → Nat) (id : Nat)
    (c : rkvdec_ctx) (h : HoldsContexts slots fctx flags idx c) :
    HoldsContexts slots fctx flags idx (config_ref_registers c run ref_bufs id) := by
  unfold config_ref_registers
  dsimp only
  split
  · exact h
  · split
    · exact h
    · exact h

/-- The function `config_seg_registers` only writes registers. -/
theorem config_seg_registers_holds (K : Uapi) (slots : Nat → Option v4l2_ctrl_vp9_frame_ctx)
    (fctx : v4l2_ctrl_vp9_frame_ctx) (flags idx : Nat) (segid : Nat)
    (c : rkvdec_ctx) (h : HoldsContexts slots fctx flags idx c) :
    HoldsContexts slots fctx flags idx (config_seg_registers K c segid) := h

/-- Assigning `cur.segmapid` changes neither the frame contexts nor the flags and context index. -/
theorem set_segmapid_holds (slots : Nat → Option v4l2_ctrl_vp9_frame_ctx)
    (fctx : v4l2_ctrl_vp9_frame_ctx) (flags idx : Nat) (s : Nat)
    (c : rkvdec_ctx) (h : HoldsContexts slots fctx flags idx c) :
    HoldsContexts slots fctx flags idx
      { c with priv := { c.priv with cur := { c.priv.cur with segmapid := s } } } := h

/-- Replacing the count buffer changes neither the frame contexts nor the current frame info. -/
theorem set_count_tbl_holds (slots : Nat → Option v4l2_ctrl_vp9_frame_ctx)
    (fctx : v4l2_ctrl_vp9_frame_ctx) (flags idx : Nat) (b : rkvdec_aux_buf)
    (c : rkvdec_ctx) (h : HoldsContexts slots fctx flags idx c) :
    HoldsContexts slots fctx flags idx { c with priv := { c.priv with count_tbl := b } } := h

/-- A property of both branches holds of the context component of a conditional pair. -/
theorem ite_fst_holds (slots : Nat → Option v4l2_ctrl_vp9_frame_ctx)
    (fctx : v4l2_ctrl_vp9_frame_ctx) (flags idx : Nat) (p : Prop) [Decidable p]
    (a b : rkvdec_ctx) (x y : List RegField)
    (ha : HoldsContexts slots fctx flags idx a) (hb : HoldsContexts slots fctx flags idx b) :
    HoldsContexts slots fctx flags idx (if p then (a, x) else (b, y)).1 := by
  split
  · exact ha
  · exact hb

/-- A property of both branches holds of a conditional. -/
theorem ite_holds (slots : Nat → Option v4l2_ctrl_vp9_frame_ctx)
    (fctx : v4l2_ctrl_vp9_frame_ctx) (flags idx : Nat) (p : Prop) [Decidable p]
    (a b : rkvdec_ctx)
    (ha : HoldsContexts slots fctx flags idx a) (hb : HoldsContexts slots fctx flags idx b) :
    HoldsContexts slots fctx flags idx (if p then a else b) := by
  split
  · exact ha
  · exact hb

/-- After `config_registers` the persisted slots and the loaded frame context
are what they were, and the current frame info carries the flags and the
context index of the decode parameters. -/
theorem config_registers_holds (K : Uapi) (ctx : rkvdec_ctx) (run : struct_rkvdec_vp9_run)
    (dec_params : v4l2_ctrl_vp9_frame_decode_params) :
    HoldsContexts ctx.ctrl_frame_context ctx.priv.frame_context dec_params.flags
      (dec_params.frame_context_idx % 2 ^ 2) (config_registers K ctx run dec_params) := by
  unfold config_registers
  lift_lets
  intros
  repeat' first
    | assumption
    | with_reducible refine writel_holds _ _ _ _ _ _ _ ?_
    | with_reducible refine forLoop_inv (HoldsContexts _ _ _ _) _ _ _ ?_ (fun _ _ _ _ => ?_)
    | with_reducible refine config_ref_registers_holds _ _ _ _ _ _ _ _ ?_
    | with_reducible refine config_seg_registers_holds _ _ _ _ _ _ _ ?_
    | with_reducible refine ite_fst_holds _ _ _ _ _ _ _ _ _ ?_ ?_
    | with_reducible refine ite_holds _ _ _ _ _ _ _ ?_ ?_
    | with_reducible refine set_segmapid_holds _ _ _ _ _ _ ?_
    | with_reducible refine set_count_tbl_holds _ _ _ _ _ _ ?_
    | exact ⟨rfl, rfl, rfl, rfl⟩

/-- After `rkvdec_vp9_run` on a frame that requests a context refresh in
parallel decode mode, the loaded frame context holds the probabilities of the
decode parameters, the persisted slots are what they were, and the current
frame info carries the flags and the context index of the frame. -/
theorem rkvdec_vp9_run_parallel_holds (K : Uapi) (ctx : rkvdec_ctx)
    (dec_params : v4l2_ctrl_vp9_frame_decode_params)
    (hdp : ctx.ctrl_decode_params = some dec_params)
    (hrefresh : dec_params.flags &&& K.FRAME_FLAG_REFRESH_FRAME_CTX ≠ 0)
    (hpar : dec_params.flags &&& K.FRAME_FLAG_PARALLEL_DEC_MODE ≠ 0) :
    HoldsContexts ctx.ctrl_frame_context { probs := dec_params.probs } dec_params.flags
      (dec_params.frame_context_idx % 2 ^ 2) (rkvdec_vp9_run K ctx).2 := by
  unfold rkvdec_vp9_run rkvdec_vp9_run_preamble
  simp only [hdp]
  rw [if_neg (not_not.mpr hrefresh), if_pos hpar]
  simp only [ne_eq, not_true_eq_false, if_false]
  refine writel_holds _ _ _ _ _ _ _ (writel_holds _ _ _ _ _ _ _ (writel_holds _ _ _ _ _ _ _
    (writel_holds _ _ _ _ _ _ _ ?_)))
  exact config_registers_holds K _ _ dec_params

/-- Claim C9: for every frame whose flags request a context refresh in parallel
decode mode, after `rkvdec_vp9_run` followed by a successful
`rkvdec_vp9_done` the context slot numbered by the frame's `frame_context_idx`
(one of the slots 0 to 3) holds exactly the probabilities passed in the decode
parameters of that frame, whatever the count buffer contains. -/
theorem rkvdec_vp9_run_done_parallel (K : Uapi) (ctx : rkvdec_ctx)
    (dec_params : v4l2_ctrl_vp9_frame_decode_params) (counts : Nat → Nat)
    (result : vb2_buffer_state)
    (hdp : ctx.ctrl_decode_params = some dec_params)
    (hrefresh : dec_params.flags &&& K.FRAME_FLAG_REFRESH_FRAME_CTX ≠ 0)
    (hpar : dec_params.flags &&& K.FRAME_FLAG_PARALLEL_DEC_MODE ≠ 0)
    (hidx : dec_params.frame_context_idx < 4)
    (hres : result ≠ .VB2_BUF_STATE_ERROR) :
    (rkvdec_vp9_done K (hw_decode (rkvdec_vp9_run K ctx).2 counts) result).ctrl_frame_context
        dec_params.frame_context_idx =
      (ctx.ctrl_frame_context dec_params.frame_context_idx).map
        (fun _ => { probs := dec_params.probs }) := by
  obtain ⟨h1, h2, h3, h4⟩ := rkvdec_vp9_run_parallel_holds K ctx dec_params hdp hrefresh hpar
  have hmod : dec_params.frame_context_idx % 2 ^ 2 = dec_params.frame_context_idx :=
    Nat.mod_eq_of_lt hidx
  rw [hmod] at h4
  have g1 : (hw_decode (rkvdec_vp9_run K ctx).2 counts).ctrl_frame_context =
      ctx.ctrl_frame_context := h1
  have g2 : (hw_decode (rkvdec_vp9_run K ctx).2 counts).priv.frame_context =
      { probs := dec_params.probs } := h2
  have g3 : (hw_decode (rkvdec_vp9_run K ctx).2 counts).priv.cur.flags = dec_params.flags := h3
  have g4 : (hw_decode (rkvdec_vp9_run K ctx).2 counts).priv.cur.frame_context_idx =
      dec_params.frame_context_idx := h4
  rw [rkvdec_vp9_done_slots K _ result hres (by rw [g3]; exact hrefresh), g4, if_pos rfl,
    g1, g2, g3, if_pos (Or.inr hpar)]

/-- Witness for C9: a parallel-mode inter frame refreshing context slot 1, with
a count buffer the engine filled with the byte 9. -/
theorem rkvdec_vp9_run_done_parallel_witness :
    (rkvdec_vp9_done uapi (hw_decode (rkvdec_vp9_run uapi (sample_ctx 0x60 0 0)).2 (fun _ => 9))
        .VB2_BUF_STATE_DONE).ctrl_frame_context (sample_dec_params 0x60 0).frame_context_idx =
      ((sample_ctx 0x60 0 0).ctrl_frame_context (sample_dec_params 0x60 0).frame_context_idx).map
        (fun _ => { probs := (sample_dec_params 0x60 0).probs }) :=
  rkvdec_vp9_run_done_parallel uapi (sample_ctx 0x60 0 0) (sample_dec_params 0x60 0) (fun _ => 9)
    .VB2_BUF_STATE_DONE rfl (by decide) (by decide) (by decide) (by decide)

/-- A register write leaves the private context alone. -/
theorem writel_privIs (p : rkvdec_vp9_ctx) (val : List RegField) (reg : Reg) (c : rkvdec_ctx)
    (h : PrivIs p c) : PrivIs p (writel val reg c) := h

/-- The function `config_ref_registers` leaves the private context alone. -/
theorem config_ref_registers_privIs (p : rkvdec_vp9_ctx) (run : struct_rkvdec_vp9_run)
    (ref_bufs : Nat → Nat) (id : Nat) (c : rkvdec_ctx) (h : PrivIs p c) :
    PrivIs p (config_ref_registers c run ref_bufs id) := by
  unfold config_ref_registers
  dsimp only
  split
  · exact h
  · split
    · exact h
    · exact h

/-- The function `config_seg_registers` leaves the private context alone. -/
theorem config_seg_registers_privIs (K : Uapi) (p : rkvdec_vp9_ctx) (segid : Nat)
    (c : rkvdec_ctx) (h : PrivIs p c) : PrivIs p (config_seg_registers K c segid) := h

/-- The context component of a conditional pair has the private context both
branches have. -/
theorem ite_fst_privIs (p : rkvdec_vp9_ctx) (q : Prop) [Decidable q] (a b : rkvdec_ctx)
    (x y : List RegField) (ha : PrivIs p a) (hb : PrivIs p b) :
    PrivIs p (if q then (a, x) else (b, y)).1 := by
  split
  · exact ha
  · exact hb

/-- The private context after `config_registers`: the current frame info is
filled from the decode parameters, its `segmapid` is the one of the last frame
or the next one, the count buffer is zeroed for an intra-only frame, and
nothing else changes. -/
theorem config_registers_priv (K : Uapi) (ctx : rkvdec_ctx) (run : struct_rkvdec_vp9_run)
    (dec_params : v4l2_ctrl_vp9_frame_decode_params) :
    (config_registers K ctx run dec_params).priv =
      { ctx.priv with
        count_tbl :=
          if dec_params.flags &&& (K.FRAME_FLAG_KEY_FRAME ||| K.FRAME_FLAG_INTRA_ONLY) ≠ 0 then
            { ctx.priv.count_tbl with
              cpu := memset ctx.priv.count_tbl.cpu 0 0 ctx.priv.count_tbl.size }
          else ctx.priv.count_tbl,
        cur :=
          { valid := 1,
            segmapid :=
              if ¬ (dec_params.flags &&&
                    (K.FRAME_FLAG_KEY_FRAME ||| K.FRAME_FLAG_INTRA_ONLY) ≠ 0) ∧
                  ¬ (dec_params.flags &&& K.FRAME_FLAG_ERROR_RESILIENT ≠ 0) ∧
                  (¬ (dec_params.seg.flags &&& K.SEGMENTATION_FLAG_ENABLED ≠ 0) ∨
                    dec_params.seg.flags &&& K.SEGMENTATION_FLAG_UPDATE_MAP ≠ 0) then
                (ctx.priv.last.segmapid + 1) % 2
              else ctx.priv.last.segmapid,
            frame_context_idx := dec_params.frame_context_idx % 2 ^ 2,
            reference_mode := dec_params.reference_mode % 2 ^ 2,
            tx_mode := dec_params.tx_mode % 2 ^ 3,
            interpolation_filter := dec_params.interpolation_filter % 2 ^ 3,
            flags := dec_params.flags,
            timestamp := (buf_at (update_dec_buf_info ctx run.dst dec_params) run.dst).timestamp,
            seg := dec_params.seg,
            lf := dec_params.lf } } := by
  show PrivIs _ _
  unfold config_registers
  lift_lets
  intros
  repeat' first
    | with_reducible refine writel_privIs _ _ _ _ ?_
    | with_reducible refine forLoop_inv (PrivIs _) _ _ _ ?_ (fun _ _ _ h => ?_)
    | with_reducible refine config_ref_registers_privIs _ _ _ _ _ ?_
    | with_reducible refine config_seg_registers_privIs _ _ _ _ ?_
    | with_reducible refine ite_fst_privIs _ _ _ _ _ _ ?_ ?_
    | assumption
  all_goals
    simp +zetaDelta only [PrivIs, update_ctx_cur_info, update_dec_buf_info, decide_eq_true_eq,
      decide_eq_false_iff_not]
    split_ifs <;> first | rfl | (exfalso; tauto)

/-- Claim C18: during run the count buffer is reset by software exactly for
intra-only frames: if the frame is a key frame or intra-only, every byte of the
count buffer (all `count_tbl.size` bytes) is 0 when `config_registers` returns;
otherwise `config_registers` leaves the count buffer byte for byte unchanged.
The size and the bus address of the buffer never change. -/
theorem config_registers_count_tbl (K : Uapi) (ctx : rkvdec_ctx) (run : struct_rkvdec_vp9_run)
    (dec_params : v4l2_ctrl_vp9_frame_decode_params) :
    (config_registers K ctx run dec_params).priv.count_tbl.size = ctx.priv.count_tbl.size ∧
    (config_registers K ctx run dec_params).priv.count_tbl.dma = ctx.priv.count_tbl.dma ∧
    ((dec_params.flags &&& K.FRAME_FLAG_KEY_FRAME ≠ 0 ∨
        dec_params.flags &&& K.FRAME_FLAG_INTRA_ONLY ≠ 0) →
      ∀ a, a < ctx.priv.count_tbl.size →
        (config_registers K ctx run dec_params).priv.count_tbl.cpu a = 0) ∧
    (¬ (dec_params.flags &&& K.FRAME_FLAG_KEY_FRAME ≠ 0 ∨
        dec_params.flags &&& K.FRAME_FLAG_INTRA_ONLY ≠ 0) →
      (config_registers K ctx run dec_params).priv.count_tbl.cpu = ctx.priv.count_tbl.cpu) := by
  rw [config_registers_priv]
  dsimp only
  by_cases hi : dec_params.flags &&& (K.FRAME_FLAG_KEY_FRAME ||| K.FRAME_FLAG_INTRA_ONLY) ≠ 0
  · rw [if_pos hi]
    refine ⟨rfl, rfl, fun _ a ha => ?_, fun hn => absurd ((land_lor_ne_zero _ _ _).mp hi) hn⟩
    show memset ctx.priv.count_tbl.cpu 0 0 ctx.priv.count_tbl.size a = 0
    unfold memset
    rw [if_pos ⟨Nat.zero_le a, by omega⟩]
  · rw [if_neg hi]
    exact ⟨rfl, rfl, fun h => absurd ((land_lor_ne_zero _ _ _).mpr h) hi, fun _ => rfl⟩

/-- Witness for C18: a key frame over a count buffer whose bytes are all 7, at
byte 13231, against the same frame without the key-frame flag. -/
theorem config_registers_count_tbl_witness :
    (config_registers uapi (sample_ctx 1 0 7)
        { src_payload := 1000, src_dma := 0, dst := 0, decode_params := none }
        (sample_dec_params 1 0)).priv.count_tbl.cpu 13231 = 0 ∧
      (config_registers uapi (sample_ctx 0 0 7)
        { src_payload := 1000, src_dma := 0, dst := 0, decode_params := none }
        (sample_dec_params 0 0)).priv.count_tbl.cpu = (sample_ctx 0 0 7).priv.count_tbl.cpu :=
  ⟨(config_registers_count_tbl uapi (sample_ctx 1 0 7)
      { src_payload := 1000, src_dma := 0, dst := 0, decode_params := none }
      (sample_dec_params 1 0)).2.2.1 (Or.inl (by decide)) 13231 (by decide),
    (config_registers_count_tbl uapi (sample_ctx 0 0 7)
      { src_payload := 1000, src_dma := 0, dst := 0, decode_params := none }
      (sample_dec_params 0 0)).2.2.2 (by decide)⟩

/-- The segmentation map slot chosen by `config_registers`, and the last frame
info it keeps. -/
theorem config_registers_segmapid_eq (K : Uapi) (ctx : rkvdec_ctx) (run : struct_rkvdec_vp9_run)
    (dec_params : v4l2_ctrl_vp9_frame_decode_params) :
    (config_registers K ctx run dec_params).priv.last = ctx.priv.last ∧
    (config_registers K ctx run dec_params).priv.cur.segmapid =
      if ¬ (dec_params.flags &&& K.FRAME_FLAG_KEY_FRAME ≠ 0 ∨
            dec_params.flags &&& K.FRAME_FLAG_INTRA_ONLY ≠ 0) ∧
          ¬ (dec_params.flags &&& K.FRAME_FLAG_ERROR_RESILIENT ≠ 0) ∧
          (¬ (dec_params.seg.flags &&& K.SEGMENTATION_FLAG_ENABLED ≠ 0) ∨
            dec_params.seg.flags &&& K.SEGMENTATION_FLAG_UPDATE_MAP ≠ 0) then
        (ctx.priv.last.segmapid + 1) % 2
      else ctx.priv.last.segmapid := by
  rw [config_registers_priv]
  dsimp only
  refine ⟨rfl, ?_⟩
  simp only [land_lor_ne_zero]

/-- Claim C19: after `config_registers`, `cur.segmapid` is
`(last.segmapid + 1) mod 2` if the frame is not intra-only (neither the key
frame nor the intra-only flag is set), not error-resilient, and either
segmentation is disabled or the segmentation map is being updated; in every
other case `cur.segmapid` is `last.segmapid`.  The last frame info is the one
from before the call. -/
theorem config_registers_segmapid (K : Uapi) (ctx : rkvdec_ctx) (run : struct_rkvdec_vp9_run)
    (dec_params : v4l2_ctrl_vp9_frame_decode_params) :
    (config_registers K ctx run dec_params).priv.last = ctx.priv.last ∧
    (config_registers K ctx run dec_params).priv.cur.segmapid =
      if ¬ (dec_params.flags &&& K.FRAME_FLAG_KEY_FRAME ≠ 0 ∨
            dec_params.flags &&& K.FRAME_FLAG_INTRA_ONLY ≠ 0) ∧
          ¬ (dec_params.flags &&& K.FRAME_FLAG_ERROR_RESILIENT ≠ 0) ∧
          (¬ (dec_params.seg.flags &&& K.SEGMENTATION_FLAG_ENABLED ≠ 0) ∨
            dec_params.seg.flags &&& K.SEGMENTATION_FLAG_UPDATE_MAP ≠ 0) then
        (ctx.priv.last.segmapid + 1) % 2
      else ctx.priv.last.segmapid :=
  config_registers_segmapid_eq K ctx run dec_params

/-- With decode parameters at hand, `rkvdec_vp9_run_preamble` returns 0, changes
at most the loaded frame context, and passes on the decode parameters and the
buffers of the job. -/
theorem run_preamble_some (K : Uapi) (ctx : rkvdec_ctx)
    (dec_params : v4l2_ctrl_vp9_frame_decode_params)
    (h : ctx.ctrl_decode_params = some dec_params) :
    ∃ fctx, rkvdec_vp9_run_preamble K ctx =
      (0, { ctx with priv := { ctx.priv with frame_context := fctx } },
        { src_payload := ctx.next_src_payload, src_dma := ctx.next_src_dma,
          dst := ctx.next_dst, decode_params := some dec_params }) := by
  obtain ⟨w, ht, q, sp, sd, nd, dp, fc, p, r⟩ := ctx
  simp only at h
  subst h
  unfold rkvdec_vp9_run_preamble
  dsimp only
  split
  · exact ⟨_, rfl⟩
  · split
    · exact ⟨_, rfl⟩
    · split
      · exact ⟨_, rfl⟩
      · split
        · exact ⟨_, rfl⟩
        · exact ⟨_, rfl⟩

/-- With decode parameters at hand, `rkvdec_vp9_run` returns 0 and leaves the
session of `config_registers`, run on the session with the loaded frame context
and the rewritten probability buffer, followed by the four start-up register
writes. -/
theorem rkvdec_vp9_run_some (K : Uapi) (ctx : rkvdec_ctx)
    (dec_params : v4l2_ctrl_vp9_frame_decode_params)
    (h : ctx.ctrl_decode_params = some dec_params) :
    ∃ fctx, rkvdec_vp9_run K ctx =
      (0, writel [.RKVDEC_INTERRUPT_DEC_E, .RKVDEC_CONFIG_DEC_CLK_GATE_E, .RKVDEC_TIMEOUT_E,
          .RKVDEC_BUF_EMPTY_E] .RKVDEC_REG_INTERRUPT
        (writel [.value 0xe] .RKVDEC_REG_STRMD_ERR_EN
        (writel [.value 1] .RKVDEC_REG_PREF_CHR_CACHE_COMMAND
        (writel [.value 1] .RKVDEC_REG_PREF_LUMA_CACHE_COMMAND
        (config_registers K
          { ctx with priv := { ctx.priv with
              frame_context := fctx,
              priv_tbl := { ctx.priv.priv_tbl with
                cpu := init_probs K ctx.priv.priv_tbl.cpu dec_params } } }
          { src_payload := ctx.next_src_payload, src_dma := ctx.next_src_dma,
            dst := ctx.next_dst, decode_params := some dec_params }
          dec_params))))) := by
  obtain ⟨fctx, hp⟩ := run_preamble_some K ctx dec_params h
  refine ⟨fctx, ?_⟩
  unfold rkvdec_vp9_run
  rw [hp]
  simp only [ne_eq, not_true_eq_false, if_false]

/-- Without decode parameters `rkvdec_vp9_run` leaves the session as it is. -/
theorem rkvdec_vp9_run_none (K : Uapi) (ctx : rkvdec_ctx) (h : ctx.ctrl_decode_params = none) :
    (rkvdec_vp9_run K ctx).2 = ctx := by
  unfold rkvdec_vp9_run rkvdec_vp9_run_preamble
  simp only [h]
  split
  · rfl
  · rfl

/-- The segmentation-map ids after `rkvdec_vp9_run`: the last one is kept, the
current one is kept, or is the last one, or its successor modulo 2. -/
theorem rkvdec_vp9_run_segmapid (K : Uapi) (ctx : rkvdec_ctx) :
    (rkvdec_vp9_run K ctx).2.priv.last.segmapid = ctx.priv.last.segmapid ∧
      ((rkvdec_vp9_run K ctx).2.priv.cur.segmapid = ctx.priv.cur.segmapid ∨
        (rkvdec_vp9_run K ctx).2.priv.cur.segmapid = ctx.priv.last.segmapid ∨
        (rkvdec_vp9_run K ctx).2.priv.cur.segmapid = (ctx.priv.last.segmapid + 1) % 2) := by
  cases hdp : ctx.ctrl_decode_params with
  | none =>
    rw [rkvdec_vp9_run_none K ctx hdp]
    exact ⟨rfl, Or.inl rfl⟩
  | some dec_params =>
    obtain ⟨fctx, hr⟩ := rkvdec_vp9_run_some K ctx dec_params hdp
    have hpriv : (rkvdec_vp9_run K ctx).2.priv =
        (config_registers K
          { ctx with priv := { ctx.priv with
              frame_context := fctx,
              priv_tbl := { ctx.priv.priv_tbl with
                cpu := init_probs K ctx.priv.priv_tbl.cpu dec_params } } }
          { src_payload := ctx.next_src_payload, src_dma := ctx.next_src_dma,
            dst := ctx.next_dst, decode_params := some dec_params } dec_params).priv := by
      rw [hr]
      rfl
    obtain ⟨h1, h2⟩ := config_registers_segmapid_eq K
      { ctx with priv := { ctx.priv with
          frame_context := fctx,
          priv_tbl := { ctx.priv.priv_tbl with
            cpu := init_probs K ctx.priv.priv_tbl.cpu dec_params } } }
      { src_payload := ctx.next_src_payload, src_dma := ctx.next_src_dma,
        dst := ctx.next_dst, decode_params := some dec_params } dec_params
    rw [hpriv, h1, h2]
    refine ⟨rfl, Or.inr ?_⟩
    split
    · exact Or.inr rfl
    · exact Or.inl rfl

/-- In every reachable session the segmentation-map ids of the current and the
last frame info are 0 or 1. -/
theorem reachable_segmapid (K : Uapi) (ctx : rkvdec_ctx) (h : Reachable K ctx) :
    ctx.priv.cur.segmapid ≤ 1 ∧ ctx.priv.last.segmapid ≤ 1 := by
  induction h with
  | start ctx pa ca => exact ⟨Nat.zero_le 1, Nat.zero_le 1⟩
  | run ctx _ ih =>
    obtain ⟨h1, h2⟩ := rkvdec_vp9_run_segmapid K ctx
    rw [h1]
    refine ⟨?_, ih.2⟩
    rcases h2 with h2 | h2 | h2
    · rw [h2]; exact ih.1
    · rw [h2]; exact ih.2
    · rw [h2]; omega
  | hw ctx counts _ ih => exact ih
  | done ctx result _ ih =>
    obtain ⟨h1, h2⟩ := rkvdec_vp9_done_last_cur K ctx result
    rw [h1, h2]
    exact ⟨ih.1, ih.1⟩
  | env ctx ctx' _ hp ih =>
    rw [hp]
    exact ih

/-- A write to another register does not change the image of a register. -/
theorem reg_image_writel_ne (val : List RegField) (r reg : Reg) (c : rkvdec_ctx)
    (x : Option (List RegField)) (h : r ≠ reg) (hx : reg_image c.regs reg = x) :
    reg_image (writel val r c).regs reg = x := by
  unfold reg_image writel at *
  simp only [List.foldl_append, List.foldl_cons, List.foldl_nil, if_neg h]
  exact hx

/-- A write to a register sets its image. -/
theorem reg_image_writel_eq (val : List RegField) (reg : Reg) (c : rkvdec_ctx)
    (x : Option (List RegField)) (hx : some val = x) :
    reg_image (writel val reg c).regs reg = x := by
  unfold reg_image writel
  simp only [List.foldl_append, List.foldl_cons, List.foldl_nil, if_true]
  exact hx

/-- The segmentation-map base registers after `config_registers`: the current
map at slot `cur.segmapid`, the last map at the other slot. -/
theorem config_registers_segid_regs (K : Uapi) (ctx : rkvdec_ctx) (run : struct_rkvdec_vp9_run)
    (dec_params : v4l2_ctrl_vp9_frame_decode_params) :
    reg_image (config_registers K ctx run dec_params).regs .RKVDEC_REG_VP9_SEGIDCUR_BASE =
        some [.value (u32 ((config_registers K ctx run dec_params).priv.priv_tbl.dma +
          offsetof_segmap + RKVDEC_VP9_MAX_SEGMAP_SIZE *
            (config_registers K ctx run dec_params).priv.cur.segmapid))] ∧
      reg_image (config_registers K ctx run dec_params).regs .RKVDEC_REG_VP9_SEGIDLAST_BASE =
        some [.value (u32 ((config_registers K ctx run dec_params).priv.priv_tbl.dma +
          offsetof_segmap + RKVDEC_VP9_MAX_SEGMAP_SIZE *
            (if (config_registers K ctx run dec_params).priv.cur.segmapid = 0 then 1
             else 0)))] := by
  unfold config_registers
  lift_lets
  intros
  constructor
  · refine reg_image_writel_ne _ _ _ _ _ (by decide) ?_
    refine reg_image_writel_ne _ _ _ _ _ (by decide) ?_
    refine reg_image_writel_ne _ _ _ _ _ (by decide) ?_
    refine reg_image_writel_eq _ _ _ _ ?_
    rfl
  · refine reg_image_writel_ne _ _ _ _ _ (by decide) ?_
    refine reg_image_writel_ne _ _ _ _ _ (by decide) ?_
    refine reg_image_writel_eq _ _ _ _ ?_
    rfl

/-- Claim C20: in every reachable session the segmentation-map generation ids
of the current and the last frame info are 0 or 1, and for every frame
`config_registers` programs the current-map base register to segmentation slot
`N = cur.segmapid` and the last-map base register to slot `1 - N`, that is to
`priv_tbl.dma + offsetof(segmap) + 73728 * N` and
`priv_tbl.dma + offsetof(segmap) + 73728 * (1 - N)`, two different 32-bit
values. -/
theorem reachable_segmap_slots (K : Uapi) (ctx : rkvdec_ctx) (h : Reachable K ctx)
    (run : struct_rkvdec_vp9_run) (dec_params : v4l2_ctrl_vp9_frame_decode_params) :
    (ctx.priv.cur.segmapid ≤ 1 ∧ ctx.priv.last.segmapid ≤ 1) ∧
    (config_registers K ctx run dec_params).priv.cur.segmapid ≤ 1 ∧
    reg_image (config_registers K ctx run dec_params).regs .RKVDEC_REG_VP9_SEGIDCUR_BASE =
      some [.value (u32 (ctx.priv.priv_tbl.dma + offsetof_segmap +
        73728 * (config_registers K ctx run dec_params).priv.cur.segmapid))] ∧
    reg_image (config_registers K ctx run dec_params).regs .RKVDEC_REG_VP9_SEGIDLAST_BASE =
      some [.value (u32 (ctx.priv.priv_tbl.dma + offsetof_segmap +
        73728 * (1 - (config_registers K ctx run dec_params).priv.cur.segmapid)))] ∧
    u32 (ctx.priv.priv_tbl.dma + offsetof_segmap +
        73728 * (config_registers K ctx run dec_params).priv.cur.segmapid) ≠
      u32 (ctx.priv.priv_tbl.dma + offsetof_segmap +
        73728 * (1 - (config_registers K ctx run dec_params).priv.cur.segmapid)) := by
  have hr := reachable_segmapid K ctx h
  obtain ⟨hc, hl⟩ := config_registers_segid_regs K ctx run dec_params
  have hdma : (config_registers K ctx run dec_params).priv.priv_tbl.dma =
      ctx.priv.priv_tbl.dma := by
    rw [config_registers_priv]
  have hN : (config_registers K ctx run dec_params).priv.cur.segmapid ≤ 1 := by
    rw [(config_registers_segmapid_eq K ctx run dec_params).2]
    split
    · omega
    · exact hr.2
  rw [hdma] at hc hl
  have hsz : RKVDEC_VP9_MAX_SEGMAP_SIZE = 73728 := rfl
  rw [hsz] at hc hl
  have hflip : (if (config_registers K ctx run dec_params).priv.cur.segmapid = 0 then 1 else 0) =
      1 - (config_registers K ctx run dec_params).priv.cur.segmapid := by
    split <;> omega
  rw [hflip] at hl
  refine ⟨hr, hN, hc, hl, ?_⟩
  generalize (config_registers K ctx run dec_params).priv.cur.segmapid = N at hN
  generalize ctx.priv.priv_tbl.dma + offsetof_segmap = A
  unfold u32
  omega

/-- Witness for C20: the session a successful start leaves, then one run of an
inter frame. -/
theorem reachable_segmap_slots_witness :
    ((rkvdec_vp9_run uapi (rkvdec_vp9_start uapi (sample_ctx 0 0 0) true
        (some (fun _ => 5, 0x10000)) (some (fun _ => 5, 0x80000))).2).2.priv.cur.segmapid ≤ 1 ∧
      (rkvdec_vp9_run uapi (rkvdec_vp9_start uapi (sample_ctx 0 0 0) true
        (some (fun _ => 5, 0x10000)) (some (fun _ => 5, 0x80000))).2).2.priv.last.segmapid
        ≤ 1) :=
  (reachable_segmap_slots uapi _
    (Reachable.run _ (Reachable.start (sample_ctx 0 0 0) (fun _ => 5, 0x10000)
      (fun _ => 5, 0x80000)))
    { src_payload := 0, src_dma := 0, dst := 0, decode_params := none }
    (sample_dec_params 0 0)).1

/-- Adapting another element keeps the value of an element. -/
theorem adapt_valAt (t : v4l2_vp9_probabilities) (x y : PIdx) (c0 c1 mc uf v : Nat)
    (hne : y ≠ x) (h : ValAt y v t) : ValAt y v (t.adapt x c0 c1 mc uf) := by
  unfold ValAt at *
  rw [adapt_other _ _ _ _ _ _ _ hne]
  exact h

/-- The function `adapt_coef_probs` keeps every element that is not a
coefficient probability. -/
theorem adapt_coef_probs_valAt (t : v4l2_vp9_probabilities)
    (ref_cnt : Nat → Nat → Nat → Nat → Nat → rkvdec_vp9_refs_counts) (uf : Nat) (y : PIdx) (v : Nat)
    (hy : y.field ∉ [PField.coef]) (h : ValAt y v t) :
    ValAt y v (adapt_coef_probs t ref_cnt uf) := by
  unfold ValAt at *
  rw [adapt_coef_probs_non_coef _ _ _ _ (by cases y <;> simp [PIdx.field, PIdx.isCoef] at hy ⊢)]
  exact h

/-- The function `adapt_skip_probs` keeps every element outside the members it adapts. -/
theorem adapt_skip_probs_valAt (t : v4l2_vp9_probabilities)
    (c : rkvdec_vp9_inter_frame_symbol_counts) (y : PIdx) (v : Nat)
    (hy : y.field ∉ [PField.skip]) (h : ValAt y v t) :
    ValAt y v (adapt_skip_probs t c) := by
  unfold adapt_skip_probs
  repeat' first
    | assumption
    | with_reducible refine forLoop_inv (ValAt _ _) _ _ _ ?_ (fun _ _ _ _ => ?_)
    | with_reducible refine adapt_valAt _ _ _ _ _ _ _ _ ?_ ?_
    | (intro hxy; apply hy; rw [hxy]; simp [PIdx.field]; done)

/-- The function `adapt_is_inter_probs` keeps every element outside the members it adapts. -/
theorem adapt_is_inter_probs_valAt (t : v4l2_vp9_probabilities)
    (c : rkvdec_vp9_inter_frame_symbol_counts) (y : PIdx) (v : Nat)
    (hy : y.field ∉ [PField.is_inter]) (h : ValAt y v t) :
    ValAt y v (adapt_is_inter_probs t c) := by
  unfold adapt_is_inter_probs
  repeat' first
    | assumption
    | with_reducible refine forLoop_inv (ValAt _ _) _ _ _ ?_ (fun _ _ _ _ => ?_)
    | with_reducible refine adapt_valAt _ _ _ _ _ _ _ _ ?_ ?_
    | (intro hxy; apply hy; rw [hxy]; simp [PIdx.field]; done)

/-- The function `adapt_comp_mode_probs` keeps every element outside the members it adapts. -/
theorem adapt_comp_mode_probs_valAt (t : v4l2_vp9_probabilities)
    (c : rkvdec_vp9_inter_frame_symbol_counts) (y : PIdx) (v : Nat)
    (hy : y.field ∉ [PField.comp_mode]) (h : ValAt y v t) :
    ValAt y v (adapt_comp_mode_probs t c) := by
  unfold adapt_comp_mode_probs
  repeat' first
    | assumption
    | with_reducible refine forLoop_inv (ValAt _ _) _ _ _ ?_ (fun _ _ _ _ => ?_)
    | with_reducible refine adapt_valAt _ _ _ _ _ _ _ _ ?_ ?_
    | (intro hxy; apply hy; rw [hxy]; simp [PIdx.field]; done)

/-- The function `adapt_comp_ref_probs` keeps every element outside the members it adapts. -/
theorem adapt_comp_ref_probs_valAt (t : v4l2_vp9_probabilities)
    (c : rkvdec_vp9_inter_frame_symbol_counts) (y : PIdx) (v : Nat)
    (hy : y.field ∉ [PField.comp_ref]) (h : ValAt y v t) :
    ValAt y v (adapt_comp_ref_probs t c) := by
  unfold adapt_comp_ref_probs
  repeat' first
    | assumption
    | with_reducible refine forLoop_inv (ValAt _ _) _ _ _ ?_ (fun _ _ _ _ => ?_)
    | with_reducible refine adapt_valAt _ _ _ _ _ _ _ _ ?_ ?_
    | (intro hxy; apply hy; rw [hxy]; simp [PIdx.field]; done)

/-- The function `adapt_single_ref_probs` keeps every element outside the members it adapts. -/
theorem adapt_single_ref_probs_valAt (t : v4l2_vp9_probabilities)
    (c : rkvdec_vp9_inter_frame_symbol_counts) (y : PIdx) (v : Nat)
    (hy : y.field ∉ [PField.single_ref]) (h : ValAt y v t) :
    ValAt y v (adapt_single_ref_probs t c) := by
  unfold adapt_single_ref_probs
  repeat' first
    | assumption
    | with_reducible refine forLoop_inv (ValAt _ _) _ _ _ ?_ (fun _ _ _ _ => ?_)
    | with_reducible refine adapt_valAt _ _ _ _ _ _ _ _ ?_ ?_
    | (intro hxy; apply hy; rw [hxy]; simp [PIdx.field]; done)

/-- The function `adapt_partition_probs` keeps every element outside the members it adapts. -/
theorem adapt_partition_probs_valAt (t : v4l2_vp9_probabilities)
    (c : rkvdec_vp9_inter_frame_symbol_counts) (y : PIdx) (v : Nat)
    (hy : y.field ∉ [PField.partition]) (h : ValAt y v t) :
    ValAt y v (adapt_partition_probs t c) := by
  unfold adapt_partition_probs
  repeat' first
    | assumption
    | with_reducible refine forLoop_inv (ValAt _ _) _ _ _ ?_ (fun _ _ _ _ => ?_)
    | with_reducible refine adapt_valAt _ _ _ _ _ _ _ _ ?_ ?_
    | (intro hxy; apply hy; rw [hxy]; simp [PIdx.field]; done)

/-- The function `adapt_tx_probs` keeps every element outside the members it adapts. -/
theorem adapt_tx_probs_valAt (t : v4l2_vp9_probabilities)
    (c : rkvdec_vp9_inter_frame_symbol_counts) (y : PIdx) (v : Nat)
    (hy : y.field ∉ [PField.tx8, PField.tx16, PField.tx32]) (h : ValAt y v t) :
    ValAt y v (adapt_tx_probs t c) := by
  unfold adapt_tx_probs
  repeat' first
    | assumption
    | with_reducible refine forLoop_inv (ValAt _ _) _ _ _ ?_ (fun _ _ _ _ => ?_)
    | with_reducible refine adapt_valAt _ _ _ _ _ _ _ _ ?_ ?_
    | (intro hxy; apply hy; rw [hxy]; simp [PIdx.field]; done)

/-- The function `adapt_interp_filter_probs` keeps every element outside the members it adapts. -/
theorem adapt_interp_filter_probs_valAt (t : v4l2_vp9_probabilities)
    (c : rkvdec_vp9_inter_frame_symbol_counts) (y : PIdx) (v : Nat)
    (hy : y.field ∉ [PField.interp_filter]) (h : ValAt y v t) :
    ValAt y v (adapt_interp_filter_probs t c) := by
  unfold adapt_interp_filter_probs
  repeat' first
    | assumption
    | with_reducible refine forLoop_inv (ValAt _ _) _ _ _ ?_ (fun _ _ _ _ => ?_)
    | with_reducible refine adapt_valAt _ _ _ _ _ _ _ _ ?_ ?_
    | (intro hxy; apply hy; rw [hxy]; simp [PIdx.field]; done)

/-- The function `adapt_inter_mode_probs` keeps every element outside the members it adapts. -/
theorem adapt_inter_mode_probs_valAt (t : v4l2_vp9_probabilities)
    (c : rkvdec_vp9_inter_frame_symbol_counts) (y : PIdx) (v : Nat)
    (hy : y.field ∉ [PField.inter_mode]) (h : ValAt y v t) :
    ValAt y v (adapt_inter_mode_probs t c) := by
  unfold adapt_inter_mode_probs
  repeat' first
    | assumption
    | with_reducible refine forLoop_inv (ValAt _ _) _ _ _ ?_ (fun _ _ _ _ => ?_)
    | with_reducible refine adapt_valAt _ _ _ _ _ _ _ _ ?_ ?_
    | (intro hxy; apply hy; rw [hxy]; simp [PIdx.field]; done)

/-- The function `adapt_mv_probs` keeps every element outside the motion-vector
members it adapts; the two high-precision members are adapted only when
`high_prec_mv` is set. -/
theorem adapt_mv_probs_valAt (t : v4l2_vp9_probabilities)
    (c : rkvdec_vp9_inter_frame_symbol_counts) (hp : Bool) (y : PIdx) (v : Nat)
    (hy : y.field ∉ [PField.mv_joint, PField.mv_sign, PField.mv_class, PField.mv_class0_bit,
      PField.mv_bits, PField.mv_class0_fr, PField.mv_fr])
    (hhp : hp = true → y.field ∉ [PField.mv_class0_hp, PField.mv_hp]) (h : ValAt y v t) :
    ValAt y v (adapt_mv_probs t c hp) := by
  unfold adapt_mv_probs
  cases hp with
  | false =>
    simp only [if_true]
    repeat' first
      | assumption
      | with_reducible refine forLoop_inv (ValAt _ _) _ _ _ ?_ (fun _ _ _ _ => ?_)
      | with_reducible refine adapt_valAt _ _ _ _ _ _ _ _ ?_ ?_
      | (intro hxy; apply hy; rw [hxy]; simp [PIdx.field]; done)
  | true =>
    have hy2 := hhp rfl
    simp only [Bool.true_eq_false, if_false]
    repeat' first
      | assumption
      | with_reducible refine forLoop_inv (ValAt _ _) _ _ _ ?_ (fun _ _ _ _ => ?_)
      | with_reducible refine adapt_valAt _ _ _ _ _ _ _ _ ?_ ?_
      | (intro hxy; apply hy; rw [hxy]; simp [PIdx.field]; done)
      | (intro hxy; apply hy2; rw [hxy]; simp [PIdx.field]; done)

/-- The function `adapt_intra_mode_probs` keeps every element `p` does not
designate. -/
theorem adapt_intra_mode_probs_valAt (K : Uapi) (t : v4l2_vp9_probabilities) (p : Nat → PIdx)
    (c : Nat → Nat) (y : PIdx) (v : Nat) (hy : ∀ n, y ≠ p n) (h : ValAt y v t) :
    ValAt y v (adapt_intra_mode_probs K t p c) := by
  unfold adapt_intra_mode_probs
  repeat' first
    | assumption
    | with_reducible refine adapt_valAt _ _ _ _ _ _ _ _ ?_ ?_
    | exact hy _

/-- The function `adapt_y_intra_mode_probs` keeps every element outside
`y_mode`. -/
theorem adapt_y_intra_mode_probs_valAt (K : Uapi) (t : v4l2_vp9_probabilities)
    (c : rkvdec_vp9_inter_frame_symbol_counts) (y : PIdx) (v : Nat)
    (hy : y.field ∉ [PField.y_mode]) (h : ValAt y v t) :
    ValAt y v (adapt_y_intra_mode_probs K t c) := by
  unfold adapt_y_intra_mode_probs
  refine forLoop_inv (ValAt _ _) _ _ _ h (fun i u _ hu => ?_)
  refine adapt_intra_mode_probs_valAt K _ _ _ _ _ (fun n hxy => ?_) hu
  exact hy (by rw [hxy]; simp [PIdx.field])

/-- The function `adapt_uv_intra_mode_probs` keeps every element outside
`uv_mode`. -/
theorem adapt_uv_intra_mode_probs_valAt (K : Uapi) (t : v4l2_vp9_probabilities)
    (c : rkvdec_vp9_inter_frame_symbol_counts) (y : PIdx) (v : Nat)
    (hy : y.field ∉ [PField.uv_mode]) (h : ValAt y v t) :
    ValAt y v (adapt_uv_intra_mode_probs K t c) := by
  unfold adapt_uv_intra_mode_probs
  refine forLoop_inv (ValAt _ _) _ _ _ h (fun i u _ hu => ?_)
  refine adapt_intra_mode_probs_valAt K _ _ _ _ _ (fun n hxy => ?_) hu
  exact hy (by rw [hxy]; simp [PIdx.field])

/-- The function `adapt_inter_frame_probs` keeps every element outside the
members it adapts for the gates of the current frame. -/
theorem adapt_inter_frame_probs_keeps (K : Uapi) (vp9_ctx : rkvdec_vp9_ctx) (y : PIdx)
    (hy : y.field ∉ [PField.coef, PField.skip, PField.is_inter, PField.comp_mode,
      PField.comp_ref, PField.partition, PField.inter_mode, PField.mv_joint, PField.mv_sign,
      PField.mv_class, PField.mv_class0_bit, PField.mv_bits, PField.mv_class0_fr, PField.mv_fr,
      PField.y_mode, PField.uv_mode])
    (hsr : vp9_ctx.cur.reference_mode ≠ K.REF_MODE_COMPOUND → y.field ∉ [PField.single_ref])
    (htx : vp9_ctx.cur.tx_mode = K.TX_MODE_SELECT →
      y.field ∉ [PField.tx8, PField.tx16, PField.tx32])
    (hif : vp9_ctx.cur.interpolation_filter = K.INTERP_FILTER_SWITCHABLE →
      y.field ∉ [PField.interp_filter])
    (hhp : vp9_ctx.cur.flags &&& K.FRAME_FLAG_ALLOW_HIGH_PREC_MV ≠ 0 →
      y.field ∉ [PField.mv_class0_hp, PField.mv_hp]) :
    (adapt_inter_frame_probs K vp9_ctx).frame_context.probs y =
      vp9_ctx.frame_context.probs y := by
  show ValAt y (vp9_ctx.frame_context.probs y) (adapt_inter_frame_probs K vp9_ctx).frame_context.probs
  unfold adapt_inter_frame_probs
  dsimp only
  refine adapt_uv_intra_mode_probs_valAt K _ _ _ _
    (by intro hm; apply hy; simp at hm; simp [hm]) ?_
  refine adapt_y_intra_mode_probs_valAt K _ _ _ _
    (by intro hm; apply hy; simp at hm; simp [hm]) ?_
  refine adapt_mv_probs_valAt _ _ _ _ _
    (by intro hm; apply hy; simp at hm; rcases hm with hm | hm | hm | hm | hm | hm | hm <;>
      simp [hm])
    (fun hd => hhp (by simpa using hd)) ?_
  refine adapt_inter_mode_probs_valAt _ _ _ _
    (by intro hm; apply hy; simp at hm; simp [hm]) ?_
  have hbase : ValAt y (vp9_ctx.frame_context.probs y)
      (adapt_comp_ref_probs (adapt_comp_mode_probs (adapt_is_inter_probs (adapt_skip_probs
        (if vp9_ctx.last.valid ≠ 0 ∧ ¬ (vp9_ctx.last.flags &&& K.FRAME_FLAG_KEY_FRAME ≠ 0) then
          adapt_coef_probs vp9_ctx.frame_context.probs
            (inter_frame_symbol_counts vp9_ctx.count_tbl.cpu).ref_cnt 112
        else
          adapt_coef_probs vp9_ctx.frame_context.probs
            (inter_frame_symbol_counts vp9_ctx.count_tbl.cpu).ref_cnt 128)
        (inter_frame_symbol_counts vp9_ctx.count_tbl.cpu))
        (inter_frame_symbol_counts vp9_ctx.count_tbl.cpu))
        (inter_frame_symbol_counts vp9_ctx.count_tbl.cpu))
        (inter_frame_symbol_counts vp9_ctx.count_tbl.cpu)) := by
    refine adapt_comp_ref_probs_valAt _ _ _ _
      (by intro hm; apply hy; simp at hm; simp [hm]) ?_
    refine adapt_comp_mode_probs_valAt _ _ _ _
      (by intro hm; apply hy; simp at hm; simp [hm]) ?_
    refine adapt_is_inter_probs_valAt _ _ _ _
      (by intro hm; apply hy; simp at hm; simp [hm]) ?_
    refine adapt_skip_probs_valAt _ _ _ _
      (by intro hm; apply hy; simp at hm; simp [hm]) ?_
    split
    · exact adapt_coef_probs_valAt _ _ _ _ _
        (by intro hm; apply hy; simp at hm; simp [hm]) rfl
    · exact adapt_coef_probs_valAt _ _ _ _ _
        (by intro hm; apply hy; simp at hm; simp [hm]) rfl
  have hpart : ValAt y (vp9_ctx.frame_context.probs y)
      (adapt_partition_probs
        (if vp9_ctx.cur.reference_mode ≠ K.REF_MODE_COMPOUND then
          adapt_single_ref_probs (adapt_comp_ref_probs (adapt_comp_mode_probs
            (adapt_is_inter_probs (adapt_skip_probs
            (if vp9_ctx.last.valid ≠ 0 ∧
                ¬ (vp9_ctx.last.flags &&& K.FRAME_FLAG_KEY_FRAME ≠ 0) then
              adapt_coef_probs vp9_ctx.frame_context.probs
                (inter_frame_symbol_counts vp9_ctx.count_tbl.cpu).ref_cnt 112
            else
              adapt_coef_probs vp9_ctx.frame_context.probs
                (inter_frame_symbol_counts vp9_ctx.count_tbl.cpu).ref_cnt 128)
            (inter_frame_symbol_counts vp9_ctx.count_tbl.cpu))
            (inter_frame_symbol_counts vp9_ctx.count_tbl.cpu))
            (inter_frame_symbol_counts vp9_ctx.count_tbl.cpu))
            (inter_frame_symbol_counts vp9_ctx.count_tbl.cpu))
            (inter_frame_symbol_counts vp9_ctx.count_tbl.cpu)
        else
          adapt_comp_ref_probs (adapt_comp_mode_probs
            (adapt_is_inter_probs (adapt_skip_probs
            (if vp9_ctx.last.valid ≠ 0 ∧
                ¬ (vp9_ctx.last.flags &&& K.FRAME_FLAG_KEY_FRAME ≠ 0) then
              adapt_coef_probs vp9_ctx.frame_context.probs
                (inter_frame_symbol_counts vp9_ctx.count_tbl.cpu).ref_cnt 112
            else
              adapt_coef_probs vp9_ctx.frame_context.probs
                (inter_frame_symbol_counts vp9_ctx.count_tbl.cpu).ref_cnt 128)
            (inter_frame_symbol_counts vp9_ctx.count_tbl.cpu))
            (inter_frame_symbol_counts vp9_ctx.count_tbl.cpu))
            (inter_frame_symbol_counts vp9_ctx.count_tbl.cpu))
            (inter_frame_symbol_counts vp9_ctx.count_tbl.cpu))
        (inter_frame_symbol_counts vp9_ctx.count_tbl.cpu)) := by
    refine adapt_partition_probs_valAt _ _ _ _
      (by intro hm; apply hy; simp at hm; simp [hm]) ?_
    split
    · rename_i hg
      exact adapt_single_ref_probs_valAt _ _ _ _ (hsr hg) hbase
    · exact hbase
  split
  · rename_i hg
    refine adapt_interp_filter_probs_valAt _ _ _ _ (hif hg) ?_
    split
    · rename_i hg2
      exact adapt_tx_probs_valAt _ _ _ _ (htx hg2) hpart
    · exact hpart
  · split
    · rename_i hg2
      exact adapt_tx_probs_valAt _ _ _ _ (htx hg2) hpart
    · exact hpart

/-- Claim C11: in inter-frame adaptation the gated classes are untouched when
their gate is off, for every count buffer: `mv.class0_hp` and `mv.hp` are
unchanged when high-precision motion vectors are not allowed, `single_ref` is
unchanged when the reference mode is compound, `tx8`, `tx16` and `tx32` are
unchanged when the transform mode is not "select", and `interp_filter` is
unchanged when the interpolation filter is not switchable. -/
theorem adapt_inter_frame_probs_gated (K : Uapi) (vp9_ctx : rkvdec_vp9_ctx) :
    (¬ (vp9_ctx.cur.flags &&& K.FRAME_FLAG_ALLOW_HIGH_PREC_MV ≠ 0) →
      ∀ i, (adapt_inter_frame_probs K vp9_ctx).frame_context.probs (.mv_class0_hp i) =
          vp9_ctx.frame_context.probs (.mv_class0_hp i) ∧
        (adapt_inter_frame_probs K vp9_ctx).frame_context.probs (.mv_hp i) =
          vp9_ctx.frame_context.probs (.mv_hp i)) ∧
    (vp9_ctx.cur.reference_mode = K.REF_MODE_COMPOUND →
      ∀ i j, (adapt_inter_frame_probs K vp9_ctx).frame_context.probs (.single_ref i j) =
        vp9_ctx.frame_context.probs (.single_ref i j)) ∧
    (vp9_ctx.cur.tx_mode ≠ K.TX_MODE_SELECT →
      ∀ i j, (adapt_inter_frame_probs K vp9_ctx).frame_context.probs (.tx8 i j) =
          vp9_ctx.frame_context.probs (.tx8 i j) ∧
        (adapt_inter_frame_probs K vp9_ctx).frame_context.probs (.tx16 i j) =
          vp9_ctx.frame_context.probs (.tx16 i j) ∧
        (adapt_inter_frame_probs K vp9_ctx).frame_context.probs (.tx32 i j) =
          vp9_ctx.frame_context.probs (.tx32 i j)) ∧
    (vp9_ctx.cur.interpolation_filter ≠ K.INTERP_FILTER_SWITCHABLE →
      ∀ i j, (adapt_inter_frame_probs K vp9_ctx).frame_context.probs (.interp_filter i j) =
        vp9_ctx.frame_context.probs (.interp_filter i j)) := by
  refine ⟨fun hg i => ⟨?_, ?_⟩, fun hg i j => ?_, fun hg i j => ⟨?_, ?_, ?_⟩, fun hg i j => ?_⟩
  all_goals
    apply adapt_inter_frame_probs_keeps
    · simp [PIdx.field]
    · first
        | (intro hn; exact absurd hg hn)
        | (intro _; simp [PIdx.field])
    · first
        | (intro hn; exact absurd hn hg)
        | (intro _; simp [PIdx.field])
    · first
        | (intro hn; exact absurd hn hg)
        | (intro _; simp [PIdx.field])
    · first
        | (intro hn; exact absurd hn hg)
        | (intro _; simp [PIdx.field])

/-- Witness for C11: an inter frame with reference mode single, transform mode
0, a fixed interpolation filter and no high-precision motion vectors, over a
count buffer whose bytes are all 1: `mv.hp[0]` and `tx8[0][0]` keep their
value. -/
theorem adapt_inter_frame_probs_gated_witness :
    (adapt_inter_frame_probs uapi (sample_vp9_ctx 0 1)).frame_context.probs (.mv_hp 0) =
        (sample_vp9_ctx 0 1).frame_context.probs (.mv_hp 0) ∧
      (adapt_inter_frame_probs uapi (sample_vp9_ctx 0 1)).frame_context.probs (.tx8 0 0) =
        (sample_vp9_ctx 0 1).frame_context.probs (.tx8 0 0) :=
  ⟨((adapt_inter_frame_probs_gated uapi (sample_vp9_ctx 0 1)).1 (by decide) 0).2,
    ((adapt_inter_frame_probs_gated uapi (sample_vp9_ctx 0 1)).2.2.1 (by decide) 0 0).1⟩

/-- A loop none of whose iterations changes an observation of the state keeps
that observation. -/
theorem forLoop_eval_other {σ α : Type} (g : σ → α) (n : Nat) (body : Nat → σ → σ) (s : σ)
    (h : ∀ j t, j < n → g (body j t) = g t) : g (forLoop n body s) = g s :=
  forLoop_inv (fun t => g t = g s) n body s rfl (fun j t hj ht => (h j t hj).trans ht)

/-- A loop in which iteration `i` alone changes an observation of the state, by
applying `f` to it, applies `f` once to that observation. -/
theorem forLoop_eval_at {σ α : Type} (g : σ → α) (n : Nat) (body : Nat → σ → σ) (s : σ)
    (i : Nat) (f : α → α) (hi : i < n) (hat : ∀ t, g (body i t) = f (g t))
    (hother : ∀ j t, j < n → j ≠ i → g (body j t) = g t) :
    g (forLoop n body s) = f (g s) := by
  induction n with
  | zero => exact absurd hi (Nat.not_lt_zero i)
  | succ k ih =>
    unfold forLoop
    by_cases hik : i = k
    · subst hik
      rw [hat, forLoop_eval_other g i body s
        (fun j t hj => hother j t (Nat.lt_succ_of_lt hj) (Nat.ne_of_lt hj))]
    · have hlt : i < k := by omega
      rw [hother k _ (Nat.lt_succ_self k) (fun h => hik h.symm)]
      exact ih hlt (fun j t hj hji => hother j t (Nat.lt_succ_of_lt hj) hji)

/-- The statement `*x = adapt_prob(*x, ...)` gives element `x` the merged
value computed from its old one. -/
theorem adapt_same (probs : v4l2_vp9_probabilities) (x : PIdx) (c0 c1 mc uf : Nat) :
    (probs.adapt x c0 c1 mc uf) x = adapt_prob (probs x) c0 c1 mc uf := by
  unfold v4l2_vp9_probabilities.adapt v4l2_vp9_probabilities.set
  show (if x = x then _ else _) = _
  rw [if_pos rfl]

/-- Claim C13: `adapt_partition_probs` adapts, for every context `i < 16` with
counts `c = sym_cnts.partition i`, the three probabilities of the four-way
partition distribution as three binary splits: `p[0]` from the branch pair
`(c[0], c[1] + c[2] + c[3])`, `p[1]` from `(c[1], c[2] + c[3])` and `p[2]` from
`(c[2], c[3])`, the sums being `u32` sums, each with `max_count` 20 and
update factor 128 and each from the old value of that same probability. -/
theorem adapt_partition_probs_eval (probs : v4l2_vp9_probabilities)
    (sym_cnts : rkvdec_vp9_inter_frame_symbol_counts) (i : Nat) (hi : i < 16) :
    (adapt_partition_probs probs sym_cnts) (.partition i 0) =
        adapt_prob (probs (.partition i 0)) (sym_cnts.partition i 0)
          (add32 (add32 (sym_cnts.partition i 1) (sym_cnts.partition i 2))
            (sym_cnts.partition i 3)) 20 128 ∧
      (adapt_partition_probs probs sym_cnts) (.partition i 1) =
        adapt_prob (probs (.partition i 1)) (sym_cnts.partition i 1)
          (add32 (sym_cnts.partition i 2) (sym_cnts.partition i 3)) 20 128 ∧
      (adapt_partition_probs probs sym_cnts) (.partition i 2) =
        adapt_prob (probs (.partition i 2)) (sym_cnts.partition i 2)
          (sym_cnts.partition i 3) 20 128 := by
  unfold adapt_partition_probs
  refine ⟨?_, ?_, ?_⟩
  · refine forLoop_eval_at (fun t : v4l2_vp9_probabilities => t (.partition i 0)) 16 _ probs i
      (fun p => adapt_prob p _ _ 20 128) hi (fun t => ?_) (fun j t hj hji => ?_)
    · dsimp only
      rw [adapt_other _ _ _ _ _ _ _ (by simp), adapt_other _ _ _ _ _ _ _ (by simp), adapt_same]
    · dsimp only
      rw [adapt_other _ _ _ _ _ _ _ (by simp), adapt_other _ _ _ _ _ _ _ (by simp),
        adapt_other _ _ _ _ _ _ _ (by simp; omega)]
  · refine forLoop_eval_at (fun t : v4l2_vp9_probabilities => t (.partition i 1)) 16 _ probs i
      (fun p => adapt_prob p _ _ 20 128) hi (fun t => ?_) (fun j t hj hji => ?_)
    · dsimp only
      rw [adapt_other _ _ _ _ _ _ _ (by simp), adapt_same, adapt_other _ _ _ _ _ _ _ (by simp)]
    · dsimp only
      rw [adapt_other _ _ _ _ _ _ _ (by simp), adapt_other _ _ _ _ _ _ _ (by simp; omega),
        adapt_other _ _ _ _ _ _ _ (by simp)]
  · refine forLoop_eval_at (fun t : v4l2_vp9_probabilities => t (.partition i 2)) 16 _ probs i
      (fun p => adapt_prob p _ _ 20 128) hi (fun t => ?_) (fun j t hj hji => ?_)
    · dsimp only
      rw [adapt_same, adapt_other _ _ _ _ _ _ _ (by simp), adapt_other _ _ _ _ _ _ _ (by simp)]
    · dsimp only
      rw [adapt_other _ _ _ _ _ _ _ (by simp; omega), adapt_other _ _ _ _ _ _ _ (by simp),
        adapt_other _ _ _ _ _ _ _ (by simp)]

/-- Witness for C13: context 3 over a count buffer whose bytes are all 1. -/
theorem adapt_partition_probs_eval_witness :
    3 < 16 ∧
      (adapt_partition_probs (sample_probs 128) (inter_frame_symbol_counts (fun _ => 1)))
          (.partition 3 2) =
        adapt_prob ((sample_probs 128) (.partition 3 2))
          ((inter_frame_symbol_counts (fun _ => 1)).partition 3 2)
          ((inter_frame_symbol_counts (fun _ => 1)).partition 3 3) 20 128 :=
  ⟨by decide,
    (adapt_partition_probs_eval (sample_probs 128) (inter_frame_symbol_counts (fun _ => 1)) 3
      (by decide)).2.2⟩

/-- The function `adapt_coeff` keeps every element that is not one of the
coefficient probabilities `coef[i][j][k][l][m][n]` with `m < BAND_6(l)`. -/
theorem adapt_coeff_keeps (probs : v4l2_vp9_probabilities) (i j k : Nat)
    (ref_cnt : Nat → Nat → rkvdec_vp9_refs_counts) (uf : Nat) (y : PIdx)
    (hy : ∀ l m n, l < 6 → m < BAND_6 l → n < 3 → y ≠ .coef i j k l m n) :
    adapt_coeff probs i j k ref_cnt uf y = probs y := by
  unfold adapt_coeff
  refine forLoop_eval_other (fun t : v4l2_vp9_probabilities => t y) _ _ _ (fun l t hl => ?_)
  refine forLoop_eval_other (fun t : v4l2_vp9_probabilities => t y) _ _ _ (fun m t hm => ?_)
  dsimp only
  refine forLoop_eval_other (fun t : v4l2_vp9_probabilities => t y) _ _ _ (fun n t hn => ?_)
  exact adapt_other _ _ _ _ _ _ _ (hy l m n hl hm hn)

/-- The function `adapt_coef_probs` keeps every element that is not one of the
coefficient probabilities `coef[i][j][k][l][m][n]` with `m < BAND_6(l)`. -/
theorem adapt_coef_probs_keeps (probs : v4l2_vp9_probabilities)
    (ref_cnt : Nat → Nat → Nat → Nat → Nat → rkvdec_vp9_refs_counts) (uf : Nat) (y : PIdx)
    (hy : ∀ i j k l m n, i < 4 → j < 2 → k < 2 → l < 6 → m < BAND_6 l → n < 3 →
      y ≠ .coef i j k l m n) :
    adapt_coef_probs probs ref_cnt uf y = probs y := by
  unfold adapt_coef_probs
  refine forLoop_eval_other (fun t : v4l2_vp9_probabilities => t y) _ _ _ (fun i t hi => ?_)
  refine forLoop_eval_other (fun t : v4l2_vp9_probabilities => t y) _ _ _ (fun j t hj => ?_)
  refine forLoop_eval_other (fun t : v4l2_vp9_probabilities => t y) _ _ _ (fun k t hk => ?_)
  exact adapt_coeff_keeps _ _ _ _ _ _ _ (fun l m n hl hm hn => hy i j k l m n hi hj hk hl hm hn)

/-- The function `adapt_coeff` at the three probabilities of band `l`,
context `m < BAND_6(l)`. -/
theorem adapt_coeff_eval (probs : v4l2_vp9_probabilities) (i j k : Nat)
    (ref_cnt : Nat → Nat → rkvdec_vp9_refs_counts) (uf l m : Nat) (hl : l < 6)
    (hm : m < BAND_6 l) :
    adapt_coeff probs i j k ref_cnt uf (.coef i j k l m 0) =
        adapt_prob (probs (.coef i j k l m 0)) ((ref_cnt l m).eob 1)
          (sub32 ((ref_cnt l m).eob 0) ((ref_cnt l m).eob 1)) 24 uf ∧
      adapt_coeff probs i j k ref_cnt uf (.coef i j k l m 1) =
        adapt_prob (probs (.coef i j k l m 1)) ((ref_cnt l m).coeff 0)
          (add32 ((ref_cnt l m).coeff 1) ((ref_cnt l m).coeff 2)) 24 uf ∧
      adapt_coeff probs i j k ref_cnt uf (.coef i j k l m 2) =
        adapt_prob (probs (.coef i j k l m 2)) ((ref_cnt l m).coeff 1)
          ((ref_cnt l m).coeff 2) 24 uf := by
  unfold adapt_coeff
  refine ⟨?_, ?_, ?_⟩
  · refine forLoop_eval_at (fun t : v4l2_vp9_probabilities => t (.coef i j k l m 0)) 6 _ probs l
      (fun p => adapt_prob p _ _ 24 uf) hl (fun t => ?_) (fun l' t hl' hne => ?_)
    · refine forLoop_eval_at (fun t : v4l2_vp9_probabilities => t (.coef i j k l m 0)) _ _ t m
        (fun p => adapt_prob p _ _ 24 uf) hm (fun t => ?_) (fun m' t hm' hne => ?_)
      · dsimp only
        refine forLoop_eval_at (fun t : v4l2_vp9_probabilities => t (.coef i j k l m 0))
          3 _ t 0 (fun p => adapt_prob p _ _ 24 uf) (by decide) (fun t => ?_)
          (fun n t hn hne => ?_)
        · exact adapt_same _ _ _ _ _ _
        · exact adapt_other _ _ _ _ _ _ _ (by simp; omega)
      · dsimp only
        refine forLoop_eval_other (fun t : v4l2_vp9_probabilities => t (.coef i j k l m 0))
          _ _ _ (fun n t hn => ?_)
        exact adapt_other _ _ _ _ _ _ _ (by simp; omega)
    · refine forLoop_eval_other (fun t : v4l2_vp9_probabilities => t (.coef i j k l m 0))
        _ _ _ (fun m' t hm' => ?_)
      dsimp only
      refine forLoop_eval_other (fun t : v4l2_vp9_probabilities => t (.coef i j k l m 0))
        _ _ _ (fun n t hn => ?_)
      exact adapt_other _ _ _ _ _ _ _ (by simp; omega)
  · refine forLoop_eval_at (fun t : v4l2_vp9_probabilities => t (.coef i j k l m 1)) 6 _ probs l
      (fun p => adapt_prob p _ _ 24 uf) hl (fun t => ?_) (fun l' t hl' hne => ?_)
    · refine forLoop_eval_at (fun t : v4l2_vp9_probabilities => t (.coef i j k l m 1)) _ _ t m
        (fun p => adapt_prob p _ _ 24 uf) hm (fun t => ?_) (fun m' t hm' hne => ?_)
      · dsimp only
        refine forLoop_eval_at (fun t : v4l2_vp9_probabilities => t (.coef i j k l m 1))
          3 _ t 1 (fun p => adapt_prob p _ _ 24 uf) (by decide) (fun t => ?_)
          (fun n t hn hne => ?_)
        · exact adapt_same _ _ _ _ _ _
        · exact adapt_other _ _ _ _ _ _ _ (by simp; omega)
      · dsimp only
        refine forLoop_eval_other (fun t : v4l2_vp9_probabilities => t (.coef i j k l m 1))
          _ _ _ (fun n t hn => ?_)
        exact adapt_other _ _ _ _ _ _ _ (by simp; omega)
    · refine forLoop_eval_other (fun t : v4l2_vp9_probabilities => t (.coef i j k l m 1))
        _ _ _ (fun m' t hm' => ?_)
      dsimp only
      refine forLoop_eval_other (fun t : v4l2_vp9_probabilities => t (.coef i j k l m 1))
        _ _ _ (fun n t hn => ?_)
      exact adapt_other _ _ _ _ _ _ _ (by simp; omega)
  · refine forLoop_eval_at (fun t : v4l2_vp9_probabilities => t (.coef i j k l m 2)) 6 _ probs l
      (fun p => adapt_prob p _ _ 24 uf) hl (fun t => ?_) (fun l' t hl' hne => ?_)
    · refine forLoop_eval_at (fun t : v4l2_vp9_probabilities => t (.coef i j k l m 2)) _ _ t m
        (fun p => adapt_prob p _ _ 24 uf) hm (fun t => ?_) (fun m' t hm' hne => ?_)
      · dsimp only
        refine forLoop_eval_at (fun t : v4l2_vp9_probabilities => t (.coef i j k l m 2))
          3 _ t 2 (fun p => adapt_prob p _ _ 24 uf) (by decide) (fun t => ?_)
          (fun n t hn hne => ?_)
        · exact adapt_same _ _ _ _ _ _
        · exact adapt_other _ _ _ _ _ _ _ (by simp; omega)
      · dsimp only
        refine forLoop_eval_other (fun t : v4l2_vp9_probabilities => t (.coef i j k l m 2))
          _ _ _ (fun n t hn => ?_)
        exact adapt_other _ _ _ _ _ _ _ (by simp; omega)
    · refine forLoop_eval_other (fun t : v4l2_vp9_probabilities => t (.coef i j k l m 2))
        _ _ _ (fun m' t hm' => ?_)
      dsimp only
      refine forLoop_eval_other (fun t : v4l2_vp9_probabilities => t (.coef i j k l m 2))
        _ _ _ (fun n t hn => ?_)
      exact adapt_other _ _ _ _ _ _ _ (by simp; omega)

/-- The function `adapt_coef_probs` applies `adapt_coeff` for `(i, j, k)` to any
observation that the other calls leave alone. -/
theorem adapt_coef_probs_at (probs : v4l2_vp9_probabilities)
    (ref_cnt : Nat → Nat → Nat → Nat → Nat → rkvdec_vp9_refs_counts) (uf : Nat)
    (i j k l m n : Nat) (hi : i < 4) (hj : j < 2) (hk : k < 2) (f : Nat → Nat)
    (hf : ∀ t : v4l2_vp9_probabilities,
      adapt_coeff t i j k (ref_cnt k i j) uf (.coef i j k l m n) = f (t (.coef i j k l m n))) :
    adapt_coef_probs probs ref_cnt uf (.coef i j k l m n) = f (probs (.coef i j k l m n)) := by
  unfold adapt_coef_probs
  refine forLoop_eval_at (fun t : v4l2_vp9_probabilities => t (.coef i j k l m n)) 4 _ probs i
    f hi (fun t => ?_) (fun i' t hi' hne => ?_)
  · refine forLoop_eval_at (fun t : v4l2_vp9_probabilities => t (.coef i j k l m n)) 2 _ t j
      f hj (fun t => ?_) (fun j' t hj' hne => ?_)
    · refine forLoop_eval_at (fun t : v4l2_vp9_probabilities => t (.coef i j k l m n)) 2 _ t k
        f hk (fun t => ?_) (fun k' t hk' hne => ?_)
      · exact hf t
      · exact adapt_coeff_keeps _ _ _ _ _ _ _ (fun _ _ _ _ _ _ => by simp; omega)
    · refine forLoop_eval_other (fun t : v4l2_vp9_probabilities => t (.coef i j k l m n))
        _ _ _ (fun k' t hk' => ?_)
      exact adapt_coeff_keeps _ _ _ _ _ _ _ (fun _ _ _ _ _ _ => by simp; omega)
  · refine forLoop_eval_other (fun t : v4l2_vp9_probabilities => t (.coef i j k l m n))
      _ _ _ (fun j' t hj' => ?_)
    refine forLoop_eval_other (fun t : v4l2_vp9_probabilities => t (.coef i j k l m n))
      _ _ _ (fun k' t hk' => ?_)
    exact adapt_coeff_keeps _ _ _ _ _ _ _ (fun _ _ _ _ _ _ => by simp; omega)

/-- The function `adapt_coef_probs` at the three probabilities of plane type
`i`, block type `j`, reference context `k`, band `l` and context
`m < BAND_6(l)`. -/
theorem adapt_coef_probs_triple (probs : v4l2_vp9_probabilities)
    (ref_cnt : Nat → Nat → Nat → Nat → Nat → rkvdec_vp9_refs_counts) (uf : Nat)
    (i j k l m : Nat) (hi : i < 4) (hj : j < 2) (hk : k < 2) (hl : l < 6) (hm : m < BAND_6 l) :
    adapt_coef_probs probs ref_cnt uf (.coef i j k l m 0) =
        adapt_prob (probs (.coef i j k l m 0)) ((ref_cnt k i j l m).eob 1)
          (sub32 ((ref_cnt k i j l m).eob 0) ((ref_cnt k i j l m).eob 1)) 24 uf ∧
      adapt_coef_probs probs ref_cnt uf (.coef i j k l m 1) =
        adapt_prob (probs (.coef i j k l m 1)) ((ref_cnt k i j l m).coeff 0)
          (add32 ((ref_cnt k i j l m).coeff 1) ((ref_cnt k i j l m).coeff 2)) 24 uf ∧
      adapt_coef_probs probs ref_cnt uf (.coef i j k l m 2) =
        adapt_prob (probs (.coef i j k l m 2)) ((ref_cnt k i j l m).coeff 1)
          ((ref_cnt k i j l m).coeff 2) 24 uf := by
  refine ⟨?_, ?_, ?_⟩
  · exact adapt_coef_probs_at probs ref_cnt uf i j k l m 0 hi hj hk
      (fun p => adapt_prob p _ _ 24 uf)
      (fun t => (adapt_coeff_eval t i j k (ref_cnt k i j) uf l m hl hm).1)
  · exact adapt_coef_probs_at probs ref_cnt uf i j k l m 1 hi hj hk
      (fun p => adapt_prob p _ _ 24 uf)
      (fun t => (adapt_coeff_eval t i j k (ref_cnt k i j) uf l m hl hm).2.1)
  · exact adapt_coef_probs_at probs ref_cnt uf i j k l m 2 hi hj hk
      (fun p => adapt_prob p _ _ 24 uf)
      (fun t => (adapt_coeff_eval t i j k (ref_cnt k i j) uf l m hl hm).2.2)

/-- Claim C14: for every plane type `i < 4`, block type `j < 2`, reference
context `k < 2`, band `l < 6` and context `m < BAND_6(l)` (3 for band 0, else
6), `adapt_coef_probs` adapts the three probabilities `coef[i][j][k][l][m][0..2]`
with `max_count` 24 and the given update factor from the count record
`ref_cnt[k][i][j][l][m]`, with the branch pairs `(eob[1], eob[0] - eob[1])`
(a `u32` difference), `(coeff[0], coeff[1] + coeff[2])` (a `u32` sum) and
`(coeff[1], coeff[2])`, each from the old value of that probability; the
probabilities of band 0, contexts 3 and above, are unchanged. -/
theorem adapt_coef_probs_eval (probs : v4l2_vp9_probabilities)
    (ref_cnt : Nat → Nat → Nat → Nat → Nat → rkvdec_vp9_refs_counts) (uf : Nat)
    (i j k l m : Nat) (hi : i < 4) (hj : j < 2) (hk : k < 2) (hl : l < 6) :
    (m < BAND_6 l →
      adapt_coef_probs probs ref_cnt uf (.coef i j k l m 0) =
          adapt_prob (probs (.coef i j k l m 0)) ((ref_cnt k i j l m).eob 1)
            (sub32 ((ref_cnt k i j l m).eob 0) ((ref_cnt k i j l m).eob 1)) 24 uf ∧
        adapt_coef_probs probs ref_cnt uf (.coef i j k l m 1) =
          adapt_prob (probs (.coef i j k l m 1)) ((ref_cnt k i j l m).coeff 0)
            (add32 ((ref_cnt k i j l m).coeff 1) ((ref_cnt k i j l m).coeff 2)) 24 uf ∧
        adapt_coef_probs probs ref_cnt uf (.coef i j k l m 2) =
          adapt_prob (probs (.coef i j k l m 2)) ((ref_cnt k i j l m).coeff 1)
            ((ref_cnt k i j l m).coeff 2) 24 uf) ∧
      (3 ≤ m → ∀ n, adapt_coef_probs probs ref_cnt uf (.coef i j k 0 m n) =
        probs (.coef i j k 0 m n)) := by
  refine ⟨fun hm => adapt_coef_probs_triple probs ref_cnt uf i j k l m hi hj hk hl hm,
    fun hm n => ?_⟩
  · refine adapt_coef_probs_keeps _ _ _ _ (fun i' j' k' l' m' n' _ _ _ _ hm' _ => ?_)
    intro h
    injection h with h1 h2 h3 h4 h5 h6
    subst h4
    unfold BAND_6 at hm'
    rw [if_pos rfl] at hm'
    omega

/-- Witness for C14: plane type 1, block type 1, reference context 1, band 2,
context 4, with update factor 112, over a count buffer whose bytes are all 1;
and band 0, context 4. -/
theorem adapt_coef_probs_eval_witness :
    adapt_coef_probs (sample_probs 128) (intra_frame_symbol_counts (fun _ => 1)).ref_cnt 112
        (.coef 1 1 1 2 4 1) =
      adapt_prob ((sample_probs 128) (.coef 1 1 1 2 4 1))
        (((intra_frame_symbol_counts (fun _ => 1)).ref_cnt 1 1 1 2 4).coeff 0)
        (add32 (((intra_frame_symbol_counts (fun _ => 1)).ref_cnt 1 1 1 2 4).coeff 1)
          (((intra_frame_symbol_counts (fun _ => 1)).ref_cnt 1 1 1 2 4).coeff 2)) 24 112 ∧
      adapt_coef_probs (sample_probs 128) (intra_frame_symbol_counts (fun _ => 1)).ref_cnt 112
        (.coef 1 1 1 0 4 1) = (sample_probs 128) (.coef 1 1 1 0 4 1) :=
  ⟨((adapt_coef_probs_eval (sample_probs 128)
      (intra_frame_symbol_counts (fun _ => 1)).ref_cnt 112 1 1 1 2 4 (by decide) (by decide)
      (by decide) (by decide)).1 (by decide)).2.1,
    (adapt_coef_probs_eval (sample_probs 128)
      (intra_frame_symbol_counts (fun _ => 1)).ref_cnt 112 1 1 1 0 4 (by decide) (by decide)
      (by decide) (by decide)).2 (by decide) 1⟩

/-- The identity changes nothing. -/
theorem adaptsWith_id (mc uf : Nat) (y : PIdx) : AdaptsWith mc uf y (fun t => t) :=
  ⟨[], fun _ => rfl⟩

/-- A transformer that keeps element `y` adapts it with any pair. -/
theorem adaptsWith_of_keeps (mc uf : Nat) (y : PIdx)
    (F : v4l2_vp9_probabilities → v4l2_vp9_probabilities) (h : ∀ t, F t y = t y) :
    AdaptsWith mc uf y F :=
  ⟨[], fun t => h t⟩

/-- Two transformers that adapt with a pair, one after the other. -/
theorem adaptsWith_comp (mc uf : Nat) (y : PIdx)
    (F G : v4l2_vp9_probabilities → v4l2_vp9_probabilities) (hF : AdaptsWith mc uf y F)
    (hG : AdaptsWith mc uf y G) : AdaptsWith mc uf y (fun t => G (F t)) := by
  obtain ⟨l1, h1⟩ := hF
  obtain ⟨l2, h2⟩ := hG
  exact ⟨l1 ++ l2, fun t => by rw [h2, h1, List.foldl_append]⟩

/-- One more statement `*x = adapt_prob(*x, a, b, mc, uf)`. -/
theorem adaptsWith_then_adapt (mc uf : Nat) (y : PIdx)
    (F : v4l2_vp9_probabilities → v4l2_vp9_probabilities) (x : PIdx) (a b : Nat)
    (hF : AdaptsWith mc uf y F) : AdaptsWith mc uf y (fun t => (F t).adapt x a b mc uf) := by
  obtain ⟨l, hl⟩ := hF
  by_cases h : y = x
  · subst h
    exact ⟨l ++ [(a, b)], fun t => by rw [adapt_same, hl, List.foldl_append]; rfl⟩
  · exact ⟨l, fun t => by rw [adapt_other _ _ _ _ _ _ _ h, hl]⟩

/-- A loop whose iterations adapt with a pair. -/
theorem adaptsWith_then_forLoop (mc uf : Nat) (y : PIdx)
    (F : v4l2_vp9_probabilities → v4l2_vp9_probabilities) (n : Nat)
    (body : Nat → v4l2_vp9_probabilities → v4l2_vp9_probabilities)
    (hF : AdaptsWith mc uf y F) (hb : ∀ i, i < n → AdaptsWith mc uf y (body i)) :
    AdaptsWith mc uf y (fun t => forLoop n body (F t)) := by
  induction n with
  | zero => exact hF
  | succ k ih =>
    exact adaptsWith_comp mc uf y _ (body k) (ih (fun i hi => hb i (Nat.lt_succ_of_lt hi)))
      (hb k (Nat.lt_succ_self k))

/-- A conditional both of whose branches adapt with a pair. -/
theorem adaptsWith_then_ite (mc uf : Nat) (y : PIdx) (c : Prop) [Decidable c]
    (G H : v4l2_vp9_probabilities → v4l2_vp9_probabilities) (hG : AdaptsWith mc uf y G)
    (hH : AdaptsWith mc uf y H) : AdaptsWith mc uf y (fun t => if c then G t else H t) := by
  by_cases h : c
  · simpa only [if_pos h] using hG
  · simpa only [if_neg h] using hH

/-- The function `adapt_skip_probs` adapts with `max_count` 20 and factor 128. -/
theorem adapt_skip_probs_adaptsWith (c : rkvdec_vp9_inter_frame_symbol_counts) (y : PIdx)
    (F : v4l2_vp9_probabilities → v4l2_vp9_probabilities) (hF : AdaptsWith 20 128 y F) :
    AdaptsWith 20 128 y (fun t => adapt_skip_probs (F t) c) := by
  unfold adapt_skip_probs
  repeat' first
    | assumption
    | exact adaptsWith_id _ _ _
    | with_reducible refine adaptsWith_then_forLoop _ _ _ _ _ _ ?_ (fun _ _ => ?_)
    | with_reducible refine adaptsWith_then_adapt _ _ _ _ _ _ _ ?_

/-- The function `adapt_is_inter_probs` adapts with `max_count` 20 and factor 128. -/
theorem adapt_is_inter_probs_adaptsWith (c : rkvdec_vp9_inter_frame_symbol_counts) (y : PIdx)
    (F : v4l2_vp9_probabilities → v4l2_vp9_probabilities) (hF : AdaptsWith 20 128 y F) :
    AdaptsWith 20 128 y (fun t => adapt_is_inter_probs (F t) c) := by
  unfold adapt_is_inter_probs
  repeat' first
    | assumption
    | exact adaptsWith_id _ _ _
    | with_reducible refine adaptsWith_then_forLoop _ _ _ _ _ _ ?_ (fun _ _ => ?_)
    | with_reducible refine adaptsWith_then_adapt _ _ _ _ _ _ _ ?_
    | with_reducible refine adaptsWith_then_ite _ _ _ _ _ _ ?_ ?_

/-- The function `adapt_comp_mode_probs` adapts with `max_count` 20 and factor 128. -/
theorem adapt_comp_mode_probs_adaptsWith (c : rkvdec_vp9_inter_frame_symbol_counts) (y : PIdx)
    (F : v4l2_vp9_probabilities → v4l2_vp9_probabilities) (hF : AdaptsWith 20 128 y F) :
    AdaptsWith 20 128 y (fun t => adapt_comp_mode_probs (F t) c) := by
  unfold adapt_comp_mode_probs
  repeat' first
    | assumption
    | exact adaptsWith_id _ _ _
    | with_reducible refine adaptsWith_then_forLoop _ _ _ _ _ _ ?_ (fun _ _ => ?_)
    | with_reducible refine adaptsWith_then_adapt _ _ _ _ _ _ _ ?_
    | with_reducible refine adaptsWith_then_ite _ _ _ _ _ _ ?_ ?_

/-- The function `adapt_comp_ref_probs` adapts with `max_count` 20 and factor 128. -/
theorem adapt_comp_ref_probs_adaptsWith (c : rkvdec_vp9_inter_frame_symbol_counts) (y : PIdx)
    (F : v4l2_vp9_probabilities → v4l2_vp9_probabilities) (hF : AdaptsWith 20 128 y F) :
    AdaptsWith 20 128 y (fun t => adapt_comp_ref_probs (F t) c) := by
  unfold adapt_comp_ref_probs
  repeat' first
    | assumption
    | exact adaptsWith_id _ _ _
    | with_reducible refine adaptsWith_then_forLoop _ _ _ _ _ _ ?_ (fun _ _ => ?_)
    | with_reducible refine adaptsWith_then_adapt _ _ _ _ _ _ _ ?_
    | with_reducible refine adaptsWith_then_ite _ _ _ _ _ _ ?_ ?_

/-- The function `adapt_single_ref_probs` adapts with `max_count` 20 and factor 128. -/
theorem adapt_single_ref_probs_adaptsWith (c : rkvdec_vp9_inter_frame_symbol_counts) (y : PIdx)
    (F : v4l2_vp9_probabilities → v4l2_vp9_probabilities) (hF : AdaptsWith 20 128 y F) :
    AdaptsWith 20 128 y (fun t => adapt_single_ref_probs (F t) c) := by
  unfold adapt_single_ref_probs
  repeat' first
    | assumption
    | exact adaptsWith_id _ _ _
    | with_reducible refine adaptsWith_then_forLoop _ _ _ _ _ _ ?_ (fun _ _ => ?_)
    | with_reducible refine adaptsWith_then_adapt _ _ _ _ _ _ _ ?_
    | with_reducible refine adaptsWith_then_ite _ _ _ _ _ _ ?_ ?_

/-- The function `adapt_partition_probs` adapts with `max_count` 20 and factor 128. -/
theorem adapt_partition_probs_adaptsWith (c : rkvdec_vp9_inter_frame_symbol_counts) (y : PIdx)
    (F : v4l2_vp9_probabilities → v4l2_vp9_probabilities) (hF : AdaptsWith 20 128 y F) :
    AdaptsWith 20 128 y (fun t => adapt_partition_probs (F t) c) := by
  unfold adapt_partition_probs
  repeat' first
    | assumption
    | exact adaptsWith_id _ _ _
    | with_reducible refine adaptsWith_then_forLoop _ _ _ _ _ _ ?_ (fun _ _ => ?_)
    | with_reducible refine adaptsWith_then_adapt _ _ _ _ _ _ _ ?_
    | with_reducible refine adaptsWith_then_ite _ _ _ _ _ _ ?_ ?_

/-- The function `adapt_tx_probs` adapts with `max_count` 20 and factor 128. -/
theorem adapt_tx_probs_adaptsWith (c : rkvdec_vp9_inter_frame_symbol_counts) (y : PIdx)
    (F : v4l2_vp9_probabilities → v4l2_vp9_probabilities) (hF : AdaptsWith 20 128 y F) :
    AdaptsWith 20 128 y (fun t => adapt_tx_probs (F t) c) := by
  unfold adapt_tx_probs
  repeat' first
    | assumption
    | exact adaptsWith_id _ _ _
    | with_reducible refine adaptsWith_then_forLoop _ _ _ _ _ _ ?_ (fun _ _ => ?_)
    | with_reducible refine adaptsWith_then_adapt _ _ _ _ _ _ _ ?_
    | with_reducible refine adaptsWith_then_ite _ _ _ _ _ _ ?_ ?_

/-- The function `adapt_interp_filter_probs` adapts with `max_count` 20 and factor 128. -/
theorem adapt_interp_filter_probs_adaptsWith (c : rkvdec_vp9_inter_frame_symbol_counts) (y : PIdx)
    (F : v4l2_vp9_probabilities → v4l2_vp9_probabilities) (hF : AdaptsWith 20 128 y F) :
    AdaptsWith 20 128 y (fun t => adapt_interp_filter_probs (F t) c) := by
  unfold adapt_interp_filter_probs
  repeat' first
    | assumption
    | exact adaptsWith_id _ _ _
    | with_reducible refine adaptsWith_then_forLoop _ _ _ _ _ _ ?_ (fun _ _ => ?_)
    | with_reducible refine adaptsWith_then_adapt _ _ _ _ _ _ _ ?_
    | with_reducible refine adaptsWith_then_ite _ _ _ _ _ _ ?_ ?_

/-- The function `adapt_inter_mode_probs` adapts with `max_count` 20 and factor 128. -/
theorem adapt_inter_mode_probs_adaptsWith (c : rkvdec_vp9_inter_frame_symbol_counts) (y : PIdx)
    (F : v4l2_vp9_probabilities → v4l2_vp9_probabilities) (hF : AdaptsWith 20 128 y F) :
    AdaptsWith 20 128 y (fun t => adapt_inter_mode_probs (F t) c) := by
  unfold adapt_inter_mode_probs
  repeat' first
    | assumption
    | exact adaptsWith_id _ _ _
    | with_reducible refine adaptsWith_then_forLoop _ _ _ _ _ _ ?_ (fun _ _ => ?_)
    | with_reducible refine adaptsWith_then_adapt _ _ _ _ _ _ _ ?_
    | with_reducible refine adaptsWith_then_ite _ _ _ _ _ _ ?_ ?_

/-- The function `adapt_mv_probs` adapts with `max_count` 20 and factor 128. -/
theorem adapt_mv_probs_adaptsWith (c : rkvdec_vp9_inter_frame_symbol_counts) (hp : Bool)
    (y : PIdx) (F : v4l2_vp9_probabilities → v4l2_vp9_probabilities)
    (hF : AdaptsWith 20 128 y F) : AdaptsWith 20 128 y (fun t => adapt_mv_probs (F t) c hp) := by
  unfold adapt_mv_probs
  repeat' first
    | assumption
    | exact adaptsWith_id _ _ _
    | with_reducible refine adaptsWith_then_forLoop _ _ _ _ _ _ ?_ (fun _ _ => ?_)
    | with_reducible refine adaptsWith_then_adapt _ _ _ _ _ _ _ ?_
    | with_reducible refine adaptsWith_then_ite _ _ _ _ _ _ ?_ ?_

/-- The function `adapt_intra_mode_probs` adapts with `max_count` 20 and factor
128. -/
theorem adapt_intra_mode_probs_adaptsWith (K : Uapi) (p : Nat → PIdx) (c : Nat → Nat)
    (y : PIdx) (F : v4l2_vp9_probabilities → v4l2_vp9_probabilities)
    (hF : AdaptsWith 20 128 y F) :
    AdaptsWith 20 128 y (fun t => adapt_intra_mode_probs K (F t) p c) := by
  unfold adapt_intra_mode_probs
  repeat' first
    | assumption
    | exact adaptsWith_id _ _ _
    | with_reducible refine adaptsWith_then_forLoop _ _ _ _ _ _ ?_ (fun _ _ => ?_)
    | with_reducible refine adaptsWith_then_adapt _ _ _ _ _ _ _ ?_
    | with_reducible refine adaptsWith_then_ite _ _ _ _ _ _ ?_ ?_

/-- The function `adapt_y_intra_mode_probs` adapts with `max_count` 20 and
factor 128. -/
theorem adapt_y_intra_mode_probs_adaptsWith (K : Uapi)
    (c : rkvdec_vp9_inter_frame_symbol_counts) (y : PIdx)
    (F : v4l2_vp9_probabilities → v4l2_vp9_probabilities) (hF : AdaptsWith 20 128 y F) :
    AdaptsWith 20 128 y (fun t => adapt_y_intra_mode_probs K (F t) c) := by
  unfold adapt_y_intra_mode_probs
  refine adaptsWith_then_forLoop _ _ _ _ _ _ hF (fun i _ => ?_)
  exact adapt_intra_mode_probs_adaptsWith K _ _ y _ (adaptsWith_id _ _ _)

/-- The function `adapt_uv_intra_mode_probs` adapts with `max_count` 20 and
factor 128. -/
theorem adapt_uv_intra_mode_probs_adaptsWith (K : Uapi)
    (c : rkvdec_vp9_inter_frame_symbol_counts) (y : PIdx)
    (F : v4l2_vp9_probabilities → v4l2_vp9_probabilities) (hF : AdaptsWith 20 128 y F) :
    AdaptsWith 20 128 y (fun t => adapt_uv_intra_mode_probs K (F t) c) := by
  unfold adapt_uv_intra_mode_probs
  refine adaptsWith_then_forLoop _ _ _ _ _ _ hF (fun i _ => ?_)
  exact adapt_intra_mode_probs_adaptsWith K _ _ y _ (adaptsWith_id _ _ _)

/-- Inter-frame adaptation changes every element that is not a coefficient
probability only by `adapt_prob` with `max_count` 20 and factor 128. -/
theorem adapt_inter_frame_probs_adaptsWith (K : Uapi) (vp9_ctx : rkvdec_vp9_ctx) (y : PIdx)
    (hy : y.field ∉ [PField.coef]) :
    AdaptsWith 20 128 y (fun t =>
      (adapt_inter_frame_probs K
        { vp9_ctx with frame_context := { probs := t } }).frame_context.probs) := by
  unfold adapt_inter_frame_probs
  dsimp only
  repeat' first
    | with_reducible refine adapt_uv_intra_mode_probs_adaptsWith K _ _ _ ?_
    | with_reducible refine adapt_y_intra_mode_probs_adaptsWith K _ _ _ ?_
    | with_reducible refine adapt_mv_probs_adaptsWith _ _ _ _ ?_
    | with_reducible refine adapt_inter_mode_probs_adaptsWith _ _ _ ?_
    | with_reducible refine adapt_interp_filter_probs_adaptsWith _ _ _ ?_
    | with_reducible refine adapt_tx_probs_adaptsWith _ _ _ ?_
    | with_reducible refine adapt_partition_probs_adaptsWith _ _ _ ?_
    | with_reducible refine adapt_single_ref_probs_adaptsWith _ _ _ ?_
    | with_reducible refine adapt_comp_ref_probs_adaptsWith _ _ _ ?_
    | with_reducible refine adapt_comp_mode_probs_adaptsWith _ _ _ ?_
    | with_reducible refine adapt_is_inter_probs_adaptsWith _ _ _ ?_
    | with_reducible refine adapt_skip_probs_adaptsWith _ _ _ ?_
    | with_reducible refine adaptsWith_then_ite _ _ _ _ _ _ ?_ ?_
    | exact adaptsWith_of_keeps _ _ _ _ (fun t => adapt_coef_probs_valAt t _ _ y _ hy rfl)

/-- After its coefficient step, `adapt_inter_frame_probs` keeps every element
outside the members the later steps adapt for the gates of the current
frame. -/
theorem adapt_inter_frame_probs_after_coef (K : Uapi) (vp9_ctx : rkvdec_vp9_ctx) (y : PIdx)
    (hy : y.field ∉ [PField.skip, PField.is_inter, PField.comp_mode,
      PField.comp_ref, PField.partition, PField.inter_mode, PField.mv_joint, PField.mv_sign,
      PField.mv_class, PField.mv_class0_bit, PField.mv_bits, PField.mv_class0_fr, PField.mv_fr,
      PField.y_mode, PField.uv_mode])
    (hsr : vp9_ctx.cur.reference_mode ≠ K.REF_MODE_COMPOUND → y.field ∉ [PField.single_ref])
    (htx : vp9_ctx.cur.tx_mode = K.TX_MODE_SELECT →
      y.field ∉ [PField.tx8, PField.tx16, PField.tx32])
    (hif : vp9_ctx.cur.interpolation_filter = K.INTERP_FILTER_SWITCHABLE →
      y.field ∉ [PField.interp_filter])
    (hhp : vp9_ctx.cur.flags &&& K.FRAME_FLAG_ALLOW_HIGH_PREC_MV ≠ 0 →
      y.field ∉ [PField.mv_class0_hp, PField.mv_hp]) :
    (adapt_inter_frame_probs K vp9_ctx).frame_context.probs y =
      (if vp9_ctx.last.valid ≠ 0 ∧ ¬ (vp9_ctx.last.flags &&& K.FRAME_FLAG_KEY_FRAME ≠ 0) then
        adapt_coef_probs vp9_ctx.frame_context.probs
          (inter_frame_symbol_counts vp9_ctx.count_tbl.cpu).ref_cnt 112
      else
        adapt_coef_probs vp9_ctx.frame_context.probs
          (inter_frame_symbol_counts vp9_ctx.count_tbl.cpu).ref_cnt 128) y := by
  generalize hv : (if vp9_ctx.last.valid ≠ 0 ∧
      ¬ (vp9_ctx.last.flags &&& K.FRAME_FLAG_KEY_FRAME ≠ 0) then
        adapt_coef_probs vp9_ctx.frame_context.probs
          (inter_frame_symbol_counts vp9_ctx.count_tbl.cpu).ref_cnt 112
      else
        adapt_coef_probs vp9_ctx.frame_context.probs
          (inter_frame_symbol_counts vp9_ctx.count_tbl.cpu).ref_cnt 128) y = v
  show ValAt y v (adapt_inter_frame_probs K vp9_ctx).frame_context.probs
  unfold adapt_inter_frame_probs
  dsimp only
  refine adapt_uv_intra_mode_probs_valAt K _ _ _ _
    (by intro hm; apply hy; simp at hm; simp [hm]) ?_
  refine adapt_y_intra_mode_probs_valAt K _ _ _ _
    (by intro hm; apply hy; simp at hm; simp [hm]) ?_
  refine adapt_mv_probs_valAt _ _ _ _ _
    (by intro hm; apply hy; simp at hm; rcases hm with hm | hm | hm | hm | hm | hm | hm <;>
      simp [hm])
    (fun hd => hhp (by simpa using hd)) ?_
  refine adapt_inter_mode_probs_valAt _ _ _ _
    (by intro hm; apply hy; simp at hm; simp [hm]) ?_
  have hbase : ValAt y v
      (adapt_comp_ref_probs (adapt_comp_mode_probs (adapt_is_inter_probs (adapt_skip_probs
        (if vp9_ctx.last.valid ≠ 0 ∧ ¬ (vp9_ctx.last.flags &&& K.FRAME_FLAG_KEY_FRAME ≠ 0) then
          adapt_coef_probs vp9_ctx.frame_context.probs
            (inter_frame_symbol_counts vp9_ctx.count_tbl.cpu).ref_cnt 112
        else
          adapt_coef_probs vp9_ctx.frame_context.probs
            (inter_frame_symbol_counts vp9_ctx.count_tbl.cpu).ref_cnt 128)
        (inter_frame_symbol_counts vp9_ctx.count_tbl.cpu))
        (inter_frame_symbol_counts vp9_ctx.count_tbl.cpu))
        (inter_frame_symbol_counts vp9_ctx.count_tbl.cpu))
        (inter_frame_symbol_counts vp9_ctx.count_tbl.cpu)) := by
    refine adapt_comp_ref_probs_valAt _ _ _ _
      (by intro hm; apply hy; simp at hm; simp [hm]) ?_
    refine adapt_comp_mode_probs_valAt _ _ _ _
      (by intro hm; apply hy; simp at hm; simp [hm]) ?_
    refine adapt_is_inter_probs_valAt _ _ _ _
      (by intro hm; apply hy; simp at hm; simp [hm]) ?_
    refine adapt_skip_probs_valAt _ _ _ _
      (by intro hm; apply hy; simp at hm; simp [hm]) ?_
    exact hv
  have hpart : ValAt y v
      (adapt_partition_probs
        (if vp9_ctx.cur.reference_mode ≠ K.REF_MODE_COMPOUND then
          adapt_single_ref_probs (adapt_comp_ref_probs (adapt_comp_mode_probs
            (adapt_is_inter_probs (adapt_skip_probs
            (if vp9_ctx.last.valid ≠ 0 ∧
                ¬ (vp9_ctx.last.flags &&& K.FRAME_FLAG_KEY_FRAME ≠ 0) then
              adapt_coef_probs vp9_ctx.frame_context.probs
                (inter_frame_symbol_counts vp9_ctx.count_tbl.cpu).ref_cnt 112
            else
              adapt_coef_probs vp9_ctx.frame_context.probs
                (inter_frame_symbol_counts vp9_ctx.count_tbl.cpu).ref_cnt 128)
            (inter_frame_symbol_counts vp9_ctx.count_tbl.cpu))
            (inter_frame_symbol_counts vp9_ctx.count_tbl.cpu))
            (inter_frame_symbol_counts vp9_ctx.count_tbl.cpu))
            (inter_frame_symbol_counts vp9_ctx.count_tbl.cpu))
            (inter_frame_symbol_counts vp9_ctx.count_tbl.cpu)
        else
          adapt_comp_ref_probs (adapt_comp_mode_probs
            (adapt_is_inter_probs (adapt_skip_probs
            (if vp9_ctx.last.valid ≠ 0 ∧
                ¬ (vp9_ctx.last.flags &&& K.FRAME_FLAG_KEY_FRAME ≠ 0) then
              adapt_coef_probs vp9_ctx.frame_context.probs
                (inter_frame_symbol_counts vp9_ctx.count_tbl.cpu).ref_cnt 112
            else
              adapt_coef_probs vp9_ctx.frame_context.probs
                (inter_frame_symbol_counts vp9_ctx.count_tbl.cpu).ref_cnt 128)
            (inter_frame_symbol_counts vp9_ctx.count_tbl.cpu))
            (inter_frame_symbol_counts vp9_ctx.count_tbl.cpu))
            (inter_frame_symbol_counts vp9_ctx.count_tbl.cpu))
            (inter_frame_symbol_counts vp9_ctx.count_tbl.cpu))
        (inter_frame_symbol_counts vp9_ctx.count_tbl.cpu)) := by
    refine adapt_partition_probs_valAt _ _ _ _
      (by intro hm; apply hy; simp at hm; simp [hm]) ?_
    split
    · rename_i hg
      exact adapt_single_ref_probs_valAt _ _ _ _ (hsr hg) hbase
    · exact hbase
  split
  · rename_i hg
    refine adapt_interp_filter_probs_valAt _ _ _ _ (hif hg) ?_
    split
    · rename_i hg2
      exact adapt_tx_probs_valAt _ _ _ _ (htx hg2) hpart
    · exact hpart
  · split
    · rename_i hg2
      exact adapt_tx_probs_valAt _ _ _ _ (htx hg2) hpart
    · exact hpart


/-- The coefficient probabilities after `adapt_probs`: those of
`adapt_coef_probs` over the count records of the layout of the frame type, with
the update factor `adapt_probs` selects. -/
theorem adapt_probs_coef (K : Uapi) (vp9_ctx : rkvdec_vp9_ctx) (y : PIdx)
    (hy : y.field = PField.coef) :
    (adapt_probs K vp9_ctx).frame_context.probs y =
      adapt_coef_probs vp9_ctx.frame_context.probs
        (if vp9_ctx.cur.flags &&& (K.FRAME_FLAG_KEY_FRAME ||| K.FRAME_FLAG_INTRA_ONLY) ≠ 0 then
          (intra_frame_symbol_counts vp9_ctx.count_tbl.cpu).ref_cnt
        else (inter_frame_symbol_counts vp9_ctx.count_tbl.cpu).ref_cnt)
        (if vp9_ctx.cur.flags &&& (K.FRAME_FLAG_KEY_FRAME ||| K.FRAME_FLAG_INTRA_ONLY) ≠ 0 then
          112
        else if vp9_ctx.last.valid ≠ 0 ∧
            ¬ (vp9_ctx.last.flags &&& K.FRAME_FLAG_KEY_FRAME ≠ 0) then 112
        else 128) y := by
  unfold adapt_probs
  dsimp only
  by_cases h : vp9_ctx.cur.flags &&& (K.FRAME_FLAG_KEY_FRAME ||| K.FRAME_FLAG_INTRA_ONLY) ≠ 0
  · rw [if_pos (decide_eq_true h), if_pos h, if_pos h]
    rfl
  · rw [if_neg (by simpa using h), if_neg h, if_neg h,
      adapt_inter_frame_probs_after_coef K vp9_ctx y (by rw [hy]; decide)
        (fun _ => by rw [hy]; decide) (fun _ => by rw [hy]; decide)
        (fun _ => by rw [hy]; decide) (fun _ => by rw [hy]; decide)]
    split <;> rfl

/-- For a key frame or an intra-only frame `adapt_probs` keeps every element
that is not a coefficient probability. -/
theorem adapt_probs_intra_keeps (K : Uapi) (vp9_ctx : rkvdec_vp9_ctx) (y : PIdx)
    (h : vp9_ctx.cur.flags &&& (K.FRAME_FLAG_KEY_FRAME ||| K.FRAME_FLAG_INTRA_ONLY) ≠ 0)
    (hy : y.field ∉ [PField.coef]) :
    (adapt_probs K vp9_ctx).frame_context.probs y = vp9_ctx.frame_context.probs y := by
  unfold adapt_probs
  dsimp only
  rw [if_pos (decide_eq_true h)]
  unfold adapt_intra_frame_probs
  exact adapt_coef_probs_valAt _ _ 112 y _ hy rfl

set_option maxRecDepth 100000 in
/-- Counterexample for C12: a key frame that follows a valid key frame, over a
count buffer whose bytes are all 1.  The probability `coef[0][0][0][0][0][0]`,
128 before, is adapted with the update factor 112 and becomes 72; the factor
128 the claim gives after a key frame would make it 65. -/
theorem adapt_probs_key_after_key_factor :
    (sample_vp9_ctx_after 1 1 1).cur.flags &&& uapi.FRAME_FLAG_KEY_FRAME ≠ 0 ∧
      (sample_vp9_ctx_after 1 1 1).last.valid = 1 ∧
      (sample_vp9_ctx_after 1 1 1).last.flags &&& uapi.FRAME_FLAG_KEY_FRAME ≠ 0 ∧
      (sample_vp9_ctx_after 1 1 1).frame_context.probs (.coef 0 0 0 0 0 0) = 128 ∧
      (adapt_probs uapi (sample_vp9_ctx_after 1 1 1)).frame_context.probs
        (.coef 0 0 0 0 0 0) = adapt_prob 128 16843009 0 24 112 ∧
      adapt_prob 128 16843009 0 24 112 = 72 ∧
      adapt_prob 128 16843009 0 24 128 = 65 := by
  refine ⟨by decide, by decide, by decide, rfl, ?_, by decide, by decide⟩
  rw [adapt_probs_coef uapi _ (.coef 0 0 0 0 0 0) rfl, if_pos (by decide), if_pos (by decide),
    (adapt_coef_probs_triple _ _ 112 0 0 0 0 0 (by decide) (by decide) (by decide) (by decide)
      (by decide)).1]
  decide

/-- Claim C12, amended: the pair `(max_count, update_factor)` of every
adaptation.  Every coefficient probability `coef[i][j][k][l][m][0..2]` with
`m < BAND_6(l)` is adapted by `adapt_probs` with `max_count` 24 from the count
record `ref_cnt[k][i][j][l][m]` of the layout of the frame type, with the
update factor 112 when the current frame is a key frame or an intra-only
frame, and for an inter frame 112 when the last frame info is valid and not
that of a key frame and 128 otherwise.  Every element that is not a coefficient
probability is changed only by `adapt_prob` with `max_count` 20 and update
factor 128: its new value is its old value merged in turn with a list of
branch-count pairs that does not depend on the probabilities. -/
theorem adapt_probs_count_factor (K : Uapi) (vp9_ctx : rkvdec_vp9_ctx) :
    (∀ i j k l m, i < 4 → j < 2 → k < 2 → l < 6 → m < BAND_6 l →
      ∀ (rc : rkvdec_vp9_refs_counts) (uf : Nat),
        rc = (if vp9_ctx.cur.flags &&&
              (K.FRAME_FLAG_KEY_FRAME ||| K.FRAME_FLAG_INTRA_ONLY) ≠ 0 then
            (intra_frame_symbol_counts vp9_ctx.count_tbl.cpu).ref_cnt k i j l m
          else (inter_frame_symbol_counts vp9_ctx.count_tbl.cpu).ref_cnt k i j l m) →
        uf = (if vp9_ctx.cur.flags &&&
              (K.FRAME_FLAG_KEY_FRAME ||| K.FRAME_FLAG_INTRA_ONLY) ≠ 0 then 112
          else if vp9_ctx.last.valid ≠ 0 ∧
              ¬ (vp9_ctx.last.flags &&& K.FRAME_FLAG_KEY_FRAME ≠ 0) then 112
          else 128) →
        (adapt_probs K vp9_ctx).frame_context.probs (.coef i j k l m 0) =
            adapt_prob (vp9_ctx.frame_context.probs (.coef i j k l m 0)) (rc.eob 1)
              (sub32 (rc.eob 0) (rc.eob 1)) 24 uf ∧
          (adapt_probs K vp9_ctx).frame_context.probs (.coef i j k l m 1) =
            adapt_prob (vp9_ctx.frame_context.probs (.coef i j k l m 1)) (rc.coeff 0)
              (add32 (rc.coeff 1) (rc.coeff 2)) 24 uf ∧
          (adapt_probs K vp9_ctx).frame_context.probs (.coef i j k l m 2) =
            adapt_prob (vp9_ctx.frame_context.probs (.coef i j k l m 2)) (rc.coeff 1)
              (rc.coeff 2) 24 uf) ∧
    (∀ y : PIdx, y.field ≠ PField.coef →
      ∃ l : List (Nat × Nat), ∀ probs : v4l2_vp9_probabilities,
        (adapt_probs K { vp9_ctx with frame_context := { probs := probs } }).frame_context.probs
            y =
          l.foldl (fun p c => adapt_prob p c.1 c.2 20 128) (probs y)) := by
  refine ⟨fun i j k l m hi hj hk hl hm rc uf hrc huf => ?_, fun y hy => ?_⟩
  · rw [adapt_probs_coef K vp9_ctx (.coef i j k l m 0) rfl,
      adapt_probs_coef K vp9_ctx (.coef i j k l m 1) rfl,
      adapt_probs_coef K vp9_ctx (.coef i j k l m 2) rfl, ← huf]
    have h := adapt_coef_probs_triple vp9_ctx.frame_context.probs
      (if vp9_ctx.cur.flags &&& (K.FRAME_FLAG_KEY_FRAME ||| K.FRAME_FLAG_INTRA_ONLY) ≠ 0 then
        (intra_frame_symbol_counts vp9_ctx.count_tbl.cpu).ref_cnt
      else (inter_frame_symbol_counts vp9_ctx.count_tbl.cpu).ref_cnt) uf i j k l m hi hj hk hl hm
    have hrc' : (if vp9_ctx.cur.flags &&&
          (K.FRAME_FLAG_KEY_FRAME ||| K.FRAME_FLAG_INTRA_ONLY) ≠ 0 then
        (intra_frame_symbol_counts vp9_ctx.count_tbl.cpu).ref_cnt
      else (inter_frame_symbol_counts vp9_ctx.count_tbl.cpu).ref_cnt) k i j l m = rc := by
      rw [hrc]
      split <;> rfl
    rw [hrc'] at h
    exact h
  · have hy' : y.field ∉ [PField.coef] := by simpa using hy
    by_cases h : vp9_ctx.cur.flags &&& (K.FRAME_FLAG_KEY_FRAME ||| K.FRAME_FLAG_INTRA_ONLY) ≠ 0
    · exact ⟨[], fun probs => adapt_probs_intra_keeps K _ y h hy'⟩
    · obtain ⟨l, hl⟩ := adapt_inter_frame_probs_adaptsWith K vp9_ctx y hy'
      refine ⟨l, fun probs => ?_⟩
      unfold adapt_probs
      dsimp only
      rw [if_neg (by simpa using h)]
      exact hl probs

set_option maxRecDepth 100000 in
/-- Witness for C12: the key frame after a key frame over a count buffer whose
bytes are all 1, at `coef[0][0][0][0][0][0]`, and an inter frame after a key
frame at `coef[1][1][1][2][4][2]`. -/
theorem adapt_probs_count_factor_witness :
    (adapt_probs uapi (sample_vp9_ctx_after 1 1 1)).frame_context.probs (.coef 0 0 0 0 0 0) =
        adapt_prob ((sample_vp9_ctx_after 1 1 1).frame_context.probs (.coef 0 0 0 0 0 0))
          (((intra_frame_symbol_counts (sample_vp9_ctx_after 1 1 1).count_tbl.cpu).ref_cnt
            0 0 0 0 0).eob 1)
          (sub32
            (((intra_frame_symbol_counts (sample_vp9_ctx_after 1 1 1).count_tbl.cpu).ref_cnt
              0 0 0 0 0).eob 0)
            (((intra_frame_symbol_counts (sample_vp9_ctx_after 1 1 1).count_tbl.cpu).ref_cnt
              0 0 0 0 0).eob 1)) 24 112 ∧
      (adapt_probs uapi (sample_vp9_ctx_after 0 1 1)).frame_context.probs (.coef 1 1 1 2 4 2) =
        adapt_prob ((sample_vp9_ctx_after 0 1 1).frame_context.probs (.coef 1 1 1 2 4 2))
          (((inter_frame_symbol_counts (sample_vp9_ctx_after 0 1 1).count_tbl.cpu).ref_cnt
            1 1 1 2 4).coeff 1)
          (((inter_frame_symbol_counts (sample_vp9_ctx_after 0 1 1).count_tbl.cpu).ref_cnt
            1 1 1 2 4).coeff 2) 24 128 :=
  ⟨((adapt_probs_count_factor uapi (sample_vp9_ctx_after 1 1 1)).1 0 0 0 0 0 (by decide)
      (by decide) (by decide) (by decide) (by decide) _ _ (if_pos (by decide)).symm
      (if_pos (by decide)).symm).1,
    ((adapt_probs_count_factor uapi (sample_vp9_ctx_after 0 1 1)).1 1 1 1 2 4 (by decide)
      (by decide) (by decide) (by decide) (by decide) _ _ (if_neg (by decide)).symm
      ((if_neg (by decide)).trans (if_neg (by decide))).symm).2.2⟩

/-- A loop that takes an invariant indexed by the iteration count from one
index to the next establishes it at the iteration count. -/
theorem forLoop_ind {σ : Type} (Inv : Nat → σ → Prop) (n : Nat) (body : Nat → σ → σ) (s : σ)
    (h0 : Inv 0 s) (hstep : ∀ i t, i < n → Inv i t → Inv (i + 1) (body i t)) :
    Inv n (forLoop n body s) := by
  induction n with
  | zero => exact h0
  | succ k ih =>
    unfold forLoop
    exact hstep k _ (Nat.lt_succ_self k)
      (ih (fun i t hi ht => hstep i t (Nat.lt_succ_of_lt hi) ht))

/-- The packing invariant before the first byte. -/
theorem packInv_zero (val buf : Nat → Nat) (plane : Nat) :
    PackInv val buf plane 0 { buf := buf, idx := 0, byte_count := 0 } :=
  ⟨rfl, rfl, fun u hu => absurd hu (Nat.not_lt_zero u), fun _ _ => rfl⟩

/-- The buffer part of one packing step: storing payload byte `t` at
`plane + idx`. -/
theorem packInv_poke (val buf : Nat → Nat) (plane t : Nat) (st : PackState) (p : Nat)
    (hp : p = val t) (h : PackInv val buf plane t st) :
    (∀ u, u < t + 1 → poke st.buf (plane + st.idx) p (plane + (u + 5 * (u / 27))) = val u) ∧
      (∀ a, (∀ u, u < t + 1 → a ≠ plane + (u + 5 * (u / 27))) →
        poke st.buf (plane + st.idx) p a = buf a) := by
  obtain ⟨h1, _, h3, h4⟩ := h
  constructor
  · intro u hu
    unfold poke
    by_cases hut : u = t
    · subst hut
      rw [if_pos (by rw [h1]), hp]
    · rw [if_neg (by rw [h1]; omega)]
      exact h3 u (by omega)
  · intro a ha
    unfold poke
    rw [if_neg (by rw [h1]; exact ha t (Nat.lt_succ_self t))]
    exact h4 a (fun u hu => ha u (Nat.lt_succ_of_lt hu))

/-- One iteration of the innermost loop of `write_coeff_plane`: with `idx` an
`unsigned int` and `byte_count` a `u8`, it takes the packing invariant from
`t < 108` bytes to `t + 1`. -/
theorem write_coeff_plane_step (val buf : Nat → Nat) (plane t : Nat) (st : PackState)
    (p : Nat) (ht : t < 108) (hp : p = val t) (h : PackInv val buf plane t st) :
    PackInv val buf plane (t + 1)
      (let st : PackState :=
          { buf := poke st.buf (plane + st.idx) p, idx := u32 (st.idx + 1),
            byte_count := (st.byte_count + 1) % 2 ^ 8 }
        if st.byte_count = 27 then { st with idx := u32 (st.idx + 5), byte_count := 0 }
        else st) := by
  obtain ⟨hb1, hb2⟩ := packInv_poke val buf plane t st p hp h
  obtain ⟨h1, h2, _, _⟩ := h
  dsimp only
  unfold u32
  norm_num
  split
  · rename_i hc
    refine ⟨?_, ?_, hb1, hb2⟩
    · dsimp only
      omega
    · dsimp only
      omega
  · rename_i hc
    refine ⟨?_, ?_, hb1, hb2⟩
    · dsimp only
      omega
    · dsimp only
      omega

/-- The packing loops of `write_coeff_plane` store the 108 bytes of the block
`coef[i][j][r]` under the packing invariant. -/
theorem write_coeff_plane_packInv (probs : v4l2_vp9_probabilities) (i j r : Nat)
    (buf : Nat → Nat) (plane : Nat) :
    ∃ st : PackState, write_coeff_plane probs i j r buf plane = st.buf ∧
      PackInv (fun t => probs (.coef i j r (t / 18) (t % 18 / 3) (t % 3))) buf plane 108 st := by
  refine ⟨_, rfl, ?_⟩
  refine forLoop_ind (fun k st => PackInv _ buf plane (18 * k) st) 6 _ _
    (packInv_zero _ buf plane) (fun k st hk h => ?_)
  beta_reduce at h ⊢
  have h18 : 18 * (k + 1) = 18 * k + 3 * 6 := by omega
  rw [h18]
  refine forLoop_ind (fun m st => PackInv _ buf plane (18 * k + 3 * m) st) 6 _ _ h
    (fun m st hm h => ?_)
  beta_reduce at h ⊢
  have h3 : 18 * k + 3 * (m + 1) = 18 * k + 3 * m + 3 := by omega
  rw [h3]
  refine forLoop_ind (fun n st => PackInv _ buf plane (18 * k + 3 * m + n) st) 3 _ _ h
    (fun n st hn h => ?_)
  beta_reduce at h ⊢
  refine write_coeff_plane_step _ buf plane (18 * k + 3 * m + n) st _ (by omega) ?_ h
  have e1 : (18 * k + 3 * m + n) / 18 = k := by omega
  have e2 : (18 * k + 3 * m + n) % 18 / 3 = m := by omega
  have e3 : (18 * k + 3 * m + n) % 3 = n := by omega
  simp only [e1, e2, e3]

/-- After `write_coeff_plane`, payload byte `18 k + 3 m + n` of the block is at
offset `t + 5 * (t / 27)` of the plane. -/
theorem write_coeff_plane_at (probs : v4l2_vp9_probabilities) (i j r : Nat)
    (buf : Nat → Nat) (plane k m n : Nat) (hk : k < 6) (hm : m < 6) (hn : n < 3) :
    write_coeff_plane probs i j r buf plane
        (plane + ((18 * k + 3 * m + n) + 5 * ((18 * k + 3 * m + n) / 27))) =
      probs (.coef i j r k m n) := by
  obtain ⟨st, hst, _, _, h3, _⟩ := write_coeff_plane_packInv probs i j r buf plane
  rw [hst, h3 (18 * k + 3 * m + n) (by omega)]
  have e1 : (18 * k + 3 * m + n) / 18 = k := by omega
  have e2 : (18 * k + 3 * m + n) % 18 / 3 = m := by omega
  have e3 : (18 * k + 3 * m + n) % 3 = n := by omega
  simp only [e1, e2, e3]

/-- The function `write_coeff_plane` writes no byte other than the 108 payload
offsets. -/
theorem write_coeff_plane_other (probs : v4l2_vp9_probabilities) (i j r : Nat)
    (buf : Nat → Nat) (plane a : Nat) (ha : ∀ t, t < 108 → a ≠ plane + (t + 5 * (t / 27))) :
    write_coeff_plane probs i j r buf plane a = buf a := by
  obtain ⟨st, hst, _, _, _, h4⟩ := write_coeff_plane_packInv probs i j r buf plane
  rw [hst, h4 a ha]

/-- Claim C15: for every block `coef[i][j][r]` of 6x6x3 probabilities,
`write_coeff_plane` stores payload byte number `t = 18 k + 3 m + n` (`k < 6`,
`m < 6`, `n < 3`, so `t < 108`) at output offset `t + 5 * (t / 27)`, so reading
the output at those offsets gives the block back; it writes no other byte; and
payload byte `t` is byte `t % 27` of the 32-byte quantum number `t / 27 < 4`, so
the bytes written lie in 4 quanta of 27 payload bytes and 5 pad bytes, 128
bytes in all. -/
theorem write_coeff_plane_layout (probs : v4l2_vp9_probabilities) (i j r : Nat)
    (buf : Nat → Nat) (plane : Nat) :
    (∀ k m n, k < 6 → m < 6 → n < 3 →
      write_coeff_plane probs i j r buf plane
          (plane + ((18 * k + 3 * m + n) + 5 * ((18 * k + 3 * m + n) / 27))) =
        probs (.coef i j r k m n)) ∧
      (∀ a, (∀ t, t < 108 → a ≠ plane + (t + 5 * (t / 27))) →
        write_coeff_plane probs i j r buf plane a = buf a) ∧
      (∀ t, t < 108 → (t + 5 * (t / 27)) / 32 = t / 27 ∧ (t + 5 * (t / 27)) % 32 = t % 27 ∧
        t / 27 < 4 ∧ t % 27 < 27 ∧ t + 5 * (t / 27) < 128) :=
  ⟨fun k m n hk hm hn => write_coeff_plane_at probs i j r buf plane k m n hk hm hn,
    fun a ha => write_coeff_plane_other probs i j r buf plane a ha,
    fun t ht => by omega⟩

/-- Witness for C15: the block `coef[1][0][1]` of a model of all 200 packed at
offset 176 of a zero buffer: payload byte `18 * 3 + 3 * 2 + 1 = 61` is at
offset `176 + 71`, and the pad byte at offset `176 + 27` is as before. -/
theorem write_coeff_plane_layout_witness :
    write_coeff_plane (sample_probs 200) 1 0 1 (fun _ => 0) 176
        (176 + ((18 * 3 + 3 * 2 + 1) + 5 * ((18 * 3 + 3 * 2 + 1) / 27))) =
      (sample_probs 200) (.coef 1 0 1 3 2 1) ∧
      write_coeff_plane (sample_probs 200) 1 0 1 (fun _ => 0) 176 (176 + 27) = 0 :=
  ⟨(write_coeff_plane_layout (sample_probs 200) 1 0 1 (fun _ => 0) 176).1 3 2 1 (by decide)
      (by decide) (by decide),
    (write_coeff_plane_layout (sample_probs 200) 1 0 1 (fun _ => 0) 176).2.1 (176 + 27)
      (fun t ht => by omega)⟩

/-- A `memcpy` leaves the bytes outside its destination alone. -/
theorem memcpy_other (buf : Nat → Nat) (off : Nat) (src : Nat → Nat) (n a : Nat)
    (h : ¬ (off ≤ a ∧ a < off + n)) : memcpy buf off src n a = buf a := by
  unfold memcpy
  exact if_neg h

/-- A `memcpy` stores the source bytes in its destination. -/
theorem memcpy_at (buf : Nat → Nat) (off : Nat) (src : Nat → Nat) (n a : Nat)
    (h : off ≤ a ∧ a < off + n) : memcpy buf off src n a = src (a - off) := by
  unfold memcpy
  exact if_pos h

/-- A store leaves the other bytes alone. -/
theorem poke_other (buf : Nat → Nat) (x v a : Nat) (h : a ≠ x) : poke buf x v a = buf a := by
  unfold poke
  exact if_neg h

/-- A store sets its byte. -/
theorem poke_at (buf : Nat → Nat) (x v : Nat) : poke buf x v x = v := by
  unfold poke
  exact if_pos rfl

/-- A loop whose body preserves a relation between two runs preserves it. -/
theorem forLoop_rel {σ : Type} (R : σ → σ → Prop) (n : Nat) (body body' : Nat → σ → σ)
    (s s' : σ) (h0 : R s s') (hstep : ∀ i t t', i < n → R t t' → R (body i t) (body' i t')) :
    R (forLoop n body s) (forLoop n body' s') := by
  induction n with
  | zero => exact h0
  | succ k ih =>
    unfold forLoop
    exact hstep k _ _ (Nat.lt_succ_self k)
      (ih (fun i t t' hi ht => hstep i t t' (Nat.lt_succ_of_lt hi) ht))

/-- The same `memcpy` on two buffers that agree below `n`. -/
theorem memcpy_agree (n : Nat) (b b' : Nat → Nat) (off : Nat) (src : Nat → Nat) (len : Nat)
    (h : AgreeBelow n b b') : AgreeBelow n (memcpy b off src len) (memcpy b' off src len) := by
  intro a ha
  unfold memcpy
  split
  · rfl
  · exact h a ha

/-- The same store on two buffers that agree below `n`. -/
theorem poke_agree (n : Nat) (b b' : Nat → Nat) (x v : Nat) (h : AgreeBelow n b b') :
    AgreeBelow n (poke b x v) (poke b' x v) := by
  intro a ha
  unfold poke
  split
  · rfl
  · exact h a ha

/-- The function `write_coeff_plane` on two buffers that agree below `n`. -/
theorem write_coeff_plane_agree (n : Nat) (probs : v4l2_vp9_probabilities) (i j r : Nat)
    (b b' : Nat → Nat) (plane : Nat) (h : AgreeBelow n b b') :
    AgreeBelow n (write_coeff_plane probs i j r b plane)
      (write_coeff_plane probs i j r b' plane) := by
  unfold write_coeff_plane
  dsimp only
  refine (?_ : PackAgree n _ _).2.2
  refine forLoop_rel (PackAgree n) _ _ _ _ _ ⟨rfl, rfl, h⟩ (fun k t t' _ ht => ?_)
  refine forLoop_rel (PackAgree n) _ _ _ _ _ ht (fun m t t' _ ht => ?_)
  refine forLoop_rel (PackAgree n) _ _ _ _ _ ht (fun l t t' _ ht => ?_)
  obtain ⟨h1, h2, h3⟩ := ht
  rw [h1, h2]
  split
  · exact ⟨rfl, rfl, poke_agree n _ _ _ _ h3⟩
  · exact ⟨rfl, rfl, poke_agree n _ _ _ _ h3⟩

/-- The function `init_intra_only_probs` is its coefficient loop followed by
the ten iterations of its intra-mode loop. -/
theorem init_intra_only_probs_eq (buf : Nat → Nat)
    (dec_params : v4l2_ctrl_vp9_frame_decode_params) :
    init_intra_only_probs buf dec_params =
      forLoop 10 init_intra_mode (init_intra_coef dec_params.probs buf) := rfl

/-- The packing of `y_mode` on two buffers that agree below `n`. -/
theorem init_intra_y_mode_agree (n i : Nat) (b b' : Nat → Nat) (h : AgreeBelow n b b') :
    PackAgree n (init_intra_y_mode i b) (init_intra_y_mode i b') := by
  unfold init_intra_y_mode
  dsimp only
  refine forLoop_rel (PackAgree n) _ _ _ _ _ ⟨rfl, rfl, h⟩ (fun j t t' _ ht => ?_)
  refine forLoop_rel (PackAgree n) _ _ _ _ _ ht (fun k t t' _ ht => ?_)
  obtain ⟨h1, h2, h3⟩ := ht
  rw [h1, h2]
  split
  · exact ⟨rfl, rfl, poke_agree n _ _ _ _ h3⟩
  · exact ⟨rfl, rfl, poke_agree n _ _ _ _ h3⟩

/-- The copy to `uv_mode` on two states that agree below `n`. -/
theorem init_intra_uv_mode_agree (n i : Nat) (st st' : PackState) (h : PackAgree n st st') :
    PackAgree n (init_intra_uv_mode i st) (init_intra_uv_mode i st') := by
  unfold init_intra_uv_mode
  dsimp only
  refine forLoop_rel (PackAgree n) _ _ _ _ _ h (fun m t t' _ ht => ?_)
  obtain ⟨h1, h2, h3⟩ := ht
  rw [h1]
  exact ⟨rfl, h2, poke_agree n _ _ _ _ h3⟩

/-- One iteration of the intra-mode loop on two buffers that agree below `n`. -/
theorem init_intra_mode_agree (n i : Nat) (b b' : Nat → Nat) (h : AgreeBelow n b b') :
    AgreeBelow n (init_intra_mode i b) (init_intra_mode i b') := by
  obtain ⟨_, hy2, hy3⟩ := init_intra_y_mode_agree n i b b' h
  have hst : PackAgree n
      { buf := (init_intra_y_mode i b).buf, idx := 0,
        byte_count := (init_intra_y_mode i b).byte_count }
      { buf := (init_intra_y_mode i b').buf, idx := 0,
        byte_count := (init_intra_y_mode i b').byte_count } := by
    unfold PackAgree
    refine ⟨rfl, ?_, ?_⟩
    · dsimp only
      exact hy2
    · dsimp only
      exact hy3
  obtain ⟨_, _, hu3⟩ := init_intra_uv_mode_agree n i _ _ hst
  unfold init_intra_mode
  dsimp only
  by_cases hi : i < 4
  · rw [if_pos hi, if_pos hi]
    exact hu3
  · rw [if_neg hi, if_neg hi]
    exact hy3

/-- The function `init_intra_only_probs` on two buffers that agree below `n`. -/
theorem init_intra_only_probs_agree (n : Nat) (b b' : Nat → Nat)
    (dec_params : v4l2_ctrl_vp9_frame_decode_params) (h : AgreeBelow n b b') :
    AgreeBelow n (init_intra_only_probs b dec_params) (init_intra_only_probs b' dec_params) := by
  rw [init_intra_only_probs_eq, init_intra_only_probs_eq]
  refine forLoop_rel (AgreeBelow n) _ _ _ _ _ ?_
    (fun i t t' _ ht => init_intra_mode_agree n i t t' ht)
  unfold init_intra_coef
  refine forLoop_rel (AgreeBelow n) _ _ _ _ _ h (fun i t t' _ ht => ?_)
  refine forLoop_rel (AgreeBelow n) _ _ _ _ _ ht (fun j t t' _ ht => ?_)
  exact write_coeff_plane_agree n _ _ _ _ _ _ _ ht

/-- The function `init_inter_probs` on two buffers that agree below `n`. -/
theorem init_inter_probs_agree (n : Nat) (b b' : Nat → Nat)
    (dec_params : v4l2_ctrl_vp9_frame_decode_params) (h : AgreeBelow n b b') :
    AgreeBelow n (init_inter_probs b dec_params) (init_inter_probs b' dec_params) := by
  unfold init_inter_probs
  dsimp only
  repeat' first
    | with_reducible assumption
    | with_reducible refine memcpy_agree n _ _ _ _ _ ?_
    | with_reducible refine forLoop_rel (AgreeBelow n) _ _ _ _ _ ?_ (fun _ _ _ _ _ => ?_)
    | with_reducible refine write_coeff_plane_agree n _ _ _ _ _ _ _ ?_

/-- The `memset` of `init_probs` makes any two buffers agree below its length. -/
theorem memset_agree (b b' : Nat → Nat) (v n : Nat) :
    AgreeBelow n (memset b 0 v n) (memset b' 0 v n) := by
  intro a ha
  unfold memset
  rw [if_pos ⟨Nat.zero_le a, by omega⟩, if_pos ⟨Nat.zero_le a, by omega⟩]

/-- The probability structure `init_probs` leaves does not depend on the
buffer it starts from. -/
theorem init_probs_agree (K : Uapi) (b b' : Nat → Nat)
    (dec_params : v4l2_ctrl_vp9_frame_decode_params) :
    AgreeBelow sizeof_rkvdec_vp9_probs (init_probs K b dec_params)
      (init_probs K b' dec_params) := by
  unfold init_probs
  dsimp only
  split
  · refine init_intra_only_probs_agree _ _ _ _ ?_
    repeat' first
      | exact memset_agree _ _ _ _
      | with_reducible refine memcpy_agree _ _ _ _ _ _ ?_
  · refine init_inter_probs_agree _ _ _ _ ?_
    repeat' first
      | exact memset_agree _ _ _ _
      | with_reducible refine memcpy_agree _ _ _ _ _ _ ?_

/-- One iteration of the innermost `y_mode` loop of `init_intra_only_probs`:
with `idx` an `int` and `byte_count` a `u32`, it takes the packing invariant
from `t` bytes to `t + 1`. -/
theorem init_intra_y_mode_step (val buf : Nat → Nat) (plane t : Nat) (st : PackState)
    (v : Nat) (hv : v = val t) (h : PackInv val buf plane t st) :
    PackInv val buf plane (t + 1)
      (let st : PackState :=
          { buf := poke st.buf (plane + st.idx) v, idx := st.idx + 1,
            byte_count := u32 (st.byte_count + 1) }
        if st.byte_count = 27 then { st with byte_count := 0, idx := st.idx + 5 }
        else st) := by
  obtain ⟨hb1, hb2⟩ := packInv_poke val buf plane t st v hv h
  obtain ⟨h1, h2, _, _⟩ := h
  dsimp only
  unfold u32
  norm_num
  split
  · rename_i hc
    refine ⟨?_, ?_, hb1, hb2⟩
    · dsimp only
      omega
    · dsimp only
      omega
  · rename_i hc
    refine ⟨?_, ?_, hb1, hb2⟩
    · dsimp only
      omega
    · dsimp only
      omega

/-- The `y_mode` loops of iteration `i` store the 90 bytes of
`vp9_kf_y_mode_prob[i]` under the packing invariant. -/
theorem init_intra_y_mode_packInv (i : Nat) (buf : Nat → Nat) :
    PackInv (fun t => tbl3 vp9_kf_y_mode_prob i (t / 9) (t % 9)) buf
      (off_intra_intra_mode + i * 128) 90 (init_intra_y_mode i buf) := by
  unfold init_intra_y_mode
  dsimp only
  refine forLoop_ind (fun j st => PackInv _ buf _ (9 * j) st) 10 _ _
    (packInv_zero _ buf _) (fun j st hj h => ?_)
  beta_reduce at h ⊢
  have h9 : 9 * (j + 1) = 9 * j + 9 := by omega
  rw [h9]
  refine forLoop_ind (fun k st => PackInv _ buf _ (9 * j + k) st) 9 _ _ h
    (fun k st hk h => ?_)
  beta_reduce at h ⊢
  refine init_intra_y_mode_step _ buf _ (9 * j + k) st _ ?_ h
  have e1 : (9 * j + k) / 9 = j := by omega
  have e2 : (9 * j + k) % 9 = k := by omega
  simp only [e1, e2]

/-- The `uv_mode` loop of iteration `i`, from a state with `idx = 0`: byte `u`
of the chunk goes to offset `u` of `intra_mode[i].uv_mode`, and no other byte
is written. -/
theorem init_intra_uv_mode_spec (i : Nat) (st : PackState) (h0 : st.idx = 0) :
    (∀ u, u < (if i < 3 then 23 else 21) →
      (init_intra_uv_mode i st).buf (off_intra_intra_mode + i * 128 + 105 + u) =
        tbl2 kf_uv_mode_prob ((i * 23 + u) / 9) ((i * 23 + u) % 9)) ∧
      (∀ a, (∀ u, u < (if i < 3 then 23 else 21) →
          a ≠ off_intra_intra_mode + i * 128 + 105 + u) →
        (init_intra_uv_mode i st).buf a = st.buf a) := by
  have key : (fun (m : Nat) (s : PackState) => s.idx = m ∧
      (∀ u, u < m → s.buf (off_intra_intra_mode + i * 128 + 105 + u) =
        tbl2 kf_uv_mode_prob ((i * 23 + u) / 9) ((i * 23 + u) % 9)) ∧
      (∀ a, (∀ u, u < m → a ≠ off_intra_intra_mode + i * 128 + 105 + u) →
        s.buf a = st.buf a)) (if i < 3 then 23 else 21) (init_intra_uv_mode i st) := by
    unfold init_intra_uv_mode
    dsimp only
    refine forLoop_ind (fun (m : Nat) (s : PackState) => s.idx = m ∧
      (∀ u, u < m → s.buf (off_intra_intra_mode + i * 128 + 105 + u) =
        tbl2 kf_uv_mode_prob ((i * 23 + u) / 9) ((i * 23 + u) % 9)) ∧
      (∀ a, (∀ u, u < m → a ≠ off_intra_intra_mode + i * 128 + 105 + u) →
        s.buf a = st.buf a)) _ _ _
      ⟨h0, fun u hu => absurd hu (Nat.not_lt_zero u), fun _ _ => rfl⟩ (fun m s _ h => ?_)
    obtain ⟨h1, h2, h3⟩ := h
    refine ⟨?_, fun u hu => ?_, fun a ha => ?_⟩
    · dsimp only
      omega
    · dsimp only
      by_cases hum : u = m
      · subst hum
        rw [h1, poke_at]
      · rw [poke_other _ _ _ _ (by omega)]
        exact h2 u (by omega)
    · dsimp only
      rw [poke_other _ _ _ _ (by rw [h1]; exact ha m (Nat.lt_succ_self m))]
      exact h3 a (fun u hu => ha u (Nat.lt_succ_of_lt hu))
  exact ⟨key.2.1, key.2.2⟩

/-- Iteration `i` of the intra-mode loop stores byte `t < 90` of
`vp9_kf_y_mode_prob[i]` at offset `t + 5 * (t / 27)` of `intra_mode[i].y_mode`. -/
theorem init_intra_mode_at_y (i : Nat) (buf : Nat → Nat) (t : Nat) (ht : t < 90) :
    init_intra_mode i buf (off_intra_intra_mode + i * 128 + (t + 5 * (t / 27))) =
      tbl3 vp9_kf_y_mode_prob i (t / 9) (t % 9) := by
  obtain ⟨_, _, hy3, _⟩ := init_intra_y_mode_packInv i buf
  obtain ⟨_, hu⟩ := init_intra_uv_mode_spec i
    { buf := (init_intra_y_mode i buf).buf, idx := 0,
      byte_count := (init_intra_y_mode i buf).byte_count } rfl
  dsimp only at hu
  unfold init_intra_mode
  dsimp only
  by_cases hi : i < 4
  · rw [if_pos hi, hu _ (fun u _ => by omega)]
    exact hy3 t ht
  · rw [if_neg hi]
    exact hy3 t ht

/-- Iteration `i < 4` of the intra-mode loop stores byte `m` of its chunk of
the flattened `kf_uv_mode_prob` at offset `m` of `intra_mode[i].uv_mode`. -/
theorem init_intra_mode_at_uv (i : Nat) (buf : Nat → Nat) (m : Nat) (hi : i < 4)
    (hm : m < (if i < 3 then 23 else 21)) :
    init_intra_mode i buf (off_intra_intra_mode + i * 128 + 105 + m) =
      tbl2 kf_uv_mode_prob ((i * 23 + m) / 9) ((i * 23 + m) % 9) := by
  obtain ⟨hu, _⟩ := init_intra_uv_mode_spec i
    { buf := (init_intra_y_mode i buf).buf, idx := 0,
      byte_count := (init_intra_y_mode i buf).byte_count } rfl
  unfold init_intra_mode
  dsimp only
  rw [if_pos hi]
  exact hu m hm

/-- Iteration `i` of the intra-mode loop writes no byte other than the 90
`y_mode` offsets and, for `i < 4`, the bytes of its `uv_mode` chunk. -/
theorem init_intra_mode_other (i : Nat) (buf : Nat → Nat) (a : Nat)
    (hy : ∀ t, t < 90 → a ≠ off_intra_intra_mode + i * 128 + (t + 5 * (t / 27)))
    (huv : i < 4 → ∀ u, u < (if i < 3 then 23 else 21) →
      a ≠ off_intra_intra_mode + i * 128 + 105 + u) :
    init_intra_mode i buf a = buf a := by
  obtain ⟨_, _, _, hy4⟩ := init_intra_y_mode_packInv i buf
  obtain ⟨_, hu⟩ := init_intra_uv_mode_spec i
    { buf := (init_intra_y_mode i buf).buf, idx := 0,
      byte_count := (init_intra_y_mode i buf).byte_count } rfl
  dsimp only at hu
  unfold init_intra_mode
  dsimp only
  by_cases hi : i < 4
  · rw [if_pos hi, hu a (huv hi)]
    exact hy4 a hy
  · rw [if_neg hi]
    exact hy4 a hy

/-- The coefficient loop of `init_intra_only_probs` writes no byte other than
the payload offsets of its 8 planes. -/
theorem init_intra_coef_other (probs : v4l2_vp9_probabilities) (buf : Nat → Nat) (a : Nat)
    (ha : ∀ p t, p < 8 → t < 108 → a ≠ off_intra_coef_intra + p * 128 + (t + 5 * (t / 27))) :
    init_intra_coef probs buf a = buf a := by
  unfold init_intra_coef
  refine forLoop_eval_other (fun b : Nat → Nat => b a) _ _ _ (fun i b hi => ?_)
  refine forLoop_eval_other (fun b : Nat → Nat => b a) _ _ _ (fun j b hj => ?_)
  exact write_coeff_plane_other _ _ _ _ _ _ _ (fun t ht => ha (i * 2 + j) t (by omega) ht)

/-- The coefficient loop of `init_inter_probs` writes no byte other than the
payload offsets of its 16 planes. -/
theorem init_inter_coef_other (probs : v4l2_vp9_probabilities) (buf : Nat → Nat) (a : Nat)
    (ha : ∀ p t, p < 16 → t < 108 → a ≠ off_inter_coef + p * 128 + (t + 5 * (t / 27))) :
    init_inter_coef probs buf a = buf a := by
  unfold init_inter_coef
  refine forLoop_eval_other (fun b : Nat → Nat => b a) _ _ _ (fun i b hi => ?_)
  refine forLoop_eval_other (fun b : Nat → Nat => b a) _ _ _ (fun j b hj => ?_)
  refine forLoop_eval_other (fun b : Nat → Nat => b a) _ _ _ (fun k b hk => ?_)
  exact write_coeff_plane_other _ _ _ _ _ _ _
    (fun t ht => ha ((k * 4 + i) * 2 + j) t (by omega) ht)

/-- The function `init_inter_probs` is its copies around its coefficient
loop. -/
theorem init_inter_probs_eq (buf : Nat → Nat)
    (dec_params : v4l2_ctrl_vp9_frame_decode_params) :
    init_inter_probs buf dec_params =
      (let probs := dec_params.probs
      let buf := memcpy buf off_inter_y_mode (fun t => probs (.y_mode (t / 9) (t % 9))) 36
      let buf := memcpy buf off_inter_comp_mode (fun t => probs (.comp_mode t)) 5
      let buf := memcpy buf off_inter_comp_ref (fun t => probs (.comp_ref t)) 5
      let buf := memcpy buf off_inter_single_ref
        (fun t => probs (.single_ref (t / 2) (t % 2))) 10
      let buf := memcpy buf off_inter_inter_mode
        (fun t => probs (.inter_mode (t / 3) (t % 3))) 21
      let buf := memcpy buf off_inter_interp_filter
        (fun t => probs (.interp_filter (t / 2) (t % 2))) 8
      let buf := init_inter_coef probs buf
      let buf := memcpy buf off_inter_uv_mode_0_2
        (fun t => probs (.uv_mode (0 + t / 9) (t % 9))) 27
      let buf := memcpy buf off_inter_uv_mode_3_5
        (fun t => probs (.uv_mode (3 + t / 9) (t % 9))) 27
      let buf := memcpy buf off_inter_uv_mode_6_8
        (fun t => probs (.uv_mode (6 + t / 9) (t % 9))) 27
      let buf := memcpy buf off_inter_uv_mode_9 (fun t => probs (.uv_mode (9 + t / 9) (t % 9))) 9
      let buf := memcpy buf off_mv_joint (fun t => probs (.mv_joint t)) 3
      let buf := memcpy buf off_mv_sign (fun t => probs (.mv_sign t)) 2
      let buf := memcpy buf off_mv_class (fun t => probs (.mv_class (t / 10) (t % 10))) 20
      let buf := memcpy buf off_mv_class0_bit (fun t => probs (.mv_class0_bit t)) 2
      let buf := memcpy buf off_mv_bits (fun t => probs (.mv_bits (t / 10) (t % 10))) 20
      let buf := memcpy buf off_mv_class0_fr
        (fun t => probs (.mv_class0_fr (t / 6) (t / 3 % 2) (t % 3))) 12
      let buf := memcpy buf off_mv_fr (fun t => probs (.mv_fr (t / 3) (t % 3))) 6
      let buf := memcpy buf off_mv_class0_hp (fun t => probs (.mv_class0_hp t)) 2
      memcpy buf off_mv_hp (fun t => probs (.mv_hp t)) 2) := rfl

/-- The function `init_inter_probs` leaves alone every byte that the inter
layout does not write. -/
theorem init_inter_probs_unwritten (buf : Nat → Nat)
    (dec_params : v4l2_ctrl_vp9_frame_decode_params) (a : Nat) (h : spec_unwritten_inter a) :
    init_inter_probs buf dec_params a = buf a := by
  rw [init_inter_probs_eq]
  unfold spec_unwritten_inter at h
  simp only [off_is_inter, off_union, off_inter_y_mode, off_inter_comp_mode,
    off_inter_comp_ref, off_inter_single_ref, off_inter_inter_mode, off_inter_interp_filter,
    off_inter_coef, off_inter_uv_mode_0_2, off_inter_uv_mode_3_5, off_inter_uv_mode_6_8,
    off_inter_uv_mode_9, off_inter_mv, off_mv_joint, off_mv_sign, off_mv_class,
    off_mv_class0_bit, off_mv_bits, off_mv_class0_fr, off_mv_fr, off_mv_class0_hp,
    off_mv_hp] at h ⊢
  rw [memcpy_other _ _ _ _ _ (by omega), memcpy_other _ _ _ _ _ (by omega),
    memcpy_other _ _ _ _ _ (by omega), memcpy_other _ _ _ _ _ (by omega),
    memcpy_other _ _ _ _ _ (by omega), memcpy_other _ _ _ _ _ (by omega),
    memcpy_other _ _ _ _ _ (by omega), memcpy_other _ _ _ _ _ (by omega),
    memcpy_other _ _ _ _ _ (by omega), memcpy_other _ _ _ _ _ (by omega),
    memcpy_other _ _ _ _ _ (by omega), memcpy_other _ _ _ _ _ (by omega),
    memcpy_other _ _ _ _ _ (by omega),
    init_inter_coef_other _ _ _ (by
      simp only [off_inter_coef, off_union]
      intro p t hp ht
      omega),
    memcpy_other _ _ _ _ _ (by omega), memcpy_other _ _ _ _ _ (by omega),
    memcpy_other _ _ _ _ _ (by omega), memcpy_other _ _ _ _ _ (by omega),
    memcpy_other _ _ _ _ _ (by omega), memcpy_other _ _ _ _ _ (by omega)]

/-- The function `init_intra_only_probs` writes no byte other than the payload
offsets of its coefficient planes, of its `y_mode` arrays and of its `uv_mode`
chunks. -/
theorem init_intra_only_probs_other (buf : Nat → Nat)
    (dec_params : v4l2_ctrl_vp9_frame_decode_params) (a : Nat)
    (hc : ∀ p t, p < 8 → t < 108 → a ≠ off_intra_coef_intra + p * 128 + (t + 5 * (t / 27)))
    (hy : ∀ i t, i < 10 → t < 90 → a ≠ off_intra_intra_mode + i * 128 + (t + 5 * (t / 27)))
    (huv : ∀ i, i < 4 → ∀ u, u < (if i < 3 then 23 else 21) →
      a ≠ off_intra_intra_mode + i * 128 + 105 + u) :
    init_intra_only_probs buf dec_params a = buf a := by
  rw [init_intra_only_probs_eq,
    forLoop_eval_other (fun b : Nat → Nat => b a) 10 init_intra_mode _
      (fun i b hi => init_intra_mode_other i b a (fun t ht => hy i t hi ht) (huv i)),
    init_intra_coef_other _ _ _ hc]

/-- The function `init_intra_only_probs` leaves alone every byte that the
intra-only layout does not write. -/
theorem init_intra_only_probs_unwritten (buf : Nat → Nat)
    (dec_params : v4l2_ctrl_vp9_frame_decode_params) (a : Nat) (h : spec_unwritten_intra a) :
    init_intra_only_probs buf dec_params a = buf a := by
  unfold spec_unwritten_intra at h
  simp only [off_is_inter, off_union, off_intra_coef_intra, off_intra_intra_mode,
    sizeof_rkvdec_vp9_probs, sizeof_inter_frame_probs, sizeof_intra_only_frame_probs] at h
  refine init_intra_only_probs_other buf dec_params a ?_ ?_ ?_
  · simp only [off_intra_coef_intra, off_union]
    intro p t hp ht
    omega
  · simp only [off_intra_intra_mode, off_union]
    intro i t hi ht
    omega
  · simp only [off_intra_intra_mode, off_union]
    intro i hi u hu
    split at hu <;> omega

/-- The copies at the head of `init_probs`, on a byte of the padding before
the union or a byte after it: the byte is 0 if it is in the structure. -/
theorem init_probs_head_zero (b : Nat → Nat) (s1 s2 s3 s4 s5 s6 s7 s8 : Nat → Nat) (a : Nat)
    (h1 : off_is_inter + 4 ≤ a) (h2 : a < sizeof_rkvdec_vp9_probs) :
    memcpy (memcpy (memcpy (memcpy (memcpy (memcpy (memcpy (memcpy
      (memset b 0 0 sizeof_rkvdec_vp9_probs) off_partition s1 48) off_pred s2 3) off_tree s3 7)
      off_skip s4 3) off_tx32 s5 6) off_tx16 s6 4) off_tx8 s7 2) off_is_inter s8 4 a = 0 := by
  simp only [off_is_inter, off_partition, off_pred, off_tree, off_skip, off_tx32, off_tx16,
    off_tx8] at h1 ⊢
  rw [memcpy_other _ _ _ _ _ (by omega), memcpy_other _ _ _ _ _ (by omega),
    memcpy_other _ _ _ _ _ (by omega), memcpy_other _ _ _ _ _ (by omega),
    memcpy_other _ _ _ _ _ (by omega), memcpy_other _ _ _ _ _ (by omega),
    memcpy_other _ _ _ _ _ (by omega), memcpy_other _ _ _ _ _ (by omega)]
  unfold memset
  exact if_pos ⟨Nat.zero_le a, by omega⟩

/-- Claim C16: `init_probs` does not depend on the previous contents of the
probability structure: from any two buffers and the same decode parameters the
resulting structures are the same byte for byte; and every byte of the
structure that the selected layout does not write (for the inter layout
`spec_unwritten_inter`, for the intra-only layout `spec_unwritten_intra`: the
padding members, the 5 pad bytes after each 27 payload bytes, the unused
`uv_mode` bytes and the tail of the union after the intra-only layout) is 0. -/
theorem init_probs_deterministic (K : Uapi) (buf buf' : Nat → Nat)
    (dec_params : v4l2_ctrl_vp9_frame_decode_params) :
    (∀ a, a < sizeof_rkvdec_vp9_probs →
      init_probs K buf dec_params a = init_probs K buf' dec_params a) ∧
    (∀ a, a < sizeof_rkvdec_vp9_probs →
      (if dec_params.flags &&& (K.FRAME_FLAG_KEY_FRAME ||| K.FRAME_FLAG_INTRA_ONLY) ≠ 0 then
        spec_unwritten_intra a
      else spec_unwritten_inter a) →
      init_probs K buf dec_params a = 0) := by
  refine ⟨init_probs_agree K buf buf' dec_params, fun a ha hu => ?_⟩
  unfold init_probs
  by_cases h : dec_params.flags &&& (K.FRAME_FLAG_KEY_FRAME ||| K.FRAME_FLAG_INTRA_ONLY) ≠ 0
  · rw [if_pos h] at hu
    rw [if_pos (decide_eq_true h), init_intra_only_probs_unwritten _ _ _ hu]
    refine init_probs_head_zero _ _ _ _ _ _ _ _ _ a ?_ ha
    unfold spec_unwritten_intra at hu
    simp only [off_is_inter, off_union, off_intra_coef_intra, off_intra_intra_mode,
      sizeof_rkvdec_vp9_probs, sizeof_inter_frame_probs, sizeof_intra_only_frame_probs] at hu ⊢
    omega
  · rw [if_neg h] at hu
    rw [if_neg (by simpa using h), init_inter_probs_unwritten _ _ _ hu]
    refine init_probs_head_zero _ _ _ _ _ _ _ _ _ a ?_ ha
    unfold spec_unwritten_inter at hu
    simp only [off_is_inter, off_union, off_inter_y_mode, off_inter_comp_mode,
      off_inter_comp_ref, off_inter_single_ref, off_inter_inter_mode, off_inter_interp_filter,
      off_inter_coef, off_inter_uv_mode_0_2, off_inter_uv_mode_3_5, off_inter_uv_mode_6_8,
      off_inter_uv_mode_9, off_inter_mv] at hu ⊢
    omega

set_option maxRecDepth 100000 in
/-- Witness for C16: from a buffer of all 255 and from a zero buffer the byte
at offset 100 is the same; for a key frame the padding byte at offset 78, and
for an inter frame the padding byte at offset 2330, are 0. -/
theorem init_probs_deterministic_witness :
    init_probs uapi (fun _ => 255) (sample_dec_params 1 0) 100 =
        init_probs uapi (fun _ => 0) (sample_dec_params 1 0) 100 ∧
      init_probs uapi (fun _ => 255) (sample_dec_params 1 0) 78 = 0 ∧
      init_probs uapi (fun _ => 255) (sample_dec_params 0 0) 2330 = 0 :=
  ⟨(init_probs_deterministic uapi (fun _ => 255) (fun _ => 0) (sample_dec_params 1 0)).1 100
      (by decide),
    (init_probs_deterministic uapi (fun _ => 255) (fun _ => 0) (sample_dec_params 1 0)).2 78
      (by decide) (by decide),
    (init_probs_deterministic uapi (fun _ => 255) (fun _ => 0) (sample_dec_params 0 0)).2 2330
      (by decide) (by decide)⟩

/-- The function `init_probs` for a key frame or an intra-only frame: the
copies at its head, with the fixed partition table, then
`init_intra_only_probs`. -/
theorem init_probs_intra (K : Uapi) (buf : Nat → Nat)
    (dec_params : v4l2_ctrl_vp9_frame_decode_params)
    (h : dec_params.flags &&& (K.FRAME_FLAG_KEY_FRAME ||| K.FRAME_FLAG_INTRA_ONLY) ≠ 0) :
    init_probs K buf dec_params =
      init_intra_only_probs
        (memcpy (memcpy (memcpy (memcpy (memcpy (memcpy (memcpy (memcpy
          (memset buf 0 0 sizeof_rkvdec_vp9_probs)
          off_partition (fun t => tbl2 kf_partition_probs (t / 3) (t % 3)) 48)
          off_pred dec_params.seg.pred_probs 3)
          off_tree dec_params.seg.tree_probs 7)
          off_skip (fun t => dec_params.probs (.skip t)) 3)
          off_tx32 (fun t => dec_params.probs (.tx32 (t / 3) (t % 3))) 6)
          off_tx16 (fun t => dec_params.probs (.tx16 (t / 2) (t % 2))) 4)
          off_tx8 (fun t => dec_params.probs (.tx8 t 0)) 2)
          off_is_inter (fun t => dec_params.probs (.is_inter t)) 4)
        dec_params := by
  unfold init_probs
  rw [if_pos (decide_eq_true h), if_pos (decide_eq_true h)]

/-- The function `write_coeff_plane` reads the block `coef[i][j][r]` only. -/
theorem write_coeff_plane_congr (probs probs' : v4l2_vp9_probabilities) (i j r : Nat)
    (buf : Nat → Nat) (plane : Nat)
    (h : ∀ k m n, probs (.coef i j r k m n) = probs' (.coef i j r k m n)) :
    write_coeff_plane probs i j r buf plane = write_coeff_plane probs' i j r buf plane := by
  unfold write_coeff_plane
  simp only [h]

/-- The coefficient loop of `init_intra_only_probs` reads the coefficient
probabilities of reference context 0 only. -/
theorem init_intra_coef_congr (probs probs' : v4l2_vp9_probabilities) (buf : Nat → Nat)
    (h : ∀ i j k m n, probs (.coef i j 0 k m n) = probs' (.coef i j 0 k m n)) :
    init_intra_coef probs buf = init_intra_coef probs' buf := by
  unfold init_intra_coef
  have hw : ∀ (i j : Nat) (b : Nat → Nat) (plane : Nat),
      write_coeff_plane probs i j 0 b plane = write_coeff_plane probs' i j 0 b plane :=
    fun i j b plane => write_coeff_plane_congr probs probs' i j 0 b plane (h i j)
  simp only [hw]

/-- Claim C17: for a key frame or an intra-only frame the serialized buffer
holds the fixed keyframe tables: `partition` is `kf_partition_probs`; for each
`i < 10` the byte `t = 9 j + k` of `vp9_kf_y_mode_prob[i]` is at offset
`t + 5 * (t / 27)` of `intra_mode[i].y_mode`; byte `23 i + m` of the flattened
`kf_uv_mode_prob` is at offset `m` of `intra_mode[i].uv_mode`, for `i < 3` and
`m < 23` and for `i = 3` and `m < 21`; and the buffer is the same for decode
parameters with the same flags and segmentation parameters whose probabilities
differ only in the partition, y_mode, uv_mode, inter_mode, comp_mode, comp_ref,
single_ref and motion-vector members. -/
theorem init_probs_intra_tables (K : Uapi) (buf : Nat → Nat)
    (dec_params : v4l2_ctrl_vp9_frame_decode_params)
    (h : dec_params.flags &&& K.FRAME_FLAG_KEY_FRAME ≠ 0 ∨
      dec_params.flags &&& K.FRAME_FLAG_INTRA_ONLY ≠ 0) :
    (∀ t, t < 48 →
      init_probs K buf dec_params (off_partition + t) =
        tbl2 kf_partition_probs (t / 3) (t % 3)) ∧
    (∀ i j k, i < 10 → j < 10 → k < 9 →
      init_probs K buf dec_params
          (off_intra_intra_mode + i * 128 + ((9 * j + k) + 5 * ((9 * j + k) / 27))) =
        tbl3 vp9_kf_y_mode_prob i j k) ∧
    (∀ i m, i < 4 → m < (if i < 3 then 23 else 21) →
      init_probs K buf dec_params (off_intra_intra_mode + i * 128 + 105 + m) =
        tbl2 kf_uv_mode_prob ((i * 23 + m) / 9) ((i * 23 + m) % 9)) ∧
    (∀ dec_params' : v4l2_ctrl_vp9_frame_decode_params,
      dec_params'.flags = dec_params.flags → dec_params'.seg = dec_params.seg →
      (∀ x : PIdx, x.field ∉ [PField.partition, PField.y_mode, PField.uv_mode,
          PField.inter_mode, PField.comp_mode, PField.comp_ref, PField.single_ref,
          PField.mv_joint, PField.mv_sign, PField.mv_class, PField.mv_class0_bit,
          PField.mv_bits, PField.mv_class0_fr, PField.mv_fr, PField.mv_class0_hp,
          PField.mv_hp] →
        dec_params'.probs x = dec_params.probs x) →
      init_probs K buf dec_params' = init_probs K buf dec_params) := by
  have h' := (land_lor_ne_zero _ _ _).mpr h
  refine ⟨fun t ht => ?_, fun i j k hi hj hk => ?_, fun i m hi hm => ?_,
    fun dec_params' hflags hseg hp => ?_⟩
  · rw [init_probs_intra K buf dec_params h',
      init_intra_only_probs_other _ _ _
        (by simp only [off_intra_coef_intra, off_union, off_partition]; intro p u _ _; omega)
        (by simp only [off_intra_intra_mode, off_union, off_partition]; intro i u _ _; omega)
        (by simp only [off_intra_intra_mode, off_union, off_partition]; intro i _ u _; omega)]
    simp only [off_is_inter, off_partition, off_pred, off_tree, off_skip, off_tx32, off_tx16,
      off_tx8]
    rw [memcpy_other _ _ _ _ _ (by omega), memcpy_other _ _ _ _ _ (by omega),
      memcpy_other _ _ _ _ _ (by omega), memcpy_other _ _ _ _ _ (by omega),
      memcpy_other _ _ _ _ _ (by omega), memcpy_other _ _ _ _ _ (by omega),
      memcpy_other _ _ _ _ _ (by omega), memcpy_at _ _ _ _ _ (by omega)]
    simp only [Nat.add_sub_cancel_left]
  · rw [init_probs_intra K buf dec_params h', init_intra_only_probs_eq]
    refine forLoop_eval_at (fun b : Nat → Nat =>
        b (off_intra_intra_mode + i * 128 + ((9 * j + k) + 5 * ((9 * j + k) / 27))))
      10 init_intra_mode _ i (fun _ => tbl3 vp9_kf_y_mode_prob i j k) hi (fun b => ?_)
      (fun i' b hi' hne => ?_)
    · have e1 : (9 * j + k) / 9 = j := by omega
      have e2 : (9 * j + k) % 9 = k := by omega
      have := init_intra_mode_at_y i b (9 * j + k) (by omega)
      rw [e1, e2] at this
      exact this
    · refine init_intra_mode_other i' b _ ?_ ?_
      · simp only [off_intra_intra_mode, off_union]
        intro u hu
        omega
      · simp only [off_intra_intra_mode, off_union]
        intro _ u hu
        split at hu <;> omega
  · rw [init_probs_intra K buf dec_params h', init_intra_only_probs_eq]
    refine forLoop_eval_at (fun b : Nat → Nat => b (off_intra_intra_mode + i * 128 + 105 + m))
      10 init_intra_mode _ i
      (fun _ => tbl2 kf_uv_mode_prob ((i * 23 + m) / 9) ((i * 23 + m) % 9)) (by omega)
      (fun b => init_intra_mode_at_uv i b m hi hm) (fun i' b hi' hne => ?_)
    refine init_intra_mode_other i' b _ ?_ ?_
    · simp only [off_intra_intra_mode, off_union]
      intro u hu
      split at hm <;> omega
    · simp only [off_intra_intra_mode, off_union]
      intro _ u hu
      split at hu <;> split at hm <;> omega
  · have hs : (fun t => dec_params'.probs (.skip t)) = fun t => dec_params.probs (.skip t) :=
      funext fun t => hp _ (by simp [PIdx.field])
    have h32 : (fun t => dec_params'.probs (.tx32 (t / 3) (t % 3))) =
        fun t => dec_params.probs (.tx32 (t / 3) (t % 3)) :=
      funext fun t => hp _ (by simp [PIdx.field])
    have h16 : (fun t => dec_params'.probs (.tx16 (t / 2) (t % 2))) =
        fun t => dec_params.probs (.tx16 (t / 2) (t % 2)) :=
      funext fun t => hp _ (by simp [PIdx.field])
    have h8 : (fun t => dec_params'.probs (.tx8 t 0)) = fun t => dec_params.probs (.tx8 t 0) :=
      funext fun t => hp _ (by simp [PIdx.field])
    have hi : (fun t => dec_params'.probs (.is_inter t)) =
        fun t => dec_params.probs (.is_inter t) :=
      funext fun t => hp _ (by simp [PIdx.field])
    rw [init_probs_intra K buf dec_params h',
      init_probs_intra K buf dec_params' (by rw [hflags]; exact h'), hseg, hs, h32, h16, h8, hi,
      init_intra_only_probs_eq, init_intra_only_probs_eq,
      init_intra_coef_congr dec_params'.probs dec_params.probs _
        (fun _ _ _ _ _ => hp _ (by simp [PIdx.field]))]

set_option maxRecDepth 100000 in
/-- Witness for C17: a key frame, from a buffer of all 255: byte 5 of
`partition`, byte `9 * 4 + 2` of `vp9_kf_y_mode_prob[7]` and byte 20 of the
`uv_mode` chunk of `intra_mode[3]`. -/
theorem init_probs_intra_tables_witness :
    init_probs uapi (fun _ => 255) (sample_dec_params 1 0) (off_partition + 5) =
        tbl2 kf_partition_probs (5 / 3) (5 % 3) ∧
      init_probs uapi (fun _ => 255) (sample_dec_params 1 0)
          (off_intra_intra_mode + 7 * 128 + ((9 * 4 + 2) + 5 * ((9 * 4 + 2) / 27))) =
        tbl3 vp9_kf_y_mode_prob 7 4 2 ∧
      init_probs uapi (fun _ => 255) (sample_dec_params 1 0)
          (off_intra_intra_mode + 3 * 128 + 105 + 20) =
        tbl2 kf_uv_mode_prob ((3 * 23 + 20) / 9) ((3 * 23 + 20) % 9) :=
  ⟨(init_probs_intra_tables uapi (fun _ => 255) (sample_dec_params 1 0)
      (Or.inl (by decide))).1 5 (by decide),
    (init_probs_intra_tables uapi (fun _ => 255) (sample_dec_params 1 0)
      (Or.inl (by decide))).2.1 7 4 2 (by decide) (by decide) (by decide),
    (init_probs_intra_tables uapi (fun _ => 255) (sample_dec_params 1 0)
      (Or.inl (by decide))).2.2.1 3 20 (by decide) (by decide)⟩

/-- The function `config_registers` is the sequence of its parts; the
reference slots and the buffer of the last frame are resolved in the session
as it is on entry. -/
theorem config_registers_eq (K : Uapi) (ctx : rkvdec_ctx) (run : struct_rkvdec_vp9_run)
    (dec_params : v4l2_ctrl_vp9_frame_decode_params) :
    config_registers K ctx run dec_params =
      config_registers_end K (config_registers_upto_scale K ctx run dec_params) run dec_params
        (config_registers_last ctx run) := rfl

/-- Nothing is a session after no further write. -/
theorem ext_refl (S : Reg → Prop) (b : rkvdec_ctx) : Ext S b b :=
  ⟨[], by simp, fun w hw => by simp at hw⟩

/-- One more write, to a register outside `S`. -/
theorem ext_writel (S : Reg → Prop) (b c : rkvdec_ctx) (val : List RegField) (reg : Reg)
    (h : Ext S b c) (hr : ¬ S reg) : Ext S b (writel val reg c) := by
  obtain ⟨W, rfl, hW⟩ := h
  refine ⟨W ++ [(reg, val)], by simp [writel], fun w hw => ?_⟩
  rcases List.mem_append.mp hw with hw | hw
  · exact hW w hw
  · rw [List.mem_singleton.mp hw]
    exact hr

/-- A loop whose iterations only add writes outside `S`. -/
theorem ext_forLoop (S : Reg → Prop) (b : rkvdec_ctx) (n : Nat)
    (body : Nat → rkvdec_ctx → rkvdec_ctx) (c : rkvdec_ctx) (h : Ext S b c)
    (hb : ∀ i c', i < n → Ext S b c' → Ext S b (body i c')) : Ext S b (forLoop n body c) :=
  forLoop_inv (Ext S b) n body c h hb

/-- Writes outside `S`, then more writes outside `S`. -/
theorem ext_trans (S : Reg → Prop) (b c d : rkvdec_ctx) (h1 : Ext S b c) (h2 : Ext S c d) :
    Ext S b d := by
  obtain ⟨W1, rfl, hW1⟩ := h1
  obtain ⟨W2, rfl, hW2⟩ := h2
  refine ⟨W1 ++ W2, by simp, fun w hw => ?_⟩
  rcases List.mem_append.mp hw with hw | hw
  · exact hW1 w hw
  · exact hW2 w hw

/-- Writes outside a set are writes outside every subset. -/
theorem ext_mono (S T : Reg → Prop) (b c : rkvdec_ctx) (h : Ext S b c)
    (hST : ∀ r, T r → S r) : Ext T b c := by
  obtain ⟨W, hc, hW⟩ := h
  exact ⟨W, hc, fun w hw ht => hW w hw (hST _ ht)⟩

/-- Writes outside `S` leave the image of every register of `S` as it was. -/
theorem ext_image (S : Reg → Prop) (b c : rkvdec_ctx) (r : Reg) (h : Ext S b c) (hr : S r) :
    reg_image c.regs r = reg_image b.regs r := by
  obtain ⟨W, rfl, hW⟩ := h
  show reg_image (b.regs ++ W) r = reg_image b.regs r
  unfold reg_image
  rw [List.foldl_append]
  generalize List.foldl (fun acc w => if w.1 = r then some w.2 else acc) none b.regs = x
  induction W generalizing x with
  | nil => rfl
  | cons w W ih =>
    have hne : ¬ w.1 = r := fun hw => hW w (List.mem_cons_self w W) (by rw [hw]; exact hr)
    rw [List.foldl_cons, if_neg hne]
    exact ih (fun w' hw' => hW w' (List.mem_cons_of_mem w hw')) x

/-- Register writes leave the private context as it was. -/
theorem ext_priv (S : Reg → Prop) (b c : rkvdec_ctx) (h : Ext S b c) : c.priv = b.priv := by
  obtain ⟨W, rfl, _⟩ := h
  rfl

/-- Register writes leave the capture buffers as they were. -/
theorem ext_buf_at (S : Reg → Prop) (b c : rkvdec_ctx) (h : Ext S b c) (i : Nat) :
    buf_at c i = buf_at b i := by
  obtain ⟨W, rfl, _⟩ := h
  rfl

/-- Register writes leave the negotiated format as it was. -/
theorem ext_fmt (S : Reg → Prop) (b c : rkvdec_ctx) (h : Ext S b c) :
    c.decoded_fmt_width = b.decoded_fmt_width ∧ c.decoded_fmt_height = b.decoded_fmt_height := by
  obtain ⟨W, rfl, _⟩ := h
  exact ⟨rfl, rfl⟩

/-- Every register named by an entry of `ref_config[]`, or by the entry the
model uses past the end of the table, is a register of a reference slot. -/
theorem ref_config_isRefReg (id : Nat) :
    (ref_config.getD id
        { reg_frm_size := .RKVDEC_REG_VP9_FRAME_SIZE id,
          reg_hor_stride := .RKVDEC_VP9_HOR_VIRSTRIDE id,
          reg_y_stride := .RKVDEC_VP9_LAST_FRAME_YSTRIDE,
          reg_yuv_stride := none,
          reg_ref_base := .RKVDEC_REG_VP9_LAST_FRAME_BASE }).reg_frm_size.isRefReg = true ∧
      (ref_config.getD id
        { reg_frm_size := .RKVDEC_REG_VP9_FRAME_SIZE id,
          reg_hor_stride := .RKVDEC_VP9_HOR_VIRSTRIDE id,
          reg_y_stride := .RKVDEC_VP9_LAST_FRAME_YSTRIDE,
          reg_yuv_stride := none,
          reg_ref_base := .RKVDEC_REG_VP9_LAST_FRAME_BASE }).reg_hor_stride.isRefReg = true ∧
      (ref_config.getD id
        { reg_frm_size := .RKVDEC_REG_VP9_FRAME_SIZE id,
          reg_hor_stride := .RKVDEC_VP9_HOR_VIRSTRIDE id,
          reg_y_stride := .RKVDEC_VP9_LAST_FRAME_YSTRIDE,
          reg_yuv_stride := none,
          reg_ref_base := .RKVDEC_REG_VP9_LAST_FRAME_BASE }).reg_y_stride.isRefReg = true ∧
      (ref_config.getD id
        { reg_frm_size := .RKVDEC_REG_VP9_FRAME_SIZE id,
          reg_hor_stride := .RKVDEC_VP9_HOR_VIRSTRIDE id,
          reg_y_stride := .RKVDEC_VP9_LAST_FRAME_YSTRIDE,
          reg_yuv_stride := none,
          reg_ref_base := .RKVDEC_REG_VP9_LAST_FRAME_BASE }).reg_ref_base.isRefReg = true ∧
      ∀ r, (ref_config.getD id
        { reg_frm_size := .RKVDEC_REG_VP9_FRAME_SIZE id,
          reg_hor_stride := .RKVDEC_VP9_HOR_VIRSTRIDE id,
          reg_y_stride := .RKVDEC_VP9_LAST_FRAME_YSTRIDE,
          reg_yuv_stride := none,
          reg_ref_base := .RKVDEC_REG_VP9_LAST_FRAME_BASE }).reg_yuv_stride = some r →
        r.isRefReg = true := by
  rcases id with _ | _ | _ | id
  · refine ⟨rfl, rfl, rfl, rfl, fun r hr => ?_⟩
    cases hr
    rfl
  · exact ⟨rfl, rfl, rfl, rfl, fun r hr => nomatch hr⟩
  · exact ⟨rfl, rfl, rfl, rfl, fun r hr => nomatch hr⟩
  · exact ⟨rfl, rfl, rfl, rfl, fun r hr => nomatch hr⟩

/-- The function `config_ref_registers` only writes registers of a reference
slot. -/
theorem config_ref_registers_ext (S : Reg → Prop) (b c : rkvdec_ctx)
    (run : struct_rkvdec_vp9_run) (ref_bufs : Nat → Nat) (id : Nat) (h : Ext S b c)
    (hS : ∀ r : Reg, r.isRefReg = true → ¬ S r) :
    Ext S b (config_ref_registers c run ref_bufs id) := by
  obtain ⟨h1, h2, h3, h4, h5⟩ := ref_config_isRefReg id
  unfold config_ref_registers
  dsimp only
  have hb := ext_writel S b _ [.value (u32 (buf_at c (ref_bufs id)).dma)] _
    (ext_writel S b c
      [.RKVDEC_VP9_FRAMEWIDTH (buf_at c (ref_bufs id)).vp9_width,
        .RKVDEC_VP9_FRAMEHEIGHT (buf_at c (ref_bufs id)).vp9_height] _ h (hS _ h1)) (hS _ h4)
  split
  · exact hb
  · split
    · rename_i hn
      exact ext_writel S b _ _ _ (ext_writel S b _ _ _ hb (hS _ h2)) (hS _ h3)
    · rename_i reg hr
      exact ext_writel S b _ _ _ (ext_writel S b _ _ _ (ext_writel S b _ _ _ hb (hS _ h2))
        (hS _ h3)) (hS _ (h5 reg hr))

/-- The function `config_seg_registers` only writes the register of its
segment. -/
theorem config_seg_registers_ext (K : Uapi) (S : Reg → Prop) (b c : rkvdec_ctx) (segid : Nat)
    (h : Ext S b c) (hS : ¬ S (.RKVDEC_VP9_SEGID_GRP segid)) :
    Ext S b (config_seg_registers K c segid) := by
  unfold config_seg_registers
  exact ext_writel S b c _ _ h hS

/-- A register of a reference slot is written by part 1. -/
theorem isRefReg_stage (r : Reg) (h : r.isRefReg = true) : r.stage = 1 := by
  cases r <;> first | rfl | exact Bool.noConfusion h

/-- The reference and segment part of `config_registers` only writes registers
of part 1. -/
theorem config_registers_refs_ext (K : Uapi) (c : rkvdec_ctx) (run : struct_rkvdec_vp9_run)
    (dec_params : v4l2_ctrl_vp9_frame_decode_params) (ref_bufs : Nat → Nat) :
    Ext (fun r => r.stage ≠ 1) c (config_registers_refs K c run dec_params ref_bufs) := by
  unfold config_registers_refs
  dsimp only
  refine ext_writel _ _ _ _ _ ?_ (fun h => h rfl)
  refine ext_forLoop _ _ _ _ _ ?_
    (fun i c' _ h => config_seg_registers_ext K _ _ _ i h (fun h => h rfl))
  refine ext_forLoop _ _ _ _ _ (ext_refl _ _)
    (fun i c' _ h => config_ref_registers_ext _ _ _ _ _ _ h
      (fun r hr hs => hs (isRefReg_stage r hr)))

/-- The loop-filter block of `config_registers` only writes the register of
part 2. -/
theorem config_registers_lf_ext (K : Uapi) (c : rkvdec_ctx)
    (dec_params : v4l2_ctrl_vp9_frame_decode_params) :
    Ext (fun r => r.stage ≠ 2) c (config_registers_lf K c dec_params).1 := by
  unfold config_registers_lf
  dsimp only
  split
  · exact ext_writel _ _ _ _ _ (ext_refl _ _) (fun h => h rfl)
  · exact ext_refl _ _

/-- The mode deltas that start the last-frame-info word: none for an intra-only
frame, else those of the last frame info when it is valid and of the current
one otherwise. -/
theorem config_registers_lf_snd (K : Uapi) (c : rkvdec_ctx)
    (dec_params : v4l2_ctrl_vp9_frame_decode_params) :
    (config_registers_lf K c dec_params).2 =
      if dec_params.flags &&& (K.FRAME_FLAG_KEY_FRAME ||| K.FRAME_FLAG_INTRA_ONLY) ≠ 0 then []
      else
        [.RKVDEC_MODE_DELTAS_LASTFRAME 0
            ((if c.priv.last.valid ≠ 0 then c.priv.last.lf else c.priv.cur.lf).mode_deltas 0),
          .RKVDEC_MODE_DELTAS_LASTFRAME 1
            ((if c.priv.last.valid ≠ 0 then c.priv.last.lf else c.priv.cur.lf).mode_deltas 1)] := by
  unfold config_registers_lf
  dsimp only
  by_cases h : dec_params.flags &&& (K.FRAME_FLAG_KEY_FRAME ||| K.FRAME_FLAG_INTRA_ONLY) ≠ 0
  · rw [if_neg (by simpa using h), if_pos h]
  · rw [if_pos (by simpa using h), if_neg h]
    rfl

/-- The last-frame-info part of `config_registers` only writes the register of
part 3. -/
theorem config_registers_last_info_ext (K : Uapi) (c : rkvdec_ctx)
    (dec_params : v4l2_ctrl_vp9_frame_decode_params) (last dst : Nat)
    (last_frame_info : List RegField) :
    Ext (fun r => r.stage ≠ 3) c
      (config_registers_last_info K c dec_params last dst last_frame_info) := by
  unfold config_registers_last_info
  exact ext_writel _ _ _ _ _ (ext_refl _ _) (fun h => h rfl)

/-- With no valid last frame info, the last-frame-info word is written as it
was started: none of the four flags of the last frame is added. -/
theorem config_registers_last_info_invalid (K : Uapi) (c : rkvdec_ctx)
    (dec_params : v4l2_ctrl_vp9_frame_decode_params) (last dst : Nat)
    (last_frame_info : List RegField) (h : c.priv.last.valid = 0) :
    reg_image (config_registers_last_info K c dec_params last dst last_frame_info).regs
      .RKVDEC_VP9_INFO_LASTFRAME = some last_frame_info := by
  unfold config_registers_last_info
  dsimp only
  refine reg_image_writel_eq _ _ _ _ ?_
  simp only [h, ne_eq, not_true_eq_false, false_and, if_false]

/-- The scale part of `config_registers` only writes registers of part 4. -/
theorem config_registers_scale_ext (K : Uapi) (c : rkvdec_ctx) (run : struct_rkvdec_vp9_run)
    (dec_params : v4l2_ctrl_vp9_frame_decode_params) (ref_bufs : Nat → Nat) :
    Ext (fun r => r.stage ≠ 4) c (config_registers_scale K c run dec_params ref_bufs) := by
  unfold config_registers_scale
  dsimp only
  refine ext_forLoop _ _ _ _ _ (ext_writel _ _ _ _ _ (ext_refl _ _) (fun h => h rfl))
    (fun i c' _ h => ext_writel _ _ _ _ _ h (fun h => h rfl))

/-- The last part of `config_registers` only writes registers of part 5. -/
theorem config_registers_end_ext (K : Uapi) (c : rkvdec_ctx) (run : struct_rkvdec_vp9_run)
    (dec_params : v4l2_ctrl_vp9_frame_decode_params) (last : Nat) :
    Ext (fun r => r.stage ≠ 5) c (config_registers_end K c run dec_params last) := by
  unfold config_registers_end
  dsimp only
  refine ext_writel _ _ _ _ _ ?_ (fun h => h rfl)
  refine ext_writel _ _ _ _ _ ?_ (fun h => h rfl)
  refine ext_writel _ _ _ _ _ ?_ (fun h => h rfl)
  refine ext_writel _ _ _ _ _ ?_ (fun h => h rfl)
  refine ext_writel _ _ _ _ _ ?_ (fun h => h rfl)
  refine ext_writel _ _ _ _ _ ?_ (fun h => h rfl)
  refine ext_writel _ _ _ _ _ ?_ (fun h => h rfl)
  exact ext_writel _ _ _ _ _ (ext_refl _ _) (fun h => h rfl)

/-- From the end of its first part to the start of its last-frame-info part,
`config_registers` only writes registers of parts 1 and 2. -/
theorem config_registers_upto_lf_ext (K : Uapi) (ctx : rkvdec_ctx)
    (run : struct_rkvdec_vp9_run) (dec_params : v4l2_ctrl_vp9_frame_decode_params) :
    Ext (fun r => r.stage = 0 ∨ 3 ≤ r.stage) (config_registers_begin K ctx run dec_params)
      (config_registers_upto_lf K ctx run dec_params).1 := by
  unfold config_registers_upto_lf
  exact ext_trans _ _ _ _
    (ext_mono _ _ _ _ (config_registers_refs_ext K _ run dec_params _) (fun r hr => by omega))
    (ext_mono _ _ _ _ (config_registers_lf_ext K _ dec_params) (fun r hr => by omega))

/-- After its last-frame-info part `config_registers` only writes registers of
parts 4 and 5. -/
theorem config_registers_after_info_ext (K : Uapi) (ctx : rkvdec_ctx)
    (run : struct_rkvdec_vp9_run) (dec_params : v4l2_ctrl_vp9_frame_decode_params) :
    Ext (fun r => r.stage ≤ 3 ∨ 6 ≤ r.stage) (config_registers_upto_info K ctx run dec_params)
      (config_registers K ctx run dec_params) := by
  rw [config_registers_eq]
  unfold config_registers_upto_scale
  exact ext_trans _ _ _ _
    (ext_mono _ _ _ _ (config_registers_scale_ext K _ run dec_params _) (fun r hr => by omega))
    (ext_mono _ _ _ _ (config_registers_end_ext K _ run dec_params _) (fun r hr => by omega))

/-- After its first part `config_registers` only writes registers of parts 1
to 5: the session it leaves is the one its first part leaves but for register
writes. -/
theorem config_registers_after_begin_ext (K : Uapi) (ctx : rkvdec_ctx)
    (run : struct_rkvdec_vp9_run) (dec_params : v4l2_ctrl_vp9_frame_decode_params) :
    Ext (fun r => r.stage = 0 ∨ 6 ≤ r.stage) (config_registers_begin K ctx run dec_params)
      (config_registers K ctx run dec_params) := by
  refine ext_trans _ _ _ _ ?_
    (ext_mono _ _ _ _ (config_registers_after_info_ext K ctx run dec_params)
      (fun r hr => by omega))
  unfold config_registers_upto_info
  exact ext_trans _ _ _ _
    (ext_mono _ _ _ _ (config_registers_upto_lf_ext K ctx run dec_params)
      (fun r hr => by omega))
    (ext_mono _ _ _ _ (config_registers_last_info_ext K _ dec_params _ _ _)
      (fun r hr => by omega))

/-- The offset `get_mv_base_addr` adds is the `yuv_len` of the reference
slots. -/
theorem get_mv_base_addr_eq (buf : rkvdec_decoded_buffer) :
    get_mv_base_addr buf =
      buf.dma + ref_yuv_len buf.vp9_width buf.vp9_height buf.vp9_bit_depth := rfl

/-- The registers the first part of `config_registers` writes. -/
theorem config_registers_begin_regs (K : Uapi) (ctx : rkvdec_ctx) (run : struct_rkvdec_vp9_run)
    (dec_params : v4l2_ctrl_vp9_frame_decode_params) :
    (config_registers_begin K ctx run dec_params).regs = ctx.regs ++
      [(.RKVDEC_REG_SYSCTRL, [.RKVDEC_MODE_VP9]),
       (.RKVDEC_REG_PICPAR,
         [.RKVDEC_Y_HOR_VIRSTRIDE (aligned_pitch ctx.decoded_fmt_width dec_params.bit_depth / 16),
          .RKVDEC_UV_HOR_VIRSTRIDE (aligned_pitch ctx.decoded_fmt_width dec_params.bit_depth / 16)]),
       (.RKVDEC_REG_Y_VIRSTRIDE,
         [.RKVDEC_Y_VIRSTRIDE
           (y_len ctx.decoded_fmt_width ctx.decoded_fmt_height dec_params.bit_depth / 16)]),
       (.RKVDEC_REG_YUV_VIRSTRIDE,
         [.RKVDEC_YUV_VIRSTRIDE
           (yuv_len ctx.decoded_fmt_width ctx.decoded_fmt_height dec_params.bit_depth / 16)]),
       (.RKVDEC_REG_STRM_LEN, [.RKVDEC_STRM_LEN (u32 run.src_payload)])] := by
  unfold config_registers_begin
  dsimp only
  split_ifs <;>
    simp only [writel, update_dec_buf_info, List.append_assoc, List.singleton_append,
      List.cons_append, List.nil_append, yuv_len, y_len, aligned_pitch, aligned_height]

/-- The capture queue the first part of `config_registers` leaves. -/
theorem config_registers_begin_cap_q (K : Uapi) (ctx : rkvdec_ctx) (run : struct_rkvdec_vp9_run)
    (dec_params : v4l2_ctrl_vp9_frame_decode_params) :
    (config_registers_begin K ctx run dec_params).cap_q =
      (update_dec_buf_info ctx run.dst dec_params).cap_q := by
  unfold config_registers_begin
  dsimp only
  split_ifs <;> rfl

/-- The first part of `config_registers` keeps the negotiated format. -/
theorem config_registers_begin_fmt (K : Uapi) (ctx : rkvdec_ctx) (run : struct_rkvdec_vp9_run)
    (dec_params : v4l2_ctrl_vp9_frame_decode_params) :
    (config_registers_begin K ctx run dec_params).decoded_fmt_width = ctx.decoded_fmt_width ∧
      (config_registers_begin K ctx run dec_params).decoded_fmt_height =
        ctx.decoded_fmt_height := by
  unfold config_registers_begin
  dsimp only
  split_ifs <;> exact ⟨rfl, rfl⟩

/-- The private context the first part of `config_registers` leaves is the one
the whole function leaves. -/
theorem config_registers_begin_priv (K : Uapi) (ctx : rkvdec_ctx) (run : struct_rkvdec_vp9_run)
    (dec_params : v4l2_ctrl_vp9_frame_decode_params) :
    (config_registers_begin K ctx run dec_params).priv =
      (config_registers K ctx run dec_params).priv :=
  (ext_priv _ _ _ (config_registers_after_begin_ext K ctx run dec_params)).symm

/-- A buffer of the first part of `config_registers` is that buffer after
`update_dec_buf_info`. -/
theorem config_registers_begin_buf_at (K : Uapi) (ctx : rkvdec_ctx)
    (run : struct_rkvdec_vp9_run) (dec_params : v4l2_ctrl_vp9_frame_decode_params) (idx : Nat) :
    buf_at (config_registers_begin K ctx run dec_params) idx =
      buf_at (update_dec_buf_info ctx run.dst dec_params) idx := by
  unfold buf_at
  rw [config_registers_begin_cap_q]

/-- The last frame info is not touched by `config_registers`. -/
theorem config_registers_priv_last (K : Uapi) (ctx : rkvdec_ctx) (run : struct_rkvdec_vp9_run)
    (dec_params : v4l2_ctrl_vp9_frame_decode_params) :
    (config_registers K ctx run dec_params).priv.last = ctx.priv.last := by
  rw [config_registers_priv]

/-- The loop-filter parameters of the current frame info after
`config_registers` are those of the decode parameters. -/
theorem config_registers_priv_cur_lf (K : Uapi) (ctx : rkvdec_ctx) (run : struct_rkvdec_vp9_run)
    (dec_params : v4l2_ctrl_vp9_frame_decode_params) :
    (config_registers K ctx run dec_params).priv.cur.lf = dec_params.lf := by
  rw [config_registers_priv]

/-- What a session that the first part of `config_registers` leaves, and that
only saw register writes since, holds: the last frame info of the entry, the
loop-filter parameters of the decode parameters and the capture buffers after
`update_dec_buf_info`. -/
theorem config_registers_begin_ext_facts (K : Uapi) (S : Reg → Prop) (ctx c : rkvdec_ctx)
    (run : struct_rkvdec_vp9_run) (dec_params : v4l2_ctrl_vp9_frame_decode_params)
    (h : Ext S (config_registers_begin K ctx run dec_params) c) :
    c.priv.last = ctx.priv.last ∧ c.priv.cur.lf = dec_params.lf ∧
      ∀ i, buf_at c i = buf_at (update_dec_buf_info ctx run.dst dec_params) i := by
  refine ⟨?_, ?_, fun i => ?_⟩
  · rw [ext_priv _ _ _ h, config_registers_begin_priv, config_registers_priv_last]
  · rw [ext_priv _ _ _ h, config_registers_begin_priv, config_registers_priv_cur_lf]
  · rw [ext_buf_at _ _ _ h, config_registers_begin_buf_at]

/-- From the end of its first part to the write of the last-frame-info word,
`config_registers` only writes registers of parts 1 to 3. -/
theorem config_registers_upto_info_ext (K : Uapi) (ctx : rkvdec_ctx)
    (run : struct_rkvdec_vp9_run) (dec_params : v4l2_ctrl_vp9_frame_decode_params) :
    Ext (fun r => r.stage = 0 ∨ 4 ≤ r.stage) (config_registers_begin K ctx run dec_params)
      (config_registers_upto_info K ctx run dec_params) := by
  unfold config_registers_upto_info
  exact ext_trans _ _ _ _
    (ext_mono _ _ _ _ (config_registers_upto_lf_ext K ctx run dec_params)
      (fun r hr => by omega))
    (ext_mono _ _ _ _ (config_registers_last_info_ext K _ dec_params _ _ _)
      (fun r hr => by omega))

/-- From the end of its first part to the write of the scale factors,
`config_registers` only writes registers of parts 1 to 4. -/
theorem config_registers_upto_scale_ext (K : Uapi) (ctx : rkvdec_ctx)
    (run : struct_rkvdec_vp9_run) (dec_params : v4l2_ctrl_vp9_frame_decode_params) :
    Ext (fun r => r.stage = 0 ∨ 5 ≤ r.stage) (config_registers_begin K ctx run dec_params)
      (config_registers_upto_scale K ctx run dec_params) := by
  unfold config_registers_upto_scale
  exact ext_trans _ _ _ _
    (ext_mono _ _ _ _ (config_registers_upto_info_ext K ctx run dec_params)
      (fun r hr => by omega))
    (ext_mono _ _ _ _ (config_registers_scale_ext K _ run dec_params _)
      (fun r hr => by omega))

/-- The scale factors the scale part of `config_registers` writes for a frame
that is not intra-only. -/
theorem config_registers_scale_image (K : Uapi) (c : rkvdec_ctx) (run : struct_rkvdec_vp9_run)
    (dec_params : v4l2_ctrl_vp9_frame_decode_params) (ref_bufs : Nat → Nat)
    (h : ¬ dec_params.flags &&& (K.FRAME_FLAG_KEY_FRAME ||| K.FRAME_FLAG_INTRA_ONLY) ≠ 0)
    (i : Nat) (hi : i < K.REF_ID_CNT) :
    reg_image (config_registers_scale K c run dec_params ref_bufs).regs
        (.RKVDEC_VP9_REF_SCALE i) =
      some [.RKVDEC_VP9_REF_HOR_SCALE
              (u32 ((buf_at c (ref_bufs i)).vp9_width * 2 ^ 14) / (buf_at c run.dst).vp9_width),
            .RKVDEC_VP9_REF_VER_SCALE
              (u32 ((buf_at c (ref_bufs i)).vp9_height * 2 ^ 14) /
                (buf_at c run.dst).vp9_height)] := by
  unfold config_registers_scale
  dsimp only
  rw [if_pos (by simpa using h)]
  have key := forLoop_ind
    (fun n c' => Ext (fun _ => False) c c' ∧ ∀ j, j < n →
      reg_image c'.regs (.RKVDEC_VP9_REF_SCALE j) =
        some [.RKVDEC_VP9_REF_HOR_SCALE
                (u32 ((buf_at c (ref_bufs j)).vp9_width * 2 ^ 14) / (buf_at c run.dst).vp9_width),
              .RKVDEC_VP9_REF_VER_SCALE
                (u32 ((buf_at c (ref_bufs j)).vp9_height * 2 ^ 14) /
                  (buf_at c run.dst).vp9_height)])
    K.REF_ID_CNT
    (fun i ctx =>
      writel [.RKVDEC_VP9_REF_HOR_SCALE
                (u32 ((buf_at ctx (ref_bufs i)).vp9_width * 2 ^ 14) /
                  (buf_at ctx run.dst).vp9_width),
              .RKVDEC_VP9_REF_VER_SCALE
                (u32 ((buf_at ctx (ref_bufs i)).vp9_height * 2 ^ 14) /
                  (buf_at ctx run.dst).vp9_height)]
        (.RKVDEC_VP9_REF_SCALE i) ctx)
    (writel [.value (sub32 (sub32 (u32 run.src_payload) dec_params.compressed_header_size)
      dec_params.uncompressed_header_size)] .RKVDEC_VP9_LASTTILE_SIZE c)
    ⟨ext_writel _ _ _ _ _ (ext_refl _ _) (fun h => h), fun j hj => absurd hj (Nat.not_lt_zero j)⟩
    (fun n t hn ht => ?_)
  · exact key.2 i hi
  · beta_reduce at ht ⊢
    obtain ⟨he, him⟩ := ht
    refine ⟨ext_writel _ _ _ _ _ he (fun h => h), fun j hj => ?_⟩
    rcases Nat.lt_succ_iff_lt_or_eq.mp hj with hj | hj
    · refine reg_image_writel_ne _ _ _ _ _ (fun hne => ?_) (him j hj)
      injection hne with hne
      omega
    · subst hj
      refine reg_image_writel_eq _ _ _ _ ?_
      rw [ext_buf_at _ _ _ he, ext_buf_at _ _ _ he]

/-- For an intra-only frame the scale part of `config_registers` only writes
the size of the last tile. -/
theorem config_registers_scale_intra (K : Uapi) (c : rkvdec_ctx) (run : struct_rkvdec_vp9_run)
    (dec_params : v4l2_ctrl_vp9_frame_decode_params) (ref_bufs : Nat → Nat)
    (h : dec_params.flags &&& (K.FRAME_FLAG_KEY_FRAME ||| K.FRAME_FLAG_INTRA_ONLY) ≠ 0) :
    Ext (fun r => r ≠ .RKVDEC_VP9_LASTTILE_SIZE) c
      (config_registers_scale K c run dec_params ref_bufs) := by
  unfold config_registers_scale
  dsimp only
  rw [if_neg (by simpa using h)]
  unfold forLoop
  exact ext_writel _ _ _ _ _ (ext_refl _ _) (fun h => h rfl)

/-- A register write leaves the capture buffers as they were. -/
theorem buf_at_writel (val : List RegField) (reg : Reg) (c : rkvdec_ctx) (i : Nat) :
    buf_at (writel val reg c) i = buf_at c i := rfl

/-- A register write leaves the private context as it was. -/
theorem writel_priv (val : List RegField) (reg : Reg) (c : rkvdec_ctx) :
    (writel val reg c).priv = c.priv := rfl

/-- The motion-vector reference the last part of `config_registers` writes. -/
theorem config_registers_end_colmv (K : Uapi) (c : rkvdec_ctx) (run : struct_rkvdec_vp9_run)
    (dec_params : v4l2_ctrl_vp9_frame_decode_params) (last : Nat) :
    reg_image (config_registers_end K c run dec_params last).regs .RKVDEC_VP9_REF_COLMV_BASE =
      some [.value (u32 (get_mv_base_addr (buf_at c
        (if ¬ dec_params.flags &&& (K.FRAME_FLAG_KEY_FRAME ||| K.FRAME_FLAG_INTRA_ONLY) ≠ 0 ∧
            ¬ dec_params.flags &&& K.FRAME_FLAG_ERROR_RESILIENT ≠ 0 ∧ c.priv.last.valid ≠ 0
          then last else run.dst))))] := by
  unfold config_registers_end
  dsimp only
  refine reg_image_writel_ne _ _ _ _ _ (fun hne => Reg.noConfusion hne) ?_
  refine reg_image_writel_eq _ _ _ _ ?_
  simp only [decide_eq_false_iff_not, buf_at_writel, writel_priv]

/-- The motion-vector reference `config_registers` programs: the buffer of the
last frame for a frame that is neither intra-only nor error-resilient when the
last frame info is valid, else the destination buffer. -/
theorem config_registers_colmv (K : Uapi) (ctx : rkvdec_ctx) (run : struct_rkvdec_vp9_run)
    (dec_params : v4l2_ctrl_vp9_frame_decode_params) :
    reg_image (config_registers K ctx run dec_params).regs .RKVDEC_VP9_REF_COLMV_BASE =
      some [.value (u32 (get_mv_base_addr (buf_at (update_dec_buf_info ctx run.dst dec_params)
        (if ¬ dec_params.flags &&& (K.FRAME_FLAG_KEY_FRAME ||| K.FRAME_FLAG_INTRA_ONLY) ≠ 0 ∧
            ¬ dec_params.flags &&& K.FRAME_FLAG_ERROR_RESILIENT ≠ 0 ∧ ctx.priv.last.valid ≠ 0
          then get_ref_buf ctx run.dst ctx.priv.last.timestamp else run.dst))))] := by
  obtain ⟨hl, _, hb⟩ := config_registers_begin_ext_facts K _ ctx _ run dec_params
    (config_registers_upto_scale_ext K ctx run dec_params)
  rw [config_registers_eq, config_registers_end_colmv, hb, hl]
  unfold config_registers_last
  by_cases hv : ctx.priv.last.valid ≠ 0
  · rw [if_pos hv]
  · rw [if_neg hv]
    congr 6
    split_ifs <;> first | rfl | (exfalso; tauto)

/-- The last-frame-info word `config_registers` programs when the last frame
info is not valid: nothing for an intra-only frame, else the two mode deltas of
the decode parameters. -/
theorem config_registers_info_invalid (K : Uapi) (ctx : rkvdec_ctx)
    (run : struct_rkvdec_vp9_run) (dec_params : v4l2_ctrl_vp9_frame_decode_params)
    (h : ctx.priv.last.valid = 0) :
    reg_image (config_registers K ctx run dec_params).regs .RKVDEC_VP9_INFO_LASTFRAME =
      some (if dec_params.flags &&& (K.FRAME_FLAG_KEY_FRAME ||| K.FRAME_FLAG_INTRA_ONLY) ≠ 0
        then []
        else [.RKVDEC_MODE_DELTAS_LASTFRAME 0 (dec_params.lf.mode_deltas 0),
              .RKVDEC_MODE_DELTAS_LASTFRAME 1 (dec_params.lf.mode_deltas 1)]) := by
  obtain ⟨hl, _, _⟩ := config_registers_begin_ext_facts K _ ctx _ run dec_params
    (config_registers_upto_lf_ext K ctx run dec_params)
  obtain ⟨hl2, hc2, _⟩ := config_registers_begin_ext_facts K _ ctx _ run dec_params
    (config_registers_refs_ext K (config_registers_begin K ctx run dec_params) run dec_params
      (fun i => get_ref_buf ctx run.dst (dec_params.refs i)))
  rw [ext_image _ _ _ .RKVDEC_VP9_INFO_LASTFRAME
    (config_registers_after_info_ext K ctx run dec_params) (Or.inl (by decide))]
  unfold config_registers_upto_info
  rw [config_registers_last_info_invalid _ _ _ _ _ _ (by rw [hl]; exact h)]
  unfold config_registers_upto_lf
  rw [config_registers_lf_snd, hl2, hc2]
  by_cases hi : dec_params.flags &&& (K.FRAME_FLAG_KEY_FRAME ||| K.FRAME_FLAG_INTRA_ONLY) ≠ 0
  · rw [if_pos hi, if_pos hi]
  · rw [if_neg hi, if_neg hi, if_neg (by rw [h]; exact fun hne => hne rfl)]

/-- The scale factors `config_registers` programs for a frame that is not
intra-only, read from the buffers as `update_dec_buf_info` leaves them. -/
theorem config_registers_ref_scale_image (K : Uapi) (ctx : rkvdec_ctx)
    (run : struct_rkvdec_vp9_run) (dec_params : v4l2_ctrl_vp9_frame_decode_params)
    (h : ¬ dec_params.flags &&& (K.FRAME_FLAG_KEY_FRAME ||| K.FRAME_FLAG_INTRA_ONLY) ≠ 0)
    (i : Nat) (hi : i < K.REF_ID_CNT) :
    reg_image (config_registers K ctx run dec_params).regs (.RKVDEC_VP9_REF_SCALE i) =
      some [.RKVDEC_VP9_REF_HOR_SCALE
              (u32 ((buf_at (update_dec_buf_info ctx run.dst dec_params)
                  (get_ref_buf ctx run.dst (dec_params.refs i))).vp9_width * 2 ^ 14) /
                (buf_at (update_dec_buf_info ctx run.dst dec_params) run.dst).vp9_width),
            .RKVDEC_VP9_REF_VER_SCALE
              (u32 ((buf_at (update_dec_buf_info ctx run.dst dec_params)
                  (get_ref_buf ctx run.dst (dec_params.refs i))).vp9_height * 2 ^ 14) /
                (buf_at (update_dec_buf_info ctx run.dst dec_params) run.dst).vp9_height)] := by
  obtain ⟨_, _, hb⟩ := config_registers_begin_ext_facts K _ ctx _ run dec_params
    (config_registers_upto_info_ext K ctx run dec_params)
  rw [config_registers_eq, ext_image _ _ _ (.RKVDEC_VP9_REF_SCALE i)
    (config_registers_end_ext K _ run dec_params _) (by simp [Reg.stage])]
  unfold config_registers_upto_scale
  rw [config_registers_scale_image K _ run dec_params _ h i hi, hb, hb]

/-- The register trace of a session that only saw register writes. -/
theorem ext_regs (S : Reg → Prop) (b c : rkvdec_ctx) (h : Ext S b c) :
    ∃ W : List (Reg × List RegField), c.regs = b.regs ++ W ∧ ∀ w ∈ W, ¬ S w.1 := by
  obtain ⟨W, rfl, hW⟩ := h
  exact ⟨W, rfl, hW⟩

/-- For an intra-only frame `config_registers` writes no scale register. -/
theorem config_registers_intra_no_scale (K : Uapi) (ctx : rkvdec_ctx)
    (run : struct_rkvdec_vp9_run) (dec_params : v4l2_ctrl_vp9_frame_decode_params)
    (h : dec_params.flags &&& (K.FRAME_FLAG_KEY_FRAME ||| K.FRAME_FLAG_INTRA_ONLY) ≠ 0) :
    ∃ W : List (Reg × List RegField),
      (config_registers K ctx run dec_params).regs = ctx.regs ++ W ∧
        ∀ w ∈ W, ∀ i, w.1 ≠ .RKVDEC_VP9_REF_SCALE i := by
  have he : Ext (fun r => ∃ i, r = .RKVDEC_VP9_REF_SCALE i)
      (config_registers_begin K ctx run dec_params) (config_registers K ctx run dec_params) := by
    rw [config_registers_eq]
    unfold config_registers_upto_scale
    have h1 := ext_mono _ (fun r => ∃ i, r = Reg.RKVDEC_VP9_REF_SCALE i) _ _
      (config_registers_upto_info_ext K ctx run dec_params)
      (fun r hr => by obtain ⟨i, rfl⟩ := hr; exact Or.inr (Nat.le_refl 4))
    have h2 := ext_mono _ (fun r => ∃ i, r = Reg.RKVDEC_VP9_REF_SCALE i) _ _
      (config_registers_scale_intra K (config_registers_upto_info K ctx run dec_params) run
        dec_params (fun i => get_ref_buf ctx run.dst (dec_params.refs i)) h)
      (fun r hr => by obtain ⟨i, rfl⟩ := hr; exact fun hne => Reg.noConfusion hne)
    have h3 := ext_mono _ (fun r => ∃ i, r = Reg.RKVDEC_VP9_REF_SCALE i) _ _
      (config_registers_end_ext K
        (config_registers_scale K (config_registers_upto_info K ctx run dec_params) run
          dec_params (fun i => get_ref_buf ctx run.dst (dec_params.refs i)))
        run dec_params (config_registers_last ctx run))
      (fun r hr => by obtain ⟨i, rfl⟩ := hr; simp [Reg.stage])
    exact ext_trans _ _ _ _ (ext_trans _ _ _ _ h1 h2) h3
  obtain ⟨W, hW, hS⟩ := ext_regs _ _ _ he
  refine ⟨_, by rw [hW, config_registers_begin_regs, List.append_assoc], fun w hw i hwi => ?_⟩
  rcases List.mem_append.mp hw with hw | hw
  · simp only [List.mem_cons, List.mem_singleton, List.not_mem_nil, or_false] at hw
    rcases hw with rfl | rfl | rfl | rfl | rfl <;> exact Reg.noConfusion hwi
  · exact hS w hw ⟨i, hwi⟩

/-- The three stride registers `config_registers` programs. -/
theorem config_registers_stride_images (K : Uapi) (ctx : rkvdec_ctx)
    (run : struct_rkvdec_vp9_run) (dec_params : v4l2_ctrl_vp9_frame_decode_params) :
    reg_image (config_registers K ctx run dec_params).regs .RKVDEC_REG_PICPAR =
        some [.RKVDEC_Y_HOR_VIRSTRIDE
                (aligned_pitch ctx.decoded_fmt_width dec_params.bit_depth / 16),
              .RKVDEC_UV_HOR_VIRSTRIDE
                (aligned_pitch ctx.decoded_fmt_width dec_params.bit_depth / 16)] ∧
      reg_image (config_registers K ctx run dec_params).regs .RKVDEC_REG_Y_VIRSTRIDE =
        some [.RKVDEC_Y_VIRSTRIDE
          (y_len ctx.decoded_fmt_width ctx.decoded_fmt_height dec_params.bit_depth / 16)] ∧
      reg_image (config_registers K ctx run dec_params).regs .RKVDEC_REG_YUV_VIRSTRIDE =
        some [.RKVDEC_YUV_VIRSTRIDE
          (yuv_len ctx.decoded_fmt_width ctx.decoded_fmt_height dec_params.bit_depth / 16)] := by
  have he := config_registers_after_begin_ext K ctx run dec_params
  rw [ext_image _ _ _ .RKVDEC_REG_PICPAR he (Or.inl rfl),
    ext_image _ _ _ .RKVDEC_REG_Y_VIRSTRIDE he (Or.inl rfl),
    ext_image _ _ _ .RKVDEC_REG_YUV_VIRSTRIDE he (Or.inl rfl), config_registers_begin_regs]
  unfold reg_image
  simp only [List.foldl_append, List.foldl_cons, List.foldl_nil]
  refine ⟨?_, ?_, ?_⟩ <;> simp

/-- The destination buffer after `update_dec_buf_info`, when it is a buffer of
the capture queue. -/
theorem buf_at_update_dec_buf_info_dst (ctx : rkvdec_ctx) (dst : Nat)
    (dec_params : v4l2_ctrl_vp9_frame_decode_params) (h : dst < ctx.cap_q.length) :
    buf_at (update_dec_buf_info ctx dst dec_params) dst =
      { buf_at ctx dst with vp9_width := dec_params.frame_width_minus_1 + 1,
                            vp9_height := dec_params.frame_height_minus_1 + 1,
                            vp9_bit_depth := dec_params.bit_depth } := by
  unfold update_dec_buf_info buf_at
  simp [List.getD_eq_getElem?_getD, h]

/-- A timestamp no capture buffer has resolves to the destination buffer. -/
theorem get_ref_buf_none (ctx : rkvdec_ctx) (dst timestamp : Nat)
    (h : vb2_find_timestamp ctx.cap_q timestamp = none) : get_ref_buf ctx dst timestamp = dst := by
  unfold get_ref_buf
  rw [h]

/-- The registers `config_ref_registers` writes for a slot that resolved to the
destination buffer: the frame size and the base address. -/
theorem config_ref_registers_dst_regs (ctx : rkvdec_ctx) (run : struct_rkvdec_vp9_run)
    (ref_bufs : Nat → Nat) (id : Nat) (cfg : vp9d_ref_config)
    (hcfg : ref_config.get? id = some cfg) (h : ref_bufs id = run.dst) :
    (config_ref_registers ctx run ref_bufs id).regs = ctx.regs ++
      [(cfg.reg_frm_size, [.RKVDEC_VP9_FRAMEWIDTH (buf_at ctx run.dst).vp9_width,
          .RKVDEC_VP9_FRAMEHEIGHT (buf_at ctx run.dst).vp9_height]),
       (cfg.reg_ref_base, [.value (u32 (buf_at ctx run.dst).dma)])] := by
  have hg : ∀ d, ref_config.getD id d = cfg := fun d => by
    rw [List.getD_eq_getElem?_getD, ← List.get?_eq_getElem?, hcfg]
    rfl
  unfold config_ref_registers
  simp only [hg, h, if_true, writel, List.append_assoc, List.singleton_append]

/-- The registers `config_ref_registers` writes for a slot that resolved to
another buffer than the destination buffer: the frame size, the base address,
the horizontal stride, the luma stride and, for a slot that has one, the
stride of the whole frame. -/
theorem config_ref_registers_regs (ctx : rkvdec_ctx) (run : struct_rkvdec_vp9_run)
    (ref_bufs : Nat → Nat) (id : Nat) (cfg : vp9d_ref_config)
    (hcfg : ref_config.get? id = some cfg) (h : ref_bufs id ≠ run.dst) :
    (config_ref_registers ctx run ref_bufs id).regs = ctx.regs ++
      ([(cfg.reg_frm_size, [.RKVDEC_VP9_FRAMEWIDTH (buf_at ctx (ref_bufs id)).vp9_width,
          .RKVDEC_VP9_FRAMEHEIGHT (buf_at ctx (ref_bufs id)).vp9_height]),
        (cfg.reg_ref_base, [.value (u32 (buf_at ctx (ref_bufs id)).dma)]),
        (cfg.reg_hor_stride,
          [.RKVDEC_HOR_Y_VIRSTRIDE (aligned_pitch (buf_at ctx (ref_bufs id)).vp9_width
              (buf_at ctx (ref_bufs id)).vp9_bit_depth / 16),
           .RKVDEC_HOR_UV_VIRSTRIDE (aligned_pitch (buf_at ctx (ref_bufs id)).vp9_width
              (buf_at ctx (ref_bufs id)).vp9_bit_depth / 16)]),
        (cfg.reg_y_stride,
          [.RKVDEC_VP9_REF_YSTRIDE (y_len (buf_at ctx (ref_bufs id)).vp9_width
            (buf_at ctx (ref_bufs id)).vp9_height (buf_at ctx (ref_bufs id)).vp9_bit_depth / 16)])]
        ++ match cfg.reg_yuv_stride with
          | none => []
          | some reg =>
            [(reg, [.RKVDEC_VP9_REF_YUVSTRIDE (ref_yuv_len (buf_at ctx (ref_bufs id)).vp9_width
              (buf_at ctx (ref_bufs id)).vp9_height
              (buf_at ctx (ref_bufs id)).vp9_bit_depth / 16)])]) := by
  have hg : ∀ d, ref_config.getD id d = cfg := fun d => by
    rw [List.getD_eq_getElem?_getD, ← List.get?_eq_getElem?, hcfg]
    rfl
  unfold config_ref_registers
  simp only [hg, h, if_false]
  cases cfg.reg_yuv_stride with
  | none =>
    simp only [writel, List.append_assoc, List.singleton_append, List.cons_append,
      List.nil_append, List.append_nil, aligned_pitch, y_len, aligned_height]
  | some reg =>
    simp only [writel, List.append_assoc, List.singleton_append, List.cons_append,
      List.nil_append, aligned_pitch, y_len, ref_yuv_len, aligned_height]

/-- Rounding up to a multiple of 512 without wrap-around. -/
theorem round_up_512 (x : Nat) (h : x + 511 < 2 ^ 32) :
    round_up x 512 = (x + 511) / 512 * 512 := by
  unfold round_up u32
  omega

/-- Rounding up to a multiple of 64 without wrap-around. -/
theorem round_up_64 (x : Nat) (h : x + 63 < 2 ^ 32) : round_up x 64 = (x + 63) / 64 * 64 := by
  unfold round_up u32
  omega

/-- The aligned pitch is a multiple of 64 bytes that holds the line. -/
theorem aligned_pitch_spec (width bit_depth : Nat) (h : width * bit_depth + 511 < 2 ^ 32) :
    64 ∣ aligned_pitch width bit_depth ∧ width * bit_depth ≤ 8 * aligned_pitch width bit_depth ∧
      8 * aligned_pitch width bit_depth < width * bit_depth + 512 := by
  unfold aligned_pitch
  have hu : u32 (width * bit_depth) = width * bit_depth := by
    unfold u32
    omega
  rw [hu, round_up_512 _ h]
  generalize width * bit_depth = x
  refine ⟨⟨(x + 511) / 512, by omega⟩, by omega, by omega⟩

/-- The aligned height is a multiple of 64 lines that holds the frame. -/
theorem aligned_height_spec (height : Nat) (h : height + 63 < 2 ^ 32) :
    64 ∣ aligned_height height ∧ height ≤ aligned_height height ∧
      aligned_height height < height + 64 := by
  unfold aligned_height
  rw [round_up_64 _ h]
  refine ⟨⟨(height + 63) / 64, by omega⟩, by omega, by omega⟩

/-- The two ways the driver computes the length of the three planes agree as
long as `y_len * 3` does not wrap around. -/
theorem ref_yuv_len_eq (width height bit_depth : Nat)
    (h : y_len width height bit_depth * 3 < 2 ^ 32) :
    ref_yuv_len width height bit_depth = yuv_len width height bit_depth := by
  unfold ref_yuv_len yuv_len u32
  generalize y_len width height bit_depth = y at h ⊢
  rw [Nat.mod_eq_of_lt h, Nat.mod_eq_of_lt (by omega)]
  omega

/-- What `rkvdec_vp9_run` does to the validity flags: the last frame info is
kept; with decode parameters at hand the function returns 0 and the current
frame info is valid afterwards, without them the current frame info is kept. -/
theorem rkvdec_vp9_run_valid (K : Uapi) (ctx : rkvdec_ctx) :
    (rkvdec_vp9_run K ctx).2.priv.last = ctx.priv.last ∧
      (∀ dec_params, ctx.ctrl_decode_params = some dec_params →
        (rkvdec_vp9_run K ctx).1 = 0 ∧ (rkvdec_vp9_run K ctx).2.priv.cur.valid = 1) ∧
      (ctx.ctrl_decode_params = none → (rkvdec_vp9_run K ctx).2.priv.cur = ctx.priv.cur) := by
  cases hdp : ctx.ctrl_decode_params with
  | none =>
    rw [rkvdec_vp9_run_none K ctx hdp]
    exact ⟨rfl, fun dp h => Option.noConfusion h, fun _ => rfl⟩
  | some dec_params =>
    obtain ⟨fctx, hr⟩ := rkvdec_vp9_run_some K ctx dec_params hdp
    have hpriv : (rkvdec_vp9_run K ctx).2.priv =
        (config_registers K
          { ctx with priv := { ctx.priv with
              frame_context := fctx,
              priv_tbl := { ctx.priv.priv_tbl with
                cpu := init_probs K ctx.priv.priv_tbl.cpu dec_params } } }
          { src_payload := ctx.next_src_payload, src_dma := ctx.next_src_dma,
            dst := ctx.next_dst, decode_params := some dec_params } dec_params).priv := by
      rw [hr]
      rfl
    have hret : (rkvdec_vp9_run K ctx).1 = 0 := by rw [hr]
    rw [hpriv, config_registers_priv]
    exact ⟨rfl, fun _ _ => ⟨hret, rfl⟩, fun h => Option.noConfusion h⟩

/-- In every reachable session a valid last frame info comes with a valid
current frame info. -/
theorem reachable_valid (K : Uapi) (ctx : rkvdec_ctx) (h : Reachable K ctx) :
    ctx.priv.last.valid ≠ 0 → ctx.priv.cur.valid ≠ 0 := by
  induction h with
  | start ctx pa ca => exact fun hl => absurd rfl hl
  | run ctx _ ih =>
    obtain ⟨h1, h2, h3⟩ := rkvdec_vp9_run_valid K ctx
    rw [h1]
    cases hdp : ctx.ctrl_decode_params with
    | none =>
      rw [h3 hdp]
      exact ih
    | some dec_params =>
      rw [(h2 dec_params hdp).2]
      exact fun _ => Nat.one_ne_zero
  | hw ctx counts _ ih => exact ih
  | done ctx result _ ih =>
    obtain ⟨h1, h2⟩ := rkvdec_vp9_done_last_cur K ctx result
    rw [h1, h2]
    exact fun hl => hl
  | env ctx ctx' _ hp ih =>
    rw [hp]
    exact ih

/-- Claim C21, as amended: when `last.valid` is false, `config_registers` sets
none of the four flags of the last frame in the last-frame-info register (the
segmentation-enabled, show-frame, intra-only and same-size flags): the value
written is 0 (no operand) for an intra-only frame, and otherwise consists of the
two mode-delta fields only, taken from the loop-filter parameters of the current
frame.  The motion-vector reference base is computed from the destination
buffer. -/
theorem config_registers_no_last (K : Uapi) (ctx : rkvdec_ctx) (run : struct_rkvdec_vp9_run)
    (dec_params : v4l2_ctrl_vp9_frame_decode_params) (h : ctx.priv.last.valid = 0) :
    reg_image (config_registers K ctx run dec_params).regs .RKVDEC_VP9_INFO_LASTFRAME =
        some (if dec_params.flags &&& (K.FRAME_FLAG_KEY_FRAME ||| K.FRAME_FLAG_INTRA_ONLY) ≠ 0
          then []
          else [.RKVDEC_MODE_DELTAS_LASTFRAME 0 (dec_params.lf.mode_deltas 0),
                .RKVDEC_MODE_DELTAS_LASTFRAME 1 (dec_params.lf.mode_deltas 1)]) ∧
      reg_image (config_registers K ctx run dec_params).regs .RKVDEC_VP9_REF_COLMV_BASE =
        some [.value (u32 (get_mv_base_addr
          (buf_at (update_dec_buf_info ctx run.dst dec_params) run.dst)))] := by
  refine ⟨config_registers_info_invalid K ctx run dec_params h, ?_⟩
  rw [config_registers_colmv, if_neg (fun hc => hc.2.2 h)]

/-- Witness for C21: a key frame in a session with no valid last frame; the
last-frame-info register is written with no operand. -/
theorem config_registers_no_last_witness :
    (sample_ctx 1 0 0).priv.last.valid = 0 ∧
      reg_image (config_registers uapi (sample_ctx 1 0 0)
        { src_payload := 1000, src_dma := 0, dst := 0, decode_params := none }
        (sample_dec_params_lf 1)).regs .RKVDEC_VP9_INFO_LASTFRAME = some [] :=
  ⟨rfl, (config_registers_no_last uapi (sample_ctx 1 0 0)
    { src_payload := 1000, src_dma := 0, dst := 0, decode_params := none }
    (sample_dec_params_lf 1) rfl).1⟩

/-- Counterexample to C21 as worded: an inter frame whose two loop-filter mode
deltas are 3, in a session with no valid last frame.  The value written to the
last-frame-info register is `RKVDEC_MODE_DELTAS_LASTFRAME(0, 3) |
RKVDEC_MODE_DELTAS_LASTFRAME(1, 3)`, not the value with no operand. -/
theorem config_registers_info_mode_deltas :
    (sample_ctx 0 0 0).priv.last.valid = 0 ∧
      reg_image (config_registers uapi (sample_ctx 0 0 0)
          { src_payload := 1000, src_dma := 0, dst := 0, decode_params := none }
          (sample_dec_params_lf 0)).regs .RKVDEC_VP9_INFO_LASTFRAME =
        some [.RKVDEC_MODE_DELTAS_LASTFRAME 0 3, .RKVDEC_MODE_DELTAS_LASTFRAME 1 3] ∧
      reg_image (config_registers uapi (sample_ctx 0 0 0)
          { src_payload := 1000, src_dma := 0, dst := 0, decode_params := none }
          (sample_dec_params_lf 0)).regs .RKVDEC_VP9_INFO_LASTFRAME ≠ some [] := by
  have h := config_registers_info_invalid uapi (sample_ctx 0 0 0)
    { src_payload := 1000, src_dma := 0, dst := 0, decode_params := none }
    (sample_dec_params_lf 0) rfl
  refine ⟨rfl, h, ?_⟩
  rw [h]
  exact fun hne => List.noConfusion (Option.some.inj hne)

/-- Claim C22: the motion-vector reference `config_registers` programs is the
motion-vector plane of the buffer resolved from `last.timestamp` if the frame is
not intra-only (neither key frame nor intra-only flag), not error-resilient and
`last.valid` is true, and in every other case that of the destination buffer. -/
theorem config_registers_mv_ref (K : Uapi) (ctx : rkvdec_ctx) (run : struct_rkvdec_vp9_run)
    (dec_params : v4l2_ctrl_vp9_frame_decode_params) :
    reg_image (config_registers K ctx run dec_params).regs .RKVDEC_VP9_REF_COLMV_BASE =
      some [.value (u32 (get_mv_base_addr (buf_at (update_dec_buf_info ctx run.dst dec_params)
        (if ¬ (dec_params.flags &&& K.FRAME_FLAG_KEY_FRAME ≠ 0 ∨
              dec_params.flags &&& K.FRAME_FLAG_INTRA_ONLY ≠ 0) ∧
            ¬ dec_params.flags &&& K.FRAME_FLAG_ERROR_RESILIENT ≠ 0 ∧ ctx.priv.last.valid ≠ 0
          then get_ref_buf ctx run.dst ctx.priv.last.timestamp else run.dst))))] := by
  rw [config_registers_colmv]
  congr 6
  have hi := land_lor_ne_zero dec_params.flags K.FRAME_FLAG_KEY_FRAME K.FRAME_FLAG_INTRA_ONLY
  split_ifs <;> first | rfl | (exfalso; tauto)

/-- Claim C23: when the timestamp lookup for a reference slot finds no decoded
buffer, `get_ref_buf` returns the destination buffer, and `config_ref_registers`
then writes exactly two registers for that slot: its frame-size register and its
base-address register, set to the address of the destination buffer.  Neither
is a stride register of any slot. -/
theorem get_ref_buf_fallback (ctx : rkvdec_ctx) (run : struct_rkvdec_vp9_run)
    (ref_bufs : Nat → Nat) (id timestamp : Nat) (cfg : vp9d_ref_config)
    (hts : vb2_find_timestamp ctx.cap_q timestamp = none)
    (hrb : ref_bufs id = get_ref_buf ctx run.dst timestamp)
    (hcfg : ref_config.get? id = some cfg) :
    get_ref_buf ctx run.dst timestamp = run.dst ∧
      (config_ref_registers ctx run ref_bufs id).regs = ctx.regs ++
        [(cfg.reg_frm_size, [.RKVDEC_VP9_FRAMEWIDTH (buf_at ctx run.dst).vp9_width,
            .RKVDEC_VP9_FRAMEHEIGHT (buf_at ctx run.dst).vp9_height]),
         (cfg.reg_ref_base, [.value (u32 (buf_at ctx run.dst).dma)])] ∧
      ∀ cfg' ∈ ref_config, ∀ r, r = cfg.reg_frm_size ∨ r = cfg.reg_ref_base →
        r ≠ cfg'.reg_hor_stride ∧ r ≠ cfg'.reg_y_stride ∧ cfg'.reg_yuv_stride ≠ some r := by
  have hd := get_ref_buf_none ctx run.dst timestamp hts
  refine ⟨hd, config_ref_registers_dst_regs ctx run ref_bufs id cfg hcfg (by rw [hrb, hd]), ?_⟩
  have hall : ∀ cfg ∈ ref_config, ∀ cfg' ∈ ref_config,
      (cfg.reg_frm_size ≠ cfg'.reg_hor_stride ∧ cfg.reg_frm_size ≠ cfg'.reg_y_stride ∧
        cfg'.reg_yuv_stride ≠ some cfg.reg_frm_size) ∧
      (cfg.reg_ref_base ≠ cfg'.reg_hor_stride ∧ cfg.reg_ref_base ≠ cfg'.reg_y_stride ∧
        cfg'.reg_yuv_stride ≠ some cfg.reg_ref_base) := by
    decide
  intro cfg' hc' r hr
  have hmem : cfg ∈ ref_config := List.get?_mem hcfg
  rcases hr with rfl | rfl
  · exact (hall cfg hmem cfg' hc').1
  · exact (hall cfg hmem cfg' hc').2

/-- Witness for C23: slot 0 of a session whose two capture buffers have the
timestamps 5 and 6, asked for the timestamp 7. -/
theorem get_ref_buf_fallback_witness :
    vb2_find_timestamp (sample_ctx 0 0 0).cap_q 7 = none ∧
      get_ref_buf (sample_ctx 0 0 0) 0 7 = 0 ∧
      (config_ref_registers (sample_ctx 0 0 0)
        { src_payload := 1000, src_dma := 0, dst := 0, decode_params := none }
        (fun _ => get_ref_buf (sample_ctx 0 0 0) 0 7) 0).regs =
        [(.RKVDEC_REG_VP9_FRAME_SIZE 0, [.RKVDEC_VP9_FRAMEWIDTH 0, .RKVDEC_VP9_FRAMEHEIGHT 0]),
         (.RKVDEC_REG_VP9_LAST_FRAME_BASE, [.value 0x100000])] :=
  ⟨rfl,
    (get_ref_buf_fallback (sample_ctx 0 0 0)
      { src_payload := 1000, src_dma := 0, dst := 0, decode_params := none }
      (fun _ => get_ref_buf (sample_ctx 0 0 0) 0 7) 0 7 _ rfl rfl rfl).1,
    (get_ref_buf_fallback (sample_ctx 0 0 0)
      { src_payload := 1000, src_dma := 0, dst := 0, decode_params := none }
      (fun _ => get_ref_buf (sample_ctx 0 0 0) 0 7) 0 7 _ rfl rfl rfl).2.1⟩

/-- Claim C24: for a frame that is not intra-only and each reference slot `i`,
`config_registers` programs the horizontal and vertical scales
`(ref_width * 2^14 mod 2^32) / cur_width` and `(ref_height * 2^14 mod 2^32) /
cur_height`, the dimensions of the reference being those recorded in its buffer
and `cur_width = frame_width_minus_1 + 1`, `cur_height = frame_height_minus_1 +
1`, both at least 1.  Both scales are 16384 when the reference has the
dimensions of the current frame (a current dimension below `2^18`, which the
16-bit members of the decode parameters ensure), and a reference that fell back
to the destination buffer has them.  For an intra-only frame no scale register
is written.  The destination buffer is a buffer of the capture queue. -/
theorem config_registers_ref_scale (K : Uapi) (ctx : rkvdec_ctx) (run : struct_rkvdec_vp9_run)
    (dec_params : v4l2_ctrl_vp9_frame_decode_params) (hdst : run.dst < ctx.cap_q.length) :
    (¬ dec_params.flags &&& (K.FRAME_FLAG_KEY_FRAME ||| K.FRAME_FLAG_INTRA_ONLY) ≠ 0 →
      ∀ i, i < K.REF_ID_CNT →
        reg_image (config_registers K ctx run dec_params).regs (.RKVDEC_VP9_REF_SCALE i) =
          some [.RKVDEC_VP9_REF_HOR_SCALE
                  (u32 ((buf_at (update_dec_buf_info ctx run.dst dec_params)
                      (get_ref_buf ctx run.dst (dec_params.refs i))).vp9_width * 2 ^ 14) /
                    (dec_params.frame_width_minus_1 + 1)),
                .RKVDEC_VP9_REF_VER_SCALE
                  (u32 ((buf_at (update_dec_buf_info ctx run.dst dec_params)
                      (get_ref_buf ctx run.dst (dec_params.refs i))).vp9_height * 2 ^ 14) /
                    (dec_params.frame_height_minus_1 + 1))] ∧
        1 ≤ dec_params.frame_width_minus_1 + 1 ∧ 1 ≤ dec_params.frame_height_minus_1 + 1 ∧
        ((buf_at (update_dec_buf_info ctx run.dst dec_params)
            (get_ref_buf ctx run.dst (dec_params.refs i))).vp9_width =
              dec_params.frame_width_minus_1 + 1 →
          dec_params.frame_width_minus_1 + 1 < 2 ^ 18 →
          u32 ((buf_at (update_dec_buf_info ctx run.dst dec_params)
              (get_ref_buf ctx run.dst (dec_params.refs i))).vp9_width * 2 ^ 14) /
            (dec_params.frame_width_minus_1 + 1) = 16384) ∧
        ((buf_at (update_dec_buf_info ctx run.dst dec_params)
            (get_ref_buf ctx run.dst (dec_params.refs i))).vp9_height =
              dec_params.frame_height_minus_1 + 1 →
          dec_params.frame_height_minus_1 + 1 < 2 ^ 18 →
          u32 ((buf_at (update_dec_buf_info ctx run.dst dec_params)
              (get_ref_buf ctx run.dst (dec_params.refs i))).vp9_height * 2 ^ 14) /
            (dec_params.frame_height_minus_1 + 1) = 16384) ∧
        (get_ref_buf ctx run.dst (dec_params.refs i) = run.dst →
          (buf_at (update_dec_buf_info ctx run.dst dec_params)
              (get_ref_buf ctx run.dst (dec_params.refs i))).vp9_width =
            dec_params.frame_width_minus_1 + 1 ∧
          (buf_at (update_dec_buf_info ctx run.dst dec_params)
              (get_ref_buf ctx run.dst (dec_params.refs i))).vp9_height =
            dec_params.frame_height_minus_1 + 1)) ∧
    (dec_params.flags &&& (K.FRAME_FLAG_KEY_FRAME ||| K.FRAME_FLAG_INTRA_ONLY) ≠ 0 →
      ∃ W : List (Reg × List RegField),
        (config_registers K ctx run dec_params).regs = ctx.regs ++ W ∧
          ∀ w ∈ W, ∀ i, w.1 ≠ .RKVDEC_VP9_REF_SCALE i) := by
  have hd := buf_at_update_dec_buf_info_dst ctx run.dst dec_params hdst
  have hsame : ∀ x : Nat, x < 2 ^ 18 → u32 (x * 2 ^ 14) / x = 16384 ∨ x = 0 := fun x hx => by
    rcases Nat.eq_zero_or_pos x with h0 | hpos
    · exact Or.inr h0
    · left
      have : u32 (x * 2 ^ 14) = x * 2 ^ 14 := by
        unfold u32
        omega
      rw [this, Nat.mul_comm, Nat.mul_div_cancel _ hpos]
      rfl
  refine ⟨fun hi i hlt => ⟨?_, Nat.le_add_left 1 _, Nat.le_add_left 1 _, fun hw hlt => ?_,
    fun hh hlt => ?_, fun hfb => ?_⟩, config_registers_intra_no_scale K ctx run dec_params⟩
  · have him := config_registers_ref_scale_image K ctx run dec_params hi i hlt
    rw [hd] at him
    exact him
  · rw [hw]
    exact (hsame _ hlt).resolve_right (Nat.succ_ne_zero _)
  · rw [hh]
    exact (hsame _ hlt).resolve_right (Nat.succ_ne_zero _)
  · rw [hfb, hd]
    exact ⟨rfl, rfl⟩

/-- Witness for C24: an inter frame of 64x64 whose references are not found
and fall back to the destination buffer: slot 0 is programmed with the scales
16384 and 16384. -/
theorem config_registers_ref_scale_witness :
    (0 < (sample_ctx 0 0 0).cap_q.length) ∧
      reg_image (config_registers uapi (sample_ctx 0 0 0)
          { src_payload := 1000, src_dma := 0, dst := 0, decode_params := none }
          (sample_dec_params 0 0)).regs (.RKVDEC_VP9_REF_SCALE 0) =
        some [.RKVDEC_VP9_REF_HOR_SCALE 16384, .RKVDEC_VP9_REF_VER_SCALE 16384] :=
  ⟨by decide,
    ((config_registers_ref_scale uapi (sample_ctx 0 0 0)
      { src_payload := 1000, src_dma := 0, dst := 0, decode_params := none }
      (sample_dec_params 0 0) (by decide)).1 (by decide) 0 (by decide)).1⟩

/-- Claim C25: the stride arithmetic of `config_registers` is exact.  For the
negotiated width and height and the bit depth of the frame, with no 32-bit
wrap-around, `aligned_pitch = round_up(width * bit_depth, 512) / 8` is a
multiple of 64 bytes with `8 * aligned_pitch >= width * bit_depth`,
`aligned_height = round_up(height, 64)` is at least `height`, `y_len` is
`aligned_height * aligned_pitch` and `yuv_len` is `y_len + y_len / 2`, and
the three values programmed, `aligned_pitch / 16`, `y_len / 16` and
`yuv_len / 16`, are divisions without remainder. -/
theorem stride_arithmetic_exact (K : Uapi) (ctx : rkvdec_ctx) (run : struct_rkvdec_vp9_run)
    (dec_params : v4l2_ctrl_vp9_frame_decode_params)
    (h1 : ctx.decoded_fmt_width * dec_params.bit_depth + 511 < 2 ^ 32)
    (h2 : ctx.decoded_fmt_height + 63 < 2 ^ 32)
    (h3 : aligned_height ctx.decoded_fmt_height *
        aligned_pitch ctx.decoded_fmt_width dec_params.bit_depth +
      aligned_height ctx.decoded_fmt_height *
        aligned_pitch ctx.decoded_fmt_width dec_params.bit_depth / 2 < 2 ^ 32) :
    (64 ∣ aligned_pitch ctx.decoded_fmt_width dec_params.bit_depth ∧
      ctx.decoded_fmt_width * dec_params.bit_depth ≤
        8 * aligned_pitch ctx.decoded_fmt_width dec_params.bit_depth ∧
      ctx.decoded_fmt_height ≤ aligned_height ctx.decoded_fmt_height) ∧
    (y_len ctx.decoded_fmt_width ctx.decoded_fmt_height dec_params.bit_depth =
        aligned_height ctx.decoded_fmt_height *
          aligned_pitch ctx.decoded_fmt_width dec_params.bit_depth ∧
      yuv_len ctx.decoded_fmt_width ctx.decoded_fmt_height dec_params.bit_depth =
        y_len ctx.decoded_fmt_width ctx.decoded_fmt_height dec_params.bit_depth +
          y_len ctx.decoded_fmt_width ctx.decoded_fmt_height dec_params.bit_depth / 2) ∧
    (16 ∣ aligned_pitch ctx.decoded_fmt_width dec_params.bit_depth ∧
      16 ∣ y_len ctx.decoded_fmt_width ctx.decoded_fmt_height dec_params.bit_depth ∧
      16 ∣ yuv_len ctx.decoded_fmt_width ctx.decoded_fmt_height dec_params.bit_depth) ∧
    (reg_image (config_registers K ctx run dec_params).regs .RKVDEC_REG_PICPAR =
        some [.RKVDEC_Y_HOR_VIRSTRIDE
                (aligned_pitch ctx.decoded_fmt_width dec_params.bit_depth / 16),
              .RKVDEC_UV_HOR_VIRSTRIDE
                (aligned_pitch ctx.decoded_fmt_width dec_params.bit_depth / 16)] ∧
      reg_image (config_registers K ctx run dec_params).regs .RKVDEC_REG_Y_VIRSTRIDE =
        some [.RKVDEC_Y_VIRSTRIDE
          (y_len ctx.decoded_fmt_width ctx.decoded_fmt_height dec_params.bit_depth / 16)] ∧
      reg_image (config_registers K ctx run dec_params).regs .RKVDEC_REG_YUV_VIRSTRIDE =
        some [.RKVDEC_YUV_VIRSTRIDE
          (yuv_len ctx.decoded_fmt_width ctx.decoded_fmt_height dec_params.bit_depth / 16)]) := by
  obtain ⟨hp64, hpge, _⟩ := aligned_pitch_spec ctx.decoded_fmt_width dec_params.bit_depth h1
  obtain ⟨hh64, hhge, _⟩ := aligned_height_spec ctx.decoded_fmt_height h2
  have hy : y_len ctx.decoded_fmt_width ctx.decoded_fmt_height dec_params.bit_depth =
      aligned_height ctx.decoded_fmt_height *
        aligned_pitch ctx.decoded_fmt_width dec_params.bit_depth := by
    unfold y_len u32
    exact Nat.mod_eq_of_lt (by omega)
  have hyuv : yuv_len ctx.decoded_fmt_width ctx.decoded_fmt_height dec_params.bit_depth =
      y_len ctx.decoded_fmt_width ctx.decoded_fmt_height dec_params.bit_depth +
        y_len ctx.decoded_fmt_width ctx.decoded_fmt_height dec_params.bit_depth / 2 := by
    unfold yuv_len u32
    rw [hy]
    exact Nat.mod_eq_of_lt h3
  have h4096 : 64 * 64 ∣ aligned_height ctx.decoded_fmt_height *
      aligned_pitch ctx.decoded_fmt_width dec_params.bit_depth := Nat.mul_dvd_mul hh64 hp64
  refine ⟨⟨hp64, hpge, hhge⟩, ⟨hy, hyuv⟩, ⟨?_, ?_, ?_⟩,
    config_registers_stride_images K ctx run dec_params⟩
  · exact Nat.dvd_trans ⟨4, rfl⟩ hp64
  · rw [hy]
    exact Nat.dvd_trans ⟨256, rfl⟩ h4096
  · rw [hyuv, hy]
    obtain ⟨m, hm⟩ := h4096
    rw [hm]
    exact ⟨384 * m, by omega⟩

/-- Witness for C25: the negotiated format 64x64 at 8 bits: the pitch is 64,
the aligned height 64, `y_len` 4096 and `yuv_len` 6144. -/
theorem stride_arithmetic_exact_witness :
    (64 ∣ aligned_pitch 64 8 ∧ 64 * 8 ≤ 8 * aligned_pitch 64 8 ∧ 64 ≤ aligned_height 64) ∧
      (y_len 64 64 8 = aligned_height 64 * aligned_pitch 64 8 ∧
        yuv_len 64 64 8 = y_len 64 64 8 + y_len 64 64 8 / 2) :=
  ⟨(stride_arithmetic_exact uapi (sample_ctx 0 0 0)
      { src_payload := 1000, src_dma := 0, dst := 0, decode_params := none }
      (sample_dec_params 0 0) (by decide) (by decide) (by decide)).1,
    (stride_arithmetic_exact uapi (sample_ctx 0 0 0)
      { src_payload := 1000, src_dma := 0, dst := 0, decode_params := none }
      (sample_dec_params 0 0) (by decide) (by decide) (by decide)).2.1⟩

/-- Claim C26: the motion-vector plane starts at the end of the aligned YUV
planes.  For a buffer whose recorded width, height and bit depth are the
negotiated format and the bit depth of the frame, and with `y_len * 3` below
`2^32`, the offset `get_mv_base_addr` adds to the base address of the buffer,
`(aligned_height * aligned_pitch * 3) / 2`, is the `yuv_len = y_len + y_len / 2`
whose sixteenth `config_registers` programs as the YUV virtual stride, and is
the `yuv_len` `config_ref_registers` computes: the one whose sixteenth it
programs for slot 0 when that slot resolved to this buffer and not to the
destination buffer. -/
theorem get_mv_base_addr_after_yuv (K : Uapi) (ctx : rkvdec_ctx) (run : struct_rkvdec_vp9_run)
    (dec_params : v4l2_ctrl_vp9_frame_decode_params) (buf : rkvdec_decoded_buffer)
    (hw : buf.vp9_width = ctx.decoded_fmt_width) (hh : buf.vp9_height = ctx.decoded_fmt_height)
    (hb : buf.vp9_bit_depth = dec_params.bit_depth)
    (hov : y_len ctx.decoded_fmt_width ctx.decoded_fmt_height dec_params.bit_depth * 3 < 2 ^ 32) :
    get_mv_base_addr buf =
        buf.dma + yuv_len ctx.decoded_fmt_width ctx.decoded_fmt_height dec_params.bit_depth ∧
      yuv_len ctx.decoded_fmt_width ctx.decoded_fmt_height dec_params.bit_depth =
        y_len ctx.decoded_fmt_width ctx.decoded_fmt_height dec_params.bit_depth +
          y_len ctx.decoded_fmt_width ctx.decoded_fmt_height dec_params.bit_depth / 2 ∧
      reg_image (config_registers K ctx run dec_params).regs .RKVDEC_REG_YUV_VIRSTRIDE =
        some [.RKVDEC_YUV_VIRSTRIDE
          (yuv_len ctx.decoded_fmt_width ctx.decoded_fmt_height dec_params.bit_depth / 16)] ∧
      ∀ (c : rkvdec_ctx) (r : struct_rkvdec_vp9_run) (ref_bufs : Nat → Nat),
        ref_bufs 0 ≠ r.dst → buf_at c (ref_bufs 0) = buf →
          (config_ref_registers c r ref_bufs 0).regs.getLast? =
            some (.RKVDEC_VP9_LAST_FRAME_YUVSTRIDE,
              [.RKVDEC_VP9_REF_YUVSTRIDE
                (yuv_len ctx.decoded_fmt_width ctx.decoded_fmt_height
                  dec_params.bit_depth / 16)]) := by
  have he := ref_yuv_len_eq ctx.decoded_fmt_width ctx.decoded_fmt_height dec_params.bit_depth hov
  refine ⟨?_, ?_, (config_registers_stride_images K ctx run dec_params).2.2, ?_⟩
  · rw [get_mv_base_addr_eq, hw, hh, hb, he]
  · unfold yuv_len u32
    exact Nat.mod_eq_of_lt (by omega)
  · intro c r ref_bufs hne hbuf
    rw [config_ref_registers_regs c r ref_bufs 0 _ rfl hne, hbuf, hw, hh, hb, he]
    simp [ref_config]

/-- Witness for C26: a 64x64 buffer at 8 bits with the base address `0x100000`:
the motion-vector plane starts 6144 bytes further. -/
theorem get_mv_base_addr_after_yuv_witness :
    get_mv_base_addr
        { timestamp := 5, dma := 0x100000, vp9_width := 64, vp9_height := 64,
          vp9_bit_depth := 8 } = 0x100000 + 6144 :=
  (get_mv_base_addr_after_yuv uapi (sample_ctx 0 0 0)
    { src_payload := 1000, src_dma := 0, dst := 0, decode_params := none }
    (sample_dec_params 0 0)
    { timestamp := 5, dma := 0x100000, vp9_width := 64, vp9_height := 64, vp9_bit_depth := 8 }
    rfl rfl rfl (by decide)).1

/-- Claim C27: `validate_dec_params` returns `-EINVAL` if and only if the
profile is not 0, or `frame_width_minus_1 + 1` differs from the negotiated
width, or `frame_height_minus_1 + 1` differs from the negotiated height;
otherwise it returns 0.  The error number is not 0, and the two sums fit the
`u32` locals that hold them. -/
theorem validate_dec_params_iff (K : Uapi) (ctx : rkvdec_ctx)
    (dec_params : v4l2_ctrl_vp9_frame_decode_params) (hE : K.EINVAL ≠ 0)
    (hw : dec_params.frame_width_minus_1 + 1 < 2 ^ 32)
    (hh : dec_params.frame_height_minus_1 + 1 < 2 ^ 32) :
    (validate_dec_params K ctx dec_params = -K.EINVAL ↔
      (dec_params.profile ≠ 0 ∨
        dec_params.frame_width_minus_1 + 1 ≠ ctx.decoded_fmt_width ∨
        dec_params.frame_height_minus_1 + 1 ≠ ctx.decoded_fmt_height)) ∧
    (¬ (dec_params.profile ≠ 0 ∨
        dec_params.frame_width_minus_1 + 1 ≠ ctx.decoded_fmt_width ∨
        dec_params.frame_height_minus_1 + 1 ≠ ctx.decoded_fmt_height) →
      validate_dec_params K ctx dec_params = 0) := by
  have huw : u32 (dec_params.frame_width_minus_1 + 1) = dec_params.frame_width_minus_1 + 1 :=
    Nat.mod_eq_of_lt hw
  have huh : u32 (dec_params.frame_height_minus_1 + 1) = dec_params.frame_height_minus_1 + 1 :=
    Nat.mod_eq_of_lt hh
  have hne : (0 : Int) ≠ -K.EINVAL := fun h => hE (by omega)
  unfold validate_dec_params
  dsimp only
  rw [huw, huh]
  by_cases hp : dec_params.profile ≠ 0
  · rw [if_pos hp]
    exact ⟨⟨fun _ => Or.inl hp, fun _ => rfl⟩, fun hn => absurd (Or.inl hp) hn⟩
  · rw [if_neg hp]
    by_cases hd : dec_params.frame_width_minus_1 + 1 ≠ ctx.decoded_fmt_width ∨
        dec_params.frame_height_minus_1 + 1 ≠ ctx.decoded_fmt_height
    · rw [if_pos hd]
      exact ⟨⟨fun _ => Or.inr hd, fun _ => rfl⟩, fun hn => absurd (Or.inr hd) hn⟩
    · rw [if_neg hd]
      exact ⟨⟨fun h => absurd h hne, fun h => h.elim (fun h => absurd h hp)
        (fun h => absurd h hd)⟩, fun _ => rfl⟩

/-- Witness for C27: a 64x64 frame of profile 1 against the negotiated format
64x64 is refused, the same frame of profile 0 is accepted. -/
theorem validate_dec_params_iff_witness :
    validate_dec_params uapi (sample_ctx 0 1 0) (sample_dec_params 0 1) = -uapi.EINVAL ∧
      validate_dec_params uapi (sample_ctx 0 0 0) (sample_dec_params 0 0) = 0 :=
  ⟨(validate_dec_params_iff uapi (sample_ctx 0 1 0) (sample_dec_params 0 1) (by decide)
      (by decide) (by decide)).1.mpr (Or.inl (by decide)),
    (validate_dec_params_iff uapi (sample_ctx 0 0 0) (sample_dec_params 0 0) (by decide)
      (by decide) (by decide)).2 (by decide)⟩

/-- Claim C28, as amended: `rkvdec_fastdiv` is integer division on the divisors
its reciprocal table covers: for every divisor `d` in `1..256` and every
dividend `x < 2^24`, `rkvdec_fastdiv(x, d) = floor(x / d)`.  The table ends at
256: for every divisor from 257 on the function returns the dividend
unchanged. -/
theorem rkvdec_fastdiv_div (x d : Nat) (hx : x < 2 ^ 24) :
    (1 ≤ d → d ≤ 256 → rkvdec_fastdiv x d = x / d) ∧ (257 ≤ d → rkvdec_fastdiv x d = x) := by
  refine ⟨fun h1 h2 => fastdiv_exact x d h1 h2 hx, fun h => ?_⟩
  unfold rkvdec_fastdiv
  rw [if_neg (by omega), if_neg (by omega), if_pos (by rw [inv_length]; omega)]

/-- Witness for C28: 1000 divided by 7, and by 300. -/
theorem rkvdec_fastdiv_div_witness :
    1000 < 2 ^ 24 ∧ rkvdec_fastdiv 1000 7 = 142 ∧ rkvdec_fastdiv 1000 300 = 1000 :=
  ⟨by decide, (rkvdec_fastdiv_div 1000 7 (by decide)).1 (by decide) (by decide),
    (rkvdec_fastdiv_div 1000 300 (by decide)).2 (by decide)⟩

/-- Counterexample to C28 as worded: the divisor 257 is past the end of the
reciprocal table, and `rkvdec_fastdiv(257, 257)` is 257, not
`floor(257 / 257) = 1`. -/
theorem rkvdec_fastdiv_257 :
    257 < 2 ^ 24 ∧ rkvdec_fastdiv 257 257 = 257 ∧ 257 / 257 = 1 ∧
      rkvdec_fastdiv 257 257 ≠ 257 / 257 := by
  have h : rkvdec_fastdiv 257 257 = 257 := by
    unfold rkvdec_fastdiv
    rw [if_neg (by decide), if_neg (by decide), if_pos (by rw [inv_length])]
  refine ⟨by decide, h, by decide, ?_⟩
  rw [h]
  decide

/-- Claim C29: for every `max_count` outside the range the reciprocal table
supports (`max_count = 0` or `max_count >= 257`), every probability `p` (a
`u8`), every pair of counts and every update factor, `adapt_prob` returns `p`
unchanged. -/
theorem adapt_prob_fallback (p ct0 ct1 max_count update_factor : Nat) (hp : p < 256)
    (h : max_count = 0 ∨ 257 ≤ max_count) :
    adapt_prob p ct0 ct1 max_count update_factor = p := by
  unfold adapt_prob
  dsimp only
  split
  · rfl
  · rcases h with h | h
    · subst h
      rw [if_neg (by omega)]
      have hf : rkvdec_fastdiv (u32 (update_factor * min (u32 (ct0 + ct1)) 0)) 0 = 0 := by
        unfold rkvdec_fastdiv
        rw [if_pos rfl]
      rw [hf]
      unfold u32
      simp only [Nat.mul_zero, Nat.zero_mod, Nat.zero_add]
      omega
    · rw [if_pos h]

/-- Witness for C29: the probability 100 with the counts 3 and 4, once with
`max_count = 0` and once with `max_count = 300`. -/
theorem adapt_prob_fallback_witness :
    adapt_prob 100 3 4 0 128 = 100 ∧ adapt_prob 100 3 4 300 128 = 100 :=
  ⟨adapt_prob_fallback 100 3 4 0 128 (by decide) (Or.inl rfl),
    adapt_prob_fallback 100 3 4 300 128 (by decide) (Or.inr (by decide))⟩

/-- Claim C30: the frame-history state machine.  A session that
`rkvdec_vp9_start` leaves has `last.valid` false.  From any session, a
`rkvdec_vp9_run` that has decode parameters, and so reaches `config_registers`,
followed by the hardware run and `rkvdec_vp9_done` with any result, leaves
`last.valid` true.  In every reachable session `last.valid` implies
`cur.valid`, and from a reachable session with `last.valid` true each of
`rkvdec_vp9_run`, the hardware run and `rkvdec_vp9_done` leaves `last.valid`
true: once the session has history it keeps it. -/
theorem frame_history (K : Uapi) (ctx : rkvdec_ctx) (h : Reachable K ctx) :
    (∀ (c : rkvdec_ctx) (priv_alloc count_alloc : (Nat → Nat) × Nat),
      (rkvdec_vp9_start K c true (some priv_alloc) (some count_alloc)).2.priv.last.valid = 0) ∧
    (∀ dec_params, ctx.ctrl_decode_params = some dec_params → ∀ counts result,
      (rkvdec_vp9_done K (hw_decode (rkvdec_vp9_run K ctx).2 counts) result).priv.last.valid
        = 1) ∧
    (ctx.priv.last.valid ≠ 0 → ctx.priv.cur.valid ≠ 0) ∧
    (ctx.priv.last.valid ≠ 0 →
      (rkvdec_vp9_run K ctx).2.priv.last.valid ≠ 0 ∧
      (∀ counts, (hw_decode ctx counts).priv.last.valid ≠ 0) ∧
      ∀ result, (rkvdec_vp9_done K ctx result).priv.last.valid ≠ 0) := by
  have hinv := reachable_valid K ctx h
  obtain ⟨hrl, hrs, _⟩ := rkvdec_vp9_run_valid K ctx
  refine ⟨fun c pa ca => rfl, fun dec_params hdp counts result => ?_, hinv, fun hl =>
    ⟨by rw [hrl]; exact hl, fun counts => hl, fun result => ?_⟩⟩
  · rw [(rkvdec_vp9_done_last_cur K _ result).1]
    exact (hrs dec_params hdp).2
  · rw [(rkvdec_vp9_done_last_cur K ctx result).1]
    exact hinv hl

/-- Witness for C30: the session a successful start leaves has no history, and
has one after a run, the hardware run and a done. -/
theorem frame_history_witness :
    (rkvdec_vp9_start uapi (sample_ctx 0 0 0) true
        (some (fun _ => 5, 0x10000)) (some (fun _ => 5, 0x80000))).2.priv.last.valid = 0 ∧
      (rkvdec_vp9_done uapi (hw_decode (rkvdec_vp9_run uapi (rkvdec_vp9_start uapi
        (sample_ctx 0 0 0) true (some (fun _ => 5, 0x10000))
        (some (fun _ => 5, 0x80000))).2).2 (fun _ => 0))
        .VB2_BUF_STATE_DONE).priv.last.valid = 1 :=
  ⟨(frame_history uapi _
      (Reachable.start (sample_ctx 0 0 0) (fun _ => 5, 0x10000) (fun _ => 5, 0x80000))).1
      (sample_ctx 0 0 0) (fun _ => 5, 0x10000) (fun _ => 5, 0x80000),
    (frame_history uapi _
      (Reachable.start (sample_ctx 0 0 0) (fun _ => 5, 0x10000) (fun _ => 5, 0x80000))).2.1
      (sample_dec_params 0 0) rfl (fun _ => 0) .VB2_BUF_STATE_DONE⟩

/-- A multiple of 64 pixels at 8 bits per sample needs no padding of its
line. -/
theorem aligned_pitch_of_dvd (width : Nat) (h64 : 64 ∣ width) (h : width * 8 + 511 < 2 ^ 32) :
    aligned_pitch width 8 = width := by
  unfold aligned_pitch
  have hu : u32 (width * 8) = width * 8 := by
    unfold u32
    omega
  rw [hu, round_up_512 _ h]
  obtain ⟨m, rfl⟩ := h64
  omega

/-- A multiple of 64 lines needs no padding of its height. -/
theorem aligned_height_of_dvd (height : Nat) (h64 : 64 ∣ height) (h : height + 63 < 2 ^ 32) :
    aligned_height height = height := by
  unfold aligned_height
  rw [round_up_64 _ h]
  obtain ⟨m, rfl⟩ := h64
  omega

/-- The value `adapt_prob` returns lies between the old probability and the
clamped observed probability. -/
theorem adapt_prob_between_p2 (p ct0 ct1 mc uf : Nat) (hp : p ≤ 255)
    (hct : u32 (ct0 + ct1) ≠ 0) (huf : uf ≤ 256) :
    min p (clamp (u32 (u32 (ct0 * 2 ^ 8) + u32 (ct0 + ct1) / 2) / u32 (ct0 + ct1)) 1 255) ≤
        adapt_prob p ct0 ct1 mc uf ∧
      adapt_prob p ct0 ct1 mc uf ≤
        max p (clamp (u32 (u32 (ct0 * 2 ^ 8) + u32 (ct0 + ct1) / 2) / u32 (ct0 + ct1)) 1 255) := by
  by_cases hm : mc ≥ 257
  · unfold adapt_prob
    simp only [if_neg hct, if_pos hm]
    exact ⟨Nat.min_le_left _ _, Nat.le_max_left _ _⟩
  · have hm2 : mc ≤ 256 := by omega
    rw [adapt_prob_unfold p ct0 ct1 mc uf hct hm2]
    exact blend_between p _ _ hp (clamp_range _).2 (scaled_factor_le uf _ mc hm2 huf)

/-- With decode parameters at hand, the frame context
`rkvdec_vp9_run_preamble` leaves: the one it found when no refresh is asked
for, when the slot of the frame is missing; the probabilities of the decode
parameters in parallel mode; otherwise the slot of the frame, with the skip and
transform-size probabilities of the decode parameters for a key frame or an
intra-only frame. -/
theorem run_preamble_frame_context (K : Uapi) (ctx : rkvdec_ctx)
    (dec_params : v4l2_ctrl_vp9_frame_decode_params)
    (h : ctx.ctrl_decode_params = some dec_params) :
    (¬ dec_params.flags &&& K.FRAME_FLAG_REFRESH_FRAME_CTX ≠ 0 →
      (rkvdec_vp9_run_preamble K ctx).2.1.priv.frame_context = ctx.priv.frame_context) ∧
    (dec_params.flags &&& K.FRAME_FLAG_REFRESH_FRAME_CTX ≠ 0 →
      dec_params.flags &&& K.FRAME_FLAG_PARALLEL_DEC_MODE ≠ 0 →
      (rkvdec_vp9_run_preamble K ctx).2.1.priv.frame_context.probs = dec_params.probs) ∧
    (dec_params.flags &&& K.FRAME_FLAG_REFRESH_FRAME_CTX ≠ 0 →
      ¬ dec_params.flags &&& K.FRAME_FLAG_PARALLEL_DEC_MODE ≠ 0 →
      frame_context_get ctx (dec_params.frame_context_idx % 2 ^ 8) = none →
      (rkvdec_vp9_run_preamble K ctx).2.1.priv.frame_context = ctx.priv.frame_context) ∧
    (dec_params.flags &&& K.FRAME_FLAG_REFRESH_FRAME_CTX ≠ 0 →
      ¬ dec_params.flags &&& K.FRAME_FLAG_PARALLEL_DEC_MODE ≠ 0 →
      ∀ fctx, frame_context_get ctx (dec_params.frame_context_idx % 2 ^ 8) = some fctx →
        (¬ dec_params.flags &&& (K.FRAME_FLAG_KEY_FRAME ||| K.FRAME_FLAG_INTRA_ONLY) ≠ 0 →
          (rkvdec_vp9_run_preamble K ctx).2.1.priv.frame_context = fctx) ∧
        (dec_params.flags &&& (K.FRAME_FLAG_KEY_FRAME ||| K.FRAME_FLAG_INTRA_ONLY) ≠ 0 →
          ∀ x : PIdx, (rkvdec_vp9_run_preamble K ctx).2.1.priv.frame_context.probs x =
            if x.field ∈ [PField.skip, PField.tx8, PField.tx16, PField.tx32] then
              dec_params.probs x
            else fctx.probs x)) := by
  obtain ⟨w, ht, q, sp, sd, nd, dp, fc, p, r⟩ := ctx
  simp only at h
  subst h
  unfold rkvdec_vp9_run_preamble
  dsimp only
  refine ⟨fun h1 => ?_, fun h1 h2 => ?_, fun h1 h2 h3 => ?_, fun h1 h2 fctx h3 => ⟨fun h4 => ?_,
    fun h4 x => ?_⟩⟩
  · rw [if_pos h1]
  · rw [if_neg (fun hn => hn h1), if_pos h2]
  · rw [if_neg (fun hn => hn h1), if_neg h2, h3]
  · rw [if_neg (fun hn => hn h1), if_neg h2, h3]
    dsimp only
    rw [if_neg h4]
  · rw [if_neg (fun hn => hn h1), if_neg h2, h3]
    dsimp only
    rw [if_pos h4]
    cases x <;> simp [PIdx.field]

/-- The value of an element after the statement `*x = adapt_prob(*x, ...)` on
an element `x`. -/
theorem adapt_apply (probs : v4l2_vp9_probabilities) (x y : PIdx) (c0 c1 mc uf : Nat) :
    (probs.adapt x c0 c1 mc uf) y =
      if y = x then adapt_prob (probs y) c0 c1 mc uf else probs y := by
  by_cases h : y = x
  · rw [if_pos h, h, adapt_same]
  · rw [if_neg h, adapt_other _ _ _ _ _ _ _ h]

/-- The loop of `adapt_mv_probs` over the bits of a component keeps every
element outside `mv.bits`. -/
theorem mv_bits_loop_keeps (sym_cnts : rkvdec_vp9_inter_frame_symbol_counts) (i : Nat)
    (t : v4l2_vp9_probabilities) (y : PIdx) (hy : y.field ≠ PField.mv_bits) :
    (forLoop 10 (fun j probs =>
      probs.adapt (.mv_bits i j) (sym_cnts.bits i j 0) (sym_cnts.bits i j 1) 20 128) t) y =
      t y := by
  refine forLoop_eval_other (fun u : v4l2_vp9_probabilities => u y) _ _ _ (fun j u _ => ?_)
  exact adapt_other _ _ _ _ _ _ _ (fun h => hy (by rw [h]; rfl))

/-- The loop of `adapt_mv_probs` over the class-0 fractions of a component
keeps every element outside `mv.class0_fr`. -/
theorem mv_class0_fr_loop_keeps (sym_cnts : rkvdec_vp9_inter_frame_symbol_counts) (i : Nat)
    (t : v4l2_vp9_probabilities) (y : PIdx) (hy : y.field ≠ PField.mv_class0_fr) :
    (forLoop 2 (fun j probs =>
      let c := sym_cnts.class0_fp i j
      let probs := probs.adapt (.mv_class0_fr i j 0) (c 0) (add32 (add32 (c 1) (c 2)) (c 3)) 20 128
      let probs := probs.adapt (.mv_class0_fr i j 1) (c 1) (add32 (c 2) (c 3)) 20 128
      probs.adapt (.mv_class0_fr i j 2) (c 2) (c 3) 20 128) t) y = t y := by
  refine forLoop_eval_other (fun u : v4l2_vp9_probabilities => u y) _ _ _ (fun j u _ => ?_)
  dsimp only
  rw [adapt_other _ _ _ _ _ _ _ (fun h => hy (by rw [h]; rfl)),
    adapt_other _ _ _ _ _ _ _ (fun h => hy (by rw [h]; rfl)),
    adapt_other _ _ _ _ _ _ _ (fun h => hy (by rw [h]; rfl))]

/-- The running sums of `adapt_mv_probs` over the class counts are the sums of
the counts that remain, modulo `2^32`. -/
theorem mv_class_sums (c : Nat → Nat) :
    add32 (add32 (add32 (add32 (add32 (add32 (add32 (add32 (add32 (c 1) (c 2)) (c 3))
        (c 4)) (c 5)) (c 6)) (c 7)) (c 8)) (c 9)) (c 10) =
      u32 (c 1 + c 2 + c 3 + c 4 + c 5 + c 6 + c 7 + c 8 + c 9 + c 10) ∧
    sub32 (u32 (c 1 + c 2 + c 3 + c 4 + c 5 + c 6 + c 7 + c 8 + c 9 + c 10)) (c 1) =
      u32 (c 2 + c 3 + c 4 + c 5 + c 6 + c 7 + c 8 + c 9 + c 10) ∧
    sub32 (u32 (c 2 + c 3 + c 4 + c 5 + c 6 + c 7 + c 8 + c 9 + c 10)) (add32 (c 2) (c 3)) =
      u32 (c 4 + c 5 + c 6 + c 7 + c 8 + c 9 + c 10) ∧
    sub32 (u32 (c 4 + c 5 + c 6 + c 7 + c 8 + c 9 + c 10)) (add32 (c 4) (c 5)) =
      u32 (c 6 + c 7 + c 8 + c 9 + c 10) ∧
    sub32 (u32 (c 6 + c 7 + c 8 + c 9 + c 10)) (c 6) = u32 (c 7 + c 8 + c 9 + c 10) := by
  unfold add32 sub32 u32
  refine ⟨?_, ?_, ?_, ?_, ?_⟩ <;> omega

/-- The function `adapt_mv_probs` adapts class probability `j` of component
`i` once, with the branch pair of the VP9 motion-vector class tree. -/
theorem adapt_mv_probs_class (probs : v4l2_vp9_probabilities)
    (sym_cnts : rkvdec_vp9_inter_frame_symbol_counts) (high_prec_mv : Bool) (i j : Nat)
    (hi : i < 2) (hj : j < 10) :
    (adapt_mv_probs probs sym_cnts high_prec_mv) (.mv_class i j) =
      adapt_prob (probs (.mv_class i j)) (spec_mv_class_branch (sym_cnts.classes i) j).1
        (spec_mv_class_branch (sym_cnts.classes i) j).2 20 128 := by
  obtain ⟨s0, s1, s2, s4, s6⟩ := mv_class_sums (sym_cnts.classes i)
  unfold adapt_mv_probs
  dsimp only
  refine (forLoop_eval_at (fun t : v4l2_vp9_probabilities => t (.mv_class i j)) 2 _ _ i
    (fun p => adapt_prob p (spec_mv_class_branch (sym_cnts.classes i) j).1
      (spec_mv_class_branch (sym_cnts.classes i) j).2 20 128) hi (fun t => ?_)
    (fun i' t hi' hne => ?_)).trans ?_
  · cases high_prec_mv <;>
      simp only [if_true, Bool.true_eq_false, if_false] <;>
      interval_cases j <;>
      simp [adapt_apply, mv_bits_loop_keeps, mv_class0_fr_loop_keeps, PIdx.field,
        spec_mv_class_branch, s0, s1, s2, s4, s6] <;>
      rfl
  · cases high_prec_mv <;>
      simp only [if_true, Bool.true_eq_false, if_false] <;>
      simp [adapt_apply, mv_bits_loop_keeps, mv_class0_fr_loop_keeps, PIdx.field, hne,
        Ne.symm hne]
  · simp [adapt_apply]

/-- The running sums of `adapt_intra_mode_probs` are the sums of the counts
that remain, modulo `2^32`. -/
theorem intra_mode_sums (c : Nat → Nat) :
    add32 (add32 (add32 (add32 (add32 (add32 (add32 (add32 (add32 0 (c 1)) (c 2)) (c 3))
        (c 4)) (c 5)) (c 6)) (c 7)) (c 8)) (c 9) =
      u32 (c 1 + c 2 + c 3 + c 4 + c 5 + c 6 + c 7 + c 8 + c 9) ∧
    sub32 (u32 (c 1 + c 2 + c 3 + c 4 + c 5 + c 6 + c 7 + c 8 + c 9)) (c 9) =
      u32 (c 1 + c 2 + c 3 + c 4 + c 5 + c 6 + c 7 + c 8) ∧
    sub32 (u32 (c 1 + c 2 + c 3 + c 4 + c 5 + c 6 + c 7 + c 8)) (c 1) =
      u32 (c 2 + c 3 + c 4 + c 5 + c 6 + c 7 + c 8) ∧
    add32 (add32 (c 2) (c 4)) (c 5) = u32 (c 2 + c 4 + c 5) ∧
    sub32 (u32 (c 2 + c 3 + c 4 + c 5 + c 6 + c 7 + c 8)) (u32 (c 2 + c 4 + c 5)) =
      u32 (c 3 + c 6 + c 7 + c 8) ∧
    sub32 (u32 (c 2 + c 4 + c 5)) (c 2) = u32 (c 4 + c 5) ∧
    sub32 (u32 (c 3 + c 6 + c 7 + c 8)) (c 3) = u32 (c 6 + c 7 + c 8) ∧
    sub32 (u32 (c 6 + c 7 + c 8)) (c 8) = u32 (c 6 + c 7) := by
  unfold add32 sub32 u32
  refine ⟨?_, ?_, ?_, ?_, ?_, ?_, ?_, ?_⟩ <;> omega

/-- The function `adapt_intra_mode_probs` adapts each of the nine
probabilities `p[0..8]` once, with the branch pair of the VP9 intra-mode tree;
`p` designates nine different elements. -/
theorem adapt_intra_mode_probs_eval (K : Uapi) (hK : IntraModeNumbering K)
    (probs : v4l2_vp9_probabilities) (p : Nat → PIdx) (c : Nat → Nat)
    (hinj : ∀ a b, a < 9 → b < 9 → p a = p b → a = b) (n : Nat) (hn : n < 9) :
    (adapt_intra_mode_probs K probs p c) (p n) =
      adapt_prob (probs (p n)) (spec_intra_mode_branch c n).1 (spec_intra_mode_branch c n).2
        20 128 := by
  obtain ⟨k0, k1, k2, k3, k4, k5, k6, k7, k8, k9⟩ := hK
  obtain ⟨s0, s1, s2, s3, s4, s5, s6, s7⟩ := intra_mode_sums c
  have hne : ∀ a b, a < 9 → b < 9 → a ≠ b → ¬ p a = p b := fun a b ha hb hab h =>
    hab (hinj a b ha hb h)
  unfold adapt_intra_mode_probs
  simp only [k0, k1, k2, k3, k4, k5, k6, k7, k8, k9, forLoop, Nat.add_zero, Nat.reduceAdd,
    Nat.reduceSub, s0, s1, s2, s3, s4, s5, s6, s7]
  interval_cases n <;>
    simp [adapt_apply, hne, spec_intra_mode_branch]

/-- The function `adapt_y_intra_mode_probs` adapts probability `n` of the
`y_mode` distribution `i` once, with the branch pair of the VP9 intra-mode
tree. -/
theorem adapt_y_intra_mode_probs_eval (K : Uapi) (hK : IntraModeNumbering K)
    (probs : v4l2_vp9_probabilities) (sym_cnts : rkvdec_vp9_inter_frame_symbol_counts)
    (i n : Nat) (hi : i < 4) (hn : n < 9) :
    (adapt_y_intra_mode_probs K probs sym_cnts) (.y_mode i n) =
      adapt_prob (probs (.y_mode i n)) (spec_intra_mode_branch (sym_cnts.y_mode i) n).1
        (spec_intra_mode_branch (sym_cnts.y_mode i) n).2 20 128 := by
  unfold adapt_y_intra_mode_probs
  refine forLoop_eval_at (fun t : v4l2_vp9_probabilities => t (.y_mode i n)) 4 _ _ i
    (fun p => adapt_prob p (spec_intra_mode_branch (sym_cnts.y_mode i) n).1
      (spec_intra_mode_branch (sym_cnts.y_mode i) n).2 20 128) hi (fun t => ?_)
    (fun i' t hi' hne => ?_)
  · exact adapt_intra_mode_probs_eval K hK t (fun n => .y_mode i n) (sym_cnts.y_mode i)
      (fun a b _ _ h => by injection h) n hn
  · exact adapt_intra_mode_probs_valAt K t _ _ _ _
      (fun m h => hne (by injection h with h1 h2; exact h1.symm)) rfl

/-- The function `adapt_uv_intra_mode_probs` adapts probability `n` of the
`uv_mode` distribution `i` once, with the branch pair of the VP9 intra-mode
tree. -/
theorem adapt_uv_intra_mode_probs_eval (K : Uapi) (hK : IntraModeNumbering K)
    (probs : v4l2_vp9_probabilities) (sym_cnts : rkvdec_vp9_inter_frame_symbol_counts)
    (i n : Nat) (hi : i < 10) (hn : n < 9) :
    (adapt_uv_intra_mode_probs K probs sym_cnts) (.uv_mode i n) =
      adapt_prob (probs (.uv_mode i n)) (spec_intra_mode_branch (sym_cnts.uv_mode i) n).1
        (spec_intra_mode_branch (sym_cnts.uv_mode i) n).2 20 128 := by
  unfold adapt_uv_intra_mode_probs
  refine forLoop_eval_at (fun t : v4l2_vp9_probabilities => t (.uv_mode i n)) 10 _ _ i
    (fun p => adapt_prob p (spec_intra_mode_branch (sym_cnts.uv_mode i) n).1
      (spec_intra_mode_branch (sym_cnts.uv_mode i) n).2 20 128) hi (fun t => ?_)
    (fun i' t hi' hne => ?_)
  · exact adapt_intra_mode_probs_eval K hK t (fun n => .uv_mode i n) (sym_cnts.uv_mode i)
      (fun a b _ _ h => by injection h) n hn
  · exact adapt_intra_mode_probs_valAt K t _ _ _ _
      (fun m h => hne (by injection h with h1 h2; exact h1.symm)) rfl

/-- With no observations `adapt_prob` returns the probability it was
given. -/
theorem adapt_prob_no_counts (p mc uf : Nat) : adapt_prob p 0 0 mc uf = p := by
  simp [adapt_prob, u32]

/-- The statement `*x = adapt_prob(*x, 0, 0, ...)` changes nothing. -/
theorem adapt_zero (probs : v4l2_vp9_probabilities) (x : PIdx) (mc uf : Nat) :
    probs.adapt x 0 0 mc uf = probs := by
  unfold v4l2_vp9_probabilities.adapt v4l2_vp9_probabilities.set
  rw [adapt_prob_no_counts]
  obtain ⟨g⟩ := probs
  congr 1
  funext y
  by_cases h : y = x
  · rw [if_pos h, h]
  · rw [if_neg h]

/-- A loop none of whose iterations changes the state leaves it as it was. -/
theorem forLoop_fix {σ : Type} (n : Nat) (body : Nat → σ → σ) (s : σ)
    (h : ∀ i t, i < n → body i t = t) : forLoop n body s = s :=
  forLoop_inv (fun t => t = s) n body s rfl (fun i t hi ht => by rw [h i t hi, ht])

/-- The counters of a count buffer whose counters are all 0. -/
theorem zeroCounts_rd32 (cpu : Nat → Nat) (hz : ZeroCounts cpu) (w : Nat) (hw : w < 3308) :
    rd32 cpu w = 0 :=
  hz w hw

/-- The sum and the difference of two counters that are 0. -/
theorem add32_sub32_zero : add32 0 0 = 0 ∧ sub32 0 0 = 0 := ⟨rfl, rfl⟩

/-- Over counters that are all 0, `adapt_coef_probs` changes nothing; the
array of count records starts at word `base` of the count buffer. -/
theorem adapt_coef_probs_zero (probs : v4l2_vp9_probabilities) (cpu : Nat → Nat)
    (hz : ZeroCounts cpu) (base uf : Nat) (hbase : base + 2880 ≤ 3308) :
    adapt_coef_probs probs (fun k i j l m => ref_cnt_at cpu base k i j l m) uf = probs := by
  have h0 := zeroCounts_rd32 cpu hz
  unfold adapt_coef_probs
  refine forLoop_fix _ _ _ (fun i t hi => ?_)
  refine forLoop_fix _ _ _ (fun j t hj => ?_)
  refine forLoop_fix _ _ _ (fun k t hk => ?_)
  unfold adapt_coeff
  refine forLoop_fix _ _ _ (fun l t hl => ?_)
  refine forLoop_fix _ _ _ (fun m t hm => ?_)
  have hm6 : m < 6 := by
    unfold BAND_6 at hm
    split at hm <;> omega
  dsimp only [ref_cnt_at]
  rw [h0 _ (by omega), h0 _ (by omega), h0 _ (by omega), h0 _ (by omega), h0 _ (by omega)]
  refine forLoop_fix _ _ _ (fun n t hn => ?_)
  interval_cases n <;> exact adapt_zero _ _ _ _

/-- Over counters that are all 0, `adapt_skip_probs` changes nothing. -/
theorem adapt_skip_probs_zero (probs : v4l2_vp9_probabilities) (cpu : Nat → Nat)
    (hz : ZeroCounts cpu) : adapt_skip_probs probs (inter_frame_symbol_counts cpu) = probs := by
  have h0 := zeroCounts_rd32 cpu hz
  unfold adapt_skip_probs
  refine forLoop_fix _ _ _ (fun i t hi => ?_)
  simp (disch := omega) only [inter_frame_symbol_counts, h0, add32_sub32_zero.1, adapt_zero]

/-- Over counters that are all 0, `adapt_is_inter_probs` changes nothing. -/
theorem adapt_is_inter_probs_zero (probs : v4l2_vp9_probabilities) (cpu : Nat → Nat)
    (hz : ZeroCounts cpu) :
    adapt_is_inter_probs probs (inter_frame_symbol_counts cpu) = probs := by
  have h0 := zeroCounts_rd32 cpu hz
  unfold adapt_is_inter_probs
  refine forLoop_fix _ _ _ (fun i t hi => ?_)
  simp (disch := omega) only [inter_frame_symbol_counts, h0, add32_sub32_zero.1, adapt_zero]

/-- Over counters that are all 0, `adapt_comp_mode_probs` changes nothing. -/
theorem adapt_comp_mode_probs_zero (probs : v4l2_vp9_probabilities) (cpu : Nat → Nat)
    (hz : ZeroCounts cpu) :
    adapt_comp_mode_probs probs (inter_frame_symbol_counts cpu) = probs := by
  have h0 := zeroCounts_rd32 cpu hz
  unfold adapt_comp_mode_probs
  refine forLoop_fix _ _ _ (fun i t hi => ?_)
  simp (disch := omega) only [inter_frame_symbol_counts, h0, add32_sub32_zero.1, adapt_zero]

/-- Over counters that are all 0, `adapt_comp_ref_probs` changes nothing. -/
theorem adapt_comp_ref_probs_zero (probs : v4l2_vp9_probabilities) (cpu : Nat → Nat)
    (hz : ZeroCounts cpu) :
    adapt_comp_ref_probs probs (inter_frame_symbol_counts cpu) = probs := by
  have h0 := zeroCounts_rd32 cpu hz
  unfold adapt_comp_ref_probs
  refine forLoop_fix _ _ _ (fun i t hi => ?_)
  simp (disch := omega) only [inter_frame_symbol_counts, h0, add32_sub32_zero.1, adapt_zero]

/-- Over counters that are all 0, `adapt_single_ref_probs` changes nothing. -/
theorem adapt_single_ref_probs_zero (probs : v4l2_vp9_probabilities) (cpu : Nat → Nat)
    (hz : ZeroCounts cpu) :
    adapt_single_ref_probs probs (inter_frame_symbol_counts cpu) = probs := by
  have h0 := zeroCounts_rd32 cpu hz
  unfold adapt_single_ref_probs
  refine forLoop_fix _ _ _ (fun i t hi => ?_)
  simp (disch := omega) only [inter_frame_symbol_counts, h0, add32_sub32_zero.1, adapt_zero]

/-- Over counters that are all 0, `adapt_partition_probs` changes nothing. -/
theorem adapt_partition_probs_zero (probs : v4l2_vp9_probabilities) (cpu : Nat → Nat)
    (hz : ZeroCounts cpu) :
    adapt_partition_probs probs (inter_frame_symbol_counts cpu) = probs := by
  have h0 := zeroCounts_rd32 cpu hz
  unfold adapt_partition_probs
  refine forLoop_fix _ _ _ (fun i t hi => ?_)
  simp (disch := omega) only [inter_frame_symbol_counts, h0, add32_sub32_zero.1, adapt_zero]

/-- Over counters that are all 0, `adapt_tx_probs` changes nothing. -/
theorem adapt_tx_probs_zero (probs : v4l2_vp9_probabilities) (cpu : Nat → Nat)
    (hz : ZeroCounts cpu) : adapt_tx_probs probs (inter_frame_symbol_counts cpu) = probs := by
  have h0 := zeroCounts_rd32 cpu hz
  unfold adapt_tx_probs
  refine forLoop_fix _ _ _ (fun i t hi => ?_)
  simp (disch := omega) only [inter_frame_symbol_counts, h0, add32_sub32_zero.1, adapt_zero]

/-- Over counters that are all 0, `adapt_interp_filter_probs` changes
nothing. -/
theorem adapt_interp_filter_probs_zero (probs : v4l2_vp9_probabilities) (cpu : Nat → Nat)
    (hz : ZeroCounts cpu) :
    adapt_interp_filter_probs probs (inter_frame_symbol_counts cpu) = probs := by
  have h0 := zeroCounts_rd32 cpu hz
  unfold adapt_interp_filter_probs
  refine forLoop_fix _ _ _ (fun i t hi => ?_)
  simp (disch := omega) only [inter_frame_symbol_counts, h0, add32_sub32_zero.1, adapt_zero]

/-- Over counters that are all 0, `adapt_inter_mode_probs` changes nothing. -/
theorem adapt_inter_mode_probs_zero (probs : v4l2_vp9_probabilities) (cpu : Nat → Nat)
    (hz : ZeroCounts cpu) :
    adapt_inter_mode_probs probs (inter_frame_symbol_counts cpu) = probs := by
  have h0 := zeroCounts_rd32 cpu hz
  unfold adapt_inter_mode_probs
  refine forLoop_fix _ _ _ (fun i t hi => ?_)
  simp (disch := omega) only [inter_frame_symbol_counts, h0, add32_sub32_zero.1, adapt_zero]

/-- Over counters that are all 0, `adapt_mv_probs` changes nothing. -/
theorem adapt_mv_probs_zero (probs : v4l2_vp9_probabilities) (cpu : Nat → Nat)
    (hz : ZeroCounts cpu) (high_prec_mv : Bool) :
    adapt_mv_probs probs (inter_frame_symbol_counts cpu) high_prec_mv = probs := by
  have h0 := zeroCounts_rd32 cpu hz
  unfold adapt_mv_probs
  dsimp only
  rw [forLoop_fix 2 _ _ (fun i t hi => ?_)]
  · simp (disch := omega) only [inter_frame_symbol_counts, h0, add32_sub32_zero.1, adapt_zero]
  · rw [forLoop_fix 10 _ _ (fun j u hj => by
        simp (disch := omega) only [inter_frame_symbol_counts, h0, adapt_zero]),
      forLoop_fix 2 _ _ (fun j u hj => by
        simp (disch := omega) only [inter_frame_symbol_counts, h0, add32_sub32_zero.1,
          adapt_zero])]
    cases high_prec_mv <;>
      simp (disch := omega) only [inter_frame_symbol_counts, h0, add32_sub32_zero.1,
        add32_sub32_zero.2, adapt_zero, if_true, Bool.true_eq_false, if_false]

/-- Over counts that are all 0, `adapt_intra_mode_probs` changes nothing. -/
theorem adapt_intra_mode_probs_zero (K : Uapi) (hK : IntraModeNumbering K)
    (probs : v4l2_vp9_probabilities) (p : Nat → PIdx) (c : Nat → Nat)
    (hc : ∀ j, j < 10 → c j = 0) : adapt_intra_mode_probs K probs p c = probs := by
  obtain ⟨k0, k1, k2, k3, k4, k5, k6, k7, k8, k9⟩ := hK
  unfold adapt_intra_mode_probs
  simp (disch := omega) only [k0, k1, k2, k3, k4, k5, k6, k7, k8, k9, forLoop, Nat.add_zero,
    Nat.reduceAdd, Nat.reduceSub, hc, add32_sub32_zero.1, add32_sub32_zero.2, adapt_zero]

/-- Over counters that are all 0, `adapt_y_intra_mode_probs` changes
nothing. -/
theorem adapt_y_intra_mode_probs_zero (K : Uapi) (hK : IntraModeNumbering K)
    (probs : v4l2_vp9_probabilities) (cpu : Nat → Nat) (hz : ZeroCounts cpu) :
    adapt_y_intra_mode_probs K probs (inter_frame_symbol_counts cpu) = probs := by
  have h0 := zeroCounts_rd32 cpu hz
  unfold adapt_y_intra_mode_probs
  refine forLoop_fix _ _ _ (fun i t hi => ?_)
  exact adapt_intra_mode_probs_zero K hK t _ _ (fun j hj => h0 _ (by omega))

/-- Over counters that are all 0, `adapt_uv_intra_mode_probs` changes
nothing. -/
theorem adapt_uv_intra_mode_probs_zero (K : Uapi) (hK : IntraModeNumbering K)
    (probs : v4l2_vp9_probabilities) (cpu : Nat → Nat) (hz : ZeroCounts cpu) :
    adapt_uv_intra_mode_probs K probs (inter_frame_symbol_counts cpu) = probs := by
  have h0 := zeroCounts_rd32 cpu hz
  unfold adapt_uv_intra_mode_probs
  refine forLoop_fix _ _ _ (fun i t hi => ?_)
  exact adapt_intra_mode_probs_zero K hK t _ _ (fun j hj => h0 _ (by omega))

/-- Over counters that are all 0, `adapt_probs` changes nothing. -/
theorem adapt_probs_zero (K : Uapi) (hK : IntraModeNumbering K) (vp9_ctx : rkvdec_vp9_ctx)
    (hz : ZeroCounts vp9_ctx.count_tbl.cpu) : adapt_probs K vp9_ctx = vp9_ctx := by
  unfold adapt_probs
  dsimp only
  split
  · unfold adapt_intra_frame_probs
    dsimp only
    rw [show (intra_frame_symbol_counts vp9_ctx.count_tbl.cpu).ref_cnt =
        fun k i j l m => ref_cnt_at vp9_ctx.count_tbl.cpu 98 k i j l m from rfl,
      adapt_coef_probs_zero _ _ hz 98 112 (by decide)]
  · unfold adapt_inter_frame_probs
    dsimp only
    rw [show (inter_frame_symbol_counts vp9_ctx.count_tbl.cpu).ref_cnt =
        fun k i j l m => ref_cnt_at vp9_ctx.count_tbl.cpu 426 k i j l m from rfl,
      adapt_coef_probs_zero _ _ hz 426 112 (by decide),
      adapt_coef_probs_zero _ _ hz 426 128 (by decide)]
    simp only [ite_self, adapt_skip_probs_zero _ _ hz, adapt_is_inter_probs_zero _ _ hz,
      adapt_comp_mode_probs_zero _ _ hz, adapt_comp_ref_probs_zero _ _ hz,
      adapt_single_ref_probs_zero _ _ hz, adapt_partition_probs_zero _ _ hz,
      adapt_tx_probs_zero _ _ hz, adapt_interp_filter_probs_zero _ _ hz,
      adapt_inter_mode_probs_zero _ _ hz, adapt_mv_probs_zero _ _ hz,
      adapt_y_intra_mode_probs_zero K hK _ _ hz, adapt_uv_intra_mode_probs_zero K hK _ _ hz]

/-- The function `write_coeff_plane` stores payload byte `t` of the block at
offset `t + 5 * (t / 27)` of the plane. -/
theorem write_coeff_plane_payload (probs : v4l2_vp9_probabilities) (i j r : Nat)
    (buf : Nat → Nat) (plane t : Nat) (ht : t < 108) :
    write_coeff_plane probs i j r buf plane (plane + (t + 5 * (t / 27))) =
      probs (.coef i j r (t / 18) (t % 18 / 3) (t % 3)) := by
  obtain ⟨st, hst, _, _, h3, _⟩ := write_coeff_plane_packInv probs i j r buf plane
  rw [hst, h3 t ht]

/-- The coefficient loop of `init_inter_probs` stores payload byte `t` of the
block `coef[i][j][k]` at offset `t + 5 * (t / 27)` of plane
`(k * 4 + i) * 2 + j`. -/
theorem init_inter_coef_payload (probs : v4l2_vp9_probabilities) (buf : Nat → Nat)
    (i j k t A : Nat) (hi : i < 4) (hj : j < 2) (hk : k < 2) (ht : t < 108)
    (hA : A = off_inter_coef + ((k * 4 + i) * 2 + j) * 128 + (t + 5 * (t / 27))) :
    init_inter_coef probs buf A = probs (.coef i j k (t / 18) (t % 18 / 3) (t % 3)) := by
  subst hA
  unfold init_inter_coef
  refine forLoop_eval_at (fun b : Nat → Nat =>
      b (off_inter_coef + ((k * 4 + i) * 2 + j) * 128 + (t + 5 * (t / 27)))) 4 _ buf i
    (fun _ => probs (.coef i j k (t / 18) (t % 18 / 3) (t % 3))) hi (fun b => ?_)
    (fun i' b hi' hne => ?_)
  · refine forLoop_eval_at (fun b : Nat → Nat =>
        b (off_inter_coef + ((k * 4 + i) * 2 + j) * 128 + (t + 5 * (t / 27)))) 2 _ b j
      (fun _ => probs (.coef i j k (t / 18) (t % 18 / 3) (t % 3))) hj (fun b => ?_)
      (fun j' b hj' hne => ?_)
    · refine forLoop_eval_at (fun b : Nat → Nat =>
          b (off_inter_coef + ((k * 4 + i) * 2 + j) * 128 + (t + 5 * (t / 27)))) 2 _ b k
        (fun _ => probs (.coef i j k (t / 18) (t % 18 / 3) (t % 3))) hk (fun b => ?_)
        (fun k' b hk' hne => ?_)
      · dsimp only
        exact write_coeff_plane_payload probs i j k b
          (off_inter_coef + ((k * 4 + i) * 2 + j) * 128) t ht
      · exact write_coeff_plane_other _ _ _ _ _ _ _ (fun u hu => by omega)
    · refine forLoop_eval_other (fun b : Nat → Nat =>
        b (off_inter_coef + ((k * 4 + i) * 2 + j) * 128 + (t + 5 * (t / 27)))) _ _ _
        (fun k' b hk' => ?_)
      exact write_coeff_plane_other _ _ _ _ _ _ _ (fun u hu => by omega)
  · refine forLoop_eval_other (fun b : Nat → Nat =>
      b (off_inter_coef + ((k * 4 + i) * 2 + j) * 128 + (t + 5 * (t / 27)))) _ _ _
      (fun j' b hj' => ?_)
    refine forLoop_eval_other (fun b : Nat → Nat =>
      b (off_inter_coef + ((k * 4 + i) * 2 + j) * 128 + (t + 5 * (t / 27)))) _ _ _
      (fun k' b hk' => ?_)
    exact write_coeff_plane_other _ _ _ _ _ _ _ (fun u hu => by omega)

/-- The coefficient loop of `init_intra_only_probs` stores payload byte `t` of
the block `coef[i][j][0]` at offset `t + 5 * (t / 27)` of plane `i * 2 + j`. -/
theorem init_intra_coef_payload (probs : v4l2_vp9_probabilities) (buf : Nat → Nat)
    (i j t A : Nat) (hi : i < 4) (hj : j < 2) (ht : t < 108)
    (hA : A = off_intra_coef_intra + (i * 2 + j) * 128 + (t + 5 * (t / 27))) :
    init_intra_coef probs buf A = probs (.coef i j 0 (t / 18) (t % 18 / 3) (t % 3)) := by
  subst hA
  unfold init_intra_coef
  refine forLoop_eval_at (fun b : Nat → Nat =>
      b (off_intra_coef_intra + (i * 2 + j) * 128 + (t + 5 * (t / 27)))) 4 _ buf i
    (fun _ => probs (.coef i j 0 (t / 18) (t % 18 / 3) (t % 3))) hi (fun b => ?_)
    (fun i' b hi' hne => ?_)
  · refine forLoop_eval_at (fun b : Nat → Nat =>
        b (off_intra_coef_intra + (i * 2 + j) * 128 + (t + 5 * (t / 27)))) 2 _ b j
      (fun _ => probs (.coef i j 0 (t / 18) (t % 18 / 3) (t % 3))) hj (fun b => ?_)
      (fun j' b hj' hne => ?_)
    · dsimp only
      exact write_coeff_plane_payload probs i j 0 b
        (off_intra_coef_intra + (i * 2 + j) * 128) t ht
    · exact write_coeff_plane_other _ _ _ _ _ _ _ (fun u hu => by omega)
  · refine forLoop_eval_other (fun b : Nat → Nat =>
      b (off_intra_coef_intra + (i * 2 + j) * 128 + (t + 5 * (t / 27)))) _ _ _
      (fun j' b hj' => ?_)
    exact write_coeff_plane_other _ _ _ _ _ _ _ (fun u hu => by omega)

/-- The function `init_probs` for a frame that is neither a key frame nor
intra-only: the copies at its head, then `init_inter_probs`. -/
theorem init_probs_inter (K : Uapi) (buf : Nat → Nat)
    (dec_params : v4l2_ctrl_vp9_frame_decode_params)
    (h : ¬ dec_params.flags &&& (K.FRAME_FLAG_KEY_FRAME ||| K.FRAME_FLAG_INTRA_ONLY) ≠ 0) :
    init_probs K buf dec_params =
      init_inter_probs
        (memcpy (memcpy (memcpy (memcpy (memcpy (memcpy (memcpy (memcpy
          (memset buf 0 0 sizeof_rkvdec_vp9_probs)
          off_partition (fun t => dec_params.probs (.partition (t / 3) (t % 3))) 48)
          off_pred dec_params.seg.pred_probs 3)
          off_tree dec_params.seg.tree_probs 7)
          off_skip (fun t => dec_params.probs (.skip t)) 3)
          off_tx32 (fun t => dec_params.probs (.tx32 (t / 3) (t % 3))) 6)
          off_tx16 (fun t => dec_params.probs (.tx16 (t / 2) (t % 2))) 4)
          off_tx8 (fun t => dec_params.probs (.tx8 t 0)) 2)
          off_is_inter (fun t => dec_params.probs (.is_inter t)) 4)
        dec_params := by
  unfold init_probs
  rw [if_neg (by simpa using h), if_neg (by simpa using h)]

/-- A pad byte of a coefficient plane packed into a zero region is 0. -/
theorem write_coeff_plane_pad (probs : v4l2_vp9_probabilities) (i j r a : Nat)
    (ha : 27 ≤ a % 32) : write_coeff_plane probs i j r (fun _ => 0) 0 a = 0 :=
  write_coeff_plane_other probs i j r (fun _ => 0) 0 a (fun t ht => by omega)

/-- For a frame that is neither a key frame nor intra-only, the 128 bytes of
plane `(k * 4 + i) * 2 + j` of `inter.coef` after `init_probs` are the packing
of the block `coef[i][j][k]` into a zero region. -/
theorem init_probs_inter_coef_region (K : Uapi) (buf : Nat → Nat)
    (dec_params : v4l2_ctrl_vp9_frame_decode_params)
    (h : ¬ dec_params.flags &&& (K.FRAME_FLAG_KEY_FRAME ||| K.FRAME_FLAG_INTRA_ONLY) ≠ 0)
    (i j k a : Nat) (hi : i < 4) (hj : j < 2) (hk : k < 2) (ha : a < 128) :
    init_probs K buf dec_params (off_inter_coef + ((k * 4 + i) * 2 + j) * 128 + a) =
      write_coeff_plane dec_params.probs i j k (fun _ => 0) 0 a := by
  rw [init_probs_inter K buf dec_params h]
  by_cases hpay : a % 32 < 27
  · obtain ⟨t, ht, rfl⟩ : ∃ t, t < 108 ∧ a = t + 5 * (t / 27) :=
      ⟨a - 5 * (a / 32), by omega, by omega⟩
    have hr := write_coeff_plane_payload dec_params.probs i j k (fun _ => 0) 0 t ht
    rw [Nat.zero_add] at hr
    rw [hr, init_inter_probs_eq]
    simp only [off_union, off_inter_y_mode, off_inter_comp_mode,
      off_inter_comp_ref, off_inter_single_ref, off_inter_inter_mode, off_inter_interp_filter,
      off_inter_coef, off_inter_uv_mode_0_2, off_inter_uv_mode_3_5, off_inter_uv_mode_6_8,
      off_inter_uv_mode_9, off_inter_mv, off_mv_joint, off_mv_sign, off_mv_class,
      off_mv_class0_bit, off_mv_bits, off_mv_class0_fr, off_mv_fr, off_mv_class0_hp,
      off_mv_hp]
    rw [memcpy_other _ _ _ _ _ (by omega), memcpy_other _ _ _ _ _ (by omega),
      memcpy_other _ _ _ _ _ (by omega), memcpy_other _ _ _ _ _ (by omega),
      memcpy_other _ _ _ _ _ (by omega), memcpy_other _ _ _ _ _ (by omega),
      memcpy_other _ _ _ _ _ (by omega), memcpy_other _ _ _ _ _ (by omega),
      memcpy_other _ _ _ _ _ (by omega), memcpy_other _ _ _ _ _ (by omega),
      memcpy_other _ _ _ _ _ (by omega), memcpy_other _ _ _ _ _ (by omega),
      memcpy_other _ _ _ _ _ (by omega)]
    exact init_inter_coef_payload _ _ i j k t _ hi hj hk ht
      (by simp only [off_inter_coef, off_union])
  · rw [write_coeff_plane_pad _ _ _ _ _ (by omega),
      init_inter_probs_unwritten _ _ _ (by
        unfold spec_unwritten_inter
        simp only [off_is_inter, off_union, off_inter_interp_filter, off_inter_coef,
          off_inter_uv_mode_0_2, off_inter_uv_mode_3_5, off_inter_uv_mode_6_8,
          off_inter_uv_mode_9, off_inter_mv]
        omega)]
    refine init_probs_head_zero _ _ _ _ _ _ _ _ _ _ ?_ ?_
    · simp only [off_is_inter, off_inter_coef, off_union]
      omega
    · simp only [sizeof_rkvdec_vp9_probs, sizeof_inter_frame_probs,
        sizeof_intra_only_frame_probs, off_inter_coef, off_union]
      omega

/-- For a key frame or an intra-only frame, the 128 bytes of plane `i * 2 + j`
of `intra_only.coef_intra` after `init_probs` are the packing of the block
`coef[i][j][0]` into a zero region. -/
theorem init_probs_intra_coef_region (K : Uapi) (buf : Nat → Nat)
    (dec_params : v4l2_ctrl_vp9_frame_decode_params)
    (h : dec_params.flags &&& (K.FRAME_FLAG_KEY_FRAME ||| K.FRAME_FLAG_INTRA_ONLY) ≠ 0)
    (i j a : Nat) (hi : i < 4) (hj : j < 2) (ha : a < 128) :
    init_probs K buf dec_params (off_intra_coef_intra + (i * 2 + j) * 128 + a) =
      write_coeff_plane dec_params.probs i j 0 (fun _ => 0) 0 a := by
  rw [init_probs_intra K buf dec_params h]
  by_cases hpay : a % 32 < 27
  · obtain ⟨t, ht, rfl⟩ : ∃ t, t < 108 ∧ a = t + 5 * (t / 27) :=
      ⟨a - 5 * (a / 32), by omega, by omega⟩
    have hr := write_coeff_plane_payload dec_params.probs i j 0 (fun _ => 0) 0 t ht
    rw [Nat.zero_add] at hr
    rw [hr, init_intra_only_probs_eq,
      forLoop_eval_other (fun b : Nat → Nat =>
          b (off_intra_coef_intra + (i * 2 + j) * 128 + (t + 5 * (t / 27)))) 10
        init_intra_mode _ (fun i' b hi' => init_intra_mode_other i' b _
          (by simp only [off_intra_intra_mode, off_intra_coef_intra, off_union]
              intro u hu
              omega)
          (by simp only [off_intra_intra_mode, off_intra_coef_intra, off_union]
              intro _ u hu
              omega))]
    exact init_intra_coef_payload _ _ i j t _ hi hj ht rfl
  · rw [write_coeff_plane_pad _ _ _ _ _ (by omega),
      init_intra_only_probs_unwritten _ _ _ (by
        unfold spec_unwritten_intra
        simp only [off_is_inter, off_union, off_intra_coef_intra, off_intra_intra_mode,
          sizeof_rkvdec_vp9_probs, sizeof_inter_frame_probs, sizeof_intra_only_frame_probs]
        omega)]
    refine init_probs_head_zero _ _ _ _ _ _ _ _ _ _ ?_ ?_
    · simp only [off_is_inter, off_intra_coef_intra, off_union]
      omega
    · simp only [sizeof_rkvdec_vp9_probs, sizeof_inter_frame_probs,
        sizeof_intra_only_frame_probs, off_intra_coef_intra, off_union]
      omega

/-- For a key frame or an intra-only frame the bytes of `init_probs` do not
depend on the coefficient probabilities of a reference context other than 0. -/
theorem init_probs_intra_ref0 (K : Uapi) (buf : Nat → Nat)
    (dec_params dec_params' : v4l2_ctrl_vp9_frame_decode_params)
    (h : dec_params.flags &&& (K.FRAME_FLAG_KEY_FRAME ||| K.FRAME_FLAG_INTRA_ONLY) ≠ 0)
    (hflags : dec_params'.flags = dec_params.flags) (hseg : dec_params'.seg = dec_params.seg)
    (hp : ∀ x : PIdx, (∀ i j k l m n, x = .coef i j k l m n → k = 0) →
      dec_params'.probs x = dec_params.probs x) :
    init_probs K buf dec_params' = init_probs K buf dec_params := by
  have hs : (fun t => dec_params'.probs (.skip t)) = fun t => dec_params.probs (.skip t) :=
    funext fun t => hp _ (fun _ _ _ _ _ _ hx => PIdx.noConfusion hx)
  have h32 : (fun t => dec_params'.probs (.tx32 (t / 3) (t % 3))) =
      fun t => dec_params.probs (.tx32 (t / 3) (t % 3)) :=
    funext fun t => hp _ (fun _ _ _ _ _ _ hx => PIdx.noConfusion hx)
  have h16 : (fun t => dec_params'.probs (.tx16 (t / 2) (t % 2))) =
      fun t => dec_params.probs (.tx16 (t / 2) (t % 2)) :=
    funext fun t => hp _ (fun _ _ _ _ _ _ hx => PIdx.noConfusion hx)
  have h8 : (fun t => dec_params'.probs (.tx8 t 0)) = fun t => dec_params.probs (.tx8 t 0) :=
    funext fun t => hp _ (fun _ _ _ _ _ _ hx => PIdx.noConfusion hx)
  have hi : (fun t => dec_params'.probs (.is_inter t)) =
      fun t => dec_params.probs (.is_inter t) :=
    funext fun t => hp _ (fun _ _ _ _ _ _ hx => PIdx.noConfusion hx)
  rw [init_probs_intra K buf dec_params h,
    init_probs_intra K buf dec_params' (by rw [hflags]; exact h), hseg, hs, h32, h16, h8, hi,
    init_intra_only_probs_eq, init_intra_only_probs_eq,
    init_intra_coef_congr dec_params'.probs dec_params.probs _
      (fun _ _ _ _ _ => hp _ (fun _ _ _ _ _ _ hx => by injection hx with _ _ h3; exact h3.symm))]

/-- The last payload byte of a coefficient plane is at offset 122. -/
theorem write_coeff_plane_last (probs : v4l2_vp9_probabilities) (i j r : Nat)
    (buf : Nat → Nat) (plane : Nat) :
    write_coeff_plane probs i j r buf plane (plane + 122) = probs (.coef i j r 5 5 2) :=
  write_coeff_plane_payload probs i j r buf plane 107 (by decide)

/-- The `y_mode` loops of iteration `i` write no byte outside the offsets
`0..104` of `intra_mode[i].y_mode`, and write offset 104 with the last byte of
`vp9_kf_y_mode_prob[i]`. -/
theorem init_intra_y_mode_span (i : Nat) (buf : Nat → Nat) :
    (∀ a, (a < off_intra_intra_mode + i * 128 ∨ off_intra_intra_mode + i * 128 + 104 < a) →
      (init_intra_y_mode i buf).buf a = buf a) ∧
    (init_intra_y_mode i buf).buf (off_intra_intra_mode + i * 128 + 104) =
      tbl3 vp9_kf_y_mode_prob i 9 8 := by
  obtain ⟨_, _, h3, h4⟩ := init_intra_y_mode_packInv i buf
  have h89 := h3 89 (by decide)
  simp only [Nat.reduceDiv, Nat.reduceMul, Nat.reduceAdd, Nat.reduceMod] at h89
  exact ⟨fun a ha => h4 a (fun u hu => by omega), h89⟩

/-- The `uv_mode` loop of iteration `i`, from a state with `idx = 0`, writes no
byte outside the offsets `0..22` of `intra_mode[i].uv_mode`. -/
theorem init_intra_uv_mode_span (i : Nat) (st : PackState) (h0 : st.idx = 0) (a : Nat)
    (ha : a < off_intra_intra_mode + i * 128 + 105 ∨
      off_intra_intra_mode + i * 128 + 105 + 22 < a) :
    (init_intra_uv_mode i st).buf a = st.buf a :=
  (init_intra_uv_mode_spec i st h0).2 a (fun u hu => by split at hu <;> omega)

/-- Claim C31: `rkvdec_vp9_adjust_fmt` returns 0 and reports a single plane of
`width * height * 2` bytes modulo `2^32`, leaving width and height as they
were.  For a width and a height that are positive multiples of 64 with
`width * height * 2 < 2^32`, and a buffer recorded with these dimensions at
bit depth 8, the offset `get_mv_base_addr` adds to the base address of the
buffer, which is `3 * width * height / 2` when that product does not wrap
around, is strictly below the size reported. -/
theorem rkvdec_vp9_adjust_fmt_size (ctx : rkvdec_ctx) (fmt : v4l2_pix_format_mplane) :
    ((rkvdec_vp9_adjust_fmt ctx fmt).1 = 0 ∧
      (rkvdec_vp9_adjust_fmt ctx fmt).2.num_planes = 1 ∧
      (rkvdec_vp9_adjust_fmt ctx fmt).2.plane_fmt_sizeimage 0 =
        (fmt.width * fmt.height * 2) % 2 ^ 32 ∧
      (rkvdec_vp9_adjust_fmt ctx fmt).2.width = fmt.width ∧
      (rkvdec_vp9_adjust_fmt ctx fmt).2.height = fmt.height) ∧
    (0 < fmt.width → 0 < fmt.height → 64 ∣ fmt.width → 64 ∣ fmt.height →
      fmt.width * fmt.height * 2 < 2 ^ 32 →
      ∀ buf : rkvdec_decoded_buffer, buf.vp9_width = fmt.width →
        buf.vp9_height = fmt.height → buf.vp9_bit_depth = 8 →
        get_mv_base_addr buf = buf.dma + u32 (fmt.width * fmt.height * 3) / 2 ∧
        (fmt.width * fmt.height * 3 < 2 ^ 32 →
          get_mv_base_addr buf = buf.dma + 3 * fmt.width * fmt.height / 2) ∧
        get_mv_base_addr buf - buf.dma < (rkvdec_vp9_adjust_fmt ctx fmt).2.plane_fmt_sizeimage 0 ∧
        3 * fmt.width * fmt.height / 2 <
          (rkvdec_vp9_adjust_fmt ctx fmt).2.plane_fmt_sizeimage 0) := by
  have hsize : (rkvdec_vp9_adjust_fmt ctx fmt).2.plane_fmt_sizeimage 0 =
      (fmt.width * fmt.height * 2) % 2 ^ 32 := by
    show poke fmt.plane_fmt_sizeimage 0 (u32 (u32 (fmt.width * fmt.height) * 2)) 0 = _
    rw [poke_at]
    unfold u32
    omega
  refine ⟨⟨rfl, rfl, hsize, rfl, rfl⟩, fun hw hh hw64 hh64 hsz buf hbw hbh hbd => ?_⟩
  have h1 : fmt.width * 64 ≤ fmt.width * fmt.height :=
    Nat.mul_le_mul_left _ (Nat.le_of_dvd hh hh64)
  have h2 : 64 * fmt.height ≤ fmt.width * fmt.height :=
    Nat.mul_le_mul_right _ (Nat.le_of_dvd hw hw64)
  have h3 : 0 < fmt.width * fmt.height := Nat.mul_pos hw hh
  have hp := aligned_pitch_of_dvd fmt.width hw64 (by omega)
  have hah := aligned_height_of_dvd fmt.height hh64 (by omega)
  have hy : y_len fmt.width fmt.height 8 = fmt.width * fmt.height := by
    unfold y_len u32
    rw [hp, hah, Nat.mul_comm]
    exact Nat.mod_eq_of_lt (by omega)
  have hmv : get_mv_base_addr buf = buf.dma + u32 (fmt.width * fmt.height * 3) / 2 := by
    rw [get_mv_base_addr_eq, hbw, hbh, hbd]
    unfold ref_yuv_len
    rw [hy]
  rw [hsize, hmv, Nat.mod_eq_of_lt hsz]
  have hle : u32 (fmt.width * fmt.height * 3) ≤ fmt.width * fmt.height * 3 := Nat.mod_le _ _
  have hmul : 3 * fmt.width * fmt.height = fmt.width * fmt.height * 3 := by ring
  rw [hmul]
  refine ⟨rfl, fun h3w => ?_, by omega, by omega⟩
  unfold u32
  rw [Nat.mod_eq_of_lt h3w]

/-- Witness for C31: the format 64x64: the size reported is 8192 bytes and the
motion-vector plane of a 64x64 buffer at 8 bits starts 6144 bytes after its
base address. -/
theorem rkvdec_vp9_adjust_fmt_size_witness :
    (rkvdec_vp9_adjust_fmt (sample_ctx 0 0 0)
        { width := 64, height := 64, num_planes := 0,
          plane_fmt_sizeimage := fun _ => 0 }).2.plane_fmt_sizeimage 0 = 8192 ∧
      get_mv_base_addr
          { timestamp := 5, dma := 0x100000, vp9_width := 64, vp9_height := 64,
            vp9_bit_depth := 8 } = 0x100000 + 6144 :=
  ⟨(rkvdec_vp9_adjust_fmt_size (sample_ctx 0 0 0)
      { width := 64, height := 64, num_planes := 0, plane_fmt_sizeimage := fun _ => 0 }).1.2.2.1,
    ((rkvdec_vp9_adjust_fmt_size (sample_ctx 0 0 0)
      { width := 64, height := 64, num_planes := 0, plane_fmt_sizeimage := fun _ => 0 }).2
      (by decide) (by decide) (by decide) (by decide) (by decide)
      { timestamp := 5, dma := 0x100000, vp9_width := 64, vp9_height := 64, vp9_bit_depth := 8 }
      rfl rfl rfl).1⟩

/-- Claim C32: frame-context loading in `rkvdec_vp9_run_preamble`, with decode
parameters at hand and the persisted slot numbered `frame_context_idx` (as the
`u8` local `frm_ctx` holds it) present.  If the frame does not request a
context refresh, the loaded frame context is unchanged.  If it requests a
refresh and is not in parallel-decode mode, the loaded frame context becomes a
copy of that slot, except that for a key frame or an intra-only frame the
`skip`, `tx8`, `tx16` and `tx32` probabilities are those of the decode
parameters; every other element is the one of the slot. -/
theorem rkvdec_vp9_run_preamble_loads (K : Uapi) (ctx : rkvdec_ctx)
    (dec_params : v4l2_ctrl_vp9_frame_decode_params) (fctx : v4l2_ctrl_vp9_frame_ctx)
    (h : ctx.ctrl_decode_params = some dec_params)
    (hslot : frame_context_get ctx (dec_params.frame_context_idx % 2 ^ 8) = some fctx) :
    (¬ dec_params.flags &&& K.FRAME_FLAG_REFRESH_FRAME_CTX ≠ 0 →
      (rkvdec_vp9_run_preamble K ctx).2.1.priv.frame_context = ctx.priv.frame_context) ∧
    (dec_params.flags &&& K.FRAME_FLAG_REFRESH_FRAME_CTX ≠ 0 →
      ¬ dec_params.flags &&& K.FRAME_FLAG_PARALLEL_DEC_MODE ≠ 0 →
      ∀ x : PIdx, (rkvdec_vp9_run_preamble K ctx).2.1.priv.frame_context.probs x =
        if (dec_params.flags &&& K.FRAME_FLAG_KEY_FRAME ≠ 0 ∨
              dec_params.flags &&& K.FRAME_FLAG_INTRA_ONLY ≠ 0) ∧
            x.field ∈ [PField.skip, PField.tx8, PField.tx16, PField.tx32] then
          dec_params.probs x
        else fctx.probs x) := by
  obtain ⟨h1, _, _, h4⟩ := run_preamble_frame_context K ctx dec_params h
  refine ⟨h1, fun hr hp x => ?_⟩
  obtain ⟨hinter, hintra⟩ := h4 hr hp fctx hslot
  have hi := land_lor_ne_zero dec_params.flags K.FRAME_FLAG_KEY_FRAME K.FRAME_FLAG_INTRA_ONLY
  by_cases hk : dec_params.flags &&& (K.FRAME_FLAG_KEY_FRAME ||| K.FRAME_FLAG_INTRA_ONLY) ≠ 0
  · rw [hintra hk x]
    by_cases hx : x.field ∈ [PField.skip, PField.tx8, PField.tx16, PField.tx32]
    · rw [if_pos hx, if_pos ⟨hi.mp hk, hx⟩]
    · rw [if_neg hx, if_neg (fun hc => hx hc.2)]
  · rw [hinter hk, if_neg (fun hc => hk (hi.mpr hc.1))]

/-- Witness for C32: a key frame that requests a refresh, over slot 1 holding
all 100 and decode parameters holding all 200: the first skip probability
loaded is 200, the first coefficient probability is 100. -/
theorem rkvdec_vp9_run_preamble_loads_witness :
    (rkvdec_vp9_run_preamble uapi (sample_ctx 0x21 0 0)).2.1.priv.frame_context.probs
        (.skip 0) = 200 ∧
      (rkvdec_vp9_run_preamble uapi (sample_ctx 0x21 0 0)).2.1.priv.frame_context.probs
        (.coef 0 0 0 0 0 0) = 100 :=
  ⟨(rkvdec_vp9_run_preamble_loads uapi (sample_ctx 0x21 0 0) (sample_dec_params 0x21 0)
      { probs := sample_probs 100 } rfl rfl).2 (by decide) (by decide) (.skip 0),
    (rkvdec_vp9_run_preamble_loads uapi (sample_ctx 0x21 0 0) (sample_dec_params 0x21 0)
      { probs := sample_probs 100 } rfl rfl).2 (by decide) (by decide) (.coef 0 0 0 0 0 0)⟩

/-- Claim C36: the reciprocal table is exact on its whole index range.  The
table has 255 entries, and for every divisor `d` with `2 <= d <= 256` entry
`d - 2` is `ceil(2^32 / d)`; for every dividend `x < 2^24` the product of `x`
and that entry fits 64 bits and its upper 32 bits are `floor(x / d)`, which is
what `rkvdec_fastdiv` returns.  The dividends the adapter produces, an update
factor of at most 128 times a count clamped to a `max_count` of at most 24,
are at most `128 * 24`, and `rkvdec_fastdiv` divides them exactly. -/
theorem inv_table_exact (x d : Nat) (h2 : 2 ≤ d) (h : d ≤ 256) (hx : x < 2 ^ 24) :
    inv.length = 255 ∧
      inv.getD (d - 2) 0 = (2 ^ 32 + (d - 1)) / d ∧
      (2 ^ 32 ≤ d * inv.getD (d - 2) 0 ∧ d * inv.getD (d - 2) 0 < 2 ^ 32 + d) ∧
      x * inv.getD (d - 2) 0 < 2 ^ 64 ∧
      x * inv.getD (d - 2) 0 / 2 ^ 32 = x / d ∧
      rkvdec_fastdiv x d = x / d ∧
      ∀ uf ct mc, uf ≤ 128 → 1 ≤ mc → mc ≤ 24 →
        uf * min ct mc ≤ 128 * 24 ∧
          rkvdec_fastdiv (u32 (uf * min ct mc)) mc = uf * min ct mc / mc := by
  have hd : 0 < d := by omega
  have hq : (2 ^ 32 + (d - 1)) / d ≤ (2 ^ 32 + (d - 1)) / 2 := Nat.div_le_div_left h2 (by omega)
  have hinv : inv.getD (d - 2) 0 = (2 ^ 32 + (d - 1)) / d := by
    rw [inv_getD d h2 h]
    unfold DIV_INV
    rw [Nat.mod_eq_of_lt (show 2 ^ 32 + (d - 1) < 2 ^ 64 by omega)]
    exact Nat.mod_eq_of_lt (by omega)
  have e1 := Nat.div_add_mod (2 ^ 32 + (d - 1)) d
  have e2 := Nat.mod_lt (2 ^ 32 + (d - 1)) hd
  have hprod : x * ((2 ^ 32 + (d - 1)) / d) ≤ 2 ^ 24 * 2 ^ 32 :=
    Nat.mul_le_mul (by omega) (by omega)
  rw [hinv]
  refine ⟨inv_length, rfl, ⟨by omega, by omega⟩, by omega, recip_exact x d h2 h hx,
    fastdiv_exact x d (by omega) h hx, fun uf ct mc huf hm1 hm => ⟨?_, ?_⟩⟩
  · exact Nat.mul_le_mul huf (le_trans (Nat.min_le_right _ _) hm)
  · exact scaled_factor_eq uf ct mc hm1 (by omega) (by omega)

/-- Witness for C36: 3072, the largest dividend of the adapter, divided by
24. -/
theorem inv_table_exact_witness :
    inv.getD (24 - 2) 0 = (2 ^ 32 + (24 - 1)) / 24 ∧ rkvdec_fastdiv 3072 24 = 3072 / 24 :=
  ⟨(inv_table_exact 3072 24 (by decide) (by decide) (by decide)).2.1,
    (inv_table_exact 3072 24 (by decide) (by decide) (by decide)).2.2.2.2.2.1⟩

/-- Claim C37: `adapt_prob` never overshoots.  For every `p` in `0..255`, all
counts whose 32-bit sum is not 0, every `max_count` and every update factor of
at most 256, the result lies between `p` and the clamped observed probability
`p2 = clamp((ct0 * 256 + ct / 2) / ct, 1, 255)` of the code, both included; in
particular the result is `p` when `p2 = p`. -/
theorem adapt_prob_no_overshoot (p ct0 ct1 max_count update_factor : Nat) (hp : p ≤ 255)
    (hct : u32 (ct0 + ct1) ≠ 0) (huf : update_factor ≤ 256) :
    min p (clamp (u32 (u32 (ct0 * 2 ^ 8) + u32 (ct0 + ct1) / 2) / u32 (ct0 + ct1)) 1 255) ≤
        adapt_prob p ct0 ct1 max_count update_factor ∧
      adapt_prob p ct0 ct1 max_count update_factor ≤
        max p (clamp (u32 (u32 (ct0 * 2 ^ 8) + u32 (ct0 + ct1) / 2) / u32 (ct0 + ct1)) 1 255) ∧
      (clamp (u32 (u32 (ct0 * 2 ^ 8) + u32 (ct0 + ct1) / 2) / u32 (ct0 + ct1)) 1 255 = p →
        adapt_prob p ct0 ct1 max_count update_factor = p) := by
  obtain ⟨h1, h2⟩ := adapt_prob_between_p2 p ct0 ct1 max_count update_factor hp hct huf
  refine ⟨h1, h2, fun he => ?_⟩
  rw [he] at h1 h2
  omega

/-- Witness for C37: from 200 towards an observed probability of 77 (counts 3
and 7): the result lies in `[77, 200]`. -/
theorem adapt_prob_no_overshoot_witness :
    min 200 (clamp (u32 (u32 (3 * 2 ^ 8) + u32 (3 + 7) / 2) / u32 (3 + 7)) 1 255) ≤
        adapt_prob 200 3 7 20 128 ∧
      adapt_prob 200 3 7 20 128 ≤
        max 200 (clamp (u32 (u32 (3 * 2 ^ 8) + u32 (3 + 7) / 2) / u32 (3 + 7)) 1 255) :=
  ⟨(adapt_prob_no_overshoot 200 3 7 20 128 (by decide) (by decide) (by decide)).1,
    (adapt_prob_no_overshoot 200 3 7 20 128 (by decide) (by decide) (by decide)).2.1⟩

/-- The count table a successful `rkvdec_vp9_start` leaves: its size is
`RKVDEC_VP9_COUNT_SIZE`, its first byte is 0, and every other byte is the one
the allocator returned.  The private table is zero in all its bytes. -/
theorem rkvdec_vp9_start_tables (K : Uapi) (ctx : rkvdec_ctx)
    (priv_alloc count_alloc : (Nat → Nat) × Nat) :
    (rkvdec_vp9_start K ctx true (some priv_alloc) (some count_alloc)).1 = 0 ∧
      (rkvdec_vp9_start K ctx true (some priv_alloc) (some count_alloc)).2.priv.count_tbl.size =
        RKVDEC_VP9_COUNT_SIZE ∧
      (rkvdec_vp9_start K ctx true (some priv_alloc) (some count_alloc)).2.priv.count_tbl.cpu 0
        = 0 ∧
      (∀ a, 1 ≤ a →
        (rkvdec_vp9_start K ctx true (some priv_alloc) (some count_alloc)).2.priv.count_tbl.cpu a
          = count_alloc.1 a) ∧
      (∀ a, a < sizeof_rkvdec_vp9_priv_tbl →
        (rkvdec_vp9_start K ctx true (some priv_alloc) (some count_alloc)).2.priv.priv_tbl.cpu a
          = 0) := by
  obtain ⟨pt, pd⟩ := priv_alloc
  obtain ⟨ct, cd⟩ := count_alloc
  refine ⟨rfl, rfl, ?_, fun a ha => ?_, fun a ha => ?_⟩
  · show memset ct 0 0 1 0 = 0
    unfold memset
    rw [if_pos ⟨Nat.le_refl 0, by omega⟩]
  · show memset ct 0 0 1 a = ct a
    unfold memset
    rw [if_neg (by omega)]
  · show memset pt 0 0 sizeof_rkvdec_vp9_priv_tbl a = 0
    unfold memset
    rw [if_pos ⟨Nat.zero_le a, by omega⟩]

/-- Claim C40 fails: after a successful `rkvdec_vp9_start` over a count buffer
that the allocator returned with every byte 5, byte 0 of the count table is 0
and bytes 1 and 13231 are still 5: the call
`memset(count_tbl, 0, sizeof(*count_tbl))` clears `sizeof(u8) = 1` byte, while
the private table is cleared in all its bytes. -/
theorem rkvdec_vp9_start_count_tbl_stale :
    (rkvdec_vp9_start uapi (sample_ctx 0 0 0) true (some (fun _ => 5, 0x10000))
        (some (fun _ => 5, 0x80000))).1 = 0 ∧
      (rkvdec_vp9_start uapi (sample_ctx 0 0 0) true (some (fun _ => 5, 0x10000))
        (some (fun _ => 5, 0x80000))).2.priv.count_tbl.cpu 0 = 0 ∧
      (rkvdec_vp9_start uapi (sample_ctx 0 0 0) true (some (fun _ => 5, 0x10000))
        (some (fun _ => 5, 0x80000))).2.priv.count_tbl.cpu 1 = 5 ∧
      (rkvdec_vp9_start uapi (sample_ctx 0 0 0) true (some (fun _ => 5, 0x10000))
        (some (fun _ => 5, 0x80000))).2.priv.count_tbl.cpu 13231 = 5 ∧
      (rkvdec_vp9_start uapi (sample_ctx 0 0 0) true (some (fun _ => 5, 0x10000))
        (some (fun _ => 5, 0x80000))).2.priv.priv_tbl.cpu 1 = 0 := by
  obtain ⟨h1, _, h3, h4, h5⟩ := rkvdec_vp9_start_tables uapi (sample_ctx 0 0 0)
    (fun _ => 5, 0x10000) (fun _ => 5, 0x80000)
  exact ⟨h1, h3, h4 1 (by decide), h4 13231 (by decide), h5 1 (by decide)⟩

/-- Claim C33: coefficient placement in the two layouts.  For a frame that is
neither a key frame nor intra-only, for every first index `i < 4` and second
index `j < 2` of `probs.coef` and every reference context `k < 2`, the 128-byte
region `coef[k][i][j]` of the inter layout is the `write_coeff_plane` packing
of `probs.coef[i][j][k]` (into zero bytes), the reference context being the
outermost index as in the count records `ref_cnt[k][i][j]` that
`adapt_coef_probs` reads.  For a key frame or an intra-only frame
`coef_intra[i][j]` is the packing of `probs.coef[i][j][0]`, and no byte of the
buffer depends on a coefficient probability of another reference context.  With
indices `i < 2` and `j < 4`, which name by row-major addressing the planes
`2 i + j` of both arrays, the same holds. -/
theorem coef_placement (K : Uapi) (buf : Nat → Nat)
    (dec_params : v4l2_ctrl_vp9_frame_decode_params) :
    (¬ dec_params.flags &&& (K.FRAME_FLAG_KEY_FRAME ||| K.FRAME_FLAG_INTRA_ONLY) ≠ 0 →
      (∀ i j k a, i < 4 → j < 2 → k < 2 → a < 128 →
        init_probs K buf dec_params (off_inter_coef + ((k * 4 + i) * 2 + j) * 128 + a) =
          write_coeff_plane dec_params.probs i j k (fun _ => 0) 0 a) ∧
      (∀ i j k a, i < 2 → j < 4 → k < 2 → a < 128 →
        init_probs K buf dec_params (off_inter_coef + ((k * 4 + i) * 2 + j) * 128 + a) =
          write_coeff_plane dec_params.probs ((i * 2 + j) / 2) ((i * 2 + j) % 2) k
            (fun _ => 0) 0 a)) ∧
    (dec_params.flags &&& (K.FRAME_FLAG_KEY_FRAME ||| K.FRAME_FLAG_INTRA_ONLY) ≠ 0 →
      (∀ i j a, i < 4 → j < 2 → a < 128 →
        init_probs K buf dec_params (off_intra_coef_intra + (i * 2 + j) * 128 + a) =
          write_coeff_plane dec_params.probs i j 0 (fun _ => 0) 0 a) ∧
      (∀ i j a, i < 2 → j < 4 → a < 128 →
        init_probs K buf dec_params (off_intra_coef_intra + (i * 2 + j) * 128 + a) =
          write_coeff_plane dec_params.probs ((i * 2 + j) / 2) ((i * 2 + j) % 2) 0
            (fun _ => 0) 0 a) ∧
      (∀ dec_params' : v4l2_ctrl_vp9_frame_decode_params,
        dec_params'.flags = dec_params.flags → dec_params'.seg = dec_params.seg →
        (∀ x : PIdx, (∀ i j k l m n, x = .coef i j k l m n → k = 0) →
          dec_params'.probs x = dec_params.probs x) →
        init_probs K buf dec_params' = init_probs K buf dec_params)) ∧
    (∀ (probs : v4l2_vp9_probabilities)
        (ref_cnt : Nat → Nat → Nat → Nat → Nat → rkvdec_vp9_refs_counts) (uf i j k l m : Nat),
      i < 4 → j < 2 → k < 2 → l < 6 → m < BAND_6 l →
        adapt_coef_probs probs ref_cnt uf (.coef i j k l m 2) =
          adapt_prob (probs (.coef i j k l m 2)) ((ref_cnt k i j l m).coeff 1)
            ((ref_cnt k i j l m).coeff 2) 24 uf) := by
  refine ⟨fun h => ⟨fun i j k a hi hj hk ha =>
      init_probs_inter_coef_region K buf dec_params h i j k a hi hj hk ha,
      fun i j k a hi hj hk ha => ?_⟩,
    fun h => ⟨fun i j a hi hj ha => init_probs_intra_coef_region K buf dec_params h i j a hi hj ha,
      fun i j a hi hj ha => ?_,
      fun dec_params' hflags hseg hp =>
        init_probs_intra_ref0 K buf dec_params dec_params' h hflags hseg hp⟩,
    fun probs ref_cnt uf i j k l m hi hj hk hl hm =>
      (adapt_coef_probs_triple probs ref_cnt uf i j k l m hi hj hk hl hm).2.2⟩
  · have e : off_inter_coef + ((k * 4 + i) * 2 + j) * 128 + a =
        off_inter_coef + ((k * 4 + (i * 2 + j) / 2) * 2 + (i * 2 + j) % 2) * 128 + a := by
      omega
    rw [e]
    exact init_probs_inter_coef_region K buf dec_params h _ _ k a (by omega) (by omega) hk ha
  · have e : off_intra_coef_intra + (i * 2 + j) * 128 + a =
        off_intra_coef_intra + ((i * 2 + j) / 2 * 2 + (i * 2 + j) % 2) * 128 + a := by
      omega
    rw [e]
    exact init_probs_intra_coef_region K buf dec_params h _ _ a (by omega) (by omega) ha

set_option maxRecDepth 100000 in
/-- Witness for C33: an inter frame whose probabilities are all 200, from a
buffer of all 255: byte 3 of the region `coef[1][2][1]` is the packed
`probs.coef[2][1][1][0][1][0]`, and the pad byte 27 is 0. -/
theorem coef_placement_witness :
    init_probs uapi (fun _ => 255) (sample_dec_params 0 0)
        (off_inter_coef + ((1 * 4 + 2) * 2 + 1) * 128 + 3) = 200 ∧
      init_probs uapi (fun _ => 255) (sample_dec_params 0 0)
        (off_inter_coef + ((1 * 4 + 2) * 2 + 1) * 128 + 27) = 0 :=
  ⟨(((coef_placement uapi (fun _ => 255) (sample_dec_params 0 0)).1 (by decide)).1 2 1 1 3
      (by decide) (by decide) (by decide) (by decide)).trans
      (write_coeff_plane_payload (sample_probs 200) 2 1 1 (fun _ => 0) 0 3 (by decide)),
    (((coef_placement uapi (fun _ => 255) (sample_dec_params 0 0)).1 (by decide)).1 2 1 1 27
      (by decide) (by decide) (by decide) (by decide)).trans
      (write_coeff_plane_pad (sample_probs 200) 2 1 1 27 (by decide))⟩

/-- Claim C34: motion-vector class decomposition.  For each component `i` with
the 11 class counts `c = sym_cnts.classes i`, `adapt_mv_probs` adapts each of
the ten class probabilities `p[j]`, `j < 10`, once, from its old value, with
`max_count` 20 and update factor 128 and with the branch pair
`spec_mv_class_branch c j` of the VP9 motion-vector class tree: `(c0,
c1+...+c10)`, `(c1, c2+...+c10)`, `(c2+c3, c4+...+c10)`, `(c2, c3)`, `(c4+c5,
c6+...+c10)`, `(c4, c5)`, `(c6, c7+c8+c9+c10)`, `(c7+c8, c9+c10)`, `(c7, c8)`,
`(c9, c10)`, every sum modulo `2^32`. -/
theorem adapt_mv_probs_class_tree (probs : v4l2_vp9_probabilities)
    (sym_cnts : rkvdec_vp9_inter_frame_symbol_counts) (high_prec_mv : Bool) (i j : Nat)
    (hi : i < 2) (hj : j < 10) :
    (adapt_mv_probs probs sym_cnts high_prec_mv) (.mv_class i j) =
      adapt_prob (probs (.mv_class i j)) (spec_mv_class_branch (sym_cnts.classes i) j).1
        (spec_mv_class_branch (sym_cnts.classes i) j).2 20 128 :=
  adapt_mv_probs_class probs sym_cnts high_prec_mv i j hi hj

/-- Witness for C34: class probability 2 of component 1, over a count buffer
whose bytes are all 1. -/
theorem adapt_mv_probs_class_tree_witness :
    (adapt_mv_probs (sample_probs 128) (inter_frame_symbol_counts (fun _ => 1)) true)
        (.mv_class 1 2) =
      adapt_prob ((sample_probs 128) (.mv_class 1 2))
        (spec_mv_class_branch ((inter_frame_symbol_counts (fun _ => 1)).classes 1) 2).1
        (spec_mv_class_branch ((inter_frame_symbol_counts (fun _ => 1)).classes 1) 2).2
        20 128 :=
  adapt_mv_probs_class_tree (sample_probs 128) (inter_frame_symbol_counts (fun _ => 1)) true 1 2
    (by decide) (by decide)

/-- Claim C35: intra-mode decomposition.  With the prediction modes numbered
DC = 0, V = 1, H = 2, D45 = 3, D135 = 4, D117 = 5, D153 = 6, D207 = 7, D63 = 8
and TM = 9, for every array `c` of 10 counts `adapt_intra_mode_probs` adapts
each of `p[0..8]` once, from its old value, with `max_count` 20 and update
factor 128 and with the branch pair `spec_intra_mode_branch c n` of the VP9
intra-mode tree: `(DC, V+H+D45+D135+D117+D153+D207+D63+TM)`, `(TM,
V+H+D45+D135+D117+D153+D207+D63)`, `(V, H+D45+D135+D117+D153+D207+D63)`,
`(H+D135+D117, D45+D153+D207+D63)`, `(H, D135+D117)`, `(D135, D117)`, `(D45,
D153+D207+D63)`, `(D63, D153+D207)`, `(D153, D207)`, every sum modulo `2^32`.
The routine is applied in this way to each of the 4 `y_mode` and each of the 10
`uv_mode` distributions. -/
theorem adapt_intra_mode_probs_tree (K : Uapi) (hK : IntraModeNumbering K)
    (probs : v4l2_vp9_probabilities) (sym_cnts : rkvdec_vp9_inter_frame_symbol_counts) :
    (∀ (p : Nat → PIdx) (c : Nat → Nat), (∀ a b, a < 9 → b < 9 → p a = p b → a = b) →
      ∀ n, n < 9 →
        (adapt_intra_mode_probs K probs p c) (p n) =
          adapt_prob (probs (p n)) (spec_intra_mode_branch c n).1
            (spec_intra_mode_branch c n).2 20 128) ∧
    (∀ i n, i < 4 → n < 9 →
      (adapt_y_intra_mode_probs K probs sym_cnts) (.y_mode i n) =
        adapt_prob (probs (.y_mode i n)) (spec_intra_mode_branch (sym_cnts.y_mode i) n).1
          (spec_intra_mode_branch (sym_cnts.y_mode i) n).2 20 128) ∧
    (∀ i n, i < 10 → n < 9 →
      (adapt_uv_intra_mode_probs K probs sym_cnts) (.uv_mode i n) =
        adapt_prob (probs (.uv_mode i n)) (spec_intra_mode_branch (sym_cnts.uv_mode i) n).1
          (spec_intra_mode_branch (sym_cnts.uv_mode i) n).2 20 128) :=
  ⟨fun p c hinj n hn => adapt_intra_mode_probs_eval K hK probs p c hinj n hn,
    fun i n hi hn => adapt_y_intra_mode_probs_eval K hK probs sym_cnts i n hi hn,
    fun i n hi hn => adapt_uv_intra_mode_probs_eval K hK probs sym_cnts i n hi hn⟩

/-- Witness for C35: probability 3 of the `uv_mode` distribution 9, over a
count buffer whose bytes are all 1. -/
theorem adapt_intra_mode_probs_tree_witness :
    IntraModeNumbering uapi ∧
      (adapt_uv_intra_mode_probs uapi (sample_probs 128)
          (inter_frame_symbol_counts (fun _ => 1))) (.uv_mode 9 3) =
        adapt_prob ((sample_probs 128) (.uv_mode 9 3))
          (spec_intra_mode_branch ((inter_frame_symbol_counts (fun _ => 1)).uv_mode 9) 3).1
          (spec_intra_mode_branch ((inter_frame_symbol_counts (fun _ => 1)).uv_mode 9) 3).2
          20 128 :=
  ⟨⟨rfl, rfl, rfl, rfl, rfl, rfl, rfl, rfl, rfl, rfl⟩,
    (adapt_intra_mode_probs_tree uapi ⟨rfl, rfl, rfl, rfl, rfl, rfl, rfl, rfl, rfl, rfl⟩
      (sample_probs 128) (inter_frame_symbol_counts (fun _ => 1))).2.2 9 3 (by decide)
      (by decide)⟩

/-- Claim C38: if every counter of the count buffer is 0, `adapt_probs` is the
identity: for every frame context and every current and last frame info
(intra-only or inter, any modes and flags) no probability changes, and nothing
else of the VP9 context does.  The prediction modes have the numbering of the
interface. -/
theorem adapt_probs_zero_counts (K : Uapi) (hK : IntraModeNumbering K)
    (vp9_ctx : rkvdec_vp9_ctx) (hz : ZeroCounts vp9_ctx.count_tbl.cpu) :
    adapt_probs K vp9_ctx = vp9_ctx ∧
      ∀ x : PIdx, (adapt_probs K vp9_ctx).frame_context.probs x =
        vp9_ctx.frame_context.probs x := by
  have h := adapt_probs_zero K hK vp9_ctx hz
  exact ⟨h, fun x => by rw [h]⟩

/-- Witness for C38: an inter frame over a count buffer of zero bytes. -/
theorem adapt_probs_zero_counts_witness :
    ZeroCounts (sample_vp9_ctx 0 0).count_tbl.cpu ∧
      adapt_probs uapi (sample_vp9_ctx 0 0) = sample_vp9_ctx 0 0 :=
  ⟨fun _ _ => rfl,
    (adapt_probs_zero_counts uapi ⟨rfl, rfl, rfl, rfl, rfl, rfl, rfl, rfl, rfl, rfl⟩
      (sample_vp9_ctx 0 0) (fun _ _ => rfl)).1⟩

/-- Claim C39: the serializer indices stay in bounds.  Every output offset
`t + 5 * (t / 27)`, `t < 108`, of `write_coeff_plane` is at most 122: the
function writes no byte before the plane or after its offset 122, which it
does write.  Every `y_mode` offset written by `init_intra_only_probs` is at
most 104 and every `uv_mode` offset at most 22: the function writes nothing
outside the offsets `0..122` of its 8 coefficient planes, `0..104` of each
`intra_mode[i].y_mode` and `0..22` of `intra_mode[i].uv_mode` for `i < 4`.
Every index `i * 23 + m` read from the flattened `kf_uv_mode_prob` (`i < 4`,
`m < 23` for `i < 3`, `m < 21` for `i = 3`) is at most 89, byte `m` of
`intra_mode[i].uv_mode` receives the table byte of that index, and every index
below 90 is read for exactly one pair `(i, m)`. -/
theorem serializer_offsets_in_bounds :
    ((∀ t, t < 108 → t + 5 * (t / 27) ≤ 122) ∧
      ∀ (probs : v4l2_vp9_probabilities) (i j r : Nat) (buf : Nat → Nat) (plane : Nat),
        (∀ a, (a < plane ∨ plane + 122 < a) →
          write_coeff_plane probs i j r buf plane a = buf a) ∧
        write_coeff_plane probs i j r buf plane (plane + 122) = probs (.coef i j r 5 5 2)) ∧
    ((∀ t, t < 90 → t + 5 * (t / 27) ≤ 104) ∧
      ∀ (i : Nat) (buf : Nat → Nat),
        (∀ a, (a < off_intra_intra_mode + i * 128 ∨ off_intra_intra_mode + i * 128 + 104 < a) →
          (init_intra_y_mode i buf).buf a = buf a) ∧
        (init_intra_y_mode i buf).buf (off_intra_intra_mode + i * 128 + 104) =
          tbl3 vp9_kf_y_mode_prob i 9 8) ∧
    (∀ (i : Nat) (st : PackState), st.idx = 0 →
      (∀ a, (a < off_intra_intra_mode + i * 128 + 105 ∨
          off_intra_intra_mode + i * 128 + 105 + 22 < a) →
        (init_intra_uv_mode i st).buf a = st.buf a) ∧
      ∀ m, m < (if i < 3 then 23 else 21) →
        (init_intra_uv_mode i st).buf (off_intra_intra_mode + i * 128 + 105 + m) =
          tbl2 kf_uv_mode_prob ((i * 23 + m) / 9) ((i * 23 + m) % 9)) ∧
    (∀ (buf : Nat → Nat) (dec_params : v4l2_ctrl_vp9_frame_decode_params) (a : Nat),
      (∀ p, p < 8 → a < off_intra_coef_intra + p * 128 ∨
        off_intra_coef_intra + p * 128 + 122 < a) →
      (∀ i, i < 10 → a < off_intra_intra_mode + i * 128 ∨
        off_intra_intra_mode + i * 128 + 104 < a) →
      (∀ i, i < 4 → a < off_intra_intra_mode + i * 128 + 105 ∨
        off_intra_intra_mode + i * 128 + 105 + 22 < a) →
      init_intra_only_probs buf dec_params a = buf a) ∧
    (∀ i m, i < 4 → m < (if i < 3 then 23 else 21) → m ≤ 22 ∧ i * 23 + m ≤ 89) ∧
    (∀ t, t < 90 → ∃ i m, i < 4 ∧ m < (if i < 3 then 23 else 21) ∧ i * 23 + m = t ∧
      ∀ i' m', i' < 4 → m' < (if i' < 3 then 23 else 21) → i' * 23 + m' = t →
        i' = i ∧ m' = m) := by
  refine ⟨⟨fun t ht => by omega, fun probs i j r buf plane =>
      ⟨fun a ha => write_coeff_plane_other probs i j r buf plane a (fun t ht => by omega),
        write_coeff_plane_last probs i j r buf plane⟩⟩,
    ⟨fun t ht => by omega, fun i buf => init_intra_y_mode_span i buf⟩,
    fun i st h0 => ⟨fun a ha => init_intra_uv_mode_span i st h0 a ha,
      fun m hm => (init_intra_uv_mode_spec i st h0).1 m hm⟩,
    fun buf dec_params a hc hy huv => ?_, fun i m hi hm => ?_, fun t ht => ?_⟩
  · refine init_intra_only_probs_other buf dec_params a (fun p t hp ht => ?_)
      (fun i t hi ht => ?_) (fun i hi u hu => ?_)
    · have := hc p hp
      omega
    · have := hy i hi
      omega
    · have := huv i hi
      split at hu <;> omega
  · split at hm <;> omega
  · refine ⟨t / 23, t % 23, by omega, by split <;> omega, by omega, fun i' m' hi' hm' h => ?_⟩
    split at hm' <;> omega

end Rkvdec
